import Mathlib

/-! QUIC transport codec of nginx-quic.

A shallow embedding of `src/event/quic/ngx_event_quic_transport.c`.

Conventions of the embedding.

* A byte (`u_char`) is a `Fin 256`.  Other machine integers are natural numbers;
  a reduction modulo the width is written where the C code can wrap.
* A memory region is a `List u_char`; a pointer into it is the offset (`Nat`) of
  the byte it points to.  Reading a byte whose offset is not below the length of
  the region is an over-read and yields the outcome `fault`.
* An output buffer is represented by the list of bytes written to it, in order;
  the pointer difference `p - start` of a builder is the length of that list.
* The build configuration is `NGX_QUIC_DRAFT_VERSION >= 29` on an LP64 platform
  (`size_t`, `ngx_uint_t` and `uint64_t` are 64 bits wide).
* The members of the C union `f->u` are kept as separate record fields; the
  overlap of their storage is not modelled.
-/

/-- The C type of a byte. -/
abbrev u_char := Fin 256

/-- The conversion `(u_char) n` of an integer to a byte. -/
def to_u_char (n : Nat) : u_char := ⟨n % 256, Nat.mod_lt n (by decide)⟩

/-- Result of a reader that returns a pointer: a new cursor with the value read,
the NULL pointer, or an over-read of the memory region. -/
inductive Rd (α : Type) where
  | ok (a : α)
  | null
  | fault
deriving DecidableEq, Repr

/-- Result of running a function that returns normally, or over-reads memory. -/
inductive Exec (α : Type) where
  | done (a : α)
  | fault
deriving DecidableEq, Repr

/-- The value `(size_t) (e - p)` of a pointer difference converted to `size_t`. -/
def size_t_diff (e p : Nat) : Nat :=
  if p ≤ e then e - p else 2 ^ 64 - (p - e)

/-- The bytes `mem[pos .. pos + len)` of a memory region. -/
def mem_bytes (mem : List u_char) (pos len : Nat) : List u_char :=
  (mem.drop pos).take len

/-- Modelled from the spec: the nginx return codes `NGX_OK`, `NGX_ERROR`,
`NGX_DECLINED` and `NGX_ABORT` are declared in the nginx core headers, which are
not among the sources; the spec only names the outcomes, the customary values
are used. -/
def NGX_OK : Int := 0

/-- Modelled from the spec: see `NGX_OK`. -/
def NGX_ERROR : Int := -1

/-- Modelled from the spec: see `NGX_OK`. -/
def NGX_DECLINED : Int := -5

/-- Modelled from the spec: see `NGX_OK`. -/
def NGX_ABORT : Int := -6

/-- Modelled from the spec: the transport error codes are declared in
`ngx_event_quic_transport.h`, which is not among the sources; the value is the
index of the name in the table `ngx_quic_errors`. -/
def NGX_QUIC_ERR_FRAME_ENCODING_ERROR : Nat := 0x7

/-- Modelled from the spec: see `NGX_QUIC_ERR_FRAME_ENCODING_ERROR`. -/
def NGX_QUIC_ERR_PROTOCOL_VIOLATION : Nat := 0xA

/-- Modelled from the spec: the maximum connection ID length (20), declared in
the missing header. -/
def NGX_QUIC_CID_LEN_MAX : Nat := 20

/-- Modelled from the spec: the length of a stateless reset token (16), declared
in the missing header. -/
def NGX_QUIC_SR_TOKEN_LEN : Nat := 16

/-! ## Frame type codes

Modelled from the spec: the constants `NGX_QUIC_FT_*` are declared in the missing
header `ngx_event_quic_transport.h`; the values are those of the frame taxonomy
of the spec.
-/

/-- Modelled from the spec: frame type code of PADDING (missing header). -/
abbrev NGX_QUIC_FT_PADDING : Nat := 0x00
/-- Modelled from the spec: frame type code of PING (missing header). -/
abbrev NGX_QUIC_FT_PING : Nat := 0x01
/-- Modelled from the spec: frame type code of ACK (missing header). -/
abbrev NGX_QUIC_FT_ACK : Nat := 0x02
/-- Modelled from the spec: frame type code of ACK_ECN (missing header). -/
abbrev NGX_QUIC_FT_ACK_ECN : Nat := 0x03
/-- Modelled from the spec: frame type code of RESET_STREAM (missing header). -/
abbrev NGX_QUIC_FT_RESET_STREAM : Nat := 0x04
/-- Modelled from the spec: frame type code of STOP_SENDING (missing header). -/
abbrev NGX_QUIC_FT_STOP_SENDING : Nat := 0x05
/-- Modelled from the spec: frame type code of CRYPTO (missing header). -/
abbrev NGX_QUIC_FT_CRYPTO : Nat := 0x06
/-- Modelled from the spec: frame type code of NEW_TOKEN (missing header). -/
abbrev NGX_QUIC_FT_NEW_TOKEN : Nat := 0x07
/-- Modelled from the spec: frame type code of STREAM without flags (missing header). -/
abbrev NGX_QUIC_FT_STREAM0 : Nat := 0x08
/-- Modelled from the spec: frame type code of the last STREAM form (missing header). -/
abbrev NGX_QUIC_FT_STREAM7 : Nat := 0x0F
/-- Modelled from the spec: frame type code of MAX_DATA (missing header). -/
abbrev NGX_QUIC_FT_MAX_DATA : Nat := 0x10
/-- Modelled from the spec: frame type code of MAX_STREAM_DATA (missing header). -/
abbrev NGX_QUIC_FT_MAX_STREAM_DATA : Nat := 0x11
/-- Modelled from the spec: frame type code of MAX_STREAMS, bidirectional (missing header). -/
abbrev NGX_QUIC_FT_MAX_STREAMS : Nat := 0x12
/-- Modelled from the spec: frame type code of MAX_STREAMS, unidirectional (missing header). -/
abbrev NGX_QUIC_FT_MAX_STREAMS2 : Nat := 0x13
/-- Modelled from the spec: frame type code of DATA_BLOCKED (missing header). -/
abbrev NGX_QUIC_FT_DATA_BLOCKED : Nat := 0x14
/-- Modelled from the spec: frame type code of STREAM_DATA_BLOCKED (missing header). -/
abbrev NGX_QUIC_FT_STREAM_DATA_BLOCKED : Nat := 0x15
/-- Modelled from the spec: frame type code of STREAMS_BLOCKED, bidirectional (missing header). -/
abbrev NGX_QUIC_FT_STREAMS_BLOCKED : Nat := 0x16
/-- Modelled from the spec: frame type code of STREAMS_BLOCKED, unidirectional (missing header). -/
abbrev NGX_QUIC_FT_STREAMS_BLOCKED2 : Nat := 0x17
/-- Modelled from the spec: frame type code of NEW_CONNECTION_ID (missing header). -/
abbrev NGX_QUIC_FT_NEW_CONNECTION_ID : Nat := 0x18
/-- Modelled from the spec: frame type code of RETIRE_CONNECTION_ID (missing header). -/
abbrev NGX_QUIC_FT_RETIRE_CONNECTION_ID : Nat := 0x19
/-- Modelled from the spec: frame type code of PATH_CHALLENGE (missing header). -/
abbrev NGX_QUIC_FT_PATH_CHALLENGE : Nat := 0x1A
/-- Modelled from the spec: frame type code of PATH_RESPONSE (missing header). -/
abbrev NGX_QUIC_FT_PATH_RESPONSE : Nat := 0x1B
/-- Modelled from the spec: frame type code of CONNECTION_CLOSE, transport (missing header). -/
abbrev NGX_QUIC_FT_CONNECTION_CLOSE : Nat := 0x1C
/-- Modelled from the spec: frame type code of CONNECTION_CLOSE, application (missing header). -/
abbrev NGX_QUIC_FT_CONNECTION_CLOSE_APP : Nat := 0x1D
/-- Modelled from the spec: frame type code of HANDSHAKE_DONE (missing header). -/
abbrev NGX_QUIC_FT_HANDSHAKE_DONE : Nat := 0x1E

/-! ## Transport parameter ids

Modelled from the spec: the constants `NGX_QUIC_TP_*` are declared in the missing
header; the values are those of the transport-parameter registry that the spec
refers to (scenario S6 uses 0x04 and 0x08).
-/

/-- Modelled from the spec: id of original_destination_connection_id (missing header). -/
abbrev NGX_QUIC_TP_ORIGINAL_DCID : Nat := 0x00
/-- Modelled from the spec: id of max_idle_timeout (missing header). -/
abbrev NGX_QUIC_TP_MAX_IDLE_TIMEOUT : Nat := 0x01
/-- Modelled from the spec: id of stateless_reset_token (missing header). -/
abbrev NGX_QUIC_TP_SR_TOKEN : Nat := 0x02
/-- Modelled from the spec: id of max_udp_payload_size (missing header). -/
abbrev NGX_QUIC_TP_MAX_UDP_PAYLOAD_SIZE : Nat := 0x03
/-- Modelled from the spec: id of initial_max_data (missing header). -/
abbrev NGX_QUIC_TP_INITIAL_MAX_DATA : Nat := 0x04
/-- Modelled from the spec: id of initial_max_stream_data_bidi_local (missing header). -/
abbrev NGX_QUIC_TP_INITIAL_MAX_STREAM_DATA_BIDI_LOCAL : Nat := 0x05
/-- Modelled from the spec: id of initial_max_stream_data_bidi_remote (missing header). -/
abbrev NGX_QUIC_TP_INITIAL_MAX_STREAM_DATA_BIDI_REMOTE : Nat := 0x06
/-- Modelled from the spec: id of initial_max_stream_data_uni (missing header). -/
abbrev NGX_QUIC_TP_INITIAL_MAX_STREAM_DATA_UNI : Nat := 0x07
/-- Modelled from the spec: id of initial_max_streams_bidi (missing header). -/
abbrev NGX_QUIC_TP_INITIAL_MAX_STREAMS_BIDI : Nat := 0x08
/-- Modelled from the spec: id of initial_max_streams_uni (missing header). -/
abbrev NGX_QUIC_TP_INITIAL_MAX_STREAMS_UNI : Nat := 0x09
/-- Modelled from the spec: id of ack_delay_exponent (missing header). -/
abbrev NGX_QUIC_TP_ACK_DELAY_EXPONENT : Nat := 0x0a
/-- Modelled from the spec: id of max_ack_delay (missing header). -/
abbrev NGX_QUIC_TP_MAX_ACK_DELAY : Nat := 0x0b
/-- Modelled from the spec: id of disable_active_migration (missing header). -/
abbrev NGX_QUIC_TP_DISABLE_ACTIVE_MIGRATION : Nat := 0x0c
/-- Modelled from the spec: id of preferred_address (missing header). -/
abbrev NGX_QUIC_TP_PREFERRED_ADDRESS : Nat := 0x0d
/-- Modelled from the spec: id of active_connection_id_limit (missing header). -/
abbrev NGX_QUIC_TP_ACTIVE_CONNECTION_ID_LIMIT : Nat := 0x0e
/-- Modelled from the spec: id of initial_source_connection_id (missing header). -/
abbrev NGX_QUIC_TP_INITIAL_SCID : Nat := 0x0f
/-- Modelled from the spec: id of retry_source_connection_id (missing header). -/
abbrev NGX_QUIC_TP_RETRY_SCID : Nat := 0x10

/-! ## Data records

Modelled from the spec: the record types are declared in the missing header
`ngx_event_quic_transport.h`; each record lists the fields that the source file
reads or writes, with the names the source uses.
-/

/-- Modelled from the spec: `ngx_str_t` (nginx core), a length and a pointer. -/
structure ngx_str_t where
  len : Nat
  data : Nat
deriving DecidableEq, Repr

/-- Modelled from the spec: the fields `pos` and `last` of `ngx_buf_t` (nginx
core), the bounds of the bytes a buffer holds. -/
structure ngx_buf_t where
  pos : Nat
  last : Nat
deriving DecidableEq, Repr

/-- Modelled from the spec: `enum ssl_encryption_level_t` of the TLS library,
the encryption level of the spec's packet descriptor. -/
inductive ssl_encryption_level_t where
  | ssl_encryption_initial
  | ssl_encryption_early_data
  | ssl_encryption_handshake
  | ssl_encryption_application
deriving DecidableEq, Repr

/-- Modelled from the spec: the packet descriptor `ngx_quic_header_t` (missing
header).  `raw` is the buffer `pkt->raw` of the datagram, `data` points to the
first byte of the packet. -/
structure ngx_quic_header_t where
  flags : u_char
  version : Nat
  level : ssl_encryption_level_t
  data : Nat
  len : Nat
  raw : ngx_buf_t
  dcid : ngx_str_t
  scid : ngx_str_t
  odcid : ngx_str_t
  token : ngx_str_t
  num_len : Nat
  trunc : Nat
  error : Nat
deriving DecidableEq, Repr

/-- Modelled from the spec: ACK frame fields (missing header). -/
structure ngx_quic_ack_frame_t where
  largest : Nat
  delay : Nat
  range_count : Nat
  first_range : Nat
  ect0 : Nat
  ect1 : Nat
  ce : Nat
  ranges_length : Nat
deriving DecidableEq, Repr

/-- Modelled from the spec: NEW_CONNECTION_ID frame fields (missing header);
`cid` is an array of 20 bytes and `srt` an array of 16 bytes. -/
structure ngx_quic_new_conn_id_frame_t where
  seqnum : Nat
  retire : Nat
  len : Nat
  cid : List u_char
  srt : List u_char
deriving DecidableEq, Repr

/-- Modelled from the spec: NEW_TOKEN frame fields (missing header). -/
structure ngx_quic_new_token_frame_t where
  length : Nat
  data : Nat
deriving DecidableEq, Repr

/-- Modelled from the spec: CRYPTO frame fields (missing header). -/
structure ngx_quic_crypto_frame_t where
  offset : Nat
  length : Nat
deriving DecidableEq, Repr

/-- Modelled from the spec: CONNECTION_CLOSE frame fields (missing header);
`app` is a one-bit flag. -/
structure ngx_quic_close_frame_t where
  error_code : Nat
  frame_type : Nat
  reason : ngx_str_t
  app : Bool
deriving DecidableEq, Repr

/-- Modelled from the spec: RESET_STREAM frame fields (missing header). -/
structure ngx_quic_reset_stream_frame_t where
  id : Nat
  error_code : Nat
  final_size : Nat
deriving DecidableEq, Repr

/-- Modelled from the spec: STOP_SENDING frame fields (missing header). -/
structure ngx_quic_stop_sending_frame_t where
  id : Nat
  error_code : Nat
deriving DecidableEq, Repr

/-- Modelled from the spec: STREAMS_BLOCKED frame fields (missing header);
`bidi` is a one-bit flag. -/
structure ngx_quic_streams_blocked_frame_t where
  limit : Nat
  bidi : Bool
deriving DecidableEq, Repr

/-- Modelled from the spec: MAX_STREAMS frame fields (missing header); `bidi`
is a one-bit flag. -/
structure ngx_quic_max_streams_frame_t where
  limit : Nat
  bidi : Bool
deriving DecidableEq, Repr

/-- Modelled from the spec: MAX_STREAM_DATA frame fields (missing header). -/
structure ngx_quic_max_stream_data_frame_t where
  id : Nat
  limit : Nat
deriving DecidableEq, Repr

/-- Modelled from the spec: MAX_DATA frame fields (missing header). -/
structure ngx_quic_max_data_frame_t where
  max_data : Nat
deriving DecidableEq, Repr

/-- Modelled from the spec: DATA_BLOCKED frame fields (missing header). -/
structure ngx_quic_data_blocked_frame_t where
  limit : Nat
deriving DecidableEq, Repr

/-- Modelled from the spec: STREAM_DATA_BLOCKED frame fields (missing header). -/
structure ngx_quic_stream_data_blocked_frame_t where
  id : Nat
  limit : Nat
deriving DecidableEq, Repr

/-- Modelled from the spec: RETIRE_CONNECTION_ID frame fields (missing header). -/
structure ngx_quic_retire_cid_frame_t where
  sequence_number : Nat
deriving DecidableEq, Repr

/-- Modelled from the spec: STREAM frame fields (missing header); `off`, `len`
and `fin` are one-bit flags. -/
structure ngx_quic_stream_frame_t where
  type : Nat
  stream_id : Nat
  offset : Nat
  length : Nat
  off : Bool
  len : Bool
  fin : Bool
deriving DecidableEq, Repr

/-- Modelled from the spec: PATH_CHALLENGE and PATH_RESPONSE frame fields
(missing header); `data` is an array of 8 bytes. -/
structure ngx_quic_path_challenge_frame_t where
  data : List u_char
deriving DecidableEq, Repr

/-- Modelled from the spec: the members of the union `u` of `ngx_quic_frame_t`
(missing header). -/
structure ngx_quic_frame_u where
  crypto : ngx_quic_crypto_frame_t
  ack : ngx_quic_ack_frame_t
  ncid : ngx_quic_new_conn_id_frame_t
  retire_cid : ngx_quic_retire_cid_frame_t
  close : ngx_quic_close_frame_t
  stream : ngx_quic_stream_frame_t
  max_data : ngx_quic_max_data_frame_t
  reset_stream : ngx_quic_reset_stream_frame_t
  stop_sending : ngx_quic_stop_sending_frame_t
  streams_blocked : ngx_quic_streams_blocked_frame_t
  max_streams : ngx_quic_max_streams_frame_t
  max_stream_data : ngx_quic_max_stream_data_frame_t
  data_blocked : ngx_quic_data_blocked_frame_t
  stream_data_blocked : ngx_quic_stream_data_blocked_frame_t
  path_challenge : ngx_quic_path_challenge_frame_t
  path_response : ngx_quic_path_challenge_frame_t
  token : ngx_quic_new_token_frame_t
deriving DecidableEq, Repr

/-- Modelled from the spec: the frame descriptor `ngx_quic_frame_t` (missing
header).  `data` is the chain of buffers of a frame that is built; the buffer
`f->data->buf` that the parser fills is passed to the parser separately. -/
structure ngx_quic_frame_t where
  type : Nat
  level : ssl_encryption_level_t
  need_ack : Nat
  data : List ngx_buf_t
  u : ngx_quic_frame_u
deriving DecidableEq, Repr

/-- Modelled from the spec: the transport parameter record `ngx_quic_tp_t`
(missing header); `sr_token` is an array of 16 bytes. -/
structure ngx_quic_tp_t where
  max_idle_timeout : Nat
  max_udp_payload_size : Nat
  initial_max_data : Nat
  initial_max_stream_data_bidi_local : Nat
  initial_max_stream_data_bidi_remote : Nat
  initial_max_stream_data_uni : Nat
  initial_max_streams_bidi : Nat
  initial_max_streams_uni : Nat
  ack_delay_exponent : Nat
  max_ack_delay : Nat
  disable_active_migration : Nat
  active_connection_id_limit : Nat
  original_dcid : ngx_str_t
  initial_scid : ngx_str_t
  retry_scid : ngx_str_t
  sr_token : List u_char
deriving DecidableEq, Repr

/-! ## Header flag macros

Modelled from the spec: the macros are defined in the missing header; the spec
gives the bits of the first byte: 0x80 long/short, 0x40 fixed, 0x30 long type.
-/

/-- Modelled from the spec: macro `ngx_quic_long_pkt` (missing header), bit 0x80. -/
def ngx_quic_long_pkt (flags : u_char) : Bool := flags.val &&& 0x80 ≠ 0

/-- Modelled from the spec: macro `ngx_quic_short_pkt` (missing header). -/
def ngx_quic_short_pkt (flags : u_char) : Bool := flags.val &&& 0x80 = 0

/-- Modelled from the spec: macro `ngx_quic_pkt_in` (missing header), long type 00. -/
def ngx_quic_pkt_in (flags : u_char) : Bool := flags.val &&& 0x30 = 0x00

/-- Modelled from the spec: macro `ngx_quic_pkt_zrtt` (missing header), long type 01. -/
def ngx_quic_pkt_zrtt (flags : u_char) : Bool := flags.val &&& 0x30 = 0x10

/-- Modelled from the spec: macro `ngx_quic_pkt_hs` (missing header), long type 10. -/
def ngx_quic_pkt_hs (flags : u_char) : Bool := flags.val &&& 0x30 = 0x20

/-! ## Primitive readers and the varint codec -/

/-- The loop `while (--len) value = (value << 8) + *p++` of `ngx_quic_parse_int`;
the first argument is the number of iterations left. -/
def ngx_quic_parse_int_loop (buf : List u_char) : Nat → Nat → Nat → Rd (Nat × Nat)
  | 0, p, value => .ok (p, value)
  | len + 1, p, value =>
    match buf[p]? with
    | none => .fault
    | some b => ngx_quic_parse_int_loop buf len (p + 1) ((value <<< 8) + b.val)

/-- The function `ngx_quic_parse_int(pos, end, out)`: the new cursor and `*out`. -/
def ngx_quic_parse_int (buf : List u_char) (pos end_ : Nat) : Rd (Nat × Nat) :=
  if pos ≥ end_ then .null
  else
    match buf[pos]? with
    | none => .fault
    | some b =>
      let len := 1 <<< (b.val >>> 6)
      let value := b.val &&& 0x3f
      let p := pos + 1
      if size_t_diff end_ p < len - 1 then .null
      else ngx_quic_parse_int_loop buf (len - 1) p value

/-- The function `ngx_quic_read_uint8(pos, end, value)`. -/
def ngx_quic_read_uint8 (buf : List u_char) (pos end_ : Nat) : Rd (Nat × Nat) :=
  if size_t_diff end_ pos < 1 then .null
  else
    match buf[pos]? with
    | none => .fault
    | some b => .ok (pos + 1, b.val)

/-- The function `ngx_quic_read_bytes(pos, end, len, out)`: the new cursor and
`*out`; no byte is read. -/
def ngx_quic_read_bytes (pos end_ len : Nat) : Rd (Nat × Nat) :=
  if size_t_diff end_ pos < len then .null
  else .ok (pos + len, pos)

/-- The function `ngx_quic_copy_bytes(pos, end, len, dst)`: the new cursor and
the `len` bytes copied to `dst`. -/
def ngx_quic_copy_bytes (buf : List u_char) (pos end_ len : Nat) : Rd (Nat × List u_char) :=
  if size_t_diff end_ pos < len then .null
  else if buf.length < pos + len then .fault
  else .ok (pos + len, mem_bytes buf pos len)

/-- The effect of `ngx_memcpy(dst, src, n)` on a destination array: the first
bytes are replaced, the rest of the array keeps its content. -/
def ngx_memcpy (dst src : List u_char) : List u_char :=
  src ++ dst.drop src.length

/-- The loop `while (value >> ((8 << bits) - 2)) bits++` of `ngx_quic_varint_len`
and `ngx_quic_build_int`.  The first argument bounds the number of iterations: a
64-bit value leaves the loop with `bits <= 4`, and with `bits <= 3` when it is
below 2^62 (beyond that the C shift count reaches the width of the type). -/
def ngx_quic_varint_bits : Nat → Nat → Nat → Nat
  | 0, _, bits => bits
  | fuel + 1, value, bits =>
    if value >>> ((8 <<< bits) - 2) ≠ 0 then ngx_quic_varint_bits fuel value (bits + 1)
    else bits

/-- The function `ngx_quic_varint_len(value)`. -/
def ngx_quic_varint_len (value : Nat) : Nat :=
  1 <<< ngx_quic_varint_bits 4 value 0

/-- The loop `while (len--) *p++ = value >> (len * 8)` of `ngx_quic_build_int`. -/
def ngx_quic_build_int_loop (value : Nat) : Nat → List u_char
  | 0 => []
  | len + 1 => to_u_char (value >>> (len * 8)) :: ngx_quic_build_int_loop value len

/-- The function `ngx_quic_build_int(pos, value)`: the bytes written at `*pos`;
`*pos` advances by their number. -/
def ngx_quic_build_int (value : Nat) : List u_char :=
  let bits := ngx_quic_varint_bits 4 value 0
  let len := 1 <<< bits
  match ngx_quic_build_int_loop value len with
  | [] => []
  | b :: rest => to_u_char (b.val ||| (bits <<< 6)) :: rest

/-! ## Frame parser -/

/-- The table `ngx_quic_frame_masks` of `ngx_quic_frame_allowed`: one mask of four
bits IH01 for each of the 31 frame types. -/
def ngx_quic_frame_masks : List Nat :=
  [ 0xF,  -- PADDING
    0xF,  -- PING
    0xD,  -- ACK
    0xD,  -- ACK_ECN
    0x3,  -- RESET_STREAM
    0x3,  -- STOP_SENDING
    0xD,  -- CRYPTO
    0x0,  -- NEW_TOKEN
    0x3,  -- STREAM0
    0x3,  -- STREAM1
    0x3,  -- STREAM2
    0x3,  -- STREAM3
    0x3,  -- STREAM4
    0x3,  -- STREAM5
    0x3,  -- STREAM6
    0x3,  -- STREAM7
    0x3,  -- MAX_DATA
    0x3,  -- MAX_STREAM_DATA
    0x3,  -- MAX_STREAMS
    0x3,  -- MAX_STREAMS2
    0x3,  -- DATA_BLOCKED
    0x3,  -- STREAM_DATA_BLOCKED
    0x3,  -- STREAMS_BLOCKED
    0x3,  -- STREAMS_BLOCKED2
    0x3,  -- NEW_CONNECTION_ID
    0x3,  -- RETIRE_CONNECTION_ID
    0x3,  -- PATH_CHALLENGE
    0x3,  -- PATH_RESPONSE
    0xF,  -- CONNECTION_CLOSE
    0x3,  -- CONNECTION_CLOSE2
    0x0 ] -- HANDSHAKE_DONE

/-- The array read `ngx_quic_frame_masks[frame_type]`.  The C code does not
compare the index with the size of the table.  For an index beyond the table the
read goes to the memory behind the table, which the program does not determine:
`adj frame_type` is the byte that lies there, or `none` when that address cannot
be read, and then the read ends the run (result `none`). -/
def ngx_quic_frame_masks_read (adj : Nat → Option u_char) (frame_type : Nat) : Option Nat :=
  match ngx_quic_frame_masks[frame_type]? with
  | some m => some m
  | none =>
    match adj frame_type with
    | some c => some c.val
    | none => none

/-- The packet type bit `ptype` computed by `ngx_quic_frame_allowed`. -/
def ngx_quic_frame_allowed_ptype (flags : u_char) : Nat :=
  if ngx_quic_long_pkt flags then
    if ngx_quic_pkt_in flags then 8
    else if ngx_quic_pkt_hs flags then 4
    else 2
  else 1

/-- The function `ngx_quic_frame_allowed(pkt, frame_type)`; the run ends at the
read of the table when that read goes to memory that cannot be read. -/
def ngx_quic_frame_allowed (adj : Nat → Option u_char) (pkt : ngx_quic_header_t)
    (frame_type : Nat) : Exec Int :=
  let ptype := ngx_quic_frame_allowed_ptype pkt.flags
  match ngx_quic_frame_masks_read adj frame_type with
  | none => .fault
  | some mask =>
    if ptype &&& mask ≠ 0 then .done NGX_OK
    else .done NGX_DECLINED

/-- What `ngx_quic_parse_frame` leaves behind: the return value, the packet
descriptor (with its `error` field), the frame descriptor and the buffer
`f->data->buf`. -/
structure ngx_quic_parse_frame_ret where
  rc : Int
  pkt : ngx_quic_header_t
  f : ngx_quic_frame_t
  b : ngx_buf_t
deriving DecidableEq, Repr

/-- The label `error:` of `ngx_quic_parse_frame`. -/
def ngx_quic_parse_frame_error (pkt : ngx_quic_header_t) (f : ngx_quic_frame_t)
    (b : ngx_buf_t) : Exec ngx_quic_parse_frame_ret :=
  .done { rc := NGX_ERROR,
          pkt := { pkt with error := NGX_QUIC_ERR_FRAME_ENCODING_ERROR },
          f := f, b := b }

/-- The end of `ngx_quic_parse_frame`: `f->level = pkt->level; return p - start`. -/
def ngx_quic_parse_frame_return (pkt : ngx_quic_header_t) (start p : Nat)
    (f : ngx_quic_frame_t) (b : ngx_buf_t) : Exec ngx_quic_parse_frame_ret :=
  .done { rc := (p : Int) - (start : Int), pkt := pkt,
          f := { f with level := pkt.level }, b := b }

/-- One guarded read of `ngx_quic_parse_frame`:
`p = reader(...); if (p == NULL) goto error;` followed by the rest `k`. -/
def ngx_quic_parse_frame_step {α : Type} (r : Rd (Nat × α)) (pkt : ngx_quic_header_t)
    (f : ngx_quic_frame_t) (b : ngx_buf_t)
    (k : Nat → α → Exec ngx_quic_parse_frame_ret) : Exec ngx_quic_parse_frame_ret :=
  match r with
  | .ok (p, a) => k p a
  | .null => ngx_quic_parse_frame_error pkt f b
  | .fault => .fault

/-- The loop `while (p < end && *p == NGX_QUIC_FT_PADDING) p++` of the PADDING
case; the first argument bounds the iterations and is `end - p` at the call. -/
def ngx_quic_parse_frame_padding_loop (buf : List u_char) (end_ : Nat) :
    Nat → Nat → Rd (Nat × Unit)
  | 0, p => .ok (p, ())
  | fuel + 1, p =>
    if p < end_ then
      match buf[p]? with
      | none => .fault
      | some c =>
        if c.val = NGX_QUIC_FT_PADDING then
          ngx_quic_parse_frame_padding_loop buf end_ fuel (p + 1)
        else .ok (p, ())
    else .ok (p, ())

/-- The loop `for (i = 0; i < f->u.ack.range_count; i++)` of the ACK case, which
reads a gap and a range and ignores the values; the first argument is the number
of iterations left. -/
def ngx_quic_parse_frame_ack_ranges (buf : List u_char) (end_ : Nat) :
    Nat → Nat → Rd (Nat × Unit)
  | 0, p => .ok (p, ())
  | n + 1, p =>
    match ngx_quic_parse_int buf p end_ with
    | .fault => .fault
    | .null => .null
    | .ok (p, _) =>
      match ngx_quic_parse_int buf p end_ with
      | .fault => .fault
      | .null => .null
      | .ok (p, _) => ngx_quic_parse_frame_ack_ranges buf end_ n p

/-- The case NGX_QUIC_FT_CRYPTO of the switch of `ngx_quic_parse_frame`;
`p` is the cursor behind the frame type. -/
def ngx_quic_parse_frame_crypto (pkt : ngx_quic_header_t) (buf : List u_char)
    (start end_ p : Nat) (f : ngx_quic_frame_t) (b : ngx_buf_t) :
    Exec ngx_quic_parse_frame_ret :=
  ngx_quic_parse_frame_step (ngx_quic_parse_int buf p end_) pkt f b fun p v =>
  let f := { f with u.crypto.offset := v }
  ngx_quic_parse_frame_step (ngx_quic_parse_int buf p end_) pkt f b fun p v =>
  let f := { f with u.crypto.length := v }
  ngx_quic_parse_frame_step (ngx_quic_read_bytes p end_ f.u.crypto.length) pkt f b fun p out =>
  let b := { b with pos := out }
  let b := { b with last := p }
  ngx_quic_parse_frame_return pkt start p f b

/-- The case NGX_QUIC_FT_PADDING of the switch of `ngx_quic_parse_frame`;
`p` is the cursor behind the frame type. -/
def ngx_quic_parse_frame_padding (pkt : ngx_quic_header_t) (buf : List u_char)
    (start end_ p : Nat) (f : ngx_quic_frame_t) (b : ngx_buf_t) :
    Exec ngx_quic_parse_frame_ret :=
  ngx_quic_parse_frame_step (ngx_quic_parse_frame_padding_loop buf end_ (end_ - p) p) pkt f b
    fun p _ =>
  ngx_quic_parse_frame_return pkt start p f b

/-- The cases NGX_QUIC_FT_ACK and NGX_QUIC_FT_ACK_ECN of the switch of
`ngx_quic_parse_frame`;
`p` is the cursor behind the frame type. -/
def ngx_quic_parse_frame_ack (pkt : ngx_quic_header_t) (buf : List u_char)
    (start end_ p : Nat) (f : ngx_quic_frame_t) (b : ngx_buf_t) :
    Exec ngx_quic_parse_frame_ret :=
  ngx_quic_parse_frame_step (ngx_quic_parse_int buf p end_) pkt f b fun p v =>
  let f := { f with u.ack.largest := v }
  ngx_quic_parse_frame_step (ngx_quic_parse_int buf p end_) pkt f b fun p v =>
  let f := { f with u.ack.delay := v }
  ngx_quic_parse_frame_step (ngx_quic_parse_int buf p end_) pkt f b fun p v =>
  let f := { f with u.ack.range_count := v }
  ngx_quic_parse_frame_step (ngx_quic_parse_int buf p end_) pkt f b fun p v =>
  let f := { f with u.ack.first_range := v }
  let b := { b with pos := p }
  ngx_quic_parse_frame_step
    (ngx_quic_parse_frame_ack_ranges buf end_ f.u.ack.range_count p) pkt f b fun p _ =>
  let b := { b with last := p }
  let f := { f with u.ack.ranges_length := b.last - b.pos }
  if f.type = NGX_QUIC_FT_ACK_ECN then
    ngx_quic_parse_frame_step (ngx_quic_parse_int buf p end_) pkt f b fun p v =>
    let f := { f with u.ack.ect0 := v }
    ngx_quic_parse_frame_step (ngx_quic_parse_int buf p end_) pkt f b fun p v =>
    let f := { f with u.ack.ect1 := v }
    ngx_quic_parse_frame_step (ngx_quic_parse_int buf p end_) pkt f b fun p v =>
    let f := { f with u.ack.ce := v }
    ngx_quic_parse_frame_return pkt start p f b
  else
    ngx_quic_parse_frame_return pkt start p f b

/-- The case NGX_QUIC_FT_NEW_CONNECTION_ID of the switch of `ngx_quic_parse_frame`;
`p` is the cursor behind the frame type. -/
def ngx_quic_parse_frame_new_connection_id (pkt : ngx_quic_header_t) (buf : List u_char)
    (start end_ p : Nat) (f : ngx_quic_frame_t) (b : ngx_buf_t) :
    Exec ngx_quic_parse_frame_ret :=
  ngx_quic_parse_frame_step (ngx_quic_parse_int buf p end_) pkt f b fun p v =>
  let f := { f with u.ncid.seqnum := v }
  ngx_quic_parse_frame_step (ngx_quic_parse_int buf p end_) pkt f b fun p v =>
  let f := { f with u.ncid.retire := v }
  if f.u.ncid.retire > f.u.ncid.seqnum then ngx_quic_parse_frame_error pkt f b
  else
  ngx_quic_parse_frame_step (ngx_quic_read_uint8 buf p end_) pkt f b fun p v =>
  let f := { f with u.ncid.len := v }
  if f.u.ncid.len < 1 ∨ f.u.ncid.len > NGX_QUIC_CID_LEN_MAX then
    ngx_quic_parse_frame_error pkt f b
  else
  ngx_quic_parse_frame_step (ngx_quic_copy_bytes buf p end_ f.u.ncid.len) pkt f b
    fun p bytes =>
  let f := { f with u.ncid.cid := ngx_memcpy f.u.ncid.cid bytes }
  ngx_quic_parse_frame_step (ngx_quic_copy_bytes buf p end_ NGX_QUIC_SR_TOKEN_LEN) pkt f b
    fun p bytes =>
  let f := { f with u.ncid.srt := ngx_memcpy f.u.ncid.srt bytes }
  ngx_quic_parse_frame_return pkt start p f b

/-- The case NGX_QUIC_FT_RETIRE_CONNECTION_ID of the switch of `ngx_quic_parse_frame`;
`p` is the cursor behind the frame type. -/
def ngx_quic_parse_frame_retire_connection_id (pkt : ngx_quic_header_t) (buf : List u_char)
    (start end_ p : Nat) (f : ngx_quic_frame_t) (b : ngx_buf_t) :
    Exec ngx_quic_parse_frame_ret :=
  ngx_quic_parse_frame_step (ngx_quic_parse_int buf p end_) pkt f b fun p v =>
  let f := { f with u.retire_cid.sequence_number := v }
  ngx_quic_parse_frame_return pkt start p f b

/-- The cases NGX_QUIC_FT_CONNECTION_CLOSE and NGX_QUIC_FT_CONNECTION_CLOSE_APP of
the switch of `ngx_quic_parse_frame`;
`p` is the cursor behind the frame type. -/
def ngx_quic_parse_frame_connection_close (pkt : ngx_quic_header_t) (buf : List u_char)
    (start end_ p : Nat) (f : ngx_quic_frame_t) (b : ngx_buf_t) :
    Exec ngx_quic_parse_frame_ret :=
  ngx_quic_parse_frame_step (ngx_quic_parse_int buf p end_) pkt f b fun p v =>
  let f := { f with u.close.error_code := v }
  let rest := fun (p : Nat) (f : ngx_quic_frame_t) =>
    ngx_quic_parse_frame_step (ngx_quic_parse_int buf p end_) pkt f b fun p varint =>
    let f := { f with u.close.reason.len := varint }
    ngx_quic_parse_frame_step (ngx_quic_read_bytes p end_ f.u.close.reason.len) pkt f b
      fun p out =>
    let f := { f with u.close.reason.data := out }
    ngx_quic_parse_frame_return pkt start p f b
  if f.type = NGX_QUIC_FT_CONNECTION_CLOSE then
    ngx_quic_parse_frame_step (ngx_quic_parse_int buf p end_) pkt f b fun p v =>
    let f := { f with u.close.frame_type := v }
    rest p f
  else
    rest p f

/-- The cases NGX_QUIC_FT_STREAM0 .. NGX_QUIC_FT_STREAM7 of the switch of
`ngx_quic_parse_frame`;
`p` is the cursor behind the frame type. -/
def ngx_quic_parse_frame_stream (pkt : ngx_quic_header_t) (buf : List u_char)
    (start end_ p : Nat) (f : ngx_quic_frame_t) (b : ngx_buf_t) :
    Exec ngx_quic_parse_frame_ret :=
  let f := { f with u.stream.type := f.type }
  let f := { f with u.stream.off := decide (f.type &&& 0x04 ≠ 0) }
  let f := { f with u.stream.len := decide (f.type &&& 0x02 ≠ 0) }
  let f := { f with u.stream.fin := decide (f.type &&& 0x01 ≠ 0) }
  ngx_quic_parse_frame_step (ngx_quic_parse_int buf p end_) pkt f b fun p v =>
  let f := { f with u.stream.stream_id := v }
  let rest2 := fun (p : Nat) (f : ngx_quic_frame_t) =>
    ngx_quic_parse_frame_step (ngx_quic_read_bytes p end_ f.u.stream.length) pkt f b
      fun p out =>
    let b := { b with pos := out }
    let b := { b with last := p }
    ngx_quic_parse_frame_return pkt start p f b
  let rest1 := fun (p : Nat) (f : ngx_quic_frame_t) =>
    if f.type &&& 0x02 ≠ 0 then
      ngx_quic_parse_frame_step (ngx_quic_parse_int buf p end_) pkt f b fun p v =>
      let f := { f with u.stream.length := v }
      rest2 p f
    else
      let f := { f with u.stream.length := end_ - p }
      rest2 p f
  if f.type &&& 0x04 ≠ 0 then
    ngx_quic_parse_frame_step (ngx_quic_parse_int buf p end_) pkt f b fun p v =>
    let f := { f with u.stream.offset := v }
    rest1 p f
  else
    let f := { f with u.stream.offset := 0 }
    rest1 p f

/-- The case NGX_QUIC_FT_MAX_DATA of the switch of `ngx_quic_parse_frame`;
`p` is the cursor behind the frame type. -/
def ngx_quic_parse_frame_max_data (pkt : ngx_quic_header_t) (buf : List u_char)
    (start end_ p : Nat) (f : ngx_quic_frame_t) (b : ngx_buf_t) :
    Exec ngx_quic_parse_frame_ret :=
  ngx_quic_parse_frame_step (ngx_quic_parse_int buf p end_) pkt f b fun p v =>
  let f := { f with u.max_data.max_data := v }
  ngx_quic_parse_frame_return pkt start p f b

/-- The case NGX_QUIC_FT_RESET_STREAM of the switch of `ngx_quic_parse_frame`;
`p` is the cursor behind the frame type. -/
def ngx_quic_parse_frame_reset_stream (pkt : ngx_quic_header_t) (buf : List u_char)
    (start end_ p : Nat) (f : ngx_quic_frame_t) (b : ngx_buf_t) :
    Exec ngx_quic_parse_frame_ret :=
  ngx_quic_parse_frame_step (ngx_quic_parse_int buf p end_) pkt f b fun p v =>
  let f := { f with u.reset_stream.id := v }
  ngx_quic_parse_frame_step (ngx_quic_parse_int buf p end_) pkt f b fun p v =>
  let f := { f with u.reset_stream.error_code := v }
  ngx_quic_parse_frame_step (ngx_quic_parse_int buf p end_) pkt f b fun p v =>
  let f := { f with u.reset_stream.final_size := v }
  ngx_quic_parse_frame_return pkt start p f b

/-- The case NGX_QUIC_FT_STOP_SENDING of the switch of `ngx_quic_parse_frame`;
`p` is the cursor behind the frame type. -/
def ngx_quic_parse_frame_stop_sending (pkt : ngx_quic_header_t) (buf : List u_char)
    (start end_ p : Nat) (f : ngx_quic_frame_t) (b : ngx_buf_t) :
    Exec ngx_quic_parse_frame_ret :=
  ngx_quic_parse_frame_step (ngx_quic_parse_int buf p end_) pkt f b fun p v =>
  let f := { f with u.stop_sending.id := v }
  ngx_quic_parse_frame_step (ngx_quic_parse_int buf p end_) pkt f b fun p v =>
  let f := { f with u.stop_sending.error_code := v }
  ngx_quic_parse_frame_return pkt start p f b

/-- The cases NGX_QUIC_FT_STREAMS_BLOCKED and NGX_QUIC_FT_STREAMS_BLOCKED2 of the
switch of `ngx_quic_parse_frame`;
`p` is the cursor behind the frame type. -/
def ngx_quic_parse_frame_streams_blocked (pkt : ngx_quic_header_t) (buf : List u_char)
    (start end_ p : Nat) (f : ngx_quic_frame_t) (b : ngx_buf_t) :
    Exec ngx_quic_parse_frame_ret :=
  ngx_quic_parse_frame_step (ngx_quic_parse_int buf p end_) pkt f b fun p v =>
  let f := { f with u.streams_blocked.limit := v }
  let f := { f with u.streams_blocked.bidi := decide (f.type = NGX_QUIC_FT_STREAMS_BLOCKED) }
  ngx_quic_parse_frame_return pkt start p f b

/-- The cases NGX_QUIC_FT_MAX_STREAMS and NGX_QUIC_FT_MAX_STREAMS2 of the switch of
`ngx_quic_parse_frame`;
`p` is the cursor behind the frame type. -/
def ngx_quic_parse_frame_max_streams (pkt : ngx_quic_header_t) (buf : List u_char)
    (start end_ p : Nat) (f : ngx_quic_frame_t) (b : ngx_buf_t) :
    Exec ngx_quic_parse_frame_ret :=
  ngx_quic_parse_frame_step (ngx_quic_parse_int buf p end_) pkt f b fun p v =>
  let f := { f with u.max_streams.limit := v }
  let f := { f with u.max_streams.bidi := decide (f.type = NGX_QUIC_FT_MAX_STREAMS) }
  ngx_quic_parse_frame_return pkt start p f b

/-- The case NGX_QUIC_FT_MAX_STREAM_DATA of the switch of `ngx_quic_parse_frame`;
`p` is the cursor behind the frame type. -/
def ngx_quic_parse_frame_max_stream_data (pkt : ngx_quic_header_t) (buf : List u_char)
    (start end_ p : Nat) (f : ngx_quic_frame_t) (b : ngx_buf_t) :
    Exec ngx_quic_parse_frame_ret :=
  ngx_quic_parse_frame_step (ngx_quic_parse_int buf p end_) pkt f b fun p v =>
  let f := { f with u.max_stream_data.id := v }
  ngx_quic_parse_frame_step (ngx_quic_parse_int buf p end_) pkt f b fun p v =>
  let f := { f with u.max_stream_data.limit := v }
  ngx_quic_parse_frame_return pkt start p f b

/-- The case NGX_QUIC_FT_DATA_BLOCKED of the switch of `ngx_quic_parse_frame`;
`p` is the cursor behind the frame type. -/
def ngx_quic_parse_frame_data_blocked (pkt : ngx_quic_header_t) (buf : List u_char)
    (start end_ p : Nat) (f : ngx_quic_frame_t) (b : ngx_buf_t) :
    Exec ngx_quic_parse_frame_ret :=
  ngx_quic_parse_frame_step (ngx_quic_parse_int buf p end_) pkt f b fun p v =>
  let f := { f with u.data_blocked.limit := v }
  ngx_quic_parse_frame_return pkt start p f b

/-- The case NGX_QUIC_FT_STREAM_DATA_BLOCKED of the switch of `ngx_quic_parse_frame`;
`p` is the cursor behind the frame type. -/
def ngx_quic_parse_frame_stream_data_blocked (pkt : ngx_quic_header_t) (buf : List u_char)
    (start end_ p : Nat) (f : ngx_quic_frame_t) (b : ngx_buf_t) :
    Exec ngx_quic_parse_frame_ret :=
  ngx_quic_parse_frame_step (ngx_quic_parse_int buf p end_) pkt f b fun p v =>
  let f := { f with u.stream_data_blocked.id := v }
  ngx_quic_parse_frame_step (ngx_quic_parse_int buf p end_) pkt f b fun p v =>
  let f := { f with u.stream_data_blocked.limit := v }
  ngx_quic_parse_frame_return pkt start p f b

/-- The case NGX_QUIC_FT_PATH_CHALLENGE of the switch of `ngx_quic_parse_frame`;
`p` is the cursor behind the frame type. -/
def ngx_quic_parse_frame_path_challenge (pkt : ngx_quic_header_t) (buf : List u_char)
    (start end_ p : Nat) (f : ngx_quic_frame_t) (b : ngx_buf_t) :
    Exec ngx_quic_parse_frame_ret :=
  ngx_quic_parse_frame_step (ngx_quic_copy_bytes buf p end_ 8) pkt f b fun p bytes =>
  let f := { f with u.path_challenge.data := ngx_memcpy f.u.path_challenge.data bytes }
  ngx_quic_parse_frame_return pkt start p f b

/-- The case NGX_QUIC_FT_PATH_RESPONSE of the switch of `ngx_quic_parse_frame`;
`p` is the cursor behind the frame type. -/
def ngx_quic_parse_frame_path_response (pkt : ngx_quic_header_t) (buf : List u_char)
    (start end_ p : Nat) (f : ngx_quic_frame_t) (b : ngx_buf_t) :
    Exec ngx_quic_parse_frame_ret :=
  ngx_quic_parse_frame_step (ngx_quic_copy_bytes buf p end_ 8) pkt f b fun p bytes =>
  let f := { f with u.path_response.data := ngx_memcpy f.u.path_response.data bytes }
  ngx_quic_parse_frame_return pkt start p f b

/-- The statement `switch (f->type)` of `ngx_quic_parse_frame`, each case with the
return that follows the switch;
`p` is the cursor behind the frame type. -/
def ngx_quic_parse_frame_switch (pkt : ngx_quic_header_t) (buf : List u_char)
    (start end_ p : Nat) (f : ngx_quic_frame_t) (b : ngx_buf_t) :
    Exec ngx_quic_parse_frame_ret :=
  match f.type with
  | 0x06 =>  -- NGX_QUIC_FT_CRYPTO
    ngx_quic_parse_frame_crypto pkt buf start end_ p f b
  | 0x00 =>  -- NGX_QUIC_FT_PADDING
    ngx_quic_parse_frame_padding pkt buf start end_ p f b
  | 0x02 | 0x03 =>  -- NGX_QUIC_FT_ACK, NGX_QUIC_FT_ACK_ECN
    ngx_quic_parse_frame_ack pkt buf start end_ p f b
  | 0x01 =>  -- NGX_QUIC_FT_PING
    ngx_quic_parse_frame_return pkt start p f b
  | 0x18 =>  -- NGX_QUIC_FT_NEW_CONNECTION_ID
    ngx_quic_parse_frame_new_connection_id pkt buf start end_ p f b
  | 0x19 =>  -- NGX_QUIC_FT_RETIRE_CONNECTION_ID
    ngx_quic_parse_frame_retire_connection_id pkt buf start end_ p f b
  | 0x1C | 0x1D =>  -- NGX_QUIC_FT_CONNECTION_CLOSE, NGX_QUIC_FT_CONNECTION_CLOSE_APP
    ngx_quic_parse_frame_connection_close pkt buf start end_ p f b
  | 0x08 | 0x09 | 0x0A | 0x0B | 0x0C | 0x0D | 0x0E | 0x0F =>  -- NGX_QUIC_FT_STREAM0 .. 7
    ngx_quic_parse_frame_stream pkt buf start end_ p f b
  | 0x10 =>  -- NGX_QUIC_FT_MAX_DATA
    ngx_quic_parse_frame_max_data pkt buf start end_ p f b
  | 0x04 =>  -- NGX_QUIC_FT_RESET_STREAM
    ngx_quic_parse_frame_reset_stream pkt buf start end_ p f b
  | 0x05 =>  -- NGX_QUIC_FT_STOP_SENDING
    ngx_quic_parse_frame_stop_sending pkt buf start end_ p f b
  | 0x16 | 0x17 =>  -- NGX_QUIC_FT_STREAMS_BLOCKED, NGX_QUIC_FT_STREAMS_BLOCKED2
    ngx_quic_parse_frame_streams_blocked pkt buf start end_ p f b
  | 0x12 | 0x13 =>  -- NGX_QUIC_FT_MAX_STREAMS, NGX_QUIC_FT_MAX_STREAMS2
    ngx_quic_parse_frame_max_streams pkt buf start end_ p f b
  | 0x11 =>  -- NGX_QUIC_FT_MAX_STREAM_DATA
    ngx_quic_parse_frame_max_stream_data pkt buf start end_ p f b
  | 0x14 =>  -- NGX_QUIC_FT_DATA_BLOCKED
    ngx_quic_parse_frame_data_blocked pkt buf start end_ p f b
  | 0x15 =>  -- NGX_QUIC_FT_STREAM_DATA_BLOCKED
    ngx_quic_parse_frame_stream_data_blocked pkt buf start end_ p f b
  | 0x1A =>  -- NGX_QUIC_FT_PATH_CHALLENGE
    ngx_quic_parse_frame_path_challenge pkt buf start end_ p f b
  | 0x1B =>  -- NGX_QUIC_FT_PATH_RESPONSE
    ngx_quic_parse_frame_path_response pkt buf start end_ p f b
  | _ =>  -- default: return NGX_ERROR
    .done { rc := NGX_ERROR, pkt := pkt, f := f, b := b }

/-- The function `ngx_quic_parse_frame(pkt, start, end, f)` on the memory region
`buf`; `b` is the buffer `f->data->buf`, `adj` the memory behind the table of
masks (see `ngx_quic_frame_masks_read`); the run is a fault when the read of the
table is. -/
def ngx_quic_parse_frame (adj : Nat → Option u_char) (pkt : ngx_quic_header_t)
    (buf : List u_char) (start end_ : Nat) (f : ngx_quic_frame_t) (b : ngx_buf_t) :
    Exec ngx_quic_parse_frame_ret :=
  let p := start
  ngx_quic_parse_frame_step (ngx_quic_parse_int buf p end_) pkt f b fun p varint =>
  let f := { f with type := varint }
  match ngx_quic_frame_allowed adj pkt f.type with
  | .fault => .fault
  | .done rc =>
    if rc ≠ NGX_OK then
      .done { rc := NGX_ERROR,
              pkt := { pkt with error := NGX_QUIC_ERR_PROTOCOL_VIOLATION },
              f := f, b := b }
    else
      ngx_quic_parse_frame_switch pkt buf start end_ p f b

/-- The function `ngx_quic_parse_ack_range(log, start, end, gap, range)`: the
return value with `*gap` and `*range`. -/
def ngx_quic_parse_ack_range (buf : List u_char) (start end_ : Nat) : Exec (Int × Nat × Nat) :=
  match ngx_quic_parse_int buf start end_ with
  | .fault => .fault
  | .null => .done (NGX_ERROR, 0, 0)
  | .ok (p, gap) =>
    match ngx_quic_parse_int buf p end_ with
    | .fault => .fault
    | .null => .done (NGX_ERROR, gap, 0)
    | .ok (p, range) => .done ((p : Int) - (start : Int), gap, range)

/-! ## Frame builder -/

/-- An output pointer argument of a builder: the NULL pointer (sizing pass) or a
real buffer (writing pass). -/
inductive out_ptr where
  | NULL
  | buffer
deriving DecidableEq, Repr

/-- A sum computed in a variable of type `size_t`. -/
def size_t_sum (n : Nat) : Nat := n % 2 ^ 64

/-- The conversion of a `size_t` return value to `ssize_t`. -/
def to_ssize_t (n : Nat) : Int :=
  if n % 2 ^ 64 < 2 ^ 63 then ((n % 2 ^ 64 : Nat) : Int) else ((n % 2 ^ 64 : Nat) : Int) - 2 ^ 64

/-- The loop `while (data) { b = data->buf; p = ngx_cpymem(p, b->pos, b->last -
b->pos); data = data->next; }` of the builders of payload frames: the bytes of
the buffers of the chain, read from the memory `mem`. -/
def ngx_quic_copy_chain (mem : List u_char) : List ngx_buf_t → List u_char
  | [] => []
  | b :: next => mem_bytes mem b.pos (b.last - b.pos) ++ ngx_quic_copy_chain mem next

/-- The function `ngx_quic_create_ack(p, ack, ranges)`: the return value and the
bytes written. -/
def ngx_quic_create_ack (mem : List u_char) (p : out_ptr) (ack : ngx_quic_ack_frame_t)
    (ranges : List ngx_buf_t) : Nat × List u_char :=
  match p with
  | .NULL =>
    (size_t_sum (ngx_quic_varint_len NGX_QUIC_FT_ACK
      + ngx_quic_varint_len ack.largest
      + ngx_quic_varint_len ack.delay
      + ngx_quic_varint_len ack.range_count
      + ngx_quic_varint_len ack.first_range
      + ack.ranges_length), [])
  | .buffer =>
    let out := ngx_quic_build_int NGX_QUIC_FT_ACK
      ++ ngx_quic_build_int ack.largest
      ++ ngx_quic_build_int ack.delay
      ++ ngx_quic_build_int ack.range_count
      ++ ngx_quic_build_int ack.first_range
      ++ ngx_quic_copy_chain mem ranges
    (out.length, out)

/-- The function `ngx_quic_create_stop_sending(p, ss)`. -/
def ngx_quic_create_stop_sending (p : out_ptr) (ss : ngx_quic_stop_sending_frame_t) :
    Nat × List u_char :=
  match p with
  | .NULL =>
    (size_t_sum (ngx_quic_varint_len NGX_QUIC_FT_STOP_SENDING
      + ngx_quic_varint_len ss.id
      + ngx_quic_varint_len ss.error_code), [])
  | .buffer =>
    let out := ngx_quic_build_int NGX_QUIC_FT_STOP_SENDING
      ++ ngx_quic_build_int ss.id
      ++ ngx_quic_build_int ss.error_code
    (out.length, out)

/-- The function `ngx_quic_create_crypto(p, crypto, data)`. -/
def ngx_quic_create_crypto (mem : List u_char) (p : out_ptr)
    (crypto : ngx_quic_crypto_frame_t) (data : List ngx_buf_t) : Nat × List u_char :=
  match p with
  | .NULL =>
    (size_t_sum (ngx_quic_varint_len NGX_QUIC_FT_CRYPTO
      + ngx_quic_varint_len crypto.offset
      + ngx_quic_varint_len crypto.length
      + crypto.length), [])
  | .buffer =>
    let out := ngx_quic_build_int NGX_QUIC_FT_CRYPTO
      ++ ngx_quic_build_int crypto.offset
      ++ ngx_quic_build_int crypto.length
      ++ ngx_quic_copy_chain mem data
    (out.length, out)

/-- The function `ngx_quic_create_hs_done(p)`. -/
def ngx_quic_create_hs_done (p : out_ptr) : Nat × List u_char :=
  match p with
  | .NULL => (ngx_quic_varint_len NGX_QUIC_FT_HANDSHAKE_DONE, [])
  | .buffer =>
    let out := ngx_quic_build_int NGX_QUIC_FT_HANDSHAKE_DONE
    (out.length, out)

/-- The function `ngx_quic_create_new_token(p, token)`. -/
def ngx_quic_create_new_token (mem : List u_char) (p : out_ptr)
    (token : ngx_quic_new_token_frame_t) : Nat × List u_char :=
  match p with
  | .NULL =>
    (size_t_sum (ngx_quic_varint_len NGX_QUIC_FT_NEW_TOKEN
      + ngx_quic_varint_len token.length
      + token.length), [])
  | .buffer =>
    let out := ngx_quic_build_int NGX_QUIC_FT_NEW_TOKEN
      ++ ngx_quic_build_int token.length
      ++ mem_bytes mem token.data token.length
    (out.length, out)

/-- The function `ngx_quic_create_stream(p, sf, data)`. -/
def ngx_quic_create_stream (mem : List u_char) (p : out_ptr) (sf : ngx_quic_stream_frame_t)
    (data : List ngx_buf_t) : Nat × List u_char :=
  match p with
  | .NULL =>
    (size_t_sum (ngx_quic_varint_len sf.type
      + (if sf.off then ngx_quic_varint_len sf.offset else 0)
      + ngx_quic_varint_len sf.stream_id
      + ngx_quic_varint_len sf.length
      + sf.length), [])
  | .buffer =>
    let out := ngx_quic_build_int sf.type
      ++ ngx_quic_build_int sf.stream_id
      ++ (if sf.off then ngx_quic_build_int sf.offset else [])
      ++ ngx_quic_build_int sf.length
      ++ ngx_quic_copy_chain mem data
    (out.length, out)

/-- The function `ngx_quic_create_max_streams(p, ms)`. -/
def ngx_quic_create_max_streams (p : out_ptr) (ms : ngx_quic_max_streams_frame_t) :
    Nat × List u_char :=
  let type := if ms.bidi then NGX_QUIC_FT_MAX_STREAMS else NGX_QUIC_FT_MAX_STREAMS2
  match p with
  | .NULL =>
    (size_t_sum (ngx_quic_varint_len type + ngx_quic_varint_len ms.limit), [])
  | .buffer =>
    let out := ngx_quic_build_int type ++ ngx_quic_build_int ms.limit
    (out.length, out)

/-- The function `ngx_quic_create_max_stream_data(p, ms)`. -/
def ngx_quic_create_max_stream_data (p : out_ptr) (ms : ngx_quic_max_stream_data_frame_t) :
    Nat × List u_char :=
  match p with
  | .NULL =>
    (size_t_sum (ngx_quic_varint_len NGX_QUIC_FT_MAX_STREAM_DATA
      + ngx_quic_varint_len ms.id
      + ngx_quic_varint_len ms.limit), [])
  | .buffer =>
    let out := ngx_quic_build_int NGX_QUIC_FT_MAX_STREAM_DATA
      ++ ngx_quic_build_int ms.id
      ++ ngx_quic_build_int ms.limit
    (out.length, out)

/-- The function `ngx_quic_create_max_data(p, md)`. -/
def ngx_quic_create_max_data (p : out_ptr) (md : ngx_quic_max_data_frame_t) :
    Nat × List u_char :=
  match p with
  | .NULL =>
    (size_t_sum (ngx_quic_varint_len NGX_QUIC_FT_MAX_DATA
      + ngx_quic_varint_len md.max_data), [])
  | .buffer =>
    let out := ngx_quic_build_int NGX_QUIC_FT_MAX_DATA ++ ngx_quic_build_int md.max_data
    (out.length, out)

/-- The function `ngx_quic_create_path_response(p, pc)`; `sizeof(pc->data)` is 8. -/
def ngx_quic_create_path_response (p : out_ptr) (pc : ngx_quic_path_challenge_frame_t) :
    Nat × List u_char :=
  match p with
  | .NULL =>
    (size_t_sum (ngx_quic_varint_len NGX_QUIC_FT_PATH_RESPONSE + 8), [])
  | .buffer =>
    let out := ngx_quic_build_int NGX_QUIC_FT_PATH_RESPONSE ++ pc.data.take 8
    (out.length, out)

/-- The function `ngx_quic_create_new_connection_id(p, ncid)`. -/
def ngx_quic_create_new_connection_id (p : out_ptr) (ncid : ngx_quic_new_conn_id_frame_t) :
    Nat × List u_char :=
  match p with
  | .NULL =>
    (size_t_sum (ngx_quic_varint_len NGX_QUIC_FT_NEW_CONNECTION_ID
      + ngx_quic_varint_len ncid.seqnum
      + ngx_quic_varint_len ncid.retire
      + 1
      + ncid.len
      + NGX_QUIC_SR_TOKEN_LEN), [])
  | .buffer =>
    let out := ngx_quic_build_int NGX_QUIC_FT_NEW_CONNECTION_ID
      ++ ngx_quic_build_int ncid.seqnum
      ++ ngx_quic_build_int ncid.retire
      ++ [to_u_char ncid.len]
      ++ ncid.cid.take ncid.len
      ++ ncid.srt.take NGX_QUIC_SR_TOKEN_LEN
    (out.length, out)

/-- The function `ngx_quic_create_retire_connection_id(p, rcid)`. -/
def ngx_quic_create_retire_connection_id (p : out_ptr) (rcid : ngx_quic_retire_cid_frame_t) :
    Nat × List u_char :=
  match p with
  | .NULL =>
    (size_t_sum (ngx_quic_varint_len NGX_QUIC_FT_RETIRE_CONNECTION_ID
      + ngx_quic_varint_len rcid.sequence_number), [])
  | .buffer =>
    let out := ngx_quic_build_int NGX_QUIC_FT_RETIRE_CONNECTION_ID
      ++ ngx_quic_build_int rcid.sequence_number
    (out.length, out)

/-- The function `ngx_quic_create_close(p, cl)`. -/
def ngx_quic_create_close (mem : List u_char) (p : out_ptr) (cl : ngx_quic_close_frame_t) :
    Nat × List u_char :=
  let type := if cl.app then NGX_QUIC_FT_CONNECTION_CLOSE_APP else NGX_QUIC_FT_CONNECTION_CLOSE
  match p with
  | .NULL =>
    (size_t_sum (ngx_quic_varint_len type
      + ngx_quic_varint_len cl.error_code
      + (if ¬ cl.app then ngx_quic_varint_len cl.frame_type else 0)
      + ngx_quic_varint_len cl.reason.len
      + cl.reason.len), [])
  | .buffer =>
    let out := ngx_quic_build_int type
      ++ ngx_quic_build_int cl.error_code
      ++ (if ¬ cl.app then ngx_quic_build_int cl.frame_type else [])
      ++ ngx_quic_build_int cl.reason.len
      ++ mem_bytes mem cl.reason.data cl.reason.len
    (out.length, out)

/-- The function `ngx_quic_create_ack_range(p, gap, range)`. -/
def ngx_quic_create_ack_range (p : out_ptr) (gap range : Nat) : Nat × List u_char :=
  match p with
  | .NULL =>
    (size_t_sum (ngx_quic_varint_len gap + ngx_quic_varint_len range), [])
  | .buffer =>
    let out := ngx_quic_build_int gap ++ ngx_quic_build_int range
    (out.length, out)

/-- What `ngx_quic_create_frame` leaves behind: the return value, the bytes
written at `p` and the frame descriptor (with its `need_ack` field). -/
structure ngx_quic_create_frame_ret where
  rc : Int
  out : List u_char
  f : ngx_quic_frame_t
deriving DecidableEq, Repr

/-- The statement `return ngx_quic_create_...(p, ...)` of `ngx_quic_create_frame`:
the `size_t` result of a builder returned as `ssize_t`. -/
def ngx_quic_create_frame_return (f : ngx_quic_frame_t) (r : Nat × List u_char) :
    ngx_quic_create_frame_ret :=
  { rc := to_ssize_t r.1, out := r.2, f := f }

/-- The function `ngx_quic_create_frame(p, f)`; `mem` is the memory that the
pointers of the descriptor (chain buffers, reason, token) refer to. -/
def ngx_quic_create_frame (mem : List u_char) (p : out_ptr) (f : ngx_quic_frame_t) :
    ngx_quic_create_frame_ret :=
  let f := { f with need_ack := 1 }
  match f.type with
  | 0x02 =>  -- NGX_QUIC_FT_ACK
    let f := { f with need_ack := 0 }
    ngx_quic_create_frame_return f (ngx_quic_create_ack mem p f.u.ack f.data)
  | 0x05 =>  -- NGX_QUIC_FT_STOP_SENDING
    ngx_quic_create_frame_return f (ngx_quic_create_stop_sending p f.u.stop_sending)
  | 0x06 =>  -- NGX_QUIC_FT_CRYPTO
    ngx_quic_create_frame_return f (ngx_quic_create_crypto mem p f.u.crypto f.data)
  | 0x1E =>  -- NGX_QUIC_FT_HANDSHAKE_DONE
    ngx_quic_create_frame_return f (ngx_quic_create_hs_done p)
  | 0x07 =>  -- NGX_QUIC_FT_NEW_TOKEN
    ngx_quic_create_frame_return f (ngx_quic_create_new_token mem p f.u.token)
  | 0x08 | 0x09 | 0x0A | 0x0B | 0x0C | 0x0D | 0x0E | 0x0F =>  -- NGX_QUIC_FT_STREAM0 .. 7
    ngx_quic_create_frame_return f (ngx_quic_create_stream mem p f.u.stream f.data)
  | 0x1C | 0x1D =>  -- NGX_QUIC_FT_CONNECTION_CLOSE, NGX_QUIC_FT_CONNECTION_CLOSE_APP
    let f := { f with need_ack := 0 }
    ngx_quic_create_frame_return f (ngx_quic_create_close mem p f.u.close)
  | 0x12 =>  -- NGX_QUIC_FT_MAX_STREAMS
    ngx_quic_create_frame_return f (ngx_quic_create_max_streams p f.u.max_streams)
  | 0x11 =>  -- NGX_QUIC_FT_MAX_STREAM_DATA
    ngx_quic_create_frame_return f (ngx_quic_create_max_stream_data p f.u.max_stream_data)
  | 0x10 =>  -- NGX_QUIC_FT_MAX_DATA
    ngx_quic_create_frame_return f (ngx_quic_create_max_data p f.u.max_data)
  | 0x1B =>  -- NGX_QUIC_FT_PATH_RESPONSE
    ngx_quic_create_frame_return f (ngx_quic_create_path_response p f.u.path_response)
  | 0x18 =>  -- NGX_QUIC_FT_NEW_CONNECTION_ID
    ngx_quic_create_frame_return f (ngx_quic_create_new_connection_id p f.u.ncid)
  | 0x19 =>  -- NGX_QUIC_FT_RETIRE_CONNECTION_ID
    ngx_quic_create_frame_return f (ngx_quic_create_retire_connection_id p f.u.retire_cid)
  | _ =>  -- default: unsupported frame type
    { rc := NGX_ERROR, out := [], f := f }

/-! ## Transport parameter parser -/

/-- The function `ngx_quic_parse_transport_param(p, end, id, dst)`; the parameter
`id` has the type `uint16_t`.  The result is the return value and the record
`*dst`. -/
def ngx_quic_parse_transport_param (buf : List u_char) (p end_ : Nat) (id : Nat)
    (dst : ngx_quic_tp_t) : Exec (Int × ngx_quic_tp_t) :=
  let id := id % 2 ^ 16
  let varint_case (set : ngx_quic_tp_t → Nat → ngx_quic_tp_t) : Exec (Int × ngx_quic_tp_t) :=
    match ngx_quic_parse_int buf p end_ with
    | .fault => .fault
    | .null => .done (NGX_ERROR, dst)
    | .ok (_, varint) => .done (NGX_OK, set dst varint)
  match id with
  | 0x0c =>  -- NGX_QUIC_TP_DISABLE_ACTIVE_MIGRATION
    if (end_ : Int) - (p : Int) ≠ 0 then .done (NGX_ERROR, dst)
    else .done (NGX_OK, { dst with disable_active_migration := 1 })
  | 0x01 =>  -- NGX_QUIC_TP_MAX_IDLE_TIMEOUT
    varint_case fun dst varint => { dst with max_idle_timeout := varint }
  | 0x03 =>  -- NGX_QUIC_TP_MAX_UDP_PAYLOAD_SIZE
    varint_case fun dst varint => { dst with max_udp_payload_size := varint }
  | 0x04 =>  -- NGX_QUIC_TP_INITIAL_MAX_DATA
    varint_case fun dst varint => { dst with initial_max_data := varint }
  | 0x05 =>  -- NGX_QUIC_TP_INITIAL_MAX_STREAM_DATA_BIDI_LOCAL
    varint_case fun dst varint => { dst with initial_max_stream_data_bidi_local := varint }
  | 0x06 =>  -- NGX_QUIC_TP_INITIAL_MAX_STREAM_DATA_BIDI_REMOTE
    varint_case fun dst varint => { dst with initial_max_stream_data_bidi_remote := varint }
  | 0x07 =>  -- NGX_QUIC_TP_INITIAL_MAX_STREAM_DATA_UNI
    varint_case fun dst varint => { dst with initial_max_stream_data_uni := varint }
  | 0x08 =>  -- NGX_QUIC_TP_INITIAL_MAX_STREAMS_BIDI
    varint_case fun dst varint => { dst with initial_max_streams_bidi := varint }
  | 0x09 =>  -- NGX_QUIC_TP_INITIAL_MAX_STREAMS_UNI
    varint_case fun dst varint => { dst with initial_max_streams_uni := varint }
  | 0x0a =>  -- NGX_QUIC_TP_ACK_DELAY_EXPONENT
    varint_case fun dst varint => { dst with ack_delay_exponent := varint }
  | 0x0b =>  -- NGX_QUIC_TP_MAX_ACK_DELAY
    varint_case fun dst varint => { dst with max_ack_delay := varint }
  | 0x0e =>  -- NGX_QUIC_TP_ACTIVE_CONNECTION_ID_LIMIT
    varint_case fun dst varint => { dst with active_connection_id_limit := varint }
  | 0x0f =>  -- NGX_QUIC_TP_INITIAL_SCID
    .done (NGX_OK, { dst with initial_scid := { len := end_ - p, data := p } })
  | _ =>  -- default
    .done (NGX_DECLINED, dst)

/-- The loop `while (p < end)` of `ngx_quic_parse_transport_params` followed by
the test `p != end`.  The first argument bounds the iterations; every iteration
advances `p`, so `end - p` iterations suffice. -/
def ngx_quic_parse_transport_params_loop (buf : List u_char) (end_ : Nat) :
    Nat → Nat → ngx_quic_tp_t → Exec (Int × ngx_quic_tp_t)
  | 0, p, tp => if p ≠ end_ then .done (NGX_ERROR, tp) else .done (NGX_OK, tp)
  | fuel + 1, p, tp =>
    if p < end_ then
      match ngx_quic_parse_int buf p end_ with
      | .fault => .fault
      | .null => .done (NGX_ERROR, tp)
      | .ok (p, id) =>
        if id = NGX_QUIC_TP_ORIGINAL_DCID ∨ id = NGX_QUIC_TP_PREFERRED_ADDRESS
            ∨ id = NGX_QUIC_TP_RETRY_SCID ∨ id = NGX_QUIC_TP_SR_TOKEN then
          .done (NGX_ERROR, tp)
        else
          match ngx_quic_parse_int buf p end_ with
          | .fault => .fault
          | .null => .done (NGX_ERROR, tp)
          | .ok (p, len) =>
            match ngx_quic_parse_transport_param buf p (p + len) id tp with
            | .fault => .fault
            | .done (rc, tp) =>
              if rc = NGX_ERROR then .done (NGX_ERROR, tp)
              else ngx_quic_parse_transport_params_loop buf end_ fuel (p + len) tp
    else if p ≠ end_ then .done (NGX_ERROR, tp) else .done (NGX_OK, tp)

/-- The function `ngx_quic_parse_transport_params(p, end, tp, log)`: the return
value and the record `*tp`. -/
def ngx_quic_parse_transport_params (buf : List u_char) (p end_ : Nat) (tp : ngx_quic_tp_t) :
    Exec (Int × ngx_quic_tp_t) :=
  ngx_quic_parse_transport_params_loop buf end_ (end_ - p) p tp

/-! ## Notions of the specification used to state the claims -/

/-- The big-endian representation of `x` in `n` bytes, as the spec describes the
bytes of a varint; it is not part of the source. -/
def be_bytes (x : Nat) : Nat → List u_char
  | 0 => []
  | n + 1 => to_u_char (x / 256 ^ n) :: be_bytes x n

/-- The bit of the packet type of a header flags byte, as the claim on the
permission matrix names it: Initial = 8 for long type 00, Handshake = 4 for long
type 10, 0-RTT = 2 for the remaining long headers, 1-RTT = 1 for a short header. -/
def packet_type_bit (flags : u_char) : Nat :=
  if flags.val &&& 0x80 = 0 then 1
  else if flags.val &&& 0x30 = 0x00 then 8
  else if flags.val &&& 0x30 = 0x20 then 4
  else 2

/-- The mask of a frame type in RFC 9000 Table 3, by the name of the frame, as the
claim on the permission matrix lists it (bits IH01). -/
def table3_mask (t : Nat) : Nat :=
  if t = NGX_QUIC_FT_PADDING ∨ t = NGX_QUIC_FT_PING ∨ t = NGX_QUIC_FT_CONNECTION_CLOSE then
    8 + 4 + 2 + 1
  else if t = NGX_QUIC_FT_ACK ∨ t = NGX_QUIC_FT_ACK_ECN ∨ t = NGX_QUIC_FT_CRYPTO then
    8 + 4 + 1
  else if t = NGX_QUIC_FT_RESET_STREAM ∨ t = NGX_QUIC_FT_STOP_SENDING
      ∨ (NGX_QUIC_FT_STREAM0 ≤ t ∧ t ≤ NGX_QUIC_FT_STREAM7)
      ∨ t = NGX_QUIC_FT_MAX_DATA ∨ t = NGX_QUIC_FT_MAX_STREAM_DATA
      ∨ t = NGX_QUIC_FT_MAX_STREAMS ∨ t = NGX_QUIC_FT_MAX_STREAMS2
      ∨ t = NGX_QUIC_FT_DATA_BLOCKED ∨ t = NGX_QUIC_FT_STREAM_DATA_BLOCKED
      ∨ t = NGX_QUIC_FT_STREAMS_BLOCKED ∨ t = NGX_QUIC_FT_STREAMS_BLOCKED2
      ∨ t = NGX_QUIC_FT_NEW_CONNECTION_ID ∨ t = NGX_QUIC_FT_RETIRE_CONNECTION_ID
      ∨ t = NGX_QUIC_FT_PATH_CHALLENGE ∨ t = NGX_QUIC_FT_PATH_RESPONSE
      ∨ t = NGX_QUIC_FT_CONNECTION_CLOSE_APP then
    2 + 1
  else
    0

/-- The outcome `r` of `ngx_quic_parse_frame` on the buffer `[start, end)`, where
`end` is the end of the memory region `buf`, respects the bounds of the buffer:
the run is not an over-read, and it returns ERROR or a number `n` of consumed
bytes with `1 <= n <= end - start` such that every byte slice reported in the
descriptor (CRYPTO and STREAM data, ACK ranges region, CONNECTION_CLOSE reason)
lies inside `[start, start + n)` and has the reported length. -/
def parse_frame_in_bounds (start : Nat) (buf : List u_char)
    (r : Exec ngx_quic_parse_frame_ret) : Prop :=
  ∃ ret, r = Exec.done ret ∧
    (ret.rc = NGX_ERROR ∨
      (1 ≤ ret.rc ∧ ret.rc ≤ (buf.length : Int) - (start : Int)
        ∧ ((ret.f.type = NGX_QUIC_FT_CRYPTO
              ∨ (NGX_QUIC_FT_STREAM0 ≤ ret.f.type ∧ ret.f.type ≤ NGX_QUIC_FT_STREAM7)
              ∨ ret.f.type = NGX_QUIC_FT_ACK ∨ ret.f.type = NGX_QUIC_FT_ACK_ECN) →
            start ≤ ret.b.pos ∧ ret.b.pos ≤ ret.b.last
              ∧ (ret.b.last : Int) ≤ (start : Int) + ret.rc)
        ∧ (ret.f.type = NGX_QUIC_FT_CRYPTO →
            ret.b.last - ret.b.pos = ret.f.u.crypto.length)
        ∧ ((NGX_QUIC_FT_STREAM0 ≤ ret.f.type ∧ ret.f.type ≤ NGX_QUIC_FT_STREAM7) →
            ret.b.last - ret.b.pos = ret.f.u.stream.length)
        ∧ ((ret.f.type = NGX_QUIC_FT_ACK ∨ ret.f.type = NGX_QUIC_FT_ACK_ECN) →
            ret.b.last - ret.b.pos = ret.f.u.ack.ranges_length)
        ∧ ((ret.f.type = NGX_QUIC_FT_CONNECTION_CLOSE
              ∨ ret.f.type = NGX_QUIC_FT_CONNECTION_CLOSE_APP) →
            start ≤ ret.f.u.close.reason.data
              ∧ ((ret.f.u.close.reason.data + ret.f.u.close.reason.len : Nat) : Int)
                  ≤ (start : Int) + ret.rc)))

/-- A descriptor with every field zero or empty (as after `ngx_memzero`), with
arrays of their declared sizes; used to write down concrete descriptors. -/
def ngx_quic_frame_zero : ngx_quic_frame_t :=
  { type := 0, level := .ssl_encryption_initial, need_ack := 0, data := [],
    u := { crypto := { offset := 0, length := 0 },
           ack := { largest := 0, delay := 0, range_count := 0, first_range := 0,
                    ect0 := 0, ect1 := 0, ce := 0, ranges_length := 0 },
           ncid := { seqnum := 0, retire := 0, len := 0,
                     cid := List.replicate 20 0, srt := List.replicate 16 0 },
           retire_cid := { sequence_number := 0 },
           close := { error_code := 0, frame_type := 0, reason := { len := 0, data := 0 },
                      app := false },
           stream := { type := 0, stream_id := 0, offset := 0, length := 0,
                       off := false, len := false, fin := false },
           max_data := { max_data := 0 },
           reset_stream := { id := 0, error_code := 0, final_size := 0 },
           stop_sending := { id := 0, error_code := 0 },
           streams_blocked := { limit := 0, bidi := false },
           max_streams := { limit := 0, bidi := false },
           max_stream_data := { id := 0, limit := 0 },
           data_blocked := { limit := 0 },
           stream_data_blocked := { id := 0, limit := 0 },
           path_challenge := { data := List.replicate 8 0 },
           path_response := { data := List.replicate 8 0 },
           token := { length := 0, data := 0 } } }

/-- A packet descriptor with the given flags byte and every other field zero;
used to write down concrete packets. -/
def ngx_quic_header_zero (flags : u_char) : ngx_quic_header_t :=
  { flags := flags, version := 0, level := .ssl_encryption_initial, data := 0, len := 0,
    raw := { pos := 0, last := 0 }, dcid := { len := 0, data := 0 },
    scid := { len := 0, data := 0 }, odcid := { len := 0, data := 0 },
    token := { len := 0, data := 0 }, num_len := 0, trunc := 0, error := 0 }

/-- The number of bytes of a chain: the sum of `b->last - b->pos` over its buffers. -/
def chain_total : List ngx_buf_t → Nat
  | [] => 0
  | b :: next => (b.last - b.pos) + chain_total next

/-- Every buffer of the chain is a range of the memory region `mem`. -/
def chain_in_mem (mem : List u_char) (data : List ngx_buf_t) : Prop :=
  ∀ b ∈ data, b.pos ≤ b.last ∧ b.last ≤ mem.length

instance (mem : List u_char) (data : List ngx_buf_t) : Decidable (chain_in_mem mem data) := by
  unfold chain_in_mem; infer_instance

/-- The bytes of an ACK ranges region that holds the given gap/range pairs, each
written by `ngx_quic_create_ack_range`. -/
def ack_ranges_bytes : List (Nat × Nat) → List u_char
  | [] => []
  | gr :: rest => (ngx_quic_create_ack_range .buffer gr.1 gr.2).2 ++ ack_ranges_bytes rest

/-- The descriptors of the round trip of fixed-field frames: a STOP_SENDING,
MAX_DATA, MAX_STREAM_DATA, MAX_STREAMS (bidi or uni by its flag),
RETIRE_CONNECTION_ID, PATH_RESPONSE, CONNECTION_CLOSE (transport or application,
with its reason bytes in `mem`) or NEW_CONNECTION_ID (with `1 <= len <= 20` and
`retire <= seqnum`) descriptor whose varint fields are below 2^62 and whose
arrays have their declared sizes. -/
def fixed_field_frame (mem : List u_char) (F : ngx_quic_frame_t) : Prop :=
  (F.type = NGX_QUIC_FT_STOP_SENDING
      ∧ F.u.stop_sending.id < 2 ^ 62 ∧ F.u.stop_sending.error_code < 2 ^ 62)
  ∨ (F.type = NGX_QUIC_FT_MAX_DATA ∧ F.u.max_data.max_data < 2 ^ 62)
  ∨ (F.type = NGX_QUIC_FT_MAX_STREAM_DATA
      ∧ F.u.max_stream_data.id < 2 ^ 62 ∧ F.u.max_stream_data.limit < 2 ^ 62)
  ∨ (F.type = NGX_QUIC_FT_MAX_STREAMS ∧ F.u.max_streams.limit < 2 ^ 62)
  ∨ (F.type = NGX_QUIC_FT_RETIRE_CONNECTION_ID ∧ F.u.retire_cid.sequence_number < 2 ^ 62)
  ∨ (F.type = NGX_QUIC_FT_PATH_RESPONSE ∧ F.u.path_response.data.length = 8)
  ∨ ((F.type = NGX_QUIC_FT_CONNECTION_CLOSE ∨ F.type = NGX_QUIC_FT_CONNECTION_CLOSE_APP)
      ∧ F.u.close.error_code < 2 ^ 62
      ∧ (F.u.close.app = false → F.u.close.frame_type < 2 ^ 62)
      ∧ F.u.close.reason.len < 2 ^ 62
      ∧ F.u.close.reason.data + F.u.close.reason.len ≤ mem.length)
  ∨ (F.type = NGX_QUIC_FT_NEW_CONNECTION_ID
      ∧ F.u.ncid.seqnum < 2 ^ 62 ∧ F.u.ncid.retire < 2 ^ 62
      ∧ 1 ≤ F.u.ncid.len ∧ F.u.ncid.len ≤ 20
      ∧ F.u.ncid.retire ≤ F.u.ncid.seqnum
      ∧ F.u.ncid.cid.length = 20 ∧ F.u.ncid.srt.length = 16)

instance (mem : List u_char) (F : ngx_quic_frame_t) : Decidable (fixed_field_frame mem F) := by
  unfold fixed_field_frame; infer_instance

/-- The parsed descriptor `g` (parsed from the memory region `buf`) carries the
wire type code that the builder chose for the fixed-field descriptor `F` and
every semantic field of `F`; `frame_type` only for the transport
CONNECTION_CLOSE (0x1c). -/
def fixed_fields_agree (mem : List u_char) (F : ngx_quic_frame_t) (buf : List u_char)
    (g : ngx_quic_frame_t) : Prop :=
  (F.type = NGX_QUIC_FT_STOP_SENDING →
      g.type = NGX_QUIC_FT_STOP_SENDING ∧ g.u.stop_sending = F.u.stop_sending)
  ∧ (F.type = NGX_QUIC_FT_MAX_DATA →
      g.type = NGX_QUIC_FT_MAX_DATA ∧ g.u.max_data = F.u.max_data)
  ∧ (F.type = NGX_QUIC_FT_MAX_STREAM_DATA →
      g.type = NGX_QUIC_FT_MAX_STREAM_DATA ∧ g.u.max_stream_data = F.u.max_stream_data)
  ∧ (F.type = NGX_QUIC_FT_MAX_STREAMS →
      g.type = (if F.u.max_streams.bidi then NGX_QUIC_FT_MAX_STREAMS
                else NGX_QUIC_FT_MAX_STREAMS2)
        ∧ g.u.max_streams = F.u.max_streams)
  ∧ (F.type = NGX_QUIC_FT_RETIRE_CONNECTION_ID →
      g.type = NGX_QUIC_FT_RETIRE_CONNECTION_ID ∧ g.u.retire_cid = F.u.retire_cid)
  ∧ (F.type = NGX_QUIC_FT_PATH_RESPONSE →
      g.type = NGX_QUIC_FT_PATH_RESPONSE
        ∧ g.u.path_response.data.take 8 = F.u.path_response.data)
  ∧ ((F.type = NGX_QUIC_FT_CONNECTION_CLOSE ∨ F.type = NGX_QUIC_FT_CONNECTION_CLOSE_APP) →
      g.type = (if F.u.close.app then NGX_QUIC_FT_CONNECTION_CLOSE_APP
                else NGX_QUIC_FT_CONNECTION_CLOSE)
        ∧ g.u.close.error_code = F.u.close.error_code
        ∧ (F.u.close.app = false → g.u.close.frame_type = F.u.close.frame_type)
        ∧ g.u.close.reason.len = F.u.close.reason.len
        ∧ mem_bytes buf g.u.close.reason.data g.u.close.reason.len
            = mem_bytes mem F.u.close.reason.data F.u.close.reason.len)
  ∧ (F.type = NGX_QUIC_FT_NEW_CONNECTION_ID →
      g.type = NGX_QUIC_FT_NEW_CONNECTION_ID
        ∧ g.u.ncid.seqnum = F.u.ncid.seqnum ∧ g.u.ncid.retire = F.u.ncid.retire
        ∧ g.u.ncid.len = F.u.ncid.len
        ∧ g.u.ncid.cid.take F.u.ncid.len = F.u.ncid.cid.take F.u.ncid.len
        ∧ g.u.ncid.srt.take 16 = F.u.ncid.srt)

/-- The descriptors of the round trip of payload frames: a CRYPTO descriptor, or
a STREAM descriptor whose type code has the LEN bit (0x02) set and whose `off`
flag equals the OFF bit (0x04) of the type code, with varint fields below 2^62
and a data chain, lying in `mem`, whose buffers total exactly the declared
length. -/
def payload_frame (mem : List u_char) (F : ngx_quic_frame_t) : Prop :=
  (F.type = NGX_QUIC_FT_CRYPTO
      ∧ F.u.crypto.offset < 2 ^ 62 ∧ F.u.crypto.length < 2 ^ 62
      ∧ chain_in_mem mem F.data ∧ chain_total F.data = F.u.crypto.length)
  ∨ ((NGX_QUIC_FT_STREAM0 ≤ F.type ∧ F.type ≤ NGX_QUIC_FT_STREAM7)
      ∧ F.u.stream.type = F.type
      ∧ F.u.stream.type &&& 0x02 ≠ 0
      ∧ F.u.stream.off = decide (F.u.stream.type &&& 0x04 ≠ 0)
      ∧ F.u.stream.stream_id < 2 ^ 62 ∧ F.u.stream.offset < 2 ^ 62
      ∧ F.u.stream.length < 2 ^ 62
      ∧ chain_in_mem mem F.data ∧ chain_total F.data = F.u.stream.length)

instance (mem : List u_char) (F : ngx_quic_frame_t) : Decidable (payload_frame mem F) := by
  unfold payload_frame; infer_instance

/-- The packet type admits the payload frame `F`: CRYPTO in a 1-RTT, Initial or
Handshake packet, STREAM in a 0-RTT or 1-RTT packet. -/
def payload_packet (flags : u_char) (F : ngx_quic_frame_t) : Prop :=
  (F.type = NGX_QUIC_FT_CRYPTO →
      packet_type_bit flags = 1 ∨ packet_type_bit flags = 8 ∨ packet_type_bit flags = 4)
  ∧ ((NGX_QUIC_FT_STREAM0 ≤ F.type ∧ F.type ≤ NGX_QUIC_FT_STREAM7) →
      packet_type_bit flags = 2 ∨ packet_type_bit flags = 1)

instance (flags : u_char) (F : ngx_quic_frame_t) : Decidable (payload_packet flags F) := by
  unfold payload_packet; infer_instance

/-- The parsed descriptor `g` and buffer `b` (parsed from the memory region `buf`)
carry what the builder serialised of the payload descriptor `F`: the type code,
stream_id, length, the offset (0 for a STREAM frame without the OFF bit, whose
offset is not written), `fin` as the FIN bit (0x01) of the type code, and a
payload slice equal to the concatenation of the chain buffers in order. -/
def payload_fields_agree (mem : List u_char) (F : ngx_quic_frame_t) (buf : List u_char)
    (g : ngx_quic_frame_t) (b : ngx_buf_t) : Prop :=
  (F.type = NGX_QUIC_FT_CRYPTO →
      g.type = NGX_QUIC_FT_CRYPTO
        ∧ g.u.crypto.offset = F.u.crypto.offset ∧ g.u.crypto.length = F.u.crypto.length
        ∧ b.last - b.pos = F.u.crypto.length
        ∧ mem_bytes buf b.pos (b.last - b.pos) = ngx_quic_copy_chain mem F.data)
  ∧ ((NGX_QUIC_FT_STREAM0 ≤ F.type ∧ F.type ≤ NGX_QUIC_FT_STREAM7) →
      g.type = F.u.stream.type
        ∧ g.u.stream.stream_id = F.u.stream.stream_id
        ∧ g.u.stream.length = F.u.stream.length
        ∧ g.u.stream.offset = (if F.u.stream.off then F.u.stream.offset else 0)
        ∧ g.u.stream.fin = decide (F.u.stream.type &&& 0x01 ≠ 0)
        ∧ b.last - b.pos = F.u.stream.length
        ∧ mem_bytes buf b.pos (b.last - b.pos) = ngx_quic_copy_chain mem F.data)

/-- The ACK descriptors of the round trip: type ACK, varint fields below 2^62 and a
chain whose bytes are the `range_count` gap/range pairs `pairs`, each below 2^62
and written by `ngx_quic_create_ack_range`, `ranges_length` bytes in all. -/
def ack_frame (mem : List u_char) (F : ngx_quic_frame_t) (pairs : List (Nat × Nat)) : Prop :=
  F.type = NGX_QUIC_FT_ACK
    ∧ F.u.ack.largest < 2 ^ 62 ∧ F.u.ack.delay < 2 ^ 62
    ∧ F.u.ack.range_count < 2 ^ 62 ∧ F.u.ack.first_range < 2 ^ 62
    ∧ pairs.length = F.u.ack.range_count
    ∧ (∀ gr ∈ pairs, gr.1 < 2 ^ 62 ∧ gr.2 < 2 ^ 62)
    ∧ ngx_quic_copy_chain mem F.data = ack_ranges_bytes pairs
    ∧ F.u.ack.ranges_length = (ack_ranges_bytes pairs).length
    ∧ F.u.ack.ranges_length < 2 ^ 62

instance (mem : List u_char) (F : ngx_quic_frame_t) (pairs : List (Nat × Nat)) :
    Decidable (ack_frame mem F pairs) := by
  unfold ack_frame; infer_instance

/-- The parsed descriptor `g` and buffer `b` carry the fields of the ACK descriptor
`F` and a ranges region equal to the bytes of its chain. -/
def ack_fields_agree (mem : List u_char) (F : ngx_quic_frame_t) (buf : List u_char)
    (g : ngx_quic_frame_t) (b : ngx_buf_t) : Prop :=
  F.type = NGX_QUIC_FT_ACK →
    g.type = NGX_QUIC_FT_ACK
      ∧ g.u.ack.largest = F.u.ack.largest ∧ g.u.ack.delay = F.u.ack.delay
      ∧ g.u.ack.range_count = F.u.ack.range_count
      ∧ g.u.ack.first_range = F.u.ack.first_range
      ∧ g.u.ack.ranges_length = F.u.ack.ranges_length
      ∧ b.last - b.pos = g.u.ack.ranges_length
      ∧ mem_bytes buf b.pos (b.last - b.pos) = ngx_quic_copy_chain mem F.data

/-- A NEW_CONNECTION_ID descriptor: sequence number 2, retire_prior_to 1, a
connection id of 8 bytes 07 and a token of 16 bytes 09. -/
def example_new_connection_id : ngx_quic_frame_t :=
  { ngx_quic_frame_zero with
    type := NGX_QUIC_FT_NEW_CONNECTION_ID
    u.ncid := { seqnum := 2, retire := 1, len := 8,
                cid := List.replicate 20 7, srt := List.replicate 16 9 } }

/-- A CRYPTO descriptor, offset 5 and length 3, whose chain has two buffers: the
bytes 0..2 and the byte 2..3 of the memory region it is used with. -/
def example_crypto : ngx_quic_frame_t :=
  { ngx_quic_frame_zero with
    type := NGX_QUIC_FT_CRYPTO
    data := [{ pos := 0, last := 2 }, { pos := 2, last := 3 }]
    u.crypto := { offset := 5, length := 3 } }

/-- A STREAM descriptor of type 0x0a (LEN set, OFF and FIN clear) with an empty
payload, whose `off` flag is clear like the OFF bit, but whose `fin` flag is set
and whose offset field is 7. -/
def example_stream_fin : ngx_quic_frame_t :=
  { ngx_quic_frame_zero with
    type := 0x0A
    u.stream := { type := 0x0A, stream_id := 4, offset := 7, length := 0,
                  off := false, len := true, fin := true } }

/-- A HANDSHAKE_DONE descriptor. -/
def example_handshake_done : ngx_quic_frame_t :=
  { ngx_quic_frame_zero with type := NGX_QUIC_FT_HANDSHAKE_DONE }

/-- A PING descriptor. -/
def example_ping : ngx_quic_frame_t :=
  { ngx_quic_frame_zero with type := NGX_QUIC_FT_PING }

/-- An ACK descriptor: largest 10, delay 25, one range pair (gap 2, range 0) held
in the bytes 0..2 of the memory region it is used with. -/
def example_ack : ngx_quic_frame_t :=
  { ngx_quic_frame_zero with
    type := NGX_QUIC_FT_ACK
    data := [{ pos := 0, last := 2 }]
    u.ack := { largest := 10, delay := 25, range_count := 1, first_range := 0,
               ect0 := 0, ect1 := 0, ce := 0, ranges_length := 2 } }

/-! ## Packet header parser -/

/-- Modelled from the spec: `NGX_QUIC_PKT_FIXED_BIT` (missing header), the fixed
bit 0x40 of the first byte of a packet. -/
def NGX_QUIC_PKT_FIXED_BIT : Nat := 0x40

/-- Modelled from the spec: `NGX_QUIC_MIN_INITIAL_SIZE` (missing header), the
1200-byte minimum of a datagram that carries an Initial packet. -/
def NGX_QUIC_MIN_INITIAL_SIZE : Nat := 1200

/-- Modelled from the spec: `NGX_QUIC_SERVER_CID_LEN` (missing header), the fixed
DCID length of short headers, an ambient configuration constant; 20 is the value
nginx configures, and no statement below depends on it. -/
def NGX_QUIC_SERVER_CID_LEN : Nat := 20

/-- The macro `NGX_QUIC_VERSION(c)`. -/
def NGX_QUIC_VERSION (c : Nat) : Nat := 0xff000000 + c

/-- The table `ngx_quic_versions` (build with `NGX_QUIC_DRAFT_VERSION >= 29`). -/
def ngx_quic_versions : List Nat :=
  [NGX_QUIC_VERSION 29, NGX_QUIC_VERSION 30, NGX_QUIC_VERSION 31, NGX_QUIC_VERSION 32,
   0x00000001]

/-- The macro `ngx_quic_parse_uint32(p)` on the four bytes at `p`. -/
def ngx_quic_parse_uint32 (b0 b1 b2 b3 : u_char) : Nat :=
  (b0.val <<< 24) ||| (b1.val <<< 16) ||| (b2.val <<< 8) ||| b3.val

/-- The function `ngx_quic_read_uint32(pos, end, value)`. -/
def ngx_quic_read_uint32 (buf : List u_char) (pos end_ : Nat) : Rd (Nat × Nat) :=
  if size_t_diff end_ pos < 4 then .null
  else
    match buf[pos]?, buf[pos + 1]?, buf[pos + 2]?, buf[pos + 3]? with
    | some b0, some b1, some b2, some b3 => .ok (pos + 4, ngx_quic_parse_uint32 b0 b1 b2 b3)
    | _, _, _, _ => .fault

/-- One guarded read of the header parsers:
`p = reader(...); if (p == NULL) return NGX_ERROR;` followed by the rest `k`. -/
def ngx_quic_parse_header_step {α : Type} (r : Rd (Nat × α)) (pkt : ngx_quic_header_t)
    (k : Nat → α → Exec (Int × ngx_quic_header_t)) : Exec (Int × ngx_quic_header_t) :=
  match r with
  | .ok (p, a) => k p a
  | .null => .done (NGX_ERROR, pkt)
  | .fault => .fault

/-- The function `ngx_quic_parse_short_header(pkt, dcid_len)`: the return value
and the descriptor `*pkt`. -/
def ngx_quic_parse_short_header (pkt : ngx_quic_header_t) (dcid_len : Nat) :
    Exec (Int × ngx_quic_header_t) :=
  let p := pkt.raw.pos
  let end_ := pkt.data + pkt.len
  if pkt.flags.val &&& NGX_QUIC_PKT_FIXED_BIT = 0 then .done (NGX_ERROR, pkt)
  else
    let pkt := { pkt with dcid.len := dcid_len }
    ngx_quic_parse_header_step (ngx_quic_read_bytes p end_ dcid_len) pkt fun p out =>
    let pkt := { pkt with dcid.data := out }
    let pkt := { pkt with raw.pos := p }
    .done (NGX_OK, pkt)

/-- The function `ngx_quic_parse_long_header(pkt)`: the return value and the
descriptor `*pkt`. -/
def ngx_quic_parse_long_header (buf : List u_char) (pkt : ngx_quic_header_t) :
    Exec (Int × ngx_quic_header_t) :=
  let p := pkt.raw.pos
  let end_ := pkt.data + pkt.len
  ngx_quic_parse_header_step (ngx_quic_read_uint32 buf p end_) pkt fun p version =>
  let pkt := { pkt with version := version }
  if pkt.flags.val &&& NGX_QUIC_PKT_FIXED_BIT = 0 then .done (NGX_ERROR, pkt)
  else
    ngx_quic_parse_header_step (ngx_quic_read_uint8 buf p end_) pkt fun p idlen =>
    if idlen > NGX_QUIC_CID_LEN_MAX then .done (NGX_ERROR, pkt)
    else
      let pkt := { pkt with dcid.len := idlen }
      ngx_quic_parse_header_step (ngx_quic_read_bytes p end_ idlen) pkt fun p out =>
      let pkt := { pkt with dcid.data := out }
      ngx_quic_parse_header_step (ngx_quic_read_uint8 buf p end_) pkt fun p idlen =>
      if idlen > NGX_QUIC_CID_LEN_MAX then .done (NGX_ERROR, pkt)
      else
        let pkt := { pkt with scid.len := idlen }
        ngx_quic_parse_header_step (ngx_quic_read_bytes p end_ idlen) pkt fun p out =>
        let pkt := { pkt with scid.data := out }
        let pkt := { pkt with raw.pos := p }
        .done (NGX_OK, pkt)

/-- The loop of `ngx_quic_supported_version` over the entries of the table that
are left. -/
def ngx_quic_supported_version_loop (version : Nat) : List Nat → Nat
  | [] => 0
  | v :: rest => if v = version then 1 else ngx_quic_supported_version_loop version rest

/-- The function `ngx_quic_supported_version(version)`: 1 or 0. -/
def ngx_quic_supported_version (version : Nat) : Nat :=
  ngx_quic_supported_version_loop version ngx_quic_versions

/-- The end of `ngx_quic_parse_long_header_v1`, from the parse of the length
field on; `p` is the cursor and `end_` is `pkt->raw->last`. -/
def ngx_quic_parse_long_header_v1_length (buf : List u_char) (pkt : ngx_quic_header_t)
    (p end_ : Nat) : Exec (Int × ngx_quic_header_t) :=
  ngx_quic_parse_header_step (ngx_quic_parse_int buf p end_) pkt fun p varint =>
  if varint > size_t_diff (pkt.data + pkt.len) p then .done (NGX_ERROR, pkt)
  else
    let pkt := { pkt with raw.pos := p }
    let pkt := { pkt with len := size_t_diff (p + varint) pkt.data }
    .done (NGX_OK, pkt)

/-- The function `ngx_quic_parse_long_header_v1(pkt)`: the return value and the
descriptor `*pkt`. -/
def ngx_quic_parse_long_header_v1 (buf : List u_char) (pkt : ngx_quic_header_t) :
    Exec (Int × ngx_quic_header_t) :=
  let p := pkt.raw.pos
  let end_ := pkt.raw.last
  if ngx_quic_pkt_in pkt.flags then
    if pkt.len < NGX_QUIC_MIN_INITIAL_SIZE then .done (NGX_DECLINED, pkt)
    else
      ngx_quic_parse_header_step (ngx_quic_parse_int buf p end_) pkt fun p varint =>
      let pkt := { pkt with token.len := varint }
      ngx_quic_parse_header_step (ngx_quic_read_bytes p end_ pkt.token.len) pkt fun p out =>
      let pkt := { pkt with token.data := out }
      let pkt := { pkt with level := .ssl_encryption_initial }
      ngx_quic_parse_long_header_v1_length buf pkt p end_
  else if ngx_quic_pkt_zrtt pkt.flags then
    let pkt := { pkt with level := .ssl_encryption_early_data }
    ngx_quic_parse_long_header_v1_length buf pkt p end_
  else if ngx_quic_pkt_hs pkt.flags then
    let pkt := { pkt with level := .ssl_encryption_handshake }
    ngx_quic_parse_long_header_v1_length buf pkt p end_
  else .done (NGX_DECLINED, pkt)

/-- The function `ngx_quic_parse_packet(pkt)`: the return value and the
descriptor `*pkt`; `buf` is the memory that holds the datagram. -/
def ngx_quic_parse_packet (buf : List u_char) (pkt : ngx_quic_header_t) :
    Exec (Int × ngx_quic_header_t) :=
  if ¬ ngx_quic_long_pkt pkt.flags then
    let pkt := { pkt with level := .ssl_encryption_application }
    match ngx_quic_parse_short_header pkt NGX_QUIC_SERVER_CID_LEN with
    | .fault => .fault
    | .done (rc, pkt) =>
      if rc ≠ NGX_OK then .done (NGX_DECLINED, pkt) else .done (NGX_OK, pkt)
  else
    match ngx_quic_parse_long_header buf pkt with
    | .fault => .fault
    | .done (rc, pkt) =>
      if rc ≠ NGX_OK then .done (NGX_DECLINED, pkt)
      else if ngx_quic_supported_version pkt.version = 0 then .done (NGX_ABORT, pkt)
      else
        match ngx_quic_parse_long_header_v1 buf pkt with
        | .fault => .fault
        | .done (rc, pkt) =>
          if rc ≠ NGX_OK then .done (NGX_DECLINED, pkt) else .done (NGX_OK, pkt)

/-! ## Packet header builder -/

/-- The macro `ngx_quic_write_uint16(p, s)`: the two bytes written. -/
def ngx_quic_write_uint16 (s : Nat) : List u_char :=
  [to_u_char (s >>> 8), to_u_char s]

/-- The macro `ngx_quic_write_uint24(p, s)`: the three bytes written. -/
def ngx_quic_write_uint24 (s : Nat) : List u_char :=
  [to_u_char (s >>> 16), to_u_char (s >>> 8), to_u_char s]

/-- The macro `ngx_quic_write_uint32(p, s)`: the four bytes written. -/
def ngx_quic_write_uint32 (s : Nat) : List u_char :=
  [to_u_char (s >>> 24), to_u_char (s >>> 16), to_u_char (s >>> 8), to_u_char s]

/-- The statement `switch (pkt->num_len)` of the header builders: the bytes of
the truncated packet number written at `p`; no case matches another value. -/
def ngx_quic_create_header_trunc (pkt : ngx_quic_header_t) : List u_char :=
  match pkt.num_len with
  | 1 => [to_u_char pkt.trunc]
  | 2 => ngx_quic_write_uint16 pkt.trunc
  | 3 => ngx_quic_write_uint24 pkt.trunc
  | 4 => ngx_quic_write_uint32 pkt.trunc
  | _ => []

/-- What a header builder leaves behind: the return value, the bytes written at
`out`, and the pointer stored in `*pnp` as an offset from `out` (nothing is
stored when `out` is NULL). -/
structure ngx_quic_create_header_ret where
  rc : Nat
  out : List u_char
  pnp : Option Nat
deriving DecidableEq, Repr

/-- The function `ngx_quic_create_long_header(pkt, out, pkt_len, pnp)`; `mem` is
the memory that `pkt->dcid.data` and `pkt->scid.data` point into. -/
def ngx_quic_create_long_header (mem : List u_char) (pkt : ngx_quic_header_t)
    (out : out_ptr) (pkt_len : Nat) : ngx_quic_create_header_ret :=
  match out with
  | .NULL =>
    { rc := size_t_sum (5 + 2 + pkt.dcid.len + pkt.scid.len
              + ngx_quic_varint_len (size_t_sum (pkt_len + pkt.num_len)) + pkt.num_len
              + (if pkt.level = .ssl_encryption_initial then 1 else 0)),
      out := [], pnp := none }
  | .buffer =>
    let hdr := [pkt.flags]
      ++ ngx_quic_write_uint32 pkt.version
      ++ [to_u_char pkt.dcid.len]
      ++ mem_bytes mem pkt.dcid.data pkt.dcid.len
      ++ [to_u_char pkt.scid.len]
      ++ mem_bytes mem pkt.scid.data pkt.scid.len
      ++ (if pkt.level = .ssl_encryption_initial then ngx_quic_build_int 0 else [])
      ++ ngx_quic_build_int (size_t_sum (pkt_len + pkt.num_len))
    let bytes := hdr ++ ngx_quic_create_header_trunc pkt
    { rc := bytes.length, out := bytes, pnp := some hdr.length }

/-- The function `ngx_quic_create_short_header(pkt, out, pkt_len, pnp)`; `mem` is
the memory that `pkt->dcid.data` points into. -/
def ngx_quic_create_short_header (mem : List u_char) (pkt : ngx_quic_header_t)
    (out : out_ptr) (_pkt_len : Nat) : ngx_quic_create_header_ret :=
  match out with
  | .NULL =>
    { rc := size_t_sum (1 + pkt.dcid.len + pkt.num_len), out := [], pnp := none }
  | .buffer =>
    let hdr := [pkt.flags] ++ mem_bytes mem pkt.dcid.data pkt.dcid.len
    let bytes := hdr ++ ngx_quic_create_header_trunc pkt
    { rc := bytes.length, out := bytes, pnp := some hdr.length }

/-- The function `ngx_quic_create_header(pkt, out, pkt_len, pnp)`. -/
def ngx_quic_create_header (mem : List u_char) (pkt : ngx_quic_header_t)
    (out : out_ptr) (pkt_len : Nat) : ngx_quic_create_header_ret :=
  if ngx_quic_short_pkt pkt.flags then ngx_quic_create_short_header mem pkt out pkt_len
  else ngx_quic_create_long_header mem pkt out pkt_len

/-! ## Notions of the specification used for the claims on builders, transport
parameters and packet headers -/

/-- The descriptors of the claim on implicit-length STREAM frames: a STREAM
descriptor whose type code has the LEN bit (0x02) clear and whose `off` flag
equals the OFF bit (0x04) of the type code, with varint fields below 2^62 and a
data chain, lying in `mem`, whose buffers total exactly the declared length. -/
def implicit_length_stream (mem : List u_char) (F : ngx_quic_frame_t) : Prop :=
  (NGX_QUIC_FT_STREAM0 ≤ F.type ∧ F.type ≤ NGX_QUIC_FT_STREAM7)
    ∧ F.u.stream.type = F.type
    ∧ F.u.stream.type &&& 0x02 = 0
    ∧ F.u.stream.off = decide (F.u.stream.type &&& 0x04 ≠ 0)
    ∧ F.u.stream.stream_id < 2 ^ 62 ∧ F.u.stream.offset < 2 ^ 62
    ∧ F.u.stream.length < 2 ^ 62
    ∧ chain_in_mem mem F.data ∧ chain_total F.data = F.u.stream.length

instance (mem : List u_char) (F : ngx_quic_frame_t) :
    Decidable (implicit_length_stream mem F) := by
  unfold implicit_length_stream; infer_instance

/-- What the parser yields for the bytes built from an implicit-length STREAM
descriptor `F`: the type code, stream_id, offset and FIN bit of `F`, but a length
that counts the length field the builder writes all the same, and a payload slice
that starts with the bytes of that field. -/
def implicit_fields_agree (mem : List u_char) (F : ngx_quic_frame_t) (buf : List u_char)
    (g : ngx_quic_frame_t) (b : ngx_buf_t) : Prop :=
  g.type = F.type
    ∧ g.u.stream.stream_id = F.u.stream.stream_id
    ∧ g.u.stream.offset = (if F.u.stream.off then F.u.stream.offset else 0)
    ∧ g.u.stream.fin = decide (F.u.stream.type &&& 0x01 ≠ 0)
    ∧ g.u.stream.len = false
    ∧ g.u.stream.length = ngx_quic_varint_len F.u.stream.length + F.u.stream.length
    ∧ b.last - b.pos = g.u.stream.length
    ∧ mem_bytes buf b.pos (b.last - b.pos)
        = ngx_quic_build_int F.u.stream.length ++ ngx_quic_copy_chain mem F.data

/-- A STREAM descriptor of type 0x08 (OFF, LEN and FIN clear) for stream 4 with the
three payload bytes of the memory `[0x68, 0x69, 0x21]`. -/
def example_stream_implicit : ngx_quic_frame_t :=
  { ngx_quic_frame_zero with
    type := 0x08
    data := [{ pos := 0, last := 3 }]
    u.stream := { type := 0x08, stream_id := 4, offset := 0, length := 3,
                  off := false, len := false, fin := false } }

/-- The descriptors of the claim on two-pass sizing of frames: a descriptor of a
type that `ngx_quic_create_frame` serialises, with varint fields below 2^62,
arrays of their declared sizes, byte slices (token, reason) lying in `mem`, and a
chain, lying in `mem`, whose buffers total the declared length of the payload
(`ranges_length` for ACK, `length` for CRYPTO and STREAM). -/
def sized_frame (mem : List u_char) (F : ngx_quic_frame_t) : Prop :=
  (F.type = NGX_QUIC_FT_ACK
      ∧ F.u.ack.largest < 2 ^ 62 ∧ F.u.ack.delay < 2 ^ 62 ∧ F.u.ack.range_count < 2 ^ 62
      ∧ F.u.ack.first_range < 2 ^ 62 ∧ F.u.ack.ranges_length < 2 ^ 62
      ∧ chain_in_mem mem F.data ∧ chain_total F.data = F.u.ack.ranges_length)
  ∨ (F.type = NGX_QUIC_FT_STOP_SENDING
      ∧ F.u.stop_sending.id < 2 ^ 62 ∧ F.u.stop_sending.error_code < 2 ^ 62)
  ∨ (F.type = NGX_QUIC_FT_CRYPTO
      ∧ F.u.crypto.offset < 2 ^ 62 ∧ F.u.crypto.length < 2 ^ 62
      ∧ chain_in_mem mem F.data ∧ chain_total F.data = F.u.crypto.length)
  ∨ F.type = NGX_QUIC_FT_HANDSHAKE_DONE
  ∨ (F.type = NGX_QUIC_FT_NEW_TOKEN
      ∧ F.u.token.length < 2 ^ 62 ∧ F.u.token.data + F.u.token.length ≤ mem.length)
  ∨ ((NGX_QUIC_FT_STREAM0 ≤ F.type ∧ F.type ≤ NGX_QUIC_FT_STREAM7)
      ∧ F.u.stream.type < 2 ^ 62 ∧ F.u.stream.stream_id < 2 ^ 62
      ∧ F.u.stream.offset < 2 ^ 62 ∧ F.u.stream.length < 2 ^ 62
      ∧ chain_in_mem mem F.data ∧ chain_total F.data = F.u.stream.length)
  ∨ ((F.type = NGX_QUIC_FT_CONNECTION_CLOSE ∨ F.type = NGX_QUIC_FT_CONNECTION_CLOSE_APP)
      ∧ F.u.close.error_code < 2 ^ 62 ∧ F.u.close.frame_type < 2 ^ 62
      ∧ F.u.close.reason.len < 2 ^ 62
      ∧ F.u.close.reason.data + F.u.close.reason.len ≤ mem.length)
  ∨ (F.type = NGX_QUIC_FT_MAX_STREAMS ∧ F.u.max_streams.limit < 2 ^ 62)
  ∨ (F.type = NGX_QUIC_FT_MAX_STREAM_DATA
      ∧ F.u.max_stream_data.id < 2 ^ 62 ∧ F.u.max_stream_data.limit < 2 ^ 62)
  ∨ (F.type = NGX_QUIC_FT_MAX_DATA ∧ F.u.max_data.max_data < 2 ^ 62)
  ∨ (F.type = NGX_QUIC_FT_PATH_RESPONSE ∧ F.u.path_response.data.length = 8)
  ∨ (F.type = NGX_QUIC_FT_NEW_CONNECTION_ID
      ∧ F.u.ncid.seqnum < 2 ^ 62 ∧ F.u.ncid.retire < 2 ^ 62
      ∧ F.u.ncid.len ≤ NGX_QUIC_CID_LEN_MAX
      ∧ F.u.ncid.cid.length = NGX_QUIC_CID_LEN_MAX
      ∧ F.u.ncid.srt.length = NGX_QUIC_SR_TOKEN_LEN)
  ∨ (F.type = NGX_QUIC_FT_RETIRE_CONNECTION_ID ∧ F.u.retire_cid.sequence_number < 2 ^ 62)

instance (mem : List u_char) (F : ngx_quic_frame_t) : Decidable (sized_frame mem F) := by
  unfold sized_frame; infer_instance

/-- A CRYPTO descriptor that declares 5 payload bytes and has an empty data chain. -/
def example_crypto_no_chain : ngx_quic_frame_t :=
  { ngx_quic_frame_zero with
    type := NGX_QUIC_FT_CRYPTO
    data := []
    u.crypto := { offset := 0, length := 5 } }

/-- A descriptor of type PADDING. -/
def example_padding : ngx_quic_frame_t :=
  { ngx_quic_frame_zero with type := NGX_QUIC_FT_PADDING }

/-- The descriptor of a long-header Initial packet to build: flags 0xc3, version 1,
a DCID of the 8 bytes at offset 0 of the memory, an empty SCID, and the 4-byte
truncated packet number 1. -/
def example_initial_header : ngx_quic_header_t :=
  { ngx_quic_header_zero 0xC3 with
    version := 1
    level := .ssl_encryption_initial
    dcid := { len := 8, data := 0 }
    scid := { len := 0, data := 8 }
    num_len := 4
    trunc := 1 }

/-- The ids of the transport parameters that a client must not send:
original_dcid (0x00), stateless_reset_token (0x02), preferred_address (0x0d) and
retry_scid (0x10). -/
def tp_forbidden (id : Nat) : Prop :=
  id = 0x00 ∨ id = 0x02 ∨ id = 0x0d ∨ id = 0x10

instance (id : Nat) : Decidable (tp_forbidden id) := by
  unfold tp_forbidden; infer_instance

/-- The end of a run of `n` well-formed parameters that starts at `p` in the
buffer `[.., end_)`: each parameter has an id varint that is not a forbidden id, a
length varint, and a value of the declared length inside the buffer.  The result
is `none` when the bytes at `p` are not such a run. -/
def tp_well_formed (buf : List u_char) (end_ : Nat) : Nat → Nat → Option Nat
  | 0, p => some p
  | n + 1, p =>
    match ngx_quic_parse_int buf p end_ with
    | .ok (p1, id) =>
      if tp_forbidden id then none
      else
        match ngx_quic_parse_int buf p1 end_ with
        | .ok (p2, len) =>
          if p2 + len ≤ end_ then tp_well_formed buf end_ n (p2 + len) else none
        | _ => none
    | _ => none

/-- A transport parameter record with every field zero or empty; used to write
down concrete runs of the parser. -/
def ngx_quic_tp_zero : ngx_quic_tp_t :=
  { max_idle_timeout := 0, max_udp_payload_size := 0, initial_max_data := 0,
    initial_max_stream_data_bidi_local := 0, initial_max_stream_data_bidi_remote := 0,
    initial_max_stream_data_uni := 0, initial_max_streams_bidi := 0,
    initial_max_streams_uni := 0, ack_delay_exponent := 0, max_ack_delay := 0,
    disable_active_migration := 0, active_connection_id_limit := 0,
    original_dcid := { len := 0, data := 0 }, initial_scid := { len := 0, data := 0 },
    retry_scid := { len := 0, data := 0 }, sr_token := List.replicate 16 0 }

/-- The first bytes of a datagram with a long-header Initial packet of version 1:
flags 0xc3, a DCID of 8 zero bytes, an empty SCID, and an empty token. -/
def example_initial_bytes : List u_char :=
  [0xC3, 0x00, 0x00, 0x00, 0x01, 0x08, 0, 0, 0, 0, 0, 0, 0, 0, 0x00, 0x00]

/-- The packet descriptor that the caller hands to `ngx_quic_parse_packet` for a
packet at offset 0 of the memory with `len` bytes available: the flags byte is
read, `raw->pos` is behind it, and `raw->last` is the end of the bytes present. -/
def example_long_pkt (flags : u_char) (len last : Nat) : ngx_quic_header_t :=
  { ngx_quic_header_zero flags with len := len, raw := { pos := 1, last := last } }

/-- The macro `NGX_QUIC_LONG_DCID_LEN_OFFSET`. -/
def NGX_QUIC_LONG_DCID_LEN_OFFSET : Nat := 5

/-- The macro `NGX_QUIC_LONG_DCID_OFFSET`. -/
def NGX_QUIC_LONG_DCID_OFFSET : Nat := 6

/-- The macro `NGX_QUIC_SHORT_DCID_OFFSET`. -/
def NGX_QUIC_SHORT_DCID_OFFSET : Nat := 1

/-- The end of `ngx_quic_get_packet_dcid`, from the test `n < len + offset` on;
`data` is the offset of the datagram in the memory. -/
def ngx_quic_get_packet_dcid_tail (data n len offset : Nat) (dcid : ngx_str_t) :
    Exec (Int × ngx_str_t) :=
  if n < len + offset then .done (NGX_ERROR, dcid)
  else
    let dcid := { dcid with len := len }
    let dcid := { dcid with data := data + offset }
    .done (NGX_OK, dcid)

/-- The function `ngx_quic_get_packet_dcid(log, data, n, dcid)`: the return value
and `*dcid`; `data` is the offset of the datagram in the memory `buf`. -/
def ngx_quic_get_packet_dcid (buf : List u_char) (data n : Nat) (dcid : ngx_str_t) :
    Exec (Int × ngx_str_t) :=
  if n = 0 then .done (NGX_ERROR, dcid)
  else
    match buf[data]? with
    | none => .fault
    | some flags =>
      if ngx_quic_long_pkt flags then
        if n < NGX_QUIC_LONG_DCID_LEN_OFFSET + 1 then .done (NGX_ERROR, dcid)
        else
          match buf[data + NGX_QUIC_LONG_DCID_LEN_OFFSET]? with
          | none => .fault
          | some l => ngx_quic_get_packet_dcid_tail data n l.val NGX_QUIC_LONG_DCID_OFFSET dcid
      else
        ngx_quic_get_packet_dcid_tail data n NGX_QUIC_SERVER_CID_LEN
          NGX_QUIC_SHORT_DCID_OFFSET dcid

/-- What `ngx_quic_create_retry_itag` leaves behind: the return value, the bytes
written at `out`, and the pointer stored in `*start` as an offset from `out`. -/
structure ngx_quic_create_retry_itag_ret where
  rc : Nat
  out : List u_char
  start : Nat
deriving DecidableEq, Repr

/-- The function `ngx_quic_create_retry_itag(pkt, out, start)`; `mem` is the memory
that the slices of the descriptor point into. -/
def ngx_quic_create_retry_itag (mem : List u_char) (pkt : ngx_quic_header_t) :
    ngx_quic_create_retry_itag_ret :=
  let hd := [to_u_char pkt.odcid.len] ++ mem_bytes mem pkt.odcid.data pkt.odcid.len
  let bytes := hd
    ++ [(0xff : u_char)]
    ++ ngx_quic_write_uint32 pkt.version
    ++ [to_u_char pkt.dcid.len]
    ++ mem_bytes mem pkt.dcid.data pkt.dcid.len
    ++ [to_u_char pkt.scid.len]
    ++ mem_bytes mem pkt.scid.data pkt.scid.len
    ++ mem_bytes mem pkt.token.data pkt.token.len
  { rc := bytes.length, out := bytes, start := hd.length }

/-- The macro `ngx_quic_tp_len(id, value)` of `ngx_quic_create_transport_params`. -/
def ngx_quic_tp_len (id value : Nat) : Nat :=
  ngx_quic_varint_len id + ngx_quic_varint_len value
    + ngx_quic_varint_len (ngx_quic_varint_len value)

/-- The macro `ngx_quic_tp_vint(id, value)`: the bytes written at `p`. -/
def ngx_quic_tp_vint (id value : Nat) : List u_char :=
  ngx_quic_build_int id ++ ngx_quic_build_int (ngx_quic_varint_len value)
    ++ ngx_quic_build_int value

/-- The macro `ngx_quic_tp_strlen(id, value)`. -/
def ngx_quic_tp_strlen (id : Nat) (value : ngx_str_t) : Nat :=
  ngx_quic_varint_len id + ngx_quic_varint_len value.len + value.len

/-- The macro `ngx_quic_tp_str(id, value)`: the bytes written at `p`. -/
def ngx_quic_tp_str (mem : List u_char) (id : Nat) (value : ngx_str_t) : List u_char :=
  ngx_quic_build_int id ++ ngx_quic_build_int value.len
    ++ mem_bytes mem value.data value.len

/-- What `ngx_quic_create_transport_params` leaves behind: the return value, the
bytes written at `pos`, and the value stored in `*clen` when `clen` is not NULL. -/
structure ngx_quic_create_transport_params_ret where
  rc : Int
  out : List u_char
  clen : Nat
deriving DecidableEq, Repr

/-- The function `ngx_quic_create_transport_params(pos, end, tp, clen)` (build with
`NGX_QUIC_DRAFT_VERSION >= 28`); the argument `end` is not used by the source.
`mem` is the memory that the slices of the record point into. -/
def ngx_quic_create_transport_params (mem : List u_char) (pos : out_ptr)
    (tp : ngx_quic_tp_t) : ngx_quic_create_transport_params_ret :=
  let len := size_t_sum
    (ngx_quic_tp_len NGX_QUIC_TP_INITIAL_MAX_DATA tp.initial_max_data
      + ngx_quic_tp_len NGX_QUIC_TP_INITIAL_MAX_STREAMS_UNI tp.initial_max_streams_uni
      + ngx_quic_tp_len NGX_QUIC_TP_INITIAL_MAX_STREAMS_BIDI tp.initial_max_streams_bidi
      + ngx_quic_tp_len NGX_QUIC_TP_INITIAL_MAX_STREAM_DATA_BIDI_LOCAL
          tp.initial_max_stream_data_bidi_local
      + ngx_quic_tp_len NGX_QUIC_TP_INITIAL_MAX_STREAM_DATA_BIDI_REMOTE
          tp.initial_max_stream_data_bidi_remote
      + ngx_quic_tp_len NGX_QUIC_TP_INITIAL_MAX_STREAM_DATA_UNI tp.initial_max_stream_data_uni
      + ngx_quic_tp_len NGX_QUIC_TP_MAX_IDLE_TIMEOUT tp.max_idle_timeout)
  let clen := len
  let len :=
    if tp.disable_active_migration ≠ 0 then
      size_t_sum (len + ngx_quic_varint_len NGX_QUIC_TP_DISABLE_ACTIVE_MIGRATION
        + ngx_quic_varint_len 0)
    else len
  let len := size_t_sum
    (len + ngx_quic_tp_len NGX_QUIC_TP_ACTIVE_CONNECTION_ID_LIMIT tp.active_connection_id_limit)
  let len := size_t_sum (len + ngx_quic_tp_strlen NGX_QUIC_TP_ORIGINAL_DCID tp.original_dcid)
  let len := size_t_sum (len + ngx_quic_tp_strlen NGX_QUIC_TP_INITIAL_SCID tp.initial_scid)
  let len :=
    if tp.retry_scid.len ≠ 0 then
      size_t_sum (len + ngx_quic_tp_strlen NGX_QUIC_TP_RETRY_SCID tp.retry_scid)
    else len
  let len := size_t_sum (len + ngx_quic_varint_len NGX_QUIC_TP_SR_TOKEN
    + ngx_quic_varint_len NGX_QUIC_SR_TOKEN_LEN + NGX_QUIC_SR_TOKEN_LEN)
  match pos with
  | .NULL => { rc := to_ssize_t len, out := [], clen := clen }
  | .buffer =>
    let bytes := ngx_quic_tp_vint NGX_QUIC_TP_INITIAL_MAX_DATA tp.initial_max_data
      ++ ngx_quic_tp_vint NGX_QUIC_TP_INITIAL_MAX_STREAMS_UNI tp.initial_max_streams_uni
      ++ ngx_quic_tp_vint NGX_QUIC_TP_INITIAL_MAX_STREAMS_BIDI tp.initial_max_streams_bidi
      ++ ngx_quic_tp_vint NGX_QUIC_TP_INITIAL_MAX_STREAM_DATA_BIDI_LOCAL
          tp.initial_max_stream_data_bidi_local
      ++ ngx_quic_tp_vint NGX_QUIC_TP_INITIAL_MAX_STREAM_DATA_BIDI_REMOTE
          tp.initial_max_stream_data_bidi_remote
      ++ ngx_quic_tp_vint NGX_QUIC_TP_INITIAL_MAX_STREAM_DATA_UNI
          tp.initial_max_stream_data_uni
      ++ ngx_quic_tp_vint NGX_QUIC_TP_MAX_IDLE_TIMEOUT tp.max_idle_timeout
      ++ (if tp.disable_active_migration ≠ 0 then
            ngx_quic_build_int NGX_QUIC_TP_DISABLE_ACTIVE_MIGRATION ++ ngx_quic_build_int 0
          else [])
      ++ ngx_quic_tp_vint NGX_QUIC_TP_ACTIVE_CONNECTION_ID_LIMIT
          tp.active_connection_id_limit
      ++ ngx_quic_tp_str mem NGX_QUIC_TP_ORIGINAL_DCID tp.original_dcid
      ++ ngx_quic_tp_str mem NGX_QUIC_TP_INITIAL_SCID tp.initial_scid
      ++ (if tp.retry_scid.len ≠ 0 then
            ngx_quic_tp_str mem NGX_QUIC_TP_RETRY_SCID tp.retry_scid
          else [])
      ++ ngx_quic_build_int NGX_QUIC_TP_SR_TOKEN
      ++ ngx_quic_build_int NGX_QUIC_SR_TOKEN_LEN
      ++ tp.sr_token.take NGX_QUIC_SR_TOKEN_LEN
    { rc := to_ssize_t bytes.length, out := bytes, clen := clen }

/-! ## Notions of the specification used for the claims on connection ids and
scenarios -/

/-- The transport parameter record of scenario S6: `initial_max_data = 0x100000`,
`initial_max_streams_bidi = 3`, every other field zero or empty. -/
def example_s6_record : ngx_quic_tp_t :=
  { ngx_quic_tp_zero with initial_max_data := 0x100000, initial_max_streams_bidi := 3 }

/-- The 9 bytes of scenario S6. -/
def example_s6_bytes : List u_char :=
  [0x04, 0x04, 0x80, 0x10, 0x00, 0x00, 0x08, 0x01, 0x03]

/-- The 7 bytes of scenario S3. -/
def example_s3_bytes : List u_char := [0x02, 0x0a, 0x19, 0x02, 0x00, 0x02, 0x00]

/-- The bytes of scenario S3 with the range count 1 instead of 2. -/
def example_s3_one_range : List u_char := [0x02, 0x0a, 0x19, 0x01, 0x00, 0x02, 0x00]

/-- The header of the Initial packet of scenario S2, up to and including the
4-byte packet number: flags 0xc3, version 1, a DCID of 8 zero bytes, an empty
SCID, an empty token, the length 2824 and the packet number 1. -/
def example_s2_bytes : List u_char :=
  [0xC3, 0x00, 0x00, 0x00, 0x01, 0x08, 0, 0, 0, 0, 0, 0, 0, 0, 0x00, 0x00,
   0x4B, 0x08, 0x00, 0x00, 0x00, 0x01]

/-- The descriptor of a Retry packet to build a pseudo-packet for: flags 0xf0,
version 1, ODCID of 2 bytes, DCID of 1 byte, empty SCID and a token of 3 bytes,
in the memory `[1, 2, 3, 4, 5, 6]`. -/
def example_retry_pkt : ngx_quic_header_t :=
  { ngx_quic_header_zero 0xF0 with
    version := 1
    odcid := { len := 2, data := 0 }
    dcid := { len := 1, data := 2 }
    scid := { len := 0, data := 3 }
    token := { len := 3, data := 3 } }

/-- A long-header datagram of 27 bytes whose DCID length byte is 21. -/
def example_long_dcid_datagram : List u_char :=
  [0xC0, 0x00, 0x00, 0x00, 0x01, 0x15] ++ List.replicate 21 0xAB

/-- The 49 bytes that the parameters of the record of scenario S6 take on the wire
when every parameter of the builder is written: seven integer parameters, the
connection id limit, two empty connection ids and the 16-byte reset token. -/
def example_s6_encoded : List u_char :=
  [0x04, 0x04, 0x80, 0x10, 0x00, 0x00, 0x09, 0x01, 0x00, 0x08, 0x01, 0x03,
   0x05, 0x01, 0x00, 0x06, 0x01, 0x00, 0x07, 0x01, 0x00, 0x01, 0x01, 0x00,
   0x0e, 0x01, 0x00, 0x00, 0x00, 0x0f, 0x00, 0x02, 0x10,
   0, 0, 0, 0, 0, 0, 0, 0, 0, 0, 0, 0, 0, 0, 0, 0]

/-- The DCID and SCID fields of the long header that starts behind the flags byte,
at `pkt->raw->pos`, are well formed: both length bytes are at most 20 and both
ids lie in the packet, which ends at `pkt->data + pkt->len`. -/
def long_header_ids_fit (buf : List u_char) (pkt : ngx_quic_header_t) : Prop :=
  ∃ dl sl : u_char, buf[pkt.raw.pos + 4]? = some dl ∧ dl.val ≤ 20
    ∧ buf[pkt.raw.pos + 4 + 1 + dl.val]? = some sl ∧ sl.val ≤ 20
    ∧ pkt.raw.pos + 4 + 1 + dl.val + 1 + sl.val ≤ pkt.data + pkt.len

/-- A datagram of 13 bytes with a long-header Handshake packet: flags 0xe0,
version 1, a DCID of 2 bytes, an SCID of 1 byte, the length 2 and 2 more bytes. -/
def example_handshake_bytes : List u_char :=
  [0xE0, 0x00, 0x00, 0x00, 0x01, 0x02, 0xAA, 0xBB, 0x01, 0xCC, 0x02, 0x11, 0x22]

/-- The packet descriptor after `ngx_quic_parse_packet` on the Handshake packet of
`example_handshake_bytes`. -/
def example_handshake_parsed : ngx_quic_header_t :=
  { example_long_pkt 0xE0 13 13 with
    version := 1
    level := .ssl_encryption_handshake
    dcid := { len := 2, data := 6 }
    scid := { len := 1, data := 9 }
    raw := { pos := 11, last := 13 }
    len := 13 }

/-- The 10 bytes of scenario S4: the type 0x0c, the stream id 4, the offset 0 and
the 7 bytes of "hello!!". -/
def example_s4_bytes : List u_char :=
  [0x0c, 0x04, 0x00, 0x68, 0x65, 0x6c, 0x6c, 0x6f, 0x21, 0x21]

/-- The 28 bytes of scenario S5: the type 0x18, the sequence number 2, retire
prior to 1, the length 8, a connection id of 8 bytes and a reset token of 16
bytes. -/
def example_s5_bytes : List u_char :=
  [0x18, 0x02, 0x01, 0x08, 0xA1, 0xA2, 0xA3, 0xA4, 0xA5, 0xA6, 0xA7, 0xA8,
   0xB0, 0xB1, 0xB2, 0xB3, 0xB4, 0xB5, 0xB6, 0xB7, 0xB8, 0xB9, 0xBA, 0xBB, 0xBC, 0xBD,
   0xBE, 0xBF]

/-- The bytes of scenario S5 with retire prior to 3, above the sequence number. -/
def example_s5_retire3 : List u_char :=
  [0x18, 0x02, 0x03, 0x08, 0xA1, 0xA2, 0xA3, 0xA4, 0xA5, 0xA6, 0xA7, 0xA8,
   0xB0, 0xB1, 0xB2, 0xB3, 0xB4, 0xB5, 0xB6, 0xB7, 0xB8, 0xB9, 0xBA, 0xBB, 0xBC, 0xBD,
   0xBE, 0xBF]

/-- The fields of a NEW_CONNECTION_ID frame behind its type, in the buffer that
ends at `e` with the cursor at `p`, are acceptable: the sequence number and
retire_prior_to decode, retire_prior_to <= sequence_number, the length byte is
between 1 and 20, and the connection id followed by the 16-byte stateless reset
token fit in the buffer. -/
def ncid_wire_acceptable (buf : List u_char) (p e : Nat) : Prop :=
  ∃ p1 p2 seq retire : Nat, ∃ c : u_char,
    ngx_quic_parse_int buf p e = Rd.ok (p1, seq)
      ∧ ngx_quic_parse_int buf p1 e = Rd.ok (p2, retire)
      ∧ p2 < e ∧ buf[p2]? = some c
      ∧ retire ≤ seq ∧ 1 ≤ c.val ∧ c.val ≤ 20 ∧ p2 + 1 + c.val + 16 ≤ e

/-- The frame types whose every field the frame parser checks against the end of
the buffer: all but PADDING, which ends where the padding ends, and the STREAM
types without the LEN bit, whose payload is whatever the buffer holds. -/
def truncation_checked_type (t : Nat) : Prop :=
  t ≠ NGX_QUIC_FT_PADDING
    ∧ ¬ (NGX_QUIC_FT_STREAM0 ≤ t ∧ t ≤ NGX_QUIC_FT_STREAM7 ∧ t &&& 0x02 = 0)

/-- The run `r'` of the frame parser on the buffer that ends at `e'` rejects the
frame as truncated whenever the run `r`, on a buffer with another end, accepts a
frame of a type in `truncation_checked_type` that reaches beyond `e'`. -/
def rejected_when_cut (start e' : Nat) (r r' : Exec ngx_quic_parse_frame_ret) : Prop :=
  ∀ ret, r = Exec.done ret → ret.rc ≠ NGX_ERROR → truncation_checked_type ret.f.type →
    (e' : Int) < (start : Int) + ret.rc →
    ∃ ret', r' = Exec.done ret' ∧ ret'.rc = NGX_ERROR
      ∧ ret'.pkt.error = NGX_QUIC_ERR_FRAME_ENCODING_ERROR

/-- What `ngx_quic_parse_frame` leaves behind on the 28 bytes of scenario S5 in a
1-RTT packet, starting from an all-zero frame descriptor. -/
def example_s5_parsed : ngx_quic_parse_frame_ret :=
  { rc := 28, pkt := ngx_quic_header_zero 0x40,
    f := { ngx_quic_frame_zero with
           type := NGX_QUIC_FT_NEW_CONNECTION_ID
           u.ncid := { seqnum := 2, retire := 1, len := 8,
                       cid := ngx_memcpy ngx_quic_frame_zero.u.ncid.cid
                         [0xA1, 0xA2, 0xA3, 0xA4, 0xA5, 0xA6, 0xA7, 0xA8],
                       srt := [0xB0, 0xB1, 0xB2, 0xB3, 0xB4, 0xB5, 0xB6, 0xB7,
                               0xB8, 0xB9, 0xBA, 0xBB, 0xBC, 0xBD, 0xBE, 0xBF] } },
    b := { pos := 0, last := 0 } }

/-! ## Notions of the specification used for the claims on sizing, the ACK ranges
region and the round trip of headers -/

/-- The records of the claim on two-pass sizing of transport parameters: the
integer parameters that the builder writes are below 2^62, the three connection
id slices lie in the memory `mem`, which has fewer than 2^61 bytes (so that the
byte count fits the return type), and the reset token is an array of 16 bytes. -/
def sized_transport_params (mem : List u_char) (tp : ngx_quic_tp_t) : Prop :=
  tp.initial_max_data < 2 ^ 62 ∧ tp.initial_max_streams_uni < 2 ^ 62
    ∧ tp.initial_max_streams_bidi < 2 ^ 62
    ∧ tp.initial_max_stream_data_bidi_local < 2 ^ 62
    ∧ tp.initial_max_stream_data_bidi_remote < 2 ^ 62
    ∧ tp.initial_max_stream_data_uni < 2 ^ 62
    ∧ tp.max_idle_timeout < 2 ^ 62 ∧ tp.active_connection_id_limit < 2 ^ 62
    ∧ mem.length < 2 ^ 61
    ∧ tp.original_dcid.data + tp.original_dcid.len ≤ mem.length
    ∧ tp.initial_scid.data + tp.initial_scid.len ≤ mem.length
    ∧ tp.retry_scid.data + tp.retry_scid.len ≤ mem.length
    ∧ tp.sr_token.length = NGX_QUIC_SR_TOKEN_LEN

instance (mem : List u_char) (tp : ngx_quic_tp_t) : Decidable (sized_transport_params mem tp) := by
  unfold sized_transport_params; infer_instance

/-- A transport parameter record with disable_active_migration set, a retry_scid
of 2 bytes, an original_dcid of 3 bytes and an initial_scid of 1 byte in the
memory `[1, 2, 3, 4, 5, 6]`. -/
def example_tp_full : ngx_quic_tp_t :=
  { ngx_quic_tp_zero with
    initial_max_data := 0x100000
    initial_max_streams_bidi := 3
    max_idle_timeout := 30000
    disable_active_migration := 1
    active_connection_id_limit := 2
    original_dcid := { len := 3, data := 0 }
    initial_scid := { len := 1, data := 3 }
    retry_scid := { len := 2, data := 4 } }

/-- The declared payload length of a CRYPTO, STREAM or ACK descriptor, from which
the sizing pass of the builders computes: `crypto.length`, `stream.length` or
`ack.ranges_length`. -/
def declared_payload_length (F : ngx_quic_frame_t) : Nat :=
  if F.type = NGX_QUIC_FT_CRYPTO then F.u.crypto.length
  else if F.type = NGX_QUIC_FT_ACK then F.u.ack.ranges_length
  else F.u.stream.length

/-- The descriptors of the claim on the sizing of payload-bearing frames: a CRYPTO,
STREAM or ACK descriptor with varint fields and declared length below 2^62 and a
chain of buffers that lie in the memory `mem`; nothing is said on the byte count
of the chain. -/
def payload_descriptor (mem : List u_char) (F : ngx_quic_frame_t) : Prop :=
  ((F.type = NGX_QUIC_FT_ACK
      ∧ F.u.ack.largest < 2 ^ 62 ∧ F.u.ack.delay < 2 ^ 62 ∧ F.u.ack.range_count < 2 ^ 62
      ∧ F.u.ack.first_range < 2 ^ 62 ∧ F.u.ack.ranges_length < 2 ^ 62)
    ∨ (F.type = NGX_QUIC_FT_CRYPTO
      ∧ F.u.crypto.offset < 2 ^ 62 ∧ F.u.crypto.length < 2 ^ 62)
    ∨ ((NGX_QUIC_FT_STREAM0 ≤ F.type ∧ F.type ≤ NGX_QUIC_FT_STREAM7)
      ∧ F.u.stream.type < 2 ^ 62 ∧ F.u.stream.stream_id < 2 ^ 62
      ∧ F.u.stream.offset < 2 ^ 62 ∧ F.u.stream.length < 2 ^ 62))
    ∧ chain_in_mem mem F.data

instance (mem : List u_char) (F : ngx_quic_frame_t) : Decidable (payload_descriptor mem F) := by
  unfold payload_descriptor; infer_instance

/-- The walk over an ACK ranges region that ends at `end_`: `ngx_quic_parse_ack_range`
applied `n` times, each time at the position where the call before stopped.  The
result is the position behind the last pair, or `none` when a call fails. -/
def ack_range_walk (buf : List u_char) (end_ : Nat) : Nat → Nat → Option Nat
  | 0, p => some p
  | n + 1, p =>
    match ngx_quic_parse_ack_range buf p end_ with
    | .fault => none
    | .done (rc, _, _) =>
      if rc = NGX_ERROR then none
      else ack_range_walk buf end_ n (p + rc.toNat)

/-- The byte count of the transport parameters of a record, parameter by
parameter: disable_active_migration counts 2 bytes when it is set and retry_scid
counts when its length is not zero. -/
def transport_params_size (tp : ngx_quic_tp_t) : Nat :=
  ngx_quic_tp_len NGX_QUIC_TP_INITIAL_MAX_DATA tp.initial_max_data
          + ngx_quic_tp_len NGX_QUIC_TP_INITIAL_MAX_STREAMS_UNI tp.initial_max_streams_uni
          + ngx_quic_tp_len NGX_QUIC_TP_INITIAL_MAX_STREAMS_BIDI tp.initial_max_streams_bidi
          + ngx_quic_tp_len NGX_QUIC_TP_INITIAL_MAX_STREAM_DATA_BIDI_LOCAL
              tp.initial_max_stream_data_bidi_local
          + ngx_quic_tp_len NGX_QUIC_TP_INITIAL_MAX_STREAM_DATA_BIDI_REMOTE
              tp.initial_max_stream_data_bidi_remote
          + ngx_quic_tp_len NGX_QUIC_TP_INITIAL_MAX_STREAM_DATA_UNI
              tp.initial_max_stream_data_uni
          + ngx_quic_tp_len NGX_QUIC_TP_MAX_IDLE_TIMEOUT tp.max_idle_timeout
          + (if tp.disable_active_migration ≠ 0 then 2 else 0)
          + ngx_quic_tp_len NGX_QUIC_TP_ACTIVE_CONNECTION_ID_LIMIT
              tp.active_connection_id_limit
          + ngx_quic_tp_strlen NGX_QUIC_TP_ORIGINAL_DCID tp.original_dcid
          + ngx_quic_tp_strlen NGX_QUIC_TP_INITIAL_SCID tp.initial_scid
          + (if tp.retry_scid.len ≠ 0 then
               ngx_quic_tp_strlen NGX_QUIC_TP_RETRY_SCID tp.retry_scid
             else 0)
          + (1 + 1 + 16)

/-- The 62 bytes of the transport parameters of `example_tp_full`. -/
def example_tp_full_bytes : List u_char :=
  [0x04, 0x04, 0x80, 0x10, 0x00, 0x00, 0x09, 0x01, 0x00, 0x08, 0x01, 0x03,
   0x05, 0x01, 0x00, 0x06, 0x01, 0x00, 0x07, 0x01, 0x00,
   0x01, 0x04, 0x80, 0x00, 0x75, 0x30, 0x0c, 0x00, 0x0e, 0x01, 0x02,
   0x00, 0x03, 1, 2, 3, 0x0f, 0x01, 4, 0x10, 0x02, 5, 6, 0x02, 0x10,
   0, 0, 0, 0, 0, 0, 0, 0, 0, 0, 0, 0, 0, 0, 0, 0]

/-- A datagram of 24 bytes with a short-header packet: the flags byte 0x40, the 20
bytes of the DCID and three more bytes. -/
def example_short_datagram : List u_char :=
  [0x40, 0x01, 0x02, 0x03, 0x04, 0x05, 0x06, 0x07, 0x08, 0x09, 0x0A, 0x0B, 0x0C, 0x0D, 0x0E,
   0x0F, 0x10, 0x11, 0x12, 0x13, 0x14, 0x00, 0x11, 0x22]

/-- A run of the frame parser that, when it returns, returns a frame descriptor of
the type `t`. -/
def keeps_frame_type (t : Nat) (r : Exec ngx_quic_parse_frame_ret) : Prop :=
  ∀ ret, r = Exec.done ret → ret.f.type = t

/-- The descriptor of a long-header Handshake packet to build: flags 0xe0,
version 1, a DCID of the 2 bytes at offset 0 of the memory, an SCID of the byte at
offset 2, and the 2-byte truncated packet number 0x1122. -/
def example_handshake_header : ngx_quic_header_t :=
  { ngx_quic_header_zero 0xE0 with
    version := 1
    level := .ssl_encryption_handshake
    dcid := { len := 2, data := 0 }
    scid := { len := 1, data := 2 }
    num_len := 2
    trunc := 0x1122 }

/-! ## The varint codec -/

theorem or_class_bits :
    ∀ b : Nat, b < 64 → ∀ k : Nat, k < 4 → b ||| (k <<< 6) = b + k * 64 := by decide

theorem or_64 (x : Nat) (h : x < 64) : x ||| 64 = x + 64 := or_class_bits x h 1 (by decide)

theorem or_128 (x : Nat) (h : x < 64) : x ||| 128 = x + 128 := or_class_bits x h 2 (by decide)

theorem or_192 (x : Nat) (h : x < 64) : x ||| 192 = x + 192 := or_class_bits x h 3 (by decide)

theorem and_3f (x : Nat) : x &&& 0x3f = x % 64 := Nat.and_pow_two_sub_one_eq_mod x 6

theorem size_t_diff_le (e p : Nat) (h : p ≤ e) : size_t_diff e p = e - p := by
  simp [size_t_diff, h]

theorem varint_bits_eq (v : Nat) (hv : v < 2 ^ 62) :
    ngx_quic_varint_bits 4 v 0 =
      if v < 64 then 0 else if v < 16384 then 1 else if v < 1073741824 then 2 else 3 := by
  simp only [ngx_quic_varint_bits, Nat.shiftRight_eq_div_pow, Nat.shiftLeft_eq]
  norm_num
  split_ifs <;> omega

theorem varint_len_eq (v : Nat) (hv : v < 2 ^ 62) :
    ngx_quic_varint_len v =
      if v < 64 then 1 else if v < 16384 then 2 else if v < 1073741824 then 4 else 8 := by
  unfold ngx_quic_varint_len
  rw [varint_bits_eq v hv]
  split_ifs <;> rfl

theorem drop_head {buf : List u_char} {p : Nat} {b : u_char} {rest : List u_char}
    (h : buf.drop p = b :: rest) : buf[p]? = some b ∧ buf.drop (p + 1) = rest := by
  constructor
  · have := congrArg (fun l => l[0]?) h
    simpa [List.getElem?_drop] using this
  · have := congrArg (fun l => l.drop 1) h
    simpa [List.drop_drop, Nat.add_comm] using this

theorem parse_int_loop_drop (bs suf buf : List u_char) :
    ∀ (p value : Nat), buf.drop p = bs ++ suf →
      ngx_quic_parse_int_loop buf bs.length p value
        = .ok (p + bs.length, bs.foldl (fun acc b => (acc <<< 8) + b.val) value) := by
  induction bs with
  | nil => intro p value _; simp [ngx_quic_parse_int_loop]
  | cons b bs ih =>
    intro p value h
    obtain ⟨h0, h1⟩ := drop_head h
    simp only [List.length_cons, ngx_quic_parse_int_loop, h0, List.foldl_cons]
    rw [ih (p + 1) _ h1]
    congr 2
    omega

theorem parse_int_cons (buf : List u_char) (pos e : Nat) (b0 : u_char) (bs suf : List u_char)
    (h : buf.drop pos = b0 :: (bs ++ suf))
    (hlen : bs.length = (1 <<< (b0.val >>> 6)) - 1) (he : pos + 1 + bs.length ≤ e) :
    ngx_quic_parse_int buf pos e
      = .ok (pos + 1 + bs.length,
          bs.foldl (fun acc b => (acc <<< 8) + b.val) (b0.val &&& 0x3f)) := by
  obtain ⟨h0, h1⟩ := drop_head h
  unfold ngx_quic_parse_int
  rw [if_neg (by omega)]
  simp only [h0]
  rw [size_t_diff_le _ _ (by omega), if_neg (by omega), ← hlen]
  exact parse_int_loop_drop bs suf buf (pos + 1) _ h1

theorem to_u_char_val (n : Nat) : (to_u_char n).val = n % 256 := Eq.trans rfl rfl

theorem parse_int_1 (buf : List u_char) (pos e : Nat) (b0 : u_char) (suf : List u_char)
    (h : buf.drop pos = b0 :: suf) (hc : b0.val / 64 = 0) (he : pos + 1 ≤ e) :
    ngx_quic_parse_int buf pos e = .ok (pos + 1, b0.val % 64) := by
  rw [parse_int_cons buf pos e b0 [] suf (by simpa using h)
    (by rw [Nat.shiftRight_eq_div_pow]; simp [hc]) (by simpa using he)]
  simp [and_3f]

theorem parse_int_2 (buf : List u_char) (pos e : Nat) (b0 b1 : u_char) (suf : List u_char)
    (h : buf.drop pos = b0 :: b1 :: suf) (hc : b0.val / 64 = 1) (he : pos + 2 ≤ e) :
    ngx_quic_parse_int buf pos e = .ok (pos + 2, b0.val % 64 * 256 + b1.val) := by
  rw [parse_int_cons buf pos e b0 [b1] suf (by simpa using h)
    (by rw [Nat.shiftRight_eq_div_pow]; simp [hc]) (by simpa using he)]
  simp [and_3f, Nat.shiftLeft_eq]

theorem parse_int_4 (buf : List u_char) (pos e : Nat) (b0 b1 b2 b3 : u_char)
    (suf : List u_char)
    (h : buf.drop pos = b0 :: b1 :: b2 :: b3 :: suf) (hc : b0.val / 64 = 2)
    (he : pos + 4 ≤ e) :
    ngx_quic_parse_int buf pos e
      = .ok (pos + 4, ((b0.val % 64 * 256 + b1.val) * 256 + b2.val) * 256 + b3.val) := by
  rw [parse_int_cons buf pos e b0 [b1, b2, b3] suf (by simpa using h)
    (by rw [Nat.shiftRight_eq_div_pow]; simp [hc]) (by simpa using he)]
  simp [and_3f, Nat.shiftLeft_eq]

theorem parse_int_8 (buf : List u_char) (pos e : Nat) (b0 b1 b2 b3 b4 b5 b6 b7 : u_char)
    (suf : List u_char)
    (h : buf.drop pos = b0 :: b1 :: b2 :: b3 :: b4 :: b5 :: b6 :: b7 :: suf)
    (hc : b0.val / 64 = 3) (he : pos + 8 ≤ e) :
    ngx_quic_parse_int buf pos e
      = .ok (pos + 8, ((((((b0.val % 64 * 256 + b1.val) * 256 + b2.val) * 256 + b3.val) * 256
          + b4.val) * 256 + b5.val) * 256 + b6.val) * 256 + b7.val) := by
  rw [parse_int_cons buf pos e b0 [b1, b2, b3, b4, b5, b6, b7] suf (by simpa using h)
    (by rw [Nat.shiftRight_eq_div_pow]; simp [hc]) (by simpa using he)]
  simp [and_3f, Nat.shiftLeft_eq]

theorem be_bytes_1 (x : Nat) : be_bytes x 1 = [to_u_char x] := by
  simp [be_bytes]

theorem be_bytes_2 (x : Nat) : be_bytes x 2 = [to_u_char (x / 256), to_u_char x] := by
  simp [be_bytes]

theorem be_bytes_4 (x : Nat) :
    be_bytes x 4 = [to_u_char (x / 16777216), to_u_char (x / 65536), to_u_char (x / 256),
      to_u_char x] := by
  simp [be_bytes]

theorem be_bytes_8 (x : Nat) :
    be_bytes x 8 = [to_u_char (x / 72057594037927936), to_u_char (x / 281474976710656),
      to_u_char (x / 1099511627776), to_u_char (x / 4294967296), to_u_char (x / 16777216),
      to_u_char (x / 65536), to_u_char (x / 256), to_u_char x] := by
  simp [be_bytes]

theorem parse_int_be1 (buf : List u_char) (pos e v : Nat) (suf : List u_char)
    (hv : v < 64) (h : buf.drop pos = be_bytes v 1 ++ suf) (he : pos + 1 ≤ e) :
    ngx_quic_parse_int buf pos e = .ok (pos + 1, v) := by
  rw [be_bytes_1] at h
  rw [parse_int_1 buf pos e _ suf h (by rw [to_u_char_val]; omega) he, to_u_char_val]
  have : v % 256 % 64 = v := by omega
  rw [this]

theorem parse_int_be2 (buf : List u_char) (pos e v : Nat) (suf : List u_char)
    (hv : v < 16384) (h : buf.drop pos = be_bytes (v + 16384) 2 ++ suf) (he : pos + 2 ≤ e) :
    ngx_quic_parse_int buf pos e = .ok (pos + 2, v) := by
  rw [be_bytes_2] at h
  rw [parse_int_2 buf pos e _ _ suf h (by rw [to_u_char_val]; omega) he]
  simp only [to_u_char_val]
  have : (v + 16384) / 256 % 256 % 64 * 256 + (v + 16384) % 256 = v := by omega
  rw [this]

theorem parse_int_be4 (buf : List u_char) (pos e v : Nat) (suf : List u_char)
    (hv : v < 1073741824) (h : buf.drop pos = be_bytes (v + 2147483648) 4 ++ suf)
    (he : pos + 4 ≤ e) :
    ngx_quic_parse_int buf pos e = .ok (pos + 4, v) := by
  rw [be_bytes_4] at h
  rw [parse_int_4 buf pos e _ _ _ _ suf h (by rw [to_u_char_val]; omega) he]
  simp only [to_u_char_val]
  have : (((v + 2147483648) / 16777216 % 256 % 64 * 256 + (v + 2147483648) / 65536 % 256) * 256
      + (v + 2147483648) / 256 % 256) * 256 + (v + 2147483648) % 256 = v := by omega
  rw [this]

theorem parse_int_be8 (buf : List u_char) (pos e v : Nat) (suf : List u_char)
    (hv : v < 4611686018427387904)
    (h : buf.drop pos = be_bytes (v + 13835058055282163712) 8 ++ suf) (he : pos + 8 ≤ e) :
    ngx_quic_parse_int buf pos e = .ok (pos + 8, v) := by
  rw [be_bytes_8] at h
  rw [parse_int_8 buf pos e _ _ _ _ _ _ _ _ suf h (by rw [to_u_char_val]; omega) he]
  simp only [to_u_char_val]
  have : ((((((((v + 13835058055282163712) / 72057594037927936 % 256 % 64 * 256
      + (v + 13835058055282163712) / 281474976710656 % 256) * 256
      + (v + 13835058055282163712) / 1099511627776 % 256) * 256
      + (v + 13835058055282163712) / 4294967296 % 256) * 256
      + (v + 13835058055282163712) / 16777216 % 256) * 256
      + (v + 13835058055282163712) / 65536 % 256) * 256
      + (v + 13835058055282163712) / 256 % 256) * 256
      + (v + 13835058055282163712) % 256) = v := by omega
  rw [this]

theorem build_int_eq (v : Nat) (hv : v < 2 ^ 62) :
    ngx_quic_build_int v =
      if v < 64 then be_bytes v 1
      else if v < 16384 then be_bytes (v + 16384) 2
      else if v < 1073741824 then be_bytes (v + 2147483648) 4
      else be_bytes (v + 13835058055282163712) 8 := by
  unfold ngx_quic_build_int
  rw [varint_bits_eq v hv]
  norm_num at hv
  split_ifs with h1 h2 h3
  · simp [ngx_quic_build_int_loop, be_bytes, to_u_char, Nat.shiftRight_eq_div_pow]
  · simp [ngx_quic_build_int_loop, be_bytes, to_u_char, Nat.shiftRight_eq_div_pow]
    rw [or_64 _ (by omega)]
    omega
  · simp [ngx_quic_build_int_loop, be_bytes, to_u_char, Nat.shiftRight_eq_div_pow]
    rw [or_128 _ (by omega)]
    omega
  · simp [ngx_quic_build_int_loop, be_bytes, to_u_char, Nat.shiftRight_eq_div_pow]
    rw [or_192 _ (by omega)]
    omega

theorem build_int_length (v : Nat) (hv : v < 2 ^ 62) :
    (ngx_quic_build_int v).length = ngx_quic_varint_len v := by
  rw [build_int_eq v hv, varint_len_eq v hv]
  split_ifs <;> simp [be_bytes]

theorem varint_len_pos (v : Nat) (hv : v < 2 ^ 62) : 1 ≤ ngx_quic_varint_len v := by
  rw [varint_len_eq v hv]
  split_ifs <;> omega

theorem varint_len_le (v : Nat) (hv : v < 2 ^ 62) : ngx_quic_varint_len v ≤ 8 := by
  rw [varint_len_eq v hv]
  split_ifs <;> omega

/-- Parsing at a position where the bytes written by `ngx_quic_build_int` for `v`
start yields `v` and the position behind these bytes. -/
theorem parse_int_build (buf : List u_char) (pos e v : Nat) (suf : List u_char)
    (hv : v < 2 ^ 62) (h : buf.drop pos = ngx_quic_build_int v ++ suf)
    (he : pos + ngx_quic_varint_len v ≤ e) :
    ngx_quic_parse_int buf pos e = .ok (pos + ngx_quic_varint_len v, v) := by
  rw [build_int_eq v hv] at h
  rw [varint_len_eq v hv] at he ⊢
  norm_num at hv
  split_ifs at h he ⊢ with h1 h2 h3
  · exact parse_int_be1 buf pos e v suf h1 h he
  · exact parse_int_be2 buf pos e v suf h2 h he
  · exact parse_int_be4 buf pos e v suf h3 h he
  · exact parse_int_be8 buf pos e v suf hv h he

theorem drop_build (buf : List u_char) (pos v : Nat) (suf : List u_char)
    (hv : v < 2 ^ 62) (h : buf.drop pos = ngx_quic_build_int v ++ suf) :
    buf.drop (pos + ngx_quic_varint_len v) = suf := by
  rw [← build_int_length v hv, ← List.drop_drop, h]
  simp

/-! ## Claims on the varint codec -/

theorem drop_append_mid (pre xs suf : List u_char) :
    (pre ++ xs ++ suf).drop pre.length = xs ++ suf := by
  simp

/-- C1: varint round trip.  For every value `v` below 2^62, `ngx_quic_parse_int`
applied at the place where `ngx_quic_build_int` wrote `v` returns exactly `v` and
advances the cursor by exactly `ngx_quic_varint_len v` bytes, which is the number
of bytes written.  The bytes c2 19 7c 5e ff 14 e8 8c decode to
151288809941952652, and encoding that value gives the same 8 bytes. -/
theorem varint_round_trip (v : Nat) (hv : v < 2 ^ 62) (pre suf : List u_char) (end_ : Nat)
    (hend : pre.length + ngx_quic_varint_len v ≤ end_) :
    ngx_quic_parse_int (pre ++ ngx_quic_build_int v ++ suf) pre.length end_
        = Rd.ok (pre.length + ngx_quic_varint_len v, v)
      ∧ (ngx_quic_build_int v).length = ngx_quic_varint_len v
      ∧ ngx_quic_parse_int [0xc2, 0x19, 0x7c, 0x5e, 0xff, 0x14, 0xe8, 0x8c] 0 8
          = Rd.ok (8, 151288809941952652)
      ∧ ngx_quic_build_int 151288809941952652
          = [0xc2, 0x19, 0x7c, 0x5e, 0xff, 0x14, 0xe8, 0x8c] := by
  refine ⟨?_, build_int_length v hv, by decide, by decide⟩
  exact parse_int_build _ _ _ v suf hv (drop_append_mid pre _ suf) hend

theorem varint_round_trip_witness :
    (151288809941952652 < 2 ^ 62 ∧ ([] : List u_char).length
        + ngx_quic_varint_len 151288809941952652 ≤ 8)
      ∧ ngx_quic_parse_int (([] : List u_char) ++ ngx_quic_build_int 151288809941952652 ++ [])
          ([] : List u_char).length 8
        = Rd.ok (([] : List u_char).length + ngx_quic_varint_len 151288809941952652,
            151288809941952652) :=
  ⟨⟨by decide, by decide⟩,
    (varint_round_trip 151288809941952652 (by decide) [] [] 8 (by decide)).1⟩

/-- C2: minimal length class.  For every `v` below 2^62, `ngx_quic_varint_len v` is
the smallest `L` among 1, 2, 4, 8 with `v < 2^(8L-2)` (1 below 64, 2 below 16384,
4 below 2^30, 8 otherwise), and `ngx_quic_build_int` writes exactly `L` bytes: the
big-endian representation of `v` with the top two bits of the first byte equal to
the binary logarithm `bits` of `L`. -/
theorem varint_minimal_length_class (v : Nat) (hv : v < 2 ^ 62) :
    ∃ bits, bits < 4 ∧ ngx_quic_varint_len v = 2 ^ bits
      ∧ v < 2 ^ (8 * ngx_quic_varint_len v - 2)
      ∧ (∀ L, (L = 1 ∨ L = 2 ∨ L = 4 ∨ L = 8) → v < 2 ^ (8 * L - 2) →
          ngx_quic_varint_len v ≤ L)
      ∧ ngx_quic_varint_len v
          = (if v < 64 then 1 else if v < 16384 then 2 else if v < 2 ^ 30 then 4 else 8)
      ∧ (ngx_quic_build_int v).length = ngx_quic_varint_len v
      ∧ ngx_quic_build_int v
          = be_bytes (v + bits * 2 ^ (8 * ngx_quic_varint_len v - 2)) (ngx_quic_varint_len v)
      ∧ (∀ b rest, ngx_quic_build_int v = b :: rest → b.val >>> 6 = bits) := by
  have hlen := build_int_length v hv
  have hb := build_int_eq v hv
  have hl := varint_len_eq v hv
  norm_num at hv
  by_cases h1 : v < 64
  · rw [if_pos h1] at hb hl
    refine ⟨0, by decide, by rw [hl]; rfl, by rw [hl]; norm_num; exact h1, ?_, ?_, hlen, ?_, ?_⟩
    · intro L hL _; rw [hl]; omega
    · rw [hl, if_pos h1]
    · rw [hl, hb]; norm_num
    · intro b rest hbr
      rw [hb, be_bytes_1] at hbr
      have hbv : b = to_u_char v := by
        have := (List.cons.inj hbr).1; exact this.symm
      rw [hbv, to_u_char_val, Nat.shiftRight_eq_div_pow]
      omega
  · rw [if_neg h1] at hb hl
    by_cases h2 : v < 16384
    · rw [if_pos h2] at hb hl
      refine ⟨1, by decide, by rw [hl]; rfl, by rw [hl]; norm_num; exact h2, ?_, ?_, hlen, ?_, ?_⟩
      · intro L hL hvL; rw [hl]
        rcases hL with rfl | rfl | rfl | rfl
        · norm_num at hvL; omega
        all_goals omega
      · rw [hl, if_neg h1, if_pos h2]
      · rw [hl, hb]; norm_num
      · intro b rest hbr
        rw [hb, be_bytes_2] at hbr
        have hbv : b = to_u_char ((v + 16384) / 256) := by
          have := (List.cons.inj hbr).1; exact this.symm
        rw [hbv, to_u_char_val, Nat.shiftRight_eq_div_pow]
        omega
    · rw [if_neg h2] at hb hl
      by_cases h3 : v < 1073741824
      · rw [if_pos h3] at hb hl
        refine ⟨2, by decide, by rw [hl]; rfl, by rw [hl]; norm_num; exact h3, ?_, ?_, hlen,
          ?_, ?_⟩
        · intro L hL hvL; rw [hl]
          rcases hL with rfl | rfl | rfl | rfl
          · norm_num at hvL; omega
          · norm_num at hvL; omega
          all_goals omega
        · rw [hl, if_neg h1, if_neg h2]; norm_num; rw [if_pos h3]
        · rw [hl, hb]; norm_num
        · intro b rest hbr
          rw [hb, be_bytes_4] at hbr
          have hbv : b = to_u_char ((v + 2147483648) / 16777216) := by
            have := (List.cons.inj hbr).1; exact this.symm
          rw [hbv, to_u_char_val, Nat.shiftRight_eq_div_pow]
          omega
      · rw [if_neg h3] at hb hl
        refine ⟨3, by decide, by rw [hl]; rfl, by rw [hl]; norm_num; exact hv, ?_, ?_, hlen,
          ?_, ?_⟩
        · intro L hL hvL; rw [hl]
          rcases hL with rfl | rfl | rfl | rfl
          · norm_num at hvL; omega
          · norm_num at hvL; omega
          · norm_num at hvL; omega
          · omega
        · rw [hl, if_neg h1, if_neg h2]; norm_num; rw [if_neg h3]
        · rw [hl, hb]; norm_num
        · intro b rest hbr
          rw [hb, be_bytes_8] at hbr
          have hbv : b = to_u_char ((v + 13835058055282163712) / 72057594037927936) := by
            have := (List.cons.inj hbr).1; exact this.symm
          rw [hbv, to_u_char_val, Nat.shiftRight_eq_div_pow]
          omega

theorem varint_minimal_length_class_witness :
    300 < 2 ^ 62 ∧ ∃ bits, bits < 4 ∧ ngx_quic_varint_len 300 = 2 ^ bits
      ∧ 300 < 2 ^ (8 * ngx_quic_varint_len 300 - 2)
      ∧ (∀ L, (L = 1 ∨ L = 2 ∨ L = 4 ∨ L = 8) → 300 < 2 ^ (8 * L - 2) →
          ngx_quic_varint_len 300 ≤ L)
      ∧ ngx_quic_varint_len 300
          = (if 300 < 64 then 1 else if 300 < 16384 then 2 else if 300 < 2 ^ 30 then 4 else 8)
      ∧ (ngx_quic_build_int 300).length = ngx_quic_varint_len 300
      ∧ ngx_quic_build_int 300
          = be_bytes (300 + bits * 2 ^ (8 * ngx_quic_varint_len 300 - 2))
              (ngx_quic_varint_len 300)
      ∧ (∀ b rest, ngx_quic_build_int 300 = b :: rest → b.val >>> 6 = bits) :=
  ⟨by decide, varint_minimal_length_class 300 (by decide)⟩

/-- C3: non-minimal encodings are accepted.  For every length class `L = 2^k`
among 1, 2, 4, 8 and every `v < 2^(8L-2)`, the `L` bytes that hold `v` in
big-endian with the class bits `k` in the top two bits of the first byte are
decoded by `ngx_quic_parse_int` to `v`, consuming exactly `L` bytes, also when a
shorter class would hold `v`. -/
theorem varint_non_minimal_accepted (k v : Nat) (hk : k < 4) (hv : v < 2 ^ (8 * 2 ^ k - 2))
    (pre suf : List u_char) (end_ : Nat) (hend : pre.length + 2 ^ k ≤ end_) :
    ngx_quic_parse_int (pre ++ be_bytes (v + k * 2 ^ (8 * 2 ^ k - 2)) (2 ^ k) ++ suf)
        pre.length end_
      = Rd.ok (pre.length + 2 ^ k, v) := by
  have hd := drop_append_mid pre (be_bytes (v + k * 2 ^ (8 * 2 ^ k - 2)) (2 ^ k)) suf
  generalize pre ++ be_bytes (v + k * 2 ^ (8 * 2 ^ k - 2)) (2 ^ k) ++ suf = buf at hd ⊢
  interval_cases k
  · norm_num at hv hd hend ⊢
    exact parse_int_be1 buf _ end_ v suf hv hd hend
  · norm_num at hv hd hend ⊢
    exact parse_int_be2 buf _ end_ v suf hv hd hend
  · norm_num at hv hd hend ⊢
    exact parse_int_be4 buf _ end_ v suf hv hd hend
  · norm_num at hv hd hend ⊢
    exact parse_int_be8 buf _ end_ v suf hv hd hend

theorem varint_non_minimal_accepted_witness :
    (3 < 4 ∧ 5 < 2 ^ (8 * 2 ^ 3 - 2) ∧ ([] : List u_char).length + 2 ^ 3 ≤ 8)
      ∧ ngx_quic_parse_int
          (([] : List u_char) ++ be_bytes (5 + 3 * 2 ^ (8 * 2 ^ 3 - 2)) (2 ^ 3) ++ [])
          ([] : List u_char).length 8
        = Rd.ok (([] : List u_char).length + 2 ^ 3, 5)
      ∧ be_bytes (5 + 3 * 2 ^ (8 * 2 ^ 3 - 2)) (2 ^ 3) = [0xc0, 0, 0, 0, 0, 0, 0, 5]
      ∧ ngx_quic_build_int 5 = [5] :=
  ⟨⟨by decide, by decide, by decide⟩,
    varint_non_minimal_accepted 3 5 (by decide) (by decide) [] [] 8 (by decide),
    by decide, by decide⟩

/-! ## The permission matrix -/

theorem frame_allowed_ptype_eq :
    ∀ flags : u_char, ngx_quic_frame_allowed_ptype flags = packet_type_bit flags := by
  intro flags
  simp only [ngx_quic_frame_allowed_ptype, packet_type_bit, ngx_quic_long_pkt, ngx_quic_pkt_in,
    ngx_quic_pkt_hs, decide_eq_true_eq]
  split_ifs <;> simp_all

theorem frame_masks_read_eq (adj : Nat → Option u_char) (t : Nat) (ht : t ≤ 0x1E) :
    ngx_quic_frame_masks_read adj t = some (table3_mask t) := by
  interval_cases t <;> rfl

theorem masks_beyond (t : Nat) (ht : 0x1E < t) : ngx_quic_frame_masks[t]? = none := by
  rw [List.getElem?_eq_none_iff]
  show 31 ≤ t
  omega

theorem frame_masks_read_beyond (adj : Nat → Option u_char) (t : Nat) (ht : 0x1E < t) :
    ngx_quic_frame_masks_read adj t = (adj t).map fun c => c.val := by
  unfold ngx_quic_frame_masks_read
  rw [masks_beyond t ht]
  cases adj t <;> rfl

theorem frame_allowed_eq (adj : Nat → Option u_char) (pkt : ngx_quic_header_t) (t : Nat)
    (ht : t ≤ 0x1E) :
    ngx_quic_frame_allowed adj pkt t
      = Exec.done (if packet_type_bit pkt.flags &&& table3_mask t ≠ 0 then NGX_OK
          else NGX_DECLINED) := by
  unfold ngx_quic_frame_allowed
  rw [frame_allowed_ptype_eq, frame_masks_read_eq adj t ht]
  dsimp only
  split_ifs <;> rfl

theorem frame_allowed_beyond (adj : Nat → Option u_char) (pkt : ngx_quic_header_t) (t : Nat)
    (ht : 0x1E < t) :
    ngx_quic_frame_allowed adj pkt t
      = match adj t with
        | none => Exec.fault
        | some c =>
          Exec.done (if packet_type_bit pkt.flags &&& c.val ≠ 0 then NGX_OK else NGX_DECLINED) := by
  unfold ngx_quic_frame_allowed
  rw [frame_allowed_ptype_eq, frame_masks_read_beyond adj t ht]
  cases adj t with
  | none => rfl
  | some c =>
    dsimp only [Option.map]
    split_ifs <;> rfl

theorem parse_frame_step_ok {α : Type} (r : Rd (Nat × α)) (p : Nat) (a : α)
    (pkt : ngx_quic_header_t) (f : ngx_quic_frame_t) (b : ngx_buf_t)
    (k : Nat → α → Exec ngx_quic_parse_frame_ret) (h : r = .ok (p, a)) :
    ngx_quic_parse_frame_step r pkt f b k = k p a := by
  subst h; rfl

theorem NGX_DECLINED_ne_OK : NGX_DECLINED ≠ NGX_OK := by decide

/-- The frame parser behind the frame type, when the read of the table of masks
returns. -/
theorem parse_frame_allowed (adj : Nat → Option u_char) (pkt : ngx_quic_header_t)
    (buf : List u_char) (start e : Nat) (f : ngx_quic_frame_t) (b : ngx_buf_t) (p t : Nat)
    (rc : Int) (hp : ngx_quic_parse_int buf start e = Rd.ok (p, t))
    (hA : ngx_quic_frame_allowed adj pkt t = Exec.done rc) :
    ngx_quic_parse_frame adj pkt buf start e f b
      = if rc ≠ NGX_OK then
          Exec.done { rc := NGX_ERROR,
                      pkt := { pkt with error := NGX_QUIC_ERR_PROTOCOL_VIOLATION },
                      f := { f with type := t }, b := b }
        else ngx_quic_parse_frame_switch pkt buf start e p { f with type := t } b := by
  unfold ngx_quic_parse_frame
  rw [parse_frame_step_ok _ p t _ _ _ _ hp]
  dsimp only
  rw [hA]

/-- The frame parser behind the frame type, when the read of the table of masks
goes to memory that cannot be read. -/
theorem parse_frame_table_fault (adj : Nat → Option u_char) (pkt : ngx_quic_header_t)
    (buf : List u_char) (start e : Nat) (f : ngx_quic_frame_t) (b : ngx_buf_t) (p t : Nat)
    (hp : ngx_quic_parse_int buf start e = Rd.ok (p, t))
    (hA : ngx_quic_frame_allowed adj pkt t = Exec.fault) :
    ngx_quic_parse_frame adj pkt buf start e f b = Exec.fault := by
  unfold ngx_quic_parse_frame
  rw [parse_frame_step_ok _ p t _ _ _ _ hp]
  dsimp only
  rw [hA]

/-- C6: permission matrix.  For every frame type code `t` in 0x00..0x1E and every
header flags byte, `ngx_quic_frame_allowed` accepts `t` exactly when the bit of
the packet type (Initial 8, Handshake 4, 0-RTT 2, 1-RTT 1) is set in the mask
that RFC 9000 Table 3 gives to `t`; and `ngx_quic_parse_frame` on a pair that is
not allowed returns ERROR with `pkt->error = PROTOCOL_VIOLATION`, whatever bytes
follow the frame type. -/
theorem frame_permission_matrix (adj : Nat → Option u_char) (pkt : ngx_quic_header_t) (t : Nat)
    (ht : t ≤ 0x1E) :
    (ngx_quic_frame_allowed adj pkt t = Exec.done NGX_OK
        ↔ packet_type_bit pkt.flags &&& table3_mask t ≠ 0)
      ∧ (∀ (buf : List u_char) (start end_ p : Nat) (f : ngx_quic_frame_t) (b : ngx_buf_t),
          ngx_quic_parse_int buf start end_ = Rd.ok (p, t) →
          packet_type_bit pkt.flags &&& table3_mask t = 0 →
          ngx_quic_parse_frame adj pkt buf start end_ f b
            = Exec.done { rc := NGX_ERROR,
                          pkt := { pkt with error := NGX_QUIC_ERR_PROTOCOL_VIOLATION },
                          f := { f with type := t }, b := b }) := by
  have hA := frame_allowed_eq adj pkt t ht
  constructor
  · rw [hA]
    by_cases hc : packet_type_bit pkt.flags &&& table3_mask t ≠ 0
    · simp [hc]
    · simp [hc, NGX_DECLINED_ne_OK]
  · intro buf start end_ p f b hp hz
    rw [if_neg (not_not.mpr hz)] at hA
    rw [parse_frame_allowed adj pkt buf start end_ f b p t _ hp hA, if_pos NGX_DECLINED_ne_OK]

theorem frame_permission_matrix_witness :
    NGX_QUIC_FT_CRYPTO ≤ 0x1E
      ∧ ngx_quic_parse_int [0x06, 0x00, 0x00] 0 3 = Rd.ok (1, NGX_QUIC_FT_CRYPTO)
      ∧ packet_type_bit 0xD0 &&& table3_mask NGX_QUIC_FT_CRYPTO = 0
      ∧ ∀ (adj : Nat → Option u_char) (pkt : ngx_quic_header_t) (f : ngx_quic_frame_t) (b : ngx_buf_t),
          pkt.flags = 0xD0 →
          ngx_quic_parse_frame adj pkt [0x06, 0x00, 0x00] 0 3 f b
            = Exec.done { rc := NGX_ERROR,
                          pkt := { pkt with error := NGX_QUIC_ERR_PROTOCOL_VIOLATION },
                          f := { f with type := NGX_QUIC_FT_CRYPTO }, b := b } :=
  ⟨by decide, by decide, by decide, fun adj pkt f b hf =>
    (frame_permission_matrix adj pkt NGX_QUIC_FT_CRYPTO (by decide)).2
      [0x06, 0x00, 0x00] 0 3 1 f b (by decide) (by rw [hf]; decide)⟩

/-- C7 (evaluation at the failing input): on the one-byte buffer 1f, whose frame
type 0x1F is outside the known set, `ngx_quic_parse_frame` reads the table of
masks behind its last entry.  When that memory cannot be read the run ends there;
otherwise, whatever byte lies there, the call returns ERROR and either sets
`pkt->error` to PROTOCOL_VIOLATION or leaves `pkt->error` as it was.  It never
sets FRAME_ENCODING_ERROR. -/
theorem unknown_frame_type_error_code (adj : Nat → Option u_char) (pkt : ngx_quic_header_t)
    (f : ngx_quic_frame_t) (b : ngx_buf_t) :
    ngx_quic_frame_masks[0x1F]? = none
      ∧ ngx_quic_parse_frame adj pkt [0x1F] 0 1 f b
        = match adj 0x1F with
          | none => Exec.fault
          | some c =>
            if packet_type_bit pkt.flags &&& c.val ≠ 0 then
              Exec.done { rc := NGX_ERROR, pkt := pkt, f := { f with type := 0x1F }, b := b }
            else
              Exec.done { rc := NGX_ERROR,
                          pkt := { pkt with error := NGX_QUIC_ERR_PROTOCOL_VIOLATION },
                          f := { f with type := 0x1F }, b := b } := by
  refine ⟨by decide, ?_⟩
  have hp : ngx_quic_parse_int [0x1F] 0 1 = Rd.ok (1, 0x1F) := by decide
  have hA := frame_allowed_beyond adj pkt 0x1F (by decide)
  cases hc : adj 0x1F with
  | none =>
    rw [hc] at hA
    exact parse_frame_table_fault adj pkt [0x1F] 0 1 f b 1 0x1F hp hA
  | some c =>
    rw [hc] at hA
    dsimp only at hA ⊢
    rw [parse_frame_allowed adj pkt [0x1F] 0 1 f b 1 0x1F _ hp hA]
    by_cases hm : packet_type_bit pkt.flags &&& c.val ≠ 0
    · rw [if_pos hm, if_pos hm, if_neg (not_not.mpr rfl)]
      rfl
    · rw [if_neg hm, if_neg hm, if_pos NGX_DECLINED_ne_OK]

/-- C5 (evaluation at the failing input): on the two-byte buffer 04 01, a
parameter initial_max_data whose declared length 1 exceeds the 0 bytes that
remain, `ngx_quic_parse_transport_params` decodes the value and thereby reads the
byte at `end`: the run ends in an over-read of the buffer.  When the memory goes
on behind `end` (here with a byte 05), that byte is decoded into `*tp` before the
call returns ERROR. -/
theorem transport_params_over_read (tp : ngx_quic_tp_t) :
    ngx_quic_parse_transport_params [0x04, 0x01] 0 2 tp = Exec.fault
      ∧ ngx_quic_parse_transport_params [0x04, 0x01, 0x05] 0 2 tp
          = Exec.done (NGX_ERROR, { tp with initial_max_data := 5 }) := by
  have h1 : ngx_quic_parse_int [0x04, 0x01] 0 2 = Rd.ok (1, 4) := by decide
  have h2 : ngx_quic_parse_int [0x04, 0x01] 1 2 = Rd.ok (2, 1) := by decide
  have h3 : ngx_quic_parse_int [0x04, 0x01] 2 (2 + 1) = Rd.fault := by decide
  have g1 : ngx_quic_parse_int [0x04, 0x01, 0x05] 0 2 = Rd.ok (1, 4) := by decide
  have g2 : ngx_quic_parse_int [0x04, 0x01, 0x05] 1 2 = Rd.ok (2, 1) := by decide
  have g3 : ngx_quic_parse_int [0x04, 0x01, 0x05] 2 (2 + 1) = Rd.ok (3, 5) := by decide
  constructor
  · simp [ngx_quic_parse_transport_params, ngx_quic_parse_transport_params_loop,
      ngx_quic_parse_transport_param, h1, h2, h3]
  · simp [ngx_quic_parse_transport_params, ngx_quic_parse_transport_params_loop,
      ngx_quic_parse_transport_param, g1, g2, g3, NGX_OK, NGX_ERROR]

/-! ## Bounds of the readers -/

theorem parse_int_loop_safe (buf : List u_char) :
    ∀ (n p value : Nat), p + n ≤ buf.length →
      ∃ v, ngx_quic_parse_int_loop buf n p value = Rd.ok (p + n, v) := by
  intro n
  induction n with
  | zero => intro p value _; exact ⟨value, rfl⟩
  | succ n ih =>
    intro p value h
    have hp : p < buf.length := by omega
    obtain ⟨v, hv⟩ := ih (p + 1) ((value <<< 8) + (buf[p]).val) (by omega)
    refine ⟨v, ?_⟩
    simp only [ngx_quic_parse_int_loop, List.getElem?_eq_getElem hp]
    rw [hv]
    congr 2
    omega

theorem one_shiftLeft_pos (k : Nat) : 1 ≤ 1 <<< k := by
  rw [Nat.shiftLeft_eq, Nat.one_mul]
  exact Nat.one_le_two_pow

theorem parse_int_safe (buf : List u_char) (pos e : Nat) (he : e ≤ buf.length) :
    ngx_quic_parse_int buf pos e = Rd.null
      ∨ ∃ p v, ngx_quic_parse_int buf pos e = Rd.ok (p, v) ∧ pos < p ∧ p ≤ e := by
  unfold ngx_quic_parse_int
  by_cases h1 : pos ≥ e
  · left; rw [if_pos h1]
  · rw [if_neg h1]
    have hp : pos < buf.length := by omega
    simp only [List.getElem?_eq_getElem hp]
    rw [size_t_diff_le _ _ (by omega)]
    by_cases h2 : e - (pos + 1) < 1 <<< ((buf[pos]).val >>> 6) - 1
    · left; rw [if_pos h2]
    · right
      rw [if_neg h2]
      have h3 := one_shiftLeft_pos ((buf[pos]).val >>> 6)
      obtain ⟨v, hv⟩ := parse_int_loop_safe buf (1 <<< ((buf[pos]).val >>> 6) - 1) (pos + 1)
        ((buf[pos]).val &&& 0x3f) (by omega)
      exact ⟨_, v, hv, by omega, by omega⟩

theorem read_uint8_safe (buf : List u_char) (pos e : Nat) (he : e ≤ buf.length)
    (hp : pos ≤ e) :
    ngx_quic_read_uint8 buf pos e = Rd.null
      ∨ ∃ v, ngx_quic_read_uint8 buf pos e = Rd.ok (pos + 1, v) ∧ pos + 1 ≤ e ∧ v < 256 := by
  unfold ngx_quic_read_uint8
  rw [size_t_diff_le _ _ hp]
  by_cases h1 : e - pos < 1
  · left; rw [if_pos h1]
  · right
    rw [if_neg h1]
    have hp : pos < buf.length := by omega
    simp only [List.getElem?_eq_getElem hp]
    exact ⟨_, rfl, by omega, (buf[pos]).isLt⟩

theorem read_bytes_safe (pos e len : Nat) (hp : pos ≤ e) :
    ngx_quic_read_bytes pos e len = Rd.null
      ∨ (ngx_quic_read_bytes pos e len = Rd.ok (pos + len, pos) ∧ pos + len ≤ e) := by
  unfold ngx_quic_read_bytes
  rw [size_t_diff_le _ _ hp]
  by_cases h1 : e - pos < len
  · left; rw [if_pos h1]
  · right; rw [if_neg h1]; exact ⟨rfl, by omega⟩

theorem copy_bytes_safe (buf : List u_char) (pos e len : Nat) (he : e ≤ buf.length)
    (hp : pos ≤ e) :
    ngx_quic_copy_bytes buf pos e len = Rd.null
      ∨ (ngx_quic_copy_bytes buf pos e len = Rd.ok (pos + len, mem_bytes buf pos len)
          ∧ pos + len ≤ e) := by
  unfold ngx_quic_copy_bytes
  rw [size_t_diff_le _ _ hp]
  by_cases h1 : e - pos < len
  · left; rw [if_pos h1]
  · right
    rw [if_neg h1, if_neg (by omega)]
    exact ⟨rfl, by omega⟩

theorem padding_loop_safe (buf : List u_char) (e : Nat) (he : e ≤ buf.length) :
    ∀ (fuel p : Nat), p ≤ e →
      ∃ q, ngx_quic_parse_frame_padding_loop buf e fuel p = Rd.ok (q, ()) ∧ p ≤ q ∧ q ≤ e := by
  intro fuel
  induction fuel with
  | zero => intro p hp; exact ⟨p, rfl, le_refl _, hp⟩
  | succ n ih =>
    intro p hp
    unfold ngx_quic_parse_frame_padding_loop
    by_cases h1 : p < e
    · rw [if_pos h1]
      have hpl : p < buf.length := by omega
      simp only [List.getElem?_eq_getElem hpl]
      by_cases h2 : (buf[p]).val = NGX_QUIC_FT_PADDING
      · rw [if_pos h2]
        obtain ⟨q, hq, hq1, hq2⟩ := ih (p + 1) (by omega)
        exact ⟨q, hq, by omega, hq2⟩
      · rw [if_neg h2]
        exact ⟨p, rfl, le_refl _, hp⟩
    · rw [if_neg h1]
      exact ⟨p, rfl, le_refl _, hp⟩

theorem ack_ranges_safe (buf : List u_char) (e : Nat) (he : e ≤ buf.length) :
    ∀ (n p : Nat), p ≤ e →
      ngx_quic_parse_frame_ack_ranges buf e n p = Rd.null
        ∨ ∃ q, ngx_quic_parse_frame_ack_ranges buf e n p = Rd.ok (q, ()) ∧ p ≤ q ∧ q ≤ e := by
  intro n
  induction n with
  | zero => intro p hp; right; exact ⟨p, rfl, le_refl _, hp⟩
  | succ n ih =>
    intro p hp
    unfold ngx_quic_parse_frame_ack_ranges
    rcases parse_int_safe buf p e he with h | ⟨p1, v1, h, h1, h1'⟩
    · left; rw [h]
    · rw [h]
      rcases parse_int_safe buf p1 e he with h | ⟨p2, v2, h, h2, h2'⟩
      · left; simp only [h]
      · simp only [h]
        rcases ih p2 h2' with h | ⟨q, hq, hq1, hq2⟩
        · left; exact h
        · right; exact ⟨q, hq, by omega, hq2⟩

/-! ## Bounds of the frame parser -/

theorem good_error (start : Nat) (buf : List u_char) (pkt : ngx_quic_header_t)
    (f : ngx_quic_frame_t) (b : ngx_buf_t) :
    parse_frame_in_bounds start buf (ngx_quic_parse_frame_error pkt f b) :=
  ⟨_, rfl, Or.inl rfl⟩

theorem good_parse_int {start : Nat} {buf : List u_char} (pos : Nat)
    (pkt : ngx_quic_header_t) (f : ngx_quic_frame_t) (b : ngx_buf_t)
    (k : Nat → Nat → Exec ngx_quic_parse_frame_ret)
    (hk : ∀ p v, pos < p → p ≤ buf.length → parse_frame_in_bounds start buf (k p v)) :
    parse_frame_in_bounds start buf
      (ngx_quic_parse_frame_step (ngx_quic_parse_int buf pos buf.length) pkt f b k) := by
  rcases parse_int_safe buf pos buf.length (le_refl _) with h | ⟨p, v, h, h1, h2⟩
  · rw [h]; exact good_error start buf pkt f b
  · rw [h]; exact hk p v h1 h2

theorem good_read_uint8 {start : Nat} {buf : List u_char} (pos : Nat)
    (pkt : ngx_quic_header_t) (f : ngx_quic_frame_t) (b : ngx_buf_t)
    (k : Nat → Nat → Exec ngx_quic_parse_frame_ret) (hp : pos ≤ buf.length)
    (hk : ∀ v, pos + 1 ≤ buf.length → parse_frame_in_bounds start buf (k (pos + 1) v)) :
    parse_frame_in_bounds start buf
      (ngx_quic_parse_frame_step (ngx_quic_read_uint8 buf pos buf.length) pkt f b k) := by
  rcases read_uint8_safe buf pos buf.length (le_refl _) hp with h | ⟨v, h, h1, _⟩
  · rw [h]; exact good_error start buf pkt f b
  · rw [h]; exact hk v h1

theorem good_read_bytes {start : Nat} {buf : List u_char} (pos len : Nat)
    (pkt : ngx_quic_header_t) (f : ngx_quic_frame_t) (b : ngx_buf_t)
    (k : Nat → Nat → Exec ngx_quic_parse_frame_ret) (hp : pos ≤ buf.length)
    (hk : pos + len ≤ buf.length → parse_frame_in_bounds start buf (k (pos + len) pos)) :
    parse_frame_in_bounds start buf
      (ngx_quic_parse_frame_step (ngx_quic_read_bytes pos buf.length len) pkt f b k) := by
  rcases read_bytes_safe pos buf.length len hp with h | ⟨h, h1⟩
  · rw [h]; exact good_error start buf pkt f b
  · rw [h]; exact hk h1

theorem good_copy_bytes {start : Nat} {buf : List u_char} (pos len : Nat)
    (pkt : ngx_quic_header_t) (f : ngx_quic_frame_t) (b : ngx_buf_t)
    (k : Nat → List u_char → Exec ngx_quic_parse_frame_ret) (hp : pos ≤ buf.length)
    (hk : ∀ bytes, pos + len ≤ buf.length →
      parse_frame_in_bounds start buf (k (pos + len) bytes)) :
    parse_frame_in_bounds start buf
      (ngx_quic_parse_frame_step (ngx_quic_copy_bytes buf pos buf.length len) pkt f b k) := by
  rcases copy_bytes_safe buf pos buf.length len (le_refl _) hp with h | ⟨h, h1⟩
  · rw [h]; exact good_error start buf pkt f b
  · rw [h]; exact hk _ h1

theorem good_return {start : Nat} {buf : List u_char} (pkt : ngx_quic_header_t) (p : Nat)
    (f : ngx_quic_frame_t) (b : ngx_buf_t) (h1 : start < p) (h2 : p ≤ buf.length)
    (hs : (f.type = 0x06 ∨ (0x08 ≤ f.type ∧ f.type ≤ 0x0F) ∨ f.type = 0x02 ∨ f.type = 0x03) →
          start ≤ b.pos ∧ b.pos ≤ b.last ∧ b.last ≤ p)
    (hc : f.type = 0x06 → b.last - b.pos = f.u.crypto.length)
    (hst : (0x08 ≤ f.type ∧ f.type ≤ 0x0F) → b.last - b.pos = f.u.stream.length)
    (ha : (f.type = 0x02 ∨ f.type = 0x03) → b.last - b.pos = f.u.ack.ranges_length)
    (hcl : (f.type = 0x1C ∨ f.type = 0x1D) →
          start ≤ f.u.close.reason.data
            ∧ f.u.close.reason.data + f.u.close.reason.len ≤ p) :
    parse_frame_in_bounds start buf (ngx_quic_parse_frame_return pkt start p f b) := by
  refine ⟨_, rfl, Or.inr ⟨?_, ?_, ?_, hc, hst, ha, ?_⟩⟩
  · show (1 : Int) ≤ (p : Int) - (start : Int)
    omega
  · show (p : Int) - (start : Int) ≤ (buf.length : Int) - (start : Int)
    omega
  · intro h
    obtain ⟨a1, a2, a3⟩ := hs h
    refine ⟨a1, a2, ?_⟩
    show (b.last : Int) ≤ (start : Int) + ((p : Int) - (start : Int))
    omega
  · intro h
    obtain ⟨a1, a2⟩ := hcl h
    refine ⟨a1, ?_⟩
    show ((f.u.close.reason.data + f.u.close.reason.len : Nat) : Int)
      ≤ (start : Int) + ((p : Int) - (start : Int))
    omega

theorem good_padding_loop {start : Nat} {buf : List u_char} (fuel pos : Nat)
    (pkt : ngx_quic_header_t) (f : ngx_quic_frame_t) (b : ngx_buf_t)
    (k : Nat → Unit → Exec ngx_quic_parse_frame_ret) (hp : pos ≤ buf.length)
    (hk : ∀ q u, pos ≤ q → q ≤ buf.length → parse_frame_in_bounds start buf (k q u)) :
    parse_frame_in_bounds start buf
      (ngx_quic_parse_frame_step (ngx_quic_parse_frame_padding_loop buf buf.length fuel pos)
        pkt f b k) := by
  obtain ⟨q, h, h1, h2⟩ := padding_loop_safe buf buf.length (le_refl _) fuel pos hp
  rw [h]; exact hk q () h1 h2

theorem good_ack_ranges {start : Nat} {buf : List u_char} (n pos : Nat)
    (pkt : ngx_quic_header_t) (f : ngx_quic_frame_t) (b : ngx_buf_t)
    (k : Nat → Unit → Exec ngx_quic_parse_frame_ret) (hp : pos ≤ buf.length)
    (hk : ∀ q u, pos ≤ q → q ≤ buf.length → parse_frame_in_bounds start buf (k q u)) :
    parse_frame_in_bounds start buf
      (ngx_quic_parse_frame_step (ngx_quic_parse_frame_ack_ranges buf buf.length n pos)
        pkt f b k) := by
  rcases ack_ranges_safe buf buf.length (le_refl _) n pos hp with h | ⟨q, h, h1, h2⟩
  · rw [h]; exact good_error start buf pkt f b
  · rw [h]; exact hk q () h1 h2

theorem good_crypto (pkt : ngx_quic_header_t) (buf : List u_char) (start p : Nat)
    (f : ngx_quic_frame_t) (b : ngx_buf_t) (h1 : start < p) (h2 : p ≤ buf.length)
    (hty : f.type = 0x06) :
    parse_frame_in_bounds start buf
      (ngx_quic_parse_frame_crypto pkt buf start buf.length p f b) := by
  unfold ngx_quic_parse_frame_crypto
  try dsimp only
  repeat' (first
    | exact good_error _ _ _ _ _
    | refine good_parse_int _ _ _ _ _ fun _ _ _ _ => ?_
    | refine good_read_uint8 _ _ _ _ _ (by omega) fun _ _ => ?_
    | refine good_read_bytes _ _ _ _ _ _ (by omega) fun _ => ?_
    | refine good_copy_bytes _ _ _ _ _ _ (by omega) fun _ _ => ?_
    | refine good_padding_loop _ _ _ _ _ _ (by omega) fun _ _ _ _ => ?_
    | refine good_ack_ranges _ _ _ _ _ _ (by omega) fun _ _ _ _ => ?_
    | (refine good_return _ _ _ _ (by omega) (by omega) ?_ ?_ ?_ ?_ ?_
        <;> (try dsimp only at *) <;> intros <;> omega)
    | split_ifs)

theorem good_padding (pkt : ngx_quic_header_t) (buf : List u_char) (start p : Nat)
    (f : ngx_quic_frame_t) (b : ngx_buf_t) (h1 : start < p) (h2 : p ≤ buf.length)
    (hty : f.type = 0x00) :
    parse_frame_in_bounds start buf
      (ngx_quic_parse_frame_padding pkt buf start buf.length p f b) := by
  unfold ngx_quic_parse_frame_padding
  try dsimp only
  repeat' (first
    | exact good_error _ _ _ _ _
    | refine good_parse_int _ _ _ _ _ fun _ _ _ _ => ?_
    | refine good_read_uint8 _ _ _ _ _ (by omega) fun _ _ => ?_
    | refine good_read_bytes _ _ _ _ _ _ (by omega) fun _ => ?_
    | refine good_copy_bytes _ _ _ _ _ _ (by omega) fun _ _ => ?_
    | refine good_padding_loop _ _ _ _ _ _ (by omega) fun _ _ _ _ => ?_
    | refine good_ack_ranges _ _ _ _ _ _ (by omega) fun _ _ _ _ => ?_
    | (refine good_return _ _ _ _ (by omega) (by omega) ?_ ?_ ?_ ?_ ?_
        <;> (try dsimp only at *) <;> intros <;> omega)
    | split_ifs)

theorem good_ack (pkt : ngx_quic_header_t) (buf : List u_char) (start p : Nat)
    (f : ngx_quic_frame_t) (b : ngx_buf_t) (h1 : start < p) (h2 : p ≤ buf.length)
    (hty : f.type = 0x02 ∨ f.type = 0x03) :
    parse_frame_in_bounds start buf
      (ngx_quic_parse_frame_ack pkt buf start buf.length p f b) := by
  unfold ngx_quic_parse_frame_ack
  try dsimp only
  repeat' (first
    | exact good_error _ _ _ _ _
    | refine good_parse_int _ _ _ _ _ fun _ _ _ _ => ?_
    | refine good_read_uint8 _ _ _ _ _ (by omega) fun _ _ => ?_
    | refine good_read_bytes _ _ _ _ _ _ (by omega) fun _ => ?_
    | refine good_copy_bytes _ _ _ _ _ _ (by omega) fun _ _ => ?_
    | refine good_padding_loop _ _ _ _ _ _ (by omega) fun _ _ _ _ => ?_
    | refine good_ack_ranges _ _ _ _ _ _ (by omega) fun _ _ _ _ => ?_
    | (refine good_return _ _ _ _ (by omega) (by omega) ?_ ?_ ?_ ?_ ?_
        <;> (try dsimp only at *) <;> intros <;> omega)
    | split_ifs)

theorem good_new_connection_id (pkt : ngx_quic_header_t) (buf : List u_char) (start p : Nat)
    (f : ngx_quic_frame_t) (b : ngx_buf_t) (h1 : start < p) (h2 : p ≤ buf.length)
    (hty : f.type = 0x18) :
    parse_frame_in_bounds start buf
      (ngx_quic_parse_frame_new_connection_id pkt buf start buf.length p f b) := by
  unfold ngx_quic_parse_frame_new_connection_id
  try dsimp only
  repeat' (first
    | exact good_error _ _ _ _ _
    | refine good_parse_int _ _ _ _ _ fun _ _ _ _ => ?_
    | refine good_read_uint8 _ _ _ _ _ (by omega) fun _ _ => ?_
    | refine good_read_bytes _ _ _ _ _ _ (by omega) fun _ => ?_
    | refine good_copy_bytes _ _ _ _ _ _ (by omega) fun _ _ => ?_
    | refine good_padding_loop _ _ _ _ _ _ (by omega) fun _ _ _ _ => ?_
    | refine good_ack_ranges _ _ _ _ _ _ (by omega) fun _ _ _ _ => ?_
    | (refine good_return _ _ _ _ (by omega) (by omega) ?_ ?_ ?_ ?_ ?_
        <;> (try dsimp only at *) <;> intros <;> omega)
    | split_ifs)

theorem good_retire_connection_id (pkt : ngx_quic_header_t) (buf : List u_char) (start p : Nat)
    (f : ngx_quic_frame_t) (b : ngx_buf_t) (h1 : start < p) (h2 : p ≤ buf.length)
    (hty : f.type = 0x19) :
    parse_frame_in_bounds start buf
      (ngx_quic_parse_frame_retire_connection_id pkt buf start buf.length p f b) := by
  unfold ngx_quic_parse_frame_retire_connection_id
  try dsimp only
  repeat' (first
    | exact good_error _ _ _ _ _
    | refine good_parse_int _ _ _ _ _ fun _ _ _ _ => ?_
    | refine good_read_uint8 _ _ _ _ _ (by omega) fun _ _ => ?_
    | refine good_read_bytes _ _ _ _ _ _ (by omega) fun _ => ?_
    | refine good_copy_bytes _ _ _ _ _ _ (by omega) fun _ _ => ?_
    | refine good_padding_loop _ _ _ _ _ _ (by omega) fun _ _ _ _ => ?_
    | refine good_ack_ranges _ _ _ _ _ _ (by omega) fun _ _ _ _ => ?_
    | (refine good_return _ _ _ _ (by omega) (by omega) ?_ ?_ ?_ ?_ ?_
        <;> (try dsimp only at *) <;> intros <;> omega)
    | split_ifs)

theorem good_connection_close (pkt : ngx_quic_header_t) (buf : List u_char) (start p : Nat)
    (f : ngx_quic_frame_t) (b : ngx_buf_t) (h1 : start < p) (h2 : p ≤ buf.length)
    (hty : f.type = 0x1C ∨ f.type = 0x1D) :
    parse_frame_in_bounds start buf
      (ngx_quic_parse_frame_connection_close pkt buf start buf.length p f b) := by
  unfold ngx_quic_parse_frame_connection_close
  try dsimp only
  repeat' (first
    | exact good_error _ _ _ _ _
    | refine good_parse_int _ _ _ _ _ fun _ _ _ _ => ?_
    | refine good_read_uint8 _ _ _ _ _ (by omega) fun _ _ => ?_
    | refine good_read_bytes _ _ _ _ _ _ (by omega) fun _ => ?_
    | refine good_copy_bytes _ _ _ _ _ _ (by omega) fun _ _ => ?_
    | refine good_padding_loop _ _ _ _ _ _ (by omega) fun _ _ _ _ => ?_
    | refine good_ack_ranges _ _ _ _ _ _ (by omega) fun _ _ _ _ => ?_
    | (refine good_return _ _ _ _ (by omega) (by omega) ?_ ?_ ?_ ?_ ?_
        <;> (try dsimp only at *) <;> intros <;> omega)
    | split_ifs)

theorem good_stream (pkt : ngx_quic_header_t) (buf : List u_char) (start p : Nat)
    (f : ngx_quic_frame_t) (b : ngx_buf_t) (h1 : start < p) (h2 : p ≤ buf.length)
    (hty : 0x08 ≤ f.type ∧ f.type ≤ 0x0F) :
    parse_frame_in_bounds start buf
      (ngx_quic_parse_frame_stream pkt buf start buf.length p f b) := by
  unfold ngx_quic_parse_frame_stream
  try dsimp only
  repeat' (first
    | exact good_error _ _ _ _ _
    | refine good_parse_int _ _ _ _ _ fun _ _ _ _ => ?_
    | refine good_read_uint8 _ _ _ _ _ (by omega) fun _ _ => ?_
    | refine good_read_bytes _ _ _ _ _ _ (by omega) fun _ => ?_
    | refine good_copy_bytes _ _ _ _ _ _ (by omega) fun _ _ => ?_
    | refine good_padding_loop _ _ _ _ _ _ (by omega) fun _ _ _ _ => ?_
    | refine good_ack_ranges _ _ _ _ _ _ (by omega) fun _ _ _ _ => ?_
    | (refine good_return _ _ _ _ (by omega) (by omega) ?_ ?_ ?_ ?_ ?_
        <;> (try dsimp only at *) <;> intros <;> omega)
    | split_ifs)

theorem good_max_data (pkt : ngx_quic_header_t) (buf : List u_char) (start p : Nat)
    (f : ngx_quic_frame_t) (b : ngx_buf_t) (h1 : start < p) (h2 : p ≤ buf.length)
    (hty : f.type = 0x10) :
    parse_frame_in_bounds start buf
      (ngx_quic_parse_frame_max_data pkt buf start buf.length p f b) := by
  unfold ngx_quic_parse_frame_max_data
  try dsimp only
  repeat' (first
    | exact good_error _ _ _ _ _
    | refine good_parse_int _ _ _ _ _ fun _ _ _ _ => ?_
    | refine good_read_uint8 _ _ _ _ _ (by omega) fun _ _ => ?_
    | refine good_read_bytes _ _ _ _ _ _ (by omega) fun _ => ?_
    | refine good_copy_bytes _ _ _ _ _ _ (by omega) fun _ _ => ?_
    | refine good_padding_loop _ _ _ _ _ _ (by omega) fun _ _ _ _ => ?_
    | refine good_ack_ranges _ _ _ _ _ _ (by omega) fun _ _ _ _ => ?_
    | (refine good_return _ _ _ _ (by omega) (by omega) ?_ ?_ ?_ ?_ ?_
        <;> (try dsimp only at *) <;> intros <;> omega)
    | split_ifs)

theorem good_reset_stream (pkt : ngx_quic_header_t) (buf : List u_char) (start p : Nat)
    (f : ngx_quic_frame_t) (b : ngx_buf_t) (h1 : start < p) (h2 : p ≤ buf.length)
    (hty : f.type = 0x04) :
    parse_frame_in_bounds start buf
      (ngx_quic_parse_frame_reset_stream pkt buf start buf.length p f b) := by
  unfold ngx_quic_parse_frame_reset_stream
  try dsimp only
  repeat' (first
    | exact good_error _ _ _ _ _
    | refine good_parse_int _ _ _ _ _ fun _ _ _ _ => ?_
    | refine good_read_uint8 _ _ _ _ _ (by omega) fun _ _ => ?_
    | refine good_read_bytes _ _ _ _ _ _ (by omega) fun _ => ?_
    | refine good_copy_bytes _ _ _ _ _ _ (by omega) fun _ _ => ?_
    | refine good_padding_loop _ _ _ _ _ _ (by omega) fun _ _ _ _ => ?_
    | refine good_ack_ranges _ _ _ _ _ _ (by omega) fun _ _ _ _ => ?_
    | (refine good_return _ _ _ _ (by omega) (by omega) ?_ ?_ ?_ ?_ ?_
        <;> (try dsimp only at *) <;> intros <;> omega)
    | split_ifs)

theorem good_stop_sending (pkt : ngx_quic_header_t) (buf : List u_char) (start p : Nat)
    (f : ngx_quic_frame_t) (b : ngx_buf_t) (h1 : start < p) (h2 : p ≤ buf.length)
    (hty : f.type = 0x05) :
    parse_frame_in_bounds start buf
      (ngx_quic_parse_frame_stop_sending pkt buf start buf.length p f b) := by
  unfold ngx_quic_parse_frame_stop_sending
  try dsimp only
  repeat' (first
    | exact good_error _ _ _ _ _
    | refine good_parse_int _ _ _ _ _ fun _ _ _ _ => ?_
    | refine good_read_uint8 _ _ _ _ _ (by omega) fun _ _ => ?_
    | refine good_read_bytes _ _ _ _ _ _ (by omega) fun _ => ?_
    | refine good_copy_bytes _ _ _ _ _ _ (by omega) fun _ _ => ?_
    | refine good_padding_loop _ _ _ _ _ _ (by omega) fun _ _ _ _ => ?_
    | refine good_ack_ranges _ _ _ _ _ _ (by omega) fun _ _ _ _ => ?_
    | (refine good_return _ _ _ _ (by omega) (by omega) ?_ ?_ ?_ ?_ ?_
        <;> (try dsimp only at *) <;> intros <;> omega)
    | split_ifs)

theorem good_streams_blocked (pkt : ngx_quic_header_t) (buf : List u_char) (start p : Nat)
    (f : ngx_quic_frame_t) (b : ngx_buf_t) (h1 : start < p) (h2 : p ≤ buf.length)
    (hty : f.type = 0x16 ∨ f.type = 0x17) :
    parse_frame_in_bounds start buf
      (ngx_quic_parse_frame_streams_blocked pkt buf start buf.length p f b) := by
  unfold ngx_quic_parse_frame_streams_blocked
  try dsimp only
  repeat' (first
    | exact good_error _ _ _ _ _
    | refine good_parse_int _ _ _ _ _ fun _ _ _ _ => ?_
    | refine good_read_uint8 _ _ _ _ _ (by omega) fun _ _ => ?_
    | refine good_read_bytes _ _ _ _ _ _ (by omega) fun _ => ?_
    | refine good_copy_bytes _ _ _ _ _ _ (by omega) fun _ _ => ?_
    | refine good_padding_loop _ _ _ _ _ _ (by omega) fun _ _ _ _ => ?_
    | refine good_ack_ranges _ _ _ _ _ _ (by omega) fun _ _ _ _ => ?_
    | (refine good_return _ _ _ _ (by omega) (by omega) ?_ ?_ ?_ ?_ ?_
        <;> (try dsimp only at *) <;> intros <;> omega)
    | split_ifs)

theorem good_max_streams (pkt : ngx_quic_header_t) (buf : List u_char) (start p : Nat)
    (f : ngx_quic_frame_t) (b : ngx_buf_t) (h1 : start < p) (h2 : p ≤ buf.length)
    (hty : f.type = 0x12 ∨ f.type = 0x13) :
    parse_frame_in_bounds start buf
      (ngx_quic_parse_frame_max_streams pkt buf start buf.length p f b) := by
  unfold ngx_quic_parse_frame_max_streams
  try dsimp only
  repeat' (first
    | exact good_error _ _ _ _ _
    | refine good_parse_int _ _ _ _ _ fun _ _ _ _ => ?_
    | refine good_read_uint8 _ _ _ _ _ (by omega) fun _ _ => ?_
    | refine good_read_bytes _ _ _ _ _ _ (by omega) fun _ => ?_
    | refine good_copy_bytes _ _ _ _ _ _ (by omega) fun _ _ => ?_
    | refine good_padding_loop _ _ _ _ _ _ (by omega) fun _ _ _ _ => ?_
    | refine good_ack_ranges _ _ _ _ _ _ (by omega) fun _ _ _ _ => ?_
    | (refine good_return _ _ _ _ (by omega) (by omega) ?_ ?_ ?_ ?_ ?_
        <;> (try dsimp only at *) <;> intros <;> omega)
    | split_ifs)

theorem good_max_stream_data (pkt : ngx_quic_header_t) (buf : List u_char) (start p : Nat)
    (f : ngx_quic_frame_t) (b : ngx_buf_t) (h1 : start < p) (h2 : p ≤ buf.length)
    (hty : f.type = 0x11) :
    parse_frame_in_bounds start buf
      (ngx_quic_parse_frame_max_stream_data pkt buf start buf.length p f b) := by
  unfold ngx_quic_parse_frame_max_stream_data
  try dsimp only
  repeat' (first
    | exact good_error _ _ _ _ _
    | refine good_parse_int _ _ _ _ _ fun _ _ _ _ => ?_
    | refine good_read_uint8 _ _ _ _ _ (by omega) fun _ _ => ?_
    | refine good_read_bytes _ _ _ _ _ _ (by omega) fun _ => ?_
    | refine good_copy_bytes _ _ _ _ _ _ (by omega) fun _ _ => ?_
    | refine good_padding_loop _ _ _ _ _ _ (by omega) fun _ _ _ _ => ?_
    | refine good_ack_ranges _ _ _ _ _ _ (by omega) fun _ _ _ _ => ?_
    | (refine good_return _ _ _ _ (by omega) (by omega) ?_ ?_ ?_ ?_ ?_
        <;> (try dsimp only at *) <;> intros <;> omega)
    | split_ifs)

theorem good_data_blocked (pkt : ngx_quic_header_t) (buf : List u_char) (start p : Nat)
    (f : ngx_quic_frame_t) (b : ngx_buf_t) (h1 : start < p) (h2 : p ≤ buf.length)
    (hty : f.type = 0x14) :
    parse_frame_in_bounds start buf
      (ngx_quic_parse_frame_data_blocked pkt buf start buf.length p f b) := by
  unfold ngx_quic_parse_frame_data_blocked
  try dsimp only
  repeat' (first
    | exact good_error _ _ _ _ _
    | refine good_parse_int _ _ _ _ _ fun _ _ _ _ => ?_
    | refine good_read_uint8 _ _ _ _ _ (by omega) fun _ _ => ?_
    | refine good_read_bytes _ _ _ _ _ _ (by omega) fun _ => ?_
    | refine good_copy_bytes _ _ _ _ _ _ (by omega) fun _ _ => ?_
    | refine good_padding_loop _ _ _ _ _ _ (by omega) fun _ _ _ _ => ?_
    | refine good_ack_ranges _ _ _ _ _ _ (by omega) fun _ _ _ _ => ?_
    | (refine good_return _ _ _ _ (by omega) (by omega) ?_ ?_ ?_ ?_ ?_
        <;> (try dsimp only at *) <;> intros <;> omega)
    | split_ifs)

theorem good_stream_data_blocked (pkt : ngx_quic_header_t) (buf : List u_char) (start p : Nat)
    (f : ngx_quic_frame_t) (b : ngx_buf_t) (h1 : start < p) (h2 : p ≤ buf.length)
    (hty : f.type = 0x15) :
    parse_frame_in_bounds start buf
      (ngx_quic_parse_frame_stream_data_blocked pkt buf start buf.length p f b) := by
  unfold ngx_quic_parse_frame_stream_data_blocked
  try dsimp only
  repeat' (first
    | exact good_error _ _ _ _ _
    | refine good_parse_int _ _ _ _ _ fun _ _ _ _ => ?_
    | refine good_read_uint8 _ _ _ _ _ (by omega) fun _ _ => ?_
    | refine good_read_bytes _ _ _ _ _ _ (by omega) fun _ => ?_
    | refine good_copy_bytes _ _ _ _ _ _ (by omega) fun _ _ => ?_
    | refine good_padding_loop _ _ _ _ _ _ (by omega) fun _ _ _ _ => ?_
    | refine good_ack_ranges _ _ _ _ _ _ (by omega) fun _ _ _ _ => ?_
    | (refine good_return _ _ _ _ (by omega) (by omega) ?_ ?_ ?_ ?_ ?_
        <;> (try dsimp only at *) <;> intros <;> omega)
    | split_ifs)

theorem good_path_challenge (pkt : ngx_quic_header_t) (buf : List u_char) (start p : Nat)
    (f : ngx_quic_frame_t) (b : ngx_buf_t) (h1 : start < p) (h2 : p ≤ buf.length)
    (hty : f.type = 0x1A) :
    parse_frame_in_bounds start buf
      (ngx_quic_parse_frame_path_challenge pkt buf start buf.length p f b) := by
  unfold ngx_quic_parse_frame_path_challenge
  try dsimp only
  repeat' (first
    | exact good_error _ _ _ _ _
    | refine good_parse_int _ _ _ _ _ fun _ _ _ _ => ?_
    | refine good_read_uint8 _ _ _ _ _ (by omega) fun _ _ => ?_
    | refine good_read_bytes _ _ _ _ _ _ (by omega) fun _ => ?_
    | refine good_copy_bytes _ _ _ _ _ _ (by omega) fun _ _ => ?_
    | refine good_padding_loop _ _ _ _ _ _ (by omega) fun _ _ _ _ => ?_
    | refine good_ack_ranges _ _ _ _ _ _ (by omega) fun _ _ _ _ => ?_
    | (refine good_return _ _ _ _ (by omega) (by omega) ?_ ?_ ?_ ?_ ?_
        <;> (try dsimp only at *) <;> intros <;> omega)
    | split_ifs)

theorem good_path_response (pkt : ngx_quic_header_t) (buf : List u_char) (start p : Nat)
    (f : ngx_quic_frame_t) (b : ngx_buf_t) (h1 : start < p) (h2 : p ≤ buf.length)
    (hty : f.type = 0x1B) :
    parse_frame_in_bounds start buf
      (ngx_quic_parse_frame_path_response pkt buf start buf.length p f b) := by
  unfold ngx_quic_parse_frame_path_response
  try dsimp only
  repeat' (first
    | exact good_error _ _ _ _ _
    | refine good_parse_int _ _ _ _ _ fun _ _ _ _ => ?_
    | refine good_read_uint8 _ _ _ _ _ (by omega) fun _ _ => ?_
    | refine good_read_bytes _ _ _ _ _ _ (by omega) fun _ => ?_
    | refine good_copy_bytes _ _ _ _ _ _ (by omega) fun _ _ => ?_
    | refine good_padding_loop _ _ _ _ _ _ (by omega) fun _ _ _ _ => ?_
    | refine good_ack_ranges _ _ _ _ _ _ (by omega) fun _ _ _ _ => ?_
    | (refine good_return _ _ _ _ (by omega) (by omega) ?_ ?_ ?_ ?_ ?_
        <;> (try dsimp only at *) <;> intros <;> omega)
    | split_ifs)

theorem good_switch (pkt : ngx_quic_header_t) (buf : List u_char) (start p : Nat)
    (f : ngx_quic_frame_t) (b : ngx_buf_t) (h1 : start < p) (h2 : p ≤ buf.length) :
    parse_frame_in_bounds start buf
      (ngx_quic_parse_frame_switch pkt buf start buf.length p f b) := by
  unfold ngx_quic_parse_frame_switch
  split
  · exact good_crypto pkt buf start p f b h1 h2 (by omega)
  · exact good_padding pkt buf start p f b h1 h2 (by omega)
  · exact good_ack pkt buf start p f b h1 h2 (by omega)
  · exact good_ack pkt buf start p f b h1 h2 (by omega)
  · refine good_return _ _ _ _ h1 h2 ?_ ?_ ?_ ?_ ?_ <;> intros <;> omega
  · exact good_new_connection_id pkt buf start p f b h1 h2 (by omega)
  · exact good_retire_connection_id pkt buf start p f b h1 h2 (by omega)
  · exact good_connection_close pkt buf start p f b h1 h2 (by omega)
  · exact good_connection_close pkt buf start p f b h1 h2 (by omega)
  · exact good_stream pkt buf start p f b h1 h2 (by omega)
  · exact good_stream pkt buf start p f b h1 h2 (by omega)
  · exact good_stream pkt buf start p f b h1 h2 (by omega)
  · exact good_stream pkt buf start p f b h1 h2 (by omega)
  · exact good_stream pkt buf start p f b h1 h2 (by omega)
  · exact good_stream pkt buf start p f b h1 h2 (by omega)
  · exact good_stream pkt buf start p f b h1 h2 (by omega)
  · exact good_stream pkt buf start p f b h1 h2 (by omega)
  · exact good_max_data pkt buf start p f b h1 h2 (by omega)
  · exact good_reset_stream pkt buf start p f b h1 h2 (by omega)
  · exact good_stop_sending pkt buf start p f b h1 h2 (by omega)
  · exact good_streams_blocked pkt buf start p f b h1 h2 (by omega)
  · exact good_streams_blocked pkt buf start p f b h1 h2 (by omega)
  · exact good_max_streams pkt buf start p f b h1 h2 (by omega)
  · exact good_max_streams pkt buf start p f b h1 h2 (by omega)
  · exact good_max_stream_data pkt buf start p f b h1 h2 (by omega)
  · exact good_data_blocked pkt buf start p f b h1 h2 (by omega)
  · exact good_stream_data_blocked pkt buf start p f b h1 h2 (by omega)
  · exact good_path_challenge pkt buf start p f b h1 h2 (by omega)
  · exact good_path_response pkt buf start p f b h1 h2 (by omega)
  · exact ⟨_, rfl, Or.inl rfl⟩

/-- Every run of the frame parser on a buffer that ends with the memory region
respects the bounds of the buffer, or ends at the read of the table of masks: the
frame type is beyond the table and the memory behind the table cannot be read at
that index. -/
theorem parse_frame_good (adj : Nat → Option u_char) (pkt : ngx_quic_header_t)
    (buf : List u_char) (start : Nat) (f : ngx_quic_frame_t) (b : ngx_buf_t) :
    parse_frame_in_bounds start buf (ngx_quic_parse_frame adj pkt buf start buf.length f b)
      ∨ (ngx_quic_parse_frame adj pkt buf start buf.length f b = Exec.fault
          ∧ ∃ p t, ngx_quic_parse_int buf start buf.length = Rd.ok (p, t)
              ∧ 0x1E < t ∧ adj t = none) := by
  rcases parse_int_safe buf start buf.length (le_refl _) with hn | ⟨p, t, hp, h1, h2⟩
  · left
    unfold ngx_quic_parse_frame
    dsimp only
    rw [hn]
    exact good_error start buf pkt f b
  · cases hA : ngx_quic_frame_allowed adj pkt t with
    | fault =>
      right
      refine ⟨parse_frame_table_fault adj pkt buf start _ f b p t hp hA, p, t, hp, ?_⟩
      by_cases ht : t ≤ 0x1E
      · rw [frame_allowed_eq adj pkt t ht] at hA
        cases hA
      · have hb := frame_allowed_beyond adj pkt t (by omega)
        rw [hA] at hb
        cases ha : adj t with
        | none => exact ⟨by omega, rfl⟩
        | some c =>
          rw [ha] at hb
          cases hb
    | done rc =>
      left
      rw [parse_frame_allowed adj pkt buf start _ f b p t rc hp hA]
      split_ifs
      · exact ⟨_, rfl, Or.inl rfl⟩
      · exact good_switch pkt buf start p _ b h1 h2

theorem parse_frame_rc_pos (adj : Nat → Option u_char) (pkt : ngx_quic_header_t)
    (buf : List u_char) (start : Nat) (f : ngx_quic_frame_t) (b : ngx_buf_t)
    (ret : ngx_quic_parse_frame_ret)
    (h : ngx_quic_parse_frame adj pkt buf start buf.length f b = Exec.done ret)
    (hne : ret.rc ≠ NGX_ERROR) : 1 ≤ ret.rc := by
  rcases parse_frame_good adj pkt buf start f b with ⟨r, hr, hb⟩ | ⟨hf, _⟩
  · have hrr : ret = r := Exec.done.inj (h.symm.trans hr)
    rw [hrr] at hne ⊢
    rcases hb with hb | hb
    · exact absurd hb hne
    · exact hb.1
  · rw [hf] at h
    cases h
/-- C4 (the code departs from the claim): over-read in the frame parser.  Every run
of `ngx_quic_parse_frame` on a buffer `[start, end)` that ends with the memory
region either respects the bounds of the buffer (it returns ERROR, or a number `n`
with `1 <= n <= end - start` and every reported byte slice inside
`[start, start + n)`), or it does not return: the frame type it has decoded is
above 0x1E and the read of the table of masks at that index goes to memory that
cannot be read.  The second case occurs: on the four bytes bf ff ff ff, and on
eight bytes ff, the frame type is 0x3FFFFFFF, respectively 2^62 - 1, the table has
no such entry, and where the memory that far behind the table cannot be read the
call ends in that read instead of returning ERROR. -/
theorem parse_frame_table_over_read (adj : Nat → Option u_char) (pkt : ngx_quic_header_t)
    (buf : List u_char) (start : Nat) (f : ngx_quic_frame_t) (b : ngx_buf_t) :
    (parse_frame_in_bounds start buf (ngx_quic_parse_frame adj pkt buf start buf.length f b)
        ∨ (ngx_quic_parse_frame adj pkt buf start buf.length f b = Exec.fault
            ∧ ∃ p t, ngx_quic_parse_int buf start buf.length = Rd.ok (p, t)
                ∧ 0x1E < t ∧ adj t = none))
      ∧ ngx_quic_parse_int [0xBF, 0xFF, 0xFF, 0xFF] 0 4 = Rd.ok (4, 0x3FFFFFFF)
      ∧ ngx_quic_frame_masks[0x3FFFFFFF]? = none
      ∧ ngx_quic_parse_frame (fun _ => none) pkt [0xBF, 0xFF, 0xFF, 0xFF] 0 4 f b = Exec.fault
      ∧ ngx_quic_parse_int [0xFF, 0xFF, 0xFF, 0xFF, 0xFF, 0xFF, 0xFF, 0xFF] 0 8
          = Rd.ok (8, 0x3FFFFFFFFFFFFFFF)
      ∧ ngx_quic_frame_masks[0x3FFFFFFFFFFFFFFF]? = none
      ∧ ngx_quic_parse_frame (fun _ => none) pkt
          [0xFF, 0xFF, 0xFF, 0xFF, 0xFF, 0xFF, 0xFF, 0xFF] 0 8 f b = Exec.fault := by
  have h1 : ngx_quic_parse_int [0xBF, 0xFF, 0xFF, 0xFF] 0 4 = Rd.ok (4, 0x3FFFFFFF) := by
    decide
  have h2 : ngx_quic_parse_int [0xFF, 0xFF, 0xFF, 0xFF, 0xFF, 0xFF, 0xFF, 0xFF] 0 8
      = Rd.ok (8, 0x3FFFFFFFFFFFFFFF) := by
    decide
  refine ⟨parse_frame_good adj pkt buf start f b, h1, masks_beyond _ (by norm_num), ?_, h2,
    masks_beyond _ (by norm_num), ?_⟩
  · exact parse_frame_table_fault _ pkt _ 0 4 f b 4 _ h1
      (frame_allowed_beyond _ pkt _ (by norm_num))
  · exact parse_frame_table_fault _ pkt _ 0 8 f b 8 _ h2
      (frame_allowed_beyond _ pkt _ (by norm_num))

/-! ## Parsing the bytes written by the builders -/

theorem step_build {buf : List u_char} {pos e v : Nat} {suf : List u_char}
    (pkt : ngx_quic_header_t) (f : ngx_quic_frame_t) (b : ngx_buf_t)
    (k : Nat → Nat → Exec ngx_quic_parse_frame_ret)
    (hv : v < 2 ^ 62) (h : buf.drop pos = ngx_quic_build_int v ++ suf)
    (he : pos + ngx_quic_varint_len v ≤ e) :
    ngx_quic_parse_frame_step (ngx_quic_parse_int buf pos e) pkt f b k
      = k (pos + ngx_quic_varint_len v) v := by
  rw [parse_int_build buf pos e v suf hv h he]
  rfl

theorem step_read_bytes {pos e len : Nat}
    (pkt : ngx_quic_header_t) (f : ngx_quic_frame_t) (b : ngx_buf_t)
    (k : Nat → Nat → Exec ngx_quic_parse_frame_ret) (he : pos + len ≤ e) :
    ngx_quic_parse_frame_step (ngx_quic_read_bytes pos e len) pkt f b k
      = k (pos + len) pos := by
  unfold ngx_quic_read_bytes
  rw [size_t_diff_le _ _ (by omega), if_neg (by omega)]
  rfl

theorem step_read_uint8 {buf : List u_char} {pos e : Nat} {c : u_char} {suf : List u_char}
    (pkt : ngx_quic_header_t) (f : ngx_quic_frame_t) (b : ngx_buf_t)
    (k : Nat → Nat → Exec ngx_quic_parse_frame_ret)
    (h : buf.drop pos = c :: suf) (he : pos + 1 ≤ e) :
    ngx_quic_parse_frame_step (ngx_quic_read_uint8 buf pos e) pkt f b k
      = k (pos + 1) c.val := by
  unfold ngx_quic_read_uint8
  rw [size_t_diff_le _ _ (by omega), if_neg (by omega)]
  simp only [(drop_head h).1]
  rfl

theorem drop_length_le {buf : List u_char} {pos : Nat} {xs suf : List u_char}
    (h : buf.drop pos = xs ++ suf) (hx : xs ≠ []) : pos + xs.length ≤ buf.length := by
  have h1 := congrArg List.length h
  rw [List.length_drop, List.length_append] at h1
  have h2 : 0 < xs.length := List.length_pos.mpr hx
  omega

theorem step_copy_bytes {buf : List u_char} {pos e len : Nat} {xs suf : List u_char}
    (pkt : ngx_quic_header_t) (f : ngx_quic_frame_t) (b : ngx_buf_t)
    (k : Nat → List u_char → Exec ngx_quic_parse_frame_ret)
    (h : buf.drop pos = xs ++ suf) (hx : xs.length = len) (hl : 0 < len)
    (he : pos + len ≤ e) :
    ngx_quic_parse_frame_step (ngx_quic_copy_bytes buf pos e len) pkt f b k
      = k (pos + len) xs := by
  have hxs : xs ≠ [] := by
    intro h0; rw [h0] at hx; simp at hx; omega
  have hle := drop_length_le h hxs
  unfold ngx_quic_copy_bytes
  rw [size_t_diff_le _ _ (by omega), if_neg (by omega), if_neg (by omega)]
  have : mem_bytes buf pos len = xs := by
    unfold mem_bytes
    rw [h, ← hx]
    simp
  rw [this]
  rfl

theorem drop_append_length (xs suf : List u_char) (buf : List u_char) (pos : Nat)
    (h : buf.drop pos = xs ++ suf) : buf.drop (pos + xs.length) = suf := by
  rw [← List.drop_drop, h]
  simp

theorem packet_type_bit_short (flags : u_char) (h : flags.val &&& 0x80 = 0) :
    packet_type_bit flags = 1 := by
  simp [packet_type_bit, h]

/-- The frame parser on a buffer that starts with the bytes written for a known
frame type `t` that the packet type admits: it continues with the switch. -/
theorem parse_frame_type (adj : Nat → Option u_char) (pkt : ngx_quic_header_t) (buf : List u_char)
    (start e : Nat) (f : ngx_quic_frame_t) (b : ngx_buf_t) (t : Nat) (suf : List u_char)
    (ht : t ≤ 0x1E) (hd : buf.drop start = ngx_quic_build_int t ++ suf)
    (he : start + ngx_quic_varint_len t ≤ e)
    (hallow : packet_type_bit pkt.flags &&& table3_mask t ≠ 0) :
    ngx_quic_parse_frame adj pkt buf start e f b
      = ngx_quic_parse_frame_switch pkt buf start e (start + ngx_quic_varint_len t)
          { f with type := t } b := by
  have hA := frame_allowed_eq adj pkt t ht
  rw [if_pos hallow] at hA
  rw [parse_frame_allowed adj pkt buf start e f b _ t _
    (parse_int_build buf start e t suf (by omega) hd he) hA, if_neg (not_not.mpr rfl)]

theorem to_ssize_t_small (n : Nat) (h : n < 2 ^ 63) : to_ssize_t n = (n : Int) := by
  unfold to_ssize_t
  have h1 : n % 2 ^ 64 = n := Nat.mod_eq_of_lt (by omega)
  rw [h1, if_pos h]

theorem varint_len_small (t : Nat) (h : t < 64) : ngx_quic_varint_len t = 1 := by
  rw [varint_len_eq t (by omega), if_pos h]

theorem parse_stop_sending (adj : Nat → Option u_char) (pkt : ngx_quic_header_t) (buf : List u_char)
    (start e : Nat) (f0 : ngx_quic_frame_t) (b0 : ngx_buf_t) (id ec : Nat) (suf : List u_char)
    (hshort : packet_type_bit pkt.flags &&& 3 ≠ 0)
    (h1 : id < 2 ^ 62) (h2 : ec < 2 ^ 62)
    (hd : buf.drop start = ngx_quic_build_int 0x05
      ++ (ngx_quic_build_int id ++ (ngx_quic_build_int ec ++ suf)))
    (he : start + 1 + ngx_quic_varint_len id + ngx_quic_varint_len ec ≤ e) :
    ngx_quic_parse_frame adj pkt buf start e f0 b0
      = Exec.done
          { rc := ((start + 1 + ngx_quic_varint_len id + ngx_quic_varint_len ec : Nat) : Int)
                    - (start : Int),
            pkt := pkt,
            f := { f0 with type := 0x05, level := pkt.level,
                           u.stop_sending.id := id, u.stop_sending.error_code := ec },
            b := b0 } := by
  have hl0 : ngx_quic_varint_len 0x05 = 1 := varint_len_small _ (by norm_num)
  have hd1 := drop_build buf start _ _ (by norm_num) hd
  rw [hl0] at hd1
  have hd2 := drop_build buf _ _ _ h1 hd1
  rw [parse_frame_type adj pkt buf start e f0 b0 0x05 _ (by norm_num) hd (by omega) hshort, hl0]
  unfold ngx_quic_parse_frame_switch
  try dsimp only
  unfold ngx_quic_parse_frame_stop_sending
  rw [step_build pkt _ b0 _ h1 hd1 (by omega)]
  try dsimp only
  rw [step_build pkt _ b0 _ h2 hd2 (by omega)]
  rfl

theorem parse_max_data (adj : Nat → Option u_char) (pkt : ngx_quic_header_t) (buf : List u_char)
    (start e : Nat) (f0 : ngx_quic_frame_t) (b0 : ngx_buf_t) (v : Nat) (suf : List u_char)
    (hallow : packet_type_bit pkt.flags &&& 3 ≠ 0) (h1 : v < 2 ^ 62)
    (hd : buf.drop start = ngx_quic_build_int 0x10 ++ (ngx_quic_build_int v ++ suf))
    (he : start + 1 + ngx_quic_varint_len v ≤ e) :
    ngx_quic_parse_frame adj pkt buf start e f0 b0
      = Exec.done
          { rc := ((start + 1 + ngx_quic_varint_len v : Nat) : Int) - (start : Int),
            pkt := pkt,
            f := { f0 with type := 0x10, level := pkt.level, u.max_data.max_data := v },
            b := b0 } := by
  have hl0 : ngx_quic_varint_len 0x10 = 1 := varint_len_small _ (by norm_num)
  have hd1 := drop_build buf start _ _ (by norm_num) hd
  rw [hl0] at hd1
  rw [parse_frame_type adj pkt buf start e f0 b0 0x10 _ (by norm_num) hd (by omega) hallow, hl0]
  unfold ngx_quic_parse_frame_switch
  try dsimp only
  unfold ngx_quic_parse_frame_max_data
  rw [step_build pkt _ b0 _ h1 hd1 (by omega)]
  rfl

theorem parse_max_stream_data (adj : Nat → Option u_char) (pkt : ngx_quic_header_t)
    (buf : List u_char) (start e : Nat) (f0 : ngx_quic_frame_t) (b0 : ngx_buf_t)
    (id limit : Nat) (suf : List u_char)
    (hallow : packet_type_bit pkt.flags &&& 3 ≠ 0)
    (h1 : id < 2 ^ 62) (h2 : limit < 2 ^ 62)
    (hd : buf.drop start = ngx_quic_build_int 0x11
      ++ (ngx_quic_build_int id ++ (ngx_quic_build_int limit ++ suf)))
    (he : start + 1 + ngx_quic_varint_len id + ngx_quic_varint_len limit ≤ e) :
    ngx_quic_parse_frame adj pkt buf start e f0 b0
      = Exec.done
          { rc := ((start + 1 + ngx_quic_varint_len id + ngx_quic_varint_len limit : Nat) : Int)
                    - (start : Int),
            pkt := pkt,
            f := { f0 with type := 0x11, level := pkt.level,
                           u.max_stream_data.id := id, u.max_stream_data.limit := limit },
            b := b0 } := by
  have hl0 : ngx_quic_varint_len 0x11 = 1 := varint_len_small _ (by norm_num)
  have hd1 := drop_build buf start _ _ (by norm_num) hd
  rw [hl0] at hd1
  have hd2 := drop_build buf _ _ _ h1 hd1
  rw [parse_frame_type adj pkt buf start e f0 b0 0x11 _ (by norm_num) hd (by omega) hallow, hl0]
  unfold ngx_quic_parse_frame_switch
  try dsimp only
  unfold ngx_quic_parse_frame_max_stream_data
  rw [step_build pkt _ b0 _ h1 hd1 (by omega)]
  try dsimp only
  rw [step_build pkt _ b0 _ h2 hd2 (by omega)]
  rfl

theorem parse_max_streams (adj : Nat → Option u_char) (pkt : ngx_quic_header_t)
    (buf : List u_char) (start e : Nat) (f0 : ngx_quic_frame_t) (b0 : ngx_buf_t)
    (bidi : Bool) (limit : Nat) (suf : List u_char)
    (hallow : packet_type_bit pkt.flags &&& 3 ≠ 0) (h1 : limit < 2 ^ 62)
    (hd : buf.drop start = ngx_quic_build_int (if bidi then 0x12 else 0x13)
      ++ (ngx_quic_build_int limit ++ suf))
    (he : start + 1 + ngx_quic_varint_len limit ≤ e) :
    ngx_quic_parse_frame adj pkt buf start e f0 b0
      = Exec.done
          { rc := ((start + 1 + ngx_quic_varint_len limit : Nat) : Int) - (start : Int),
            pkt := pkt,
            f := { f0 with type := (if bidi then 0x12 else 0x13), level := pkt.level,
                           u.max_streams.limit := limit, u.max_streams.bidi := bidi },
            b := b0 } := by
  cases bidi
  · have hl0 : ngx_quic_varint_len 0x13 = 1 := varint_len_small _ (by norm_num)
    simp only [Bool.false_eq_true, if_false] at hd ⊢
    have hd1 := drop_build buf start _ _ (by norm_num) hd
    rw [hl0] at hd1
    rw [parse_frame_type adj pkt buf start e f0 b0 0x13 _ (by norm_num) hd (by omega) hallow,
      hl0]
    unfold ngx_quic_parse_frame_switch
    try dsimp only
    unfold ngx_quic_parse_frame_max_streams
    rw [step_build pkt _ b0 _ h1 hd1 (by omega)]
    rfl
  · have hl0 : ngx_quic_varint_len 0x12 = 1 := varint_len_small _ (by norm_num)
    simp only [if_true] at hd ⊢
    have hd1 := drop_build buf start _ _ (by norm_num) hd
    rw [hl0] at hd1
    rw [parse_frame_type adj pkt buf start e f0 b0 0x12 _ (by norm_num) hd (by omega) hallow,
      hl0]
    unfold ngx_quic_parse_frame_switch
    try dsimp only
    unfold ngx_quic_parse_frame_max_streams
    rw [step_build pkt _ b0 _ h1 hd1 (by omega)]
    rfl

theorem parse_retire_connection_id (adj : Nat → Option u_char) (pkt : ngx_quic_header_t)
    (buf : List u_char) (start e : Nat) (f0 : ngx_quic_frame_t) (b0 : ngx_buf_t)
    (v : Nat) (suf : List u_char)
    (hallow : packet_type_bit pkt.flags &&& 3 ≠ 0) (h1 : v < 2 ^ 62)
    (hd : buf.drop start = ngx_quic_build_int 0x19 ++ (ngx_quic_build_int v ++ suf))
    (he : start + 1 + ngx_quic_varint_len v ≤ e) :
    ngx_quic_parse_frame adj pkt buf start e f0 b0
      = Exec.done
          { rc := ((start + 1 + ngx_quic_varint_len v : Nat) : Int) - (start : Int),
            pkt := pkt,
            f := { f0 with type := 0x19, level := pkt.level,
                           u.retire_cid.sequence_number := v },
            b := b0 } := by
  have hl0 : ngx_quic_varint_len 0x19 = 1 := varint_len_small _ (by norm_num)
  have hd1 := drop_build buf start _ _ (by norm_num) hd
  rw [hl0] at hd1
  rw [parse_frame_type adj pkt buf start e f0 b0 0x19 _ (by norm_num) hd (by omega) hallow, hl0]
  unfold ngx_quic_parse_frame_switch
  try dsimp only
  unfold ngx_quic_parse_frame_retire_connection_id
  rw [step_build pkt _ b0 _ h1 hd1 (by omega)]
  rfl

theorem parse_path_response (adj : Nat → Option u_char) (pkt : ngx_quic_header_t)
    (buf : List u_char) (start e : Nat) (f0 : ngx_quic_frame_t) (b0 : ngx_buf_t)
    (xs suf : List u_char)
    (hallow : packet_type_bit pkt.flags &&& 3 ≠ 0) (h1 : xs.length = 8)
    (hd : buf.drop start = ngx_quic_build_int 0x1B ++ (xs ++ suf))
    (he : start + 1 + 8 ≤ e) :
    ngx_quic_parse_frame adj pkt buf start e f0 b0
      = Exec.done
          { rc := ((start + 1 + 8 : Nat) : Int) - (start : Int),
            pkt := pkt,
            f := { f0 with type := 0x1B, level := pkt.level,
                           u.path_response.data := ngx_memcpy f0.u.path_response.data xs },
            b := b0 } := by
  have hl0 : ngx_quic_varint_len 0x1B = 1 := varint_len_small _ (by norm_num)
  have hd1 := drop_build buf start _ _ (by norm_num) hd
  rw [hl0] at hd1
  rw [parse_frame_type adj pkt buf start e f0 b0 0x1B _ (by norm_num) hd (by omega) hallow, hl0]
  unfold ngx_quic_parse_frame_switch
  try dsimp only
  unfold ngx_quic_parse_frame_path_response
  rw [step_copy_bytes pkt _ b0 _ hd1 h1 (by norm_num) (by omega)]
  rfl

theorem parse_connection_close (adj : Nat → Option u_char) (pkt : ngx_quic_header_t)
    (buf : List u_char) (start e : Nat) (f0 : ngx_quic_frame_t) (b0 : ngx_buf_t)
    (ec ft rlen : Nat) (reason suf : List u_char)
    (hallow : packet_type_bit pkt.flags &&& 15 ≠ 0)
    (h1 : ec < 2 ^ 62) (h2 : ft < 2 ^ 62) (h3 : rlen < 2 ^ 62) (h4 : reason.length = rlen)
    (hd : buf.drop start = ngx_quic_build_int 0x1C
      ++ (ngx_quic_build_int ec ++ (ngx_quic_build_int ft
        ++ (ngx_quic_build_int rlen ++ (reason ++ suf)))))
    (he : start + 1 + ngx_quic_varint_len ec + ngx_quic_varint_len ft
      + ngx_quic_varint_len rlen + rlen ≤ e) :
    ngx_quic_parse_frame adj pkt buf start e f0 b0
      = Exec.done
          { rc := ((start + 1 + ngx_quic_varint_len ec + ngx_quic_varint_len ft
                      + ngx_quic_varint_len rlen + rlen : Nat) : Int) - (start : Int),
            pkt := pkt,
            f := { f0 with type := 0x1C, level := pkt.level,
                           u.close.error_code := ec, u.close.frame_type := ft,
                           u.close.reason.len := rlen,
                           u.close.reason.data := start + 1 + ngx_quic_varint_len ec
                             + ngx_quic_varint_len ft + ngx_quic_varint_len rlen },
            b := b0 } := by
  have hl0 : ngx_quic_varint_len 0x1C = 1 := varint_len_small _ (by norm_num)
  have hd1 := drop_build buf start _ _ (by norm_num) hd
  rw [hl0] at hd1
  have hd2 := drop_build buf _ _ _ h1 hd1
  have hd3 := drop_build buf _ _ _ h2 hd2
  rw [parse_frame_type adj pkt buf start e f0 b0 0x1C _ (by norm_num) hd (by omega)
    (by simpa [table3_mask] using hallow), hl0]
  unfold ngx_quic_parse_frame_switch
  try dsimp only
  unfold ngx_quic_parse_frame_connection_close
  rw [step_build pkt _ b0 _ h1 hd1 (by omega)]
  try dsimp only
  rw [if_pos rfl, step_build pkt _ b0 _ h2 hd2 (by omega)]
  try dsimp only
  rw [step_build pkt _ b0 _ h3 hd3 (by omega)]
  try dsimp only
  rw [step_read_bytes pkt _ b0 _ (by omega)]
  rfl

theorem parse_connection_close_app (adj : Nat → Option u_char) (pkt : ngx_quic_header_t)
    (buf : List u_char) (start e : Nat) (f0 : ngx_quic_frame_t) (b0 : ngx_buf_t)
    (ec rlen : Nat) (reason suf : List u_char)
    (hallow : packet_type_bit pkt.flags &&& 3 ≠ 0)
    (h1 : ec < 2 ^ 62) (h3 : rlen < 2 ^ 62) (h4 : reason.length = rlen)
    (hd : buf.drop start = ngx_quic_build_int 0x1D
      ++ (ngx_quic_build_int ec ++ (ngx_quic_build_int rlen ++ (reason ++ suf))))
    (he : start + 1 + ngx_quic_varint_len ec + ngx_quic_varint_len rlen + rlen ≤ e) :
    ngx_quic_parse_frame adj pkt buf start e f0 b0
      = Exec.done
          { rc := ((start + 1 + ngx_quic_varint_len ec
                      + ngx_quic_varint_len rlen + rlen : Nat) : Int) - (start : Int),
            pkt := pkt,
            f := { f0 with type := 0x1D, level := pkt.level,
                           u.close.error_code := ec,
                           u.close.reason.len := rlen,
                           u.close.reason.data := start + 1 + ngx_quic_varint_len ec
                             + ngx_quic_varint_len rlen },
            b := b0 } := by
  have hl0 : ngx_quic_varint_len 0x1D = 1 := varint_len_small _ (by norm_num)
  have hd1 := drop_build buf start _ _ (by norm_num) hd
  rw [hl0] at hd1
  have hd2 := drop_build buf _ _ _ h1 hd1
  rw [parse_frame_type adj pkt buf start e f0 b0 0x1D _ (by norm_num) hd (by omega)
    (by simpa [table3_mask] using hallow), hl0]
  unfold ngx_quic_parse_frame_switch
  try dsimp only
  unfold ngx_quic_parse_frame_connection_close
  rw [step_build pkt _ b0 _ h1 hd1 (by omega)]
  try dsimp only
  rw [if_neg (by decide), step_build pkt _ b0 _ h3 hd2 (by omega)]
  try dsimp only
  rw [step_read_bytes pkt _ b0 _ (by omega)]
  rfl

theorem parse_new_connection_id (adj : Nat → Option u_char) (pkt : ngx_quic_header_t)
    (buf : List u_char) (start e : Nat) (f0 : ngx_quic_frame_t) (b0 : ngx_buf_t)
    (seq retire : Nat) (c : u_char) (cid srt suf : List u_char)
    (hallow : packet_type_bit pkt.flags &&& 3 ≠ 0)
    (h1 : seq < 2 ^ 62) (h2 : retire < 2 ^ 62) (h3 : retire ≤ seq)
    (h4 : 1 ≤ c.val) (h5 : c.val ≤ 20) (h6 : cid.length = c.val) (h7 : srt.length = 16)
    (hd : buf.drop start = ngx_quic_build_int 0x18
      ++ (ngx_quic_build_int seq ++ (ngx_quic_build_int retire
        ++ (c :: (cid ++ (srt ++ suf))))))
    (he : start + 1 + ngx_quic_varint_len seq + ngx_quic_varint_len retire + 1 + c.val + 16
      ≤ e) :
    ngx_quic_parse_frame adj pkt buf start e f0 b0
      = Exec.done
          { rc := ((start + 1 + ngx_quic_varint_len seq + ngx_quic_varint_len retire + 1
                      + c.val + 16 : Nat) : Int) - (start : Int),
            pkt := pkt,
            f := { f0 with type := 0x18, level := pkt.level,
                           u.ncid.seqnum := seq, u.ncid.retire := retire,
                           u.ncid.len := c.val,
                           u.ncid.cid := ngx_memcpy f0.u.ncid.cid cid,
                           u.ncid.srt := ngx_memcpy f0.u.ncid.srt srt },
            b := b0 } := by
  have hl0 : ngx_quic_varint_len 0x18 = 1 := varint_len_small _ (by norm_num)
  have hd1 := drop_build buf start _ _ (by norm_num) hd
  rw [hl0] at hd1
  have hd2 := drop_build buf _ _ _ h1 hd1
  have hd3 := drop_build buf _ _ _ h2 hd2
  have hd4 := (drop_head hd3).2
  have hd5 := drop_append_length _ _ buf _ hd4
  rw [h6] at hd5
  rw [parse_frame_type adj pkt buf start e f0 b0 0x18 _ (by norm_num) hd (by omega) hallow, hl0]
  unfold ngx_quic_parse_frame_switch
  try dsimp only
  unfold ngx_quic_parse_frame_new_connection_id
  rw [step_build pkt _ b0 _ h1 hd1 (by omega)]
  try dsimp only
  rw [step_build pkt _ b0 _ h2 hd2 (by omega)]
  try dsimp only
  rw [if_neg (by omega), step_read_uint8 pkt _ b0 _ hd3 (by omega)]
  try dsimp only
  rw [if_neg (by unfold NGX_QUIC_CID_LEN_MAX; omega),
    step_copy_bytes pkt _ b0 _ hd4 h6 (by omega) (by omega)]
  try dsimp only
  simp only [NGX_QUIC_SR_TOKEN_LEN]
  rw [step_copy_bytes pkt _ b0 _ hd5 h7 (by decide) (by omega)]
  rfl

theorem parse_crypto (adj : Nat → Option u_char) (pkt : ngx_quic_header_t)
    (buf : List u_char) (start e : Nat) (f0 : ngx_quic_frame_t) (b0 : ngx_buf_t)
    (off len : Nat) (data suf : List u_char)
    (hallow : packet_type_bit pkt.flags &&& 13 ≠ 0)
    (h1 : off < 2 ^ 62) (h2 : len < 2 ^ 62)
    (hd : buf.drop start = ngx_quic_build_int 0x06
      ++ (ngx_quic_build_int off ++ (ngx_quic_build_int len ++ (data ++ suf))))
    (he : start + 1 + ngx_quic_varint_len off + ngx_quic_varint_len len + len ≤ e) :
    ngx_quic_parse_frame adj pkt buf start e f0 b0
      = Exec.done
          { rc := ((start + 1 + ngx_quic_varint_len off + ngx_quic_varint_len len + len : Nat)
                    : Int) - (start : Int),
            pkt := pkt,
            f := { f0 with type := 0x06, level := pkt.level,
                           u.crypto.offset := off, u.crypto.length := len },
            b := { b0 with
                     pos := start + 1 + ngx_quic_varint_len off + ngx_quic_varint_len len,
                     last := start + 1 + ngx_quic_varint_len off + ngx_quic_varint_len len
                       + len } } := by
  have hl0 : ngx_quic_varint_len 0x06 = 1 := varint_len_small _ (by norm_num)
  have hd1 := drop_build buf start _ _ (by norm_num) hd
  rw [hl0] at hd1
  have hd2 := drop_build buf _ _ _ h1 hd1
  rw [parse_frame_type adj pkt buf start e f0 b0 0x06 _ (by norm_num) hd (by omega)
    (by simpa [table3_mask] using hallow), hl0]
  unfold ngx_quic_parse_frame_switch
  try dsimp only
  unfold ngx_quic_parse_frame_crypto
  rw [step_build pkt _ b0 _ h1 hd1 (by omega)]
  try dsimp only
  rw [step_build pkt _ b0 _ h2 hd2 (by omega)]
  try dsimp only
  rw [step_read_bytes pkt _ b0 _ (by omega)]
  rfl

theorem stream_len_types (t : Nat) (h1 : 0x08 ≤ t) (h2 : t ≤ 0x0F) (h3 : t &&& 0x02 ≠ 0) :
    t = 10 ∨ t = 11 ∨ t = 14 ∨ t = 15 := by
  interval_cases t <;> first | decide | exact absurd (by decide) h3

theorem parse_stream_off (adj : Nat → Option u_char) (pkt : ngx_quic_header_t)
    (buf : List u_char) (start e : Nat) (f0 : ngx_quic_frame_t) (b0 : ngx_buf_t)
    (t sid off len : Nat) (data suf : List u_char)
    (hallow : packet_type_bit pkt.flags &&& 3 ≠ 0)
    (ht : t = 14 ∨ t = 15)
    (h1 : sid < 2 ^ 62) (h2 : off < 2 ^ 62) (h3 : len < 2 ^ 62)
    (hd : buf.drop start = ngx_quic_build_int t
      ++ (ngx_quic_build_int sid ++ (ngx_quic_build_int off
        ++ (ngx_quic_build_int len ++ (data ++ suf)))))
    (he : start + 1 + ngx_quic_varint_len sid + ngx_quic_varint_len off
      + ngx_quic_varint_len len + len ≤ e) :
    ngx_quic_parse_frame adj pkt buf start e f0 b0
      = Exec.done
          { rc := ((start + 1 + ngx_quic_varint_len sid + ngx_quic_varint_len off
                      + ngx_quic_varint_len len + len : Nat) : Int) - (start : Int),
            pkt := pkt,
            f := { f0 with type := t, level := pkt.level,
                           u.stream := { type := t, stream_id := sid, offset := off,
                                         length := len, off := true, len := true,
                                         fin := decide (t &&& 0x01 ≠ 0) } },
            b := { b0 with
                     pos := start + 1 + ngx_quic_varint_len sid + ngx_quic_varint_len off
                       + ngx_quic_varint_len len,
                     last := start + 1 + ngx_quic_varint_len sid + ngx_quic_varint_len off
                       + ngx_quic_varint_len len + len } } := by
  have hl0 : ngx_quic_varint_len t = 1 := varint_len_small _ (by omega)
  have hd1 := drop_build buf start _ _ (by omega) hd
  rw [hl0] at hd1
  have hd2 := drop_build buf _ _ _ h1 hd1
  have hd3 := drop_build buf _ _ _ h2 hd2
  have hm : packet_type_bit pkt.flags &&& table3_mask t ≠ 0 := by
    rcases ht with rfl | rfl <;> simpa [table3_mask] using hallow
  rw [parse_frame_type adj pkt buf start e f0 b0 t _ (by omega) hd (by omega) hm, hl0]
  unfold ngx_quic_parse_frame_switch
  rcases ht with rfl | rfl
  all_goals
    try dsimp only
    unfold ngx_quic_parse_frame_stream
    try dsimp only
    rw [step_build pkt _ b0 _ h1 hd1 (by omega)]
    try dsimp only
    rw [if_pos (by decide), step_build pkt _ b0 _ h2 hd2 (by omega)]
    try dsimp only
    rw [if_pos (by decide), step_build pkt _ b0 _ h3 hd3 (by omega)]
    try dsimp only
    rw [step_read_bytes pkt _ b0 _ (by omega)]
    rfl

theorem parse_stream_no_off (adj : Nat → Option u_char) (pkt : ngx_quic_header_t)
    (buf : List u_char) (start e : Nat) (f0 : ngx_quic_frame_t) (b0 : ngx_buf_t)
    (t sid len : Nat) (data suf : List u_char)
    (hallow : packet_type_bit pkt.flags &&& 3 ≠ 0)
    (ht : t = 10 ∨ t = 11)
    (h1 : sid < 2 ^ 62) (h3 : len < 2 ^ 62)
    (hd : buf.drop start = ngx_quic_build_int t
      ++ (ngx_quic_build_int sid ++ (ngx_quic_build_int len ++ (data ++ suf))))
    (he : start + 1 + ngx_quic_varint_len sid + ngx_quic_varint_len len + len ≤ e) :
    ngx_quic_parse_frame adj pkt buf start e f0 b0
      = Exec.done
          { rc := ((start + 1 + ngx_quic_varint_len sid
                      + ngx_quic_varint_len len + len : Nat) : Int) - (start : Int),
            pkt := pkt,
            f := { f0 with type := t, level := pkt.level,
                           u.stream := { type := t, stream_id := sid, offset := 0,
                                         length := len, off := false, len := true,
                                         fin := decide (t &&& 0x01 ≠ 0) } },
            b := { b0 with
                     pos := start + 1 + ngx_quic_varint_len sid + ngx_quic_varint_len len,
                     last := start + 1 + ngx_quic_varint_len sid + ngx_quic_varint_len len
                       + len } } := by
  have hl0 : ngx_quic_varint_len t = 1 := varint_len_small _ (by omega)
  have hd1 := drop_build buf start _ _ (by omega) hd
  rw [hl0] at hd1
  have hd2 := drop_build buf _ _ _ h1 hd1
  have hm : packet_type_bit pkt.flags &&& table3_mask t ≠ 0 := by
    rcases ht with rfl | rfl <;> simpa [table3_mask] using hallow
  rw [parse_frame_type adj pkt buf start e f0 b0 t _ (by omega) hd (by omega) hm, hl0]
  unfold ngx_quic_parse_frame_switch
  rcases ht with rfl | rfl
  all_goals
    try dsimp only
    unfold ngx_quic_parse_frame_stream
    try dsimp only
    rw [step_build pkt _ b0 _ h1 hd1 (by omega)]
    try dsimp only
    rw [if_neg (by decide), if_pos (by decide), step_build pkt _ b0 _ h3 hd2 (by omega)]
    try dsimp only
    rw [step_read_bytes pkt _ b0 _ (by omega)]
    rfl

/-! ## Round trips of frames -/

theorem build_int_small (t : Nat) (h : t < 64) : ngx_quic_build_int t = [to_u_char t] := by
  rw [build_int_eq t (by omega), if_pos h, be_bytes_1]

theorem copy_chain_length (mem : List u_char) (data : List ngx_buf_t)
    (h : chain_in_mem mem data) : (ngx_quic_copy_chain mem data).length = chain_total data := by
  induction data with
  | nil => rfl
  | cons b next ih =>
    have hb := h b (List.mem_cons_self _ _)
    have hn : chain_in_mem mem next := fun x hx => h x (List.mem_cons_of_mem _ hx)
    simp only [ngx_quic_copy_chain, chain_total, List.length_append, ih hn, mem_bytes,
      List.length_take, List.length_drop]
    omega

theorem mem_bytes_of_drop (buf : List u_char) (pos len : Nat) (xs suf : List u_char)
    (h : buf.drop pos = xs ++ suf) (hx : xs.length = len) : mem_bytes buf pos len = xs := by
  unfold mem_bytes
  rw [h, ← hx]
  simp

theorem mem_bytes_length (mem : List u_char) (pos len : Nat) (h : pos + len ≤ mem.length) :
    (mem_bytes mem pos len).length = len := by
  simp only [mem_bytes, List.length_take, List.length_drop]
  omega

theorem packet_bit_and_3 (flags : u_char) (h : flags.val &&& 0x80 = 0) :
    packet_type_bit flags &&& 3 ≠ 0 := by
  rw [packet_type_bit_short flags h]; decide

theorem packet_bit_and_15 (flags : u_char) (h : flags.val &&& 0x80 = 0) :
    packet_type_bit flags &&& 15 ≠ 0 := by
  rw [packet_type_bit_short flags h]; decide

theorem packet_bit_and_13 (flags : u_char) (h : flags.val &&& 0x80 = 0) :
    packet_type_bit flags &&& 13 ≠ 0 := by
  rw [packet_type_bit_short flags h]; decide

theorem build_int_length_small (t : Nat) (h : t < 64) : (ngx_quic_build_int t).length = 1 := by
  rw [build_int_small t h]; rfl

/-- Round trip of the fixed-field frames in a packet whose type admits the frames of
0-RTT and 1-RTT packets (and, for CONNECTION_CLOSE, every packet type). -/
theorem rt_fixed (adj : Nat → Option u_char) (pkt : ngx_quic_header_t) (mem : List u_char)
    (F f0 : ngx_quic_frame_t) (b0 : ngx_buf_t) (suf : List u_char)
    (hallow : packet_type_bit pkt.flags &&& 3 ≠ 0)
    (hF : fixed_field_frame mem F) :
    (ngx_quic_create_frame mem .buffer F).rc
        = ((ngx_quic_create_frame mem .buffer F).out.length : Int)
      ∧ ∃ ret, ngx_quic_parse_frame adj pkt ((ngx_quic_create_frame mem .buffer F).out ++ suf) 0
            ((ngx_quic_create_frame mem .buffer F).out ++ suf).length f0 b0 = Exec.done ret
          ∧ ret.rc = (ngx_quic_create_frame mem .buffer F).rc
          ∧ ret.pkt = pkt
          ∧ ret.b = b0
          ∧ fixed_fields_agree mem F ((ngx_quic_create_frame mem .buffer F).out ++ suf)
              ret.f := by
  have hallow15 : packet_type_bit pkt.flags &&& 15 ≠ 0 := by
    intro h
    apply hallow
    have h3 : packet_type_bit pkt.flags < 16 := by
      unfold packet_type_bit; split_ifs <;> omega
    revert h h3
    generalize packet_type_bit pkt.flags = x
    intro h h3
    interval_cases x <;> first | rfl | exact absurd h (by decide)
  rcases hF with ⟨hty, h1, h2⟩ | ⟨hty, h1⟩ | ⟨hty, h1, h2⟩ | ⟨hty, h1⟩ | ⟨hty, h1⟩ | ⟨hty, h1⟩
    | ⟨hty, h1, h2, h3, h4⟩ | ⟨hty, h1, h2, h3, h4, h5, h6, h7⟩
  · -- STOP_SENDING
    have hcf : ngx_quic_create_frame mem .buffer F
        = ngx_quic_create_frame_return { F with need_ack := 1 }
            (ngx_quic_create_stop_sending .buffer F.u.stop_sending) := by
      simp [ngx_quic_create_frame, hty]
    have hl0 := build_int_length_small NGX_QUIC_FT_STOP_SENDING (by norm_num)
    have hl1 := build_int_length _ h1
    have hl2 := build_int_length _ h2
    have hb1 := varint_len_le _ h1
    have hb2 := varint_len_le _ h2
    rw [hcf]
    simp only [ngx_quic_create_frame_return, ngx_quic_create_stop_sending]
    generalize hout : ngx_quic_build_int NGX_QUIC_FT_STOP_SENDING
      ++ ngx_quic_build_int F.u.stop_sending.id
      ++ ngx_quic_build_int F.u.stop_sending.error_code = out
    have hlen : out.length = 1 + ngx_quic_varint_len F.u.stop_sending.id
        + ngx_quic_varint_len F.u.stop_sending.error_code := by
      rw [← hout]; simp only [List.length_append, hl0, hl1, hl2]
    have hd : (out ++ suf).drop 0 = ngx_quic_build_int 0x05
        ++ (ngx_quic_build_int F.u.stop_sending.id
          ++ (ngx_quic_build_int F.u.stop_sending.error_code ++ suf)) := by
      rw [← hout]; simp
    have hp := parse_stop_sending adj pkt (out ++ suf) 0 (out ++ suf).length f0 b0 _ _ suf
      hallow h1 h2 hd (by rw [List.length_append, hlen]; omega)
    rw [to_ssize_t_small _ (by omega)]
    refine ⟨rfl, _, hp, by simp only [hlen]; omega, rfl, rfl, ?_⟩
    simp [fixed_fields_agree, hty]
  · -- MAX_DATA
    have hcf : ngx_quic_create_frame mem .buffer F
        = ngx_quic_create_frame_return { F with need_ack := 1 }
            (ngx_quic_create_max_data .buffer F.u.max_data) := by
      simp [ngx_quic_create_frame, hty]
    have hl0 := build_int_length_small NGX_QUIC_FT_MAX_DATA (by norm_num)
    have hl1 := build_int_length _ h1
    have hb1 := varint_len_le _ h1
    rw [hcf]
    simp only [ngx_quic_create_frame_return, ngx_quic_create_max_data]
    generalize hout : ngx_quic_build_int NGX_QUIC_FT_MAX_DATA
      ++ ngx_quic_build_int F.u.max_data.max_data = out
    have hlen : out.length = 1 + ngx_quic_varint_len F.u.max_data.max_data := by
      rw [← hout]; simp only [List.length_append, hl0, hl1]
    have hd : (out ++ suf).drop 0 = ngx_quic_build_int 0x10
        ++ (ngx_quic_build_int F.u.max_data.max_data ++ suf) := by
      rw [← hout]; simp
    have hp := parse_max_data adj pkt (out ++ suf) 0 (out ++ suf).length f0 b0 _ suf
      hallow h1 hd (by rw [List.length_append, hlen]; omega)
    rw [to_ssize_t_small _ (by omega)]
    refine ⟨rfl, _, hp, by simp only [hlen]; omega, rfl, rfl, ?_⟩
    simp [fixed_fields_agree, hty]
  · -- MAX_STREAM_DATA
    have hcf : ngx_quic_create_frame mem .buffer F
        = ngx_quic_create_frame_return { F with need_ack := 1 }
            (ngx_quic_create_max_stream_data .buffer F.u.max_stream_data) := by
      simp [ngx_quic_create_frame, hty]
    have hl0 := build_int_length_small NGX_QUIC_FT_MAX_STREAM_DATA (by norm_num)
    have hl1 := build_int_length _ h1
    have hl2 := build_int_length _ h2
    have hb1 := varint_len_le _ h1
    have hb2 := varint_len_le _ h2
    rw [hcf]
    simp only [ngx_quic_create_frame_return, ngx_quic_create_max_stream_data]
    generalize hout : ngx_quic_build_int NGX_QUIC_FT_MAX_STREAM_DATA
      ++ ngx_quic_build_int F.u.max_stream_data.id
      ++ ngx_quic_build_int F.u.max_stream_data.limit = out
    have hlen : out.length = 1 + ngx_quic_varint_len F.u.max_stream_data.id
        + ngx_quic_varint_len F.u.max_stream_data.limit := by
      rw [← hout]; simp only [List.length_append, hl0, hl1, hl2]
    have hd : (out ++ suf).drop 0 = ngx_quic_build_int 0x11
        ++ (ngx_quic_build_int F.u.max_stream_data.id
          ++ (ngx_quic_build_int F.u.max_stream_data.limit ++ suf)) := by
      rw [← hout]; simp
    have hp := parse_max_stream_data adj pkt (out ++ suf) 0 (out ++ suf).length f0 b0 _ _ suf
      hallow h1 h2 hd (by rw [List.length_append, hlen]; omega)
    rw [to_ssize_t_small _ (by omega)]
    refine ⟨rfl, _, hp, by simp only [hlen]; omega, rfl, rfl, ?_⟩
    simp [fixed_fields_agree, hty]
  · -- MAX_STREAMS
    have hcf : ngx_quic_create_frame mem .buffer F
        = ngx_quic_create_frame_return { F with need_ack := 1 }
            (ngx_quic_create_max_streams .buffer F.u.max_streams) := by
      simp [ngx_quic_create_frame, hty]
    have hl0 : (ngx_quic_build_int (if F.u.max_streams.bidi then NGX_QUIC_FT_MAX_STREAMS
        else NGX_QUIC_FT_MAX_STREAMS2)).length = 1 := by
      split_ifs <;> exact build_int_length_small _ (by norm_num)
    have hl1 := build_int_length _ h1
    have hb1 := varint_len_le _ h1
    rw [hcf]
    simp only [ngx_quic_create_frame_return, ngx_quic_create_max_streams]
    generalize hout : ngx_quic_build_int (if F.u.max_streams.bidi then NGX_QUIC_FT_MAX_STREAMS
        else NGX_QUIC_FT_MAX_STREAMS2)
      ++ ngx_quic_build_int F.u.max_streams.limit = out
    have hlen : out.length = 1 + ngx_quic_varint_len F.u.max_streams.limit := by
      rw [← hout]; simp only [List.length_append, hl0, hl1]
    have hd : (out ++ suf).drop 0
        = ngx_quic_build_int (if F.u.max_streams.bidi then 0x12 else 0x13)
          ++ (ngx_quic_build_int F.u.max_streams.limit ++ suf) := by
      rw [← hout]; simp
    have hp := parse_max_streams adj pkt (out ++ suf) 0 (out ++ suf).length f0 b0 _ _ suf
      hallow h1 hd (by rw [List.length_append, hlen]; omega)
    rw [to_ssize_t_small _ (by omega)]
    refine ⟨rfl, _, hp, by simp only [hlen]; omega, rfl, rfl, ?_⟩
    simp [fixed_fields_agree, hty]
  · -- RETIRE_CONNECTION_ID
    have hcf : ngx_quic_create_frame mem .buffer F
        = ngx_quic_create_frame_return { F with need_ack := 1 }
            (ngx_quic_create_retire_connection_id .buffer F.u.retire_cid) := by
      simp [ngx_quic_create_frame, hty]
    have hl0 := build_int_length_small NGX_QUIC_FT_RETIRE_CONNECTION_ID (by norm_num)
    have hl1 := build_int_length _ h1
    have hb1 := varint_len_le _ h1
    rw [hcf]
    simp only [ngx_quic_create_frame_return, ngx_quic_create_retire_connection_id]
    generalize hout : ngx_quic_build_int NGX_QUIC_FT_RETIRE_CONNECTION_ID
      ++ ngx_quic_build_int F.u.retire_cid.sequence_number = out
    have hlen : out.length = 1 + ngx_quic_varint_len F.u.retire_cid.sequence_number := by
      rw [← hout]; simp only [List.length_append, hl0, hl1]
    have hd : (out ++ suf).drop 0 = ngx_quic_build_int 0x19
        ++ (ngx_quic_build_int F.u.retire_cid.sequence_number ++ suf) := by
      rw [← hout]; simp
    have hp := parse_retire_connection_id adj pkt (out ++ suf) 0 (out ++ suf).length f0 b0 _
      suf hallow h1 hd (by rw [List.length_append, hlen]; omega)
    rw [to_ssize_t_small _ (by omega)]
    refine ⟨rfl, _, hp, by simp only [hlen]; omega, rfl, rfl, ?_⟩
    simp [fixed_fields_agree, hty]
  · -- PATH_RESPONSE
    have hcf : ngx_quic_create_frame mem .buffer F
        = ngx_quic_create_frame_return { F with need_ack := 1 }
            (ngx_quic_create_path_response .buffer F.u.path_response) := by
      simp [ngx_quic_create_frame, hty]
    have hl0 := build_int_length_small NGX_QUIC_FT_PATH_RESPONSE (by norm_num)
    have ht8 : F.u.path_response.data.take 8 = F.u.path_response.data :=
      List.take_of_length_le (by omega)
    rw [hcf]
    simp only [ngx_quic_create_frame_return, ngx_quic_create_path_response, ht8]
    generalize hout : ngx_quic_build_int NGX_QUIC_FT_PATH_RESPONSE
      ++ F.u.path_response.data = out
    have hlen : out.length = 1 + 8 := by
      rw [← hout]; simp only [List.length_append, hl0, h1]
    have hd : (out ++ suf).drop 0 = ngx_quic_build_int 0x1B
        ++ (F.u.path_response.data ++ suf) := by
      rw [← hout]; simp
    have hp := parse_path_response adj pkt (out ++ suf) 0 (out ++ suf).length f0 b0 _ suf
      hallow h1 hd (by rw [List.length_append, hlen]; omega)
    rw [to_ssize_t_small _ (by omega)]
    refine ⟨rfl, _, hp, by simp only [hlen]; omega, rfl, rfl, ?_⟩
    simp [fixed_fields_agree, hty, ngx_memcpy, h1]
  · -- CONNECTION_CLOSE
    have hcf : ngx_quic_create_frame mem .buffer F
        = ngx_quic_create_frame_return { F with need_ack := 0 }
            (ngx_quic_create_close mem .buffer F.u.close) := by
      rcases hty with h | h <;> simp [ngx_quic_create_frame, h]
    have hl1 := build_int_length _ h1
    have hl3 := build_int_length _ h3
    have hb1 := varint_len_le _ h1
    have hb3 := varint_len_le _ h3
    have hr := mem_bytes_length mem _ _ h4
    rw [hcf]
    simp only [ngx_quic_create_frame_return, ngx_quic_create_close]
    cases happ : F.u.close.app
    · -- transport close, type 0x1c
      have h2 := h2 happ
      have hl0 := build_int_length_small NGX_QUIC_FT_CONNECTION_CLOSE (by norm_num)
      have hl2 := build_int_length _ h2
      have hb2 := varint_len_le _ h2
      simp only [Bool.false_eq_true, if_false, not_false_eq_true, if_true]
      generalize hpre : ngx_quic_build_int NGX_QUIC_FT_CONNECTION_CLOSE
        ++ ngx_quic_build_int F.u.close.error_code
        ++ ngx_quic_build_int F.u.close.frame_type
        ++ ngx_quic_build_int F.u.close.reason.len = pre
      have hplen : pre.length = 1 + ngx_quic_varint_len F.u.close.error_code
          + ngx_quic_varint_len F.u.close.frame_type
          + ngx_quic_varint_len F.u.close.reason.len := by
        rw [← hpre]; simp only [List.length_append, hl0, hl1, hl2, hl3]
      have hlen : (pre ++ mem_bytes mem F.u.close.reason.data F.u.close.reason.len).length
          = 1 + ngx_quic_varint_len F.u.close.error_code
          + ngx_quic_varint_len F.u.close.frame_type
          + ngx_quic_varint_len F.u.close.reason.len + F.u.close.reason.len := by
        rw [List.length_append, hplen, hr]
      have hd : (pre ++ mem_bytes mem F.u.close.reason.data F.u.close.reason.len
            ++ suf).drop 0 = ngx_quic_build_int 0x1C
          ++ (ngx_quic_build_int F.u.close.error_code
            ++ (ngx_quic_build_int F.u.close.frame_type
              ++ (ngx_quic_build_int F.u.close.reason.len
                ++ (mem_bytes mem F.u.close.reason.data F.u.close.reason.len ++ suf)))) := by
        rw [← hpre]; simp
      have hp := parse_connection_close adj pkt _ 0
        (pre ++ mem_bytes mem F.u.close.reason.data F.u.close.reason.len ++ suf).length f0 b0
        _ _ _ _ suf hallow15 h1 h2 h3 hr hd (by rw [List.length_append, hlen]; omega)
      have hdr := drop_append_mid pre
        (mem_bytes mem F.u.close.reason.data F.u.close.reason.len) suf
      rw [hplen] at hdr
      rw [to_ssize_t_small _ (by omega)]
      refine ⟨rfl, _, hp, by simp only [hlen]; omega, rfl, rfl, ?_⟩
      unfold fixed_fields_agree
      refine ⟨?_, ?_, ?_, ?_, ?_, ?_, ?_, ?_⟩
      all_goals try (
        intro h
        rcases hty with h' | h' <;> exact absurd (h'.symm.trans h) (by decide))
      intro _
      rw [happ]
      refine ⟨rfl, rfl, fun _ => rfl, rfl, ?_⟩
      show mem_bytes _ (0 + 1 + ngx_quic_varint_len F.u.close.error_code
        + ngx_quic_varint_len F.u.close.frame_type
        + ngx_quic_varint_len F.u.close.reason.len) F.u.close.reason.len = _
      rw [Nat.zero_add]
      exact mem_bytes_of_drop _ _ _ _ suf hdr hr
    · -- application close, type 0x1d
      have hl0 := build_int_length_small NGX_QUIC_FT_CONNECTION_CLOSE_APP (by norm_num)
      simp only [if_true, not_true_eq_false, if_false, List.append_nil]
      generalize hpre : ngx_quic_build_int NGX_QUIC_FT_CONNECTION_CLOSE_APP
        ++ ngx_quic_build_int F.u.close.error_code
        ++ ngx_quic_build_int F.u.close.reason.len = pre
      have hplen : pre.length = 1 + ngx_quic_varint_len F.u.close.error_code
          + ngx_quic_varint_len F.u.close.reason.len := by
        rw [← hpre]; simp only [List.length_append, hl0, hl1, hl3]
      have hlen : (pre ++ mem_bytes mem F.u.close.reason.data F.u.close.reason.len).length
          = 1 + ngx_quic_varint_len F.u.close.error_code
          + ngx_quic_varint_len F.u.close.reason.len + F.u.close.reason.len := by
        rw [List.length_append, hplen, hr]
      have hd : (pre ++ mem_bytes mem F.u.close.reason.data F.u.close.reason.len
            ++ suf).drop 0 = ngx_quic_build_int 0x1D
          ++ (ngx_quic_build_int F.u.close.error_code
            ++ (ngx_quic_build_int F.u.close.reason.len
              ++ (mem_bytes mem F.u.close.reason.data F.u.close.reason.len ++ suf))) := by
        rw [← hpre]; simp
      have hp := parse_connection_close_app adj pkt _ 0
        (pre ++ mem_bytes mem F.u.close.reason.data F.u.close.reason.len ++ suf).length f0 b0
        _ _ _ suf hallow h1 h3 hr hd (by rw [List.length_append, hlen]; omega)
      have hdr := drop_append_mid pre
        (mem_bytes mem F.u.close.reason.data F.u.close.reason.len) suf
      rw [hplen] at hdr
      rw [to_ssize_t_small _ (by omega)]
      refine ⟨rfl, _, hp, by simp only [hlen]; omega, rfl, rfl, ?_⟩
      unfold fixed_fields_agree
      refine ⟨?_, ?_, ?_, ?_, ?_, ?_, ?_, ?_⟩
      all_goals try (
        intro h
        rcases hty with h' | h' <;> exact absurd (h'.symm.trans h) (by decide))
      intro _
      rw [happ]
      refine ⟨rfl, rfl, fun h => absurd h (by decide), rfl, ?_⟩
      show mem_bytes _ (0 + 1 + ngx_quic_varint_len F.u.close.error_code
        + ngx_quic_varint_len F.u.close.reason.len) F.u.close.reason.len = _
      rw [Nat.zero_add]
      exact mem_bytes_of_drop _ _ _ _ suf hdr hr
  · -- NEW_CONNECTION_ID
    have hcf : ngx_quic_create_frame mem .buffer F
        = ngx_quic_create_frame_return { F with need_ack := 1 }
            (ngx_quic_create_new_connection_id .buffer F.u.ncid) := by
      simp [ngx_quic_create_frame, hty]
    have hl0 := build_int_length_small NGX_QUIC_FT_NEW_CONNECTION_ID (by norm_num)
    have hl1 := build_int_length _ h1
    have hl2 := build_int_length _ h2
    have hb1 := varint_len_le _ h1
    have hb2 := varint_len_le _ h2
    have hc : (to_u_char F.u.ncid.len).val = F.u.ncid.len := by
      rw [to_u_char_val]; omega
    have hcl : (F.u.ncid.cid.take F.u.ncid.len).length = (to_u_char F.u.ncid.len).val := by
      rw [hc, List.length_take]; omega
    have hs16 : F.u.ncid.srt.take NGX_QUIC_SR_TOKEN_LEN = F.u.ncid.srt :=
      List.take_of_length_le (by unfold NGX_QUIC_SR_TOKEN_LEN; omega)
    rw [hcf]
    simp only [ngx_quic_create_frame_return, ngx_quic_create_new_connection_id, hs16]
    generalize hout : ngx_quic_build_int NGX_QUIC_FT_NEW_CONNECTION_ID
      ++ ngx_quic_build_int F.u.ncid.seqnum
      ++ ngx_quic_build_int F.u.ncid.retire
      ++ [to_u_char F.u.ncid.len]
      ++ F.u.ncid.cid.take F.u.ncid.len
      ++ F.u.ncid.srt = out
    have hlen : out.length = 1 + ngx_quic_varint_len F.u.ncid.seqnum
        + ngx_quic_varint_len F.u.ncid.retire + 1 + F.u.ncid.len + 16 := by
      rw [← hout]
      simp only [List.length_append, hl0, hl1, hl2, hcl, hc, h7, List.length_singleton]
    have hd : (out ++ suf).drop 0 = ngx_quic_build_int 0x18
        ++ (ngx_quic_build_int F.u.ncid.seqnum
          ++ (ngx_quic_build_int F.u.ncid.retire
            ++ (to_u_char F.u.ncid.len
              :: (F.u.ncid.cid.take F.u.ncid.len ++ (F.u.ncid.srt ++ suf))))) := by
      rw [← hout]; simp
    have hp := parse_new_connection_id adj pkt (out ++ suf) 0 (out ++ suf).length f0 b0 _ _ _
      _ _ suf hallow h1 h2 h5 (by omega) (by omega) hcl h7 hd
      (by rw [List.length_append, hlen, hc]; omega)
    rw [to_ssize_t_small _ (by omega)]
    refine ⟨rfl, _, hp, by simp only [hlen, hc]; omega, rfl, rfl, ?_⟩
    unfold fixed_fields_agree
    refine ⟨?_, ?_, ?_, ?_, ?_, ?_, ?_, ?_⟩
    all_goals try (intro h; exact absurd (hty.symm.trans h) (by decide))
    · intro h; rcases h with h | h <;> exact absurd (hty.symm.trans h) (by decide)
    intro _
    refine ⟨rfl, rfl, rfl, hc, ?_, ?_⟩
    · show (ngx_memcpy f0.u.ncid.cid (F.u.ncid.cid.take F.u.ncid.len)).take F.u.ncid.len
        = F.u.ncid.cid.take F.u.ncid.len
      unfold ngx_memcpy
      rw [List.take_append_of_le_length (by rw [hcl, hc])]
      exact List.take_of_length_le (by rw [hcl, hc])
    · show (ngx_memcpy f0.u.ncid.srt F.u.ncid.srt).take 16 = F.u.ncid.srt
      unfold ngx_memcpy
      rw [List.take_append_of_le_length (by omega)]
      exact List.take_of_length_le (by omega)

/-- Round trip of the payload frames CRYPTO and STREAM (with the LEN bit) in a
packet whose type admits them. -/
theorem rt_payload (adj : Nat → Option u_char) (pkt : ngx_quic_header_t) (mem : List u_char)
    (F f0 : ngx_quic_frame_t) (b0 : ngx_buf_t) (suf : List u_char)
    (hpk : payload_packet pkt.flags F)
    (hF : payload_frame mem F) :
    (ngx_quic_create_frame mem .buffer F).rc
        = ((ngx_quic_create_frame mem .buffer F).out.length : Int)
      ∧ ∃ ret, ngx_quic_parse_frame adj pkt ((ngx_quic_create_frame mem .buffer F).out ++ suf) 0
            ((ngx_quic_create_frame mem .buffer F).out ++ suf).length f0 b0 = Exec.done ret
          ∧ ret.rc = (ngx_quic_create_frame mem .buffer F).rc
          ∧ ret.pkt = pkt
          ∧ payload_fields_agree mem F ((ngx_quic_create_frame mem .buffer F).out ++ suf)
              ret.f ret.b := by
  rcases hF with ⟨hty, h1, h2, hin, htot⟩ | ⟨hty, hst, hlenbit, hoff, h1, h2, h3, hin, htot⟩
  · -- CRYPTO
    have hallow : packet_type_bit pkt.flags &&& 13 ≠ 0 := by
      rcases hpk.1 hty with h | h | h <;> rw [h] <;> decide
    have hcf : ngx_quic_create_frame mem .buffer F
        = ngx_quic_create_frame_return { F with need_ack := 1 }
            (ngx_quic_create_crypto mem .buffer F.u.crypto F.data) := by
      simp [ngx_quic_create_frame, hty]
    have hl0 := build_int_length_small NGX_QUIC_FT_CRYPTO (by norm_num)
    have hl1 := build_int_length _ h1
    have hl2 := build_int_length _ h2
    have hb1 := varint_len_le _ h1
    have hb2 := varint_len_le _ h2
    have hr : (ngx_quic_copy_chain mem F.data).length = F.u.crypto.length := by
      rw [copy_chain_length mem F.data hin, htot]
    rw [hcf]
    simp only [ngx_quic_create_frame_return, ngx_quic_create_crypto]
    generalize hpre : ngx_quic_build_int NGX_QUIC_FT_CRYPTO
      ++ ngx_quic_build_int F.u.crypto.offset
      ++ ngx_quic_build_int F.u.crypto.length = pre
    have hplen : pre.length = 1 + ngx_quic_varint_len F.u.crypto.offset
        + ngx_quic_varint_len F.u.crypto.length := by
      rw [← hpre]; simp only [List.length_append, hl0, hl1, hl2]
    have hlen : (pre ++ ngx_quic_copy_chain mem F.data).length
        = 1 + ngx_quic_varint_len F.u.crypto.offset
          + ngx_quic_varint_len F.u.crypto.length + F.u.crypto.length := by
      rw [List.length_append, hplen, hr]
    have hd : (pre ++ ngx_quic_copy_chain mem F.data ++ suf).drop 0
        = ngx_quic_build_int 0x06
          ++ (ngx_quic_build_int F.u.crypto.offset
            ++ (ngx_quic_build_int F.u.crypto.length
              ++ (ngx_quic_copy_chain mem F.data ++ suf))) := by
      rw [← hpre]; simp
    have hp := parse_crypto adj pkt _ 0
      (pre ++ ngx_quic_copy_chain mem F.data ++ suf).length f0 b0 _ _ _ suf hallow h1 h2 hd
      (by rw [List.length_append, hlen]; omega)
    have hdr := drop_append_mid pre (ngx_quic_copy_chain mem F.data) suf
    rw [hplen] at hdr
    rw [to_ssize_t_small _ (by omega)]
    refine ⟨rfl, _, hp, by simp only [hlen]; omega, rfl, ?_⟩
    unfold payload_fields_agree
    refine ⟨fun _ => ⟨rfl, rfl, rfl, ?_, ?_⟩, fun h => ?_⟩
    · show 0 + 1 + ngx_quic_varint_len F.u.crypto.offset
          + ngx_quic_varint_len F.u.crypto.length + F.u.crypto.length
          - (0 + 1 + ngx_quic_varint_len F.u.crypto.offset
          + ngx_quic_varint_len F.u.crypto.length) = F.u.crypto.length
      omega
    · show mem_bytes _ (0 + 1 + ngx_quic_varint_len F.u.crypto.offset
          + ngx_quic_varint_len F.u.crypto.length)
          (0 + 1 + ngx_quic_varint_len F.u.crypto.offset
          + ngx_quic_varint_len F.u.crypto.length + F.u.crypto.length
          - (0 + 1 + ngx_quic_varint_len F.u.crypto.offset
          + ngx_quic_varint_len F.u.crypto.length)) = _
      have e1 : 0 + 1 + ngx_quic_varint_len F.u.crypto.offset
          + ngx_quic_varint_len F.u.crypto.length + F.u.crypto.length
          - (0 + 1 + ngx_quic_varint_len F.u.crypto.offset
          + ngx_quic_varint_len F.u.crypto.length) = F.u.crypto.length := by omega
      rw [e1, Nat.zero_add]
      exact mem_bytes_of_drop _ _ _ _ suf hdr hr
    · rw [hty] at h; exact absurd h (by decide)
  · -- STREAM
    have hallow : packet_type_bit pkt.flags &&& 3 ≠ 0 := by
      rcases hpk.2 hty with h | h <;> rw [h] <;> decide
    have ht4 := stream_len_types F.u.stream.type (by rw [hst]; exact hty.1)
      (by rw [hst]; exact hty.2) hlenbit
    have hcf : ngx_quic_create_frame mem .buffer F
        = ngx_quic_create_frame_return { F with need_ack := 1 }
            (ngx_quic_create_stream mem .buffer F.u.stream F.data) := by
      rw [hst] at ht4
      rcases ht4 with h | h | h | h <;> simp [ngx_quic_create_frame, h]
    have hl0 := build_int_length_small F.u.stream.type (by omega)
    have hl1 := build_int_length _ h1
    have hl2 := build_int_length _ h2
    have hl3 := build_int_length _ h3
    have hb1 := varint_len_le _ h1
    have hb2 := varint_len_le _ h2
    have hb3 := varint_len_le _ h3
    have hr : (ngx_quic_copy_chain mem F.data).length = F.u.stream.length := by
      rw [copy_chain_length mem F.data hin, htot]
    have hne : ¬ F.type = NGX_QUIC_FT_CRYPTO := by
      have := hty.1
      intro h; rw [h] at this; exact absurd this (by decide)
    rw [hcf]
    simp only [ngx_quic_create_frame_return, ngx_quic_create_stream]
    by_cases hoffbit : F.u.stream.type &&& 0x04 ≠ 0
    · -- OFF bit set
      have ht2 : F.u.stream.type = 14 ∨ F.u.stream.type = 15 := by
        rcases ht4 with h | h | h | h
        · rw [h] at hoffbit; exact absurd rfl hoffbit
        · rw [h] at hoffbit; exact absurd rfl hoffbit
        · exact Or.inl h
        · exact Or.inr h
      have hofft : F.u.stream.off = true := by rw [hoff]; exact decide_eq_true hoffbit
      simp only [hofft, if_true]
      generalize hpre : ngx_quic_build_int F.u.stream.type
        ++ ngx_quic_build_int F.u.stream.stream_id
        ++ ngx_quic_build_int F.u.stream.offset
        ++ ngx_quic_build_int F.u.stream.length = pre
      have hplen : pre.length = 1 + ngx_quic_varint_len F.u.stream.stream_id
          + ngx_quic_varint_len F.u.stream.offset
          + ngx_quic_varint_len F.u.stream.length := by
        rw [← hpre]; simp only [List.length_append, hl0, hl1, hl2, hl3]
      have hlen : (pre ++ ngx_quic_copy_chain mem F.data).length
          = 1 + ngx_quic_varint_len F.u.stream.stream_id
            + ngx_quic_varint_len F.u.stream.offset
            + ngx_quic_varint_len F.u.stream.length + F.u.stream.length := by
        rw [List.length_append, hplen, hr]
      have hd : (pre ++ ngx_quic_copy_chain mem F.data ++ suf).drop 0
          = ngx_quic_build_int F.u.stream.type
            ++ (ngx_quic_build_int F.u.stream.stream_id
              ++ (ngx_quic_build_int F.u.stream.offset
                ++ (ngx_quic_build_int F.u.stream.length
                  ++ (ngx_quic_copy_chain mem F.data ++ suf)))) := by
        rw [← hpre]; simp
      have hp := parse_stream_off adj pkt _ 0
        (pre ++ ngx_quic_copy_chain mem F.data ++ suf).length f0 b0 _ _ _ _ _ suf hallow ht2
        h1 h2 h3 hd (by rw [List.length_append, hlen]; omega)
      have hdr := drop_append_mid pre (ngx_quic_copy_chain mem F.data) suf
      rw [hplen] at hdr
      rw [to_ssize_t_small _ (by omega)]
      refine ⟨rfl, _, hp, by simp only [hlen]; omega, rfl, ?_⟩
      unfold payload_fields_agree
      refine ⟨fun h => absurd h hne, fun _ => ⟨rfl, rfl, rfl, ?_, rfl, ?_, ?_⟩⟩
      · rw [hofft]; rfl
      · show 0 + 1 + ngx_quic_varint_len F.u.stream.stream_id
            + ngx_quic_varint_len F.u.stream.offset
            + ngx_quic_varint_len F.u.stream.length + F.u.stream.length
            - (0 + 1 + ngx_quic_varint_len F.u.stream.stream_id
            + ngx_quic_varint_len F.u.stream.offset
            + ngx_quic_varint_len F.u.stream.length) = F.u.stream.length
        omega
      · show mem_bytes _ (0 + 1 + ngx_quic_varint_len F.u.stream.stream_id
            + ngx_quic_varint_len F.u.stream.offset
            + ngx_quic_varint_len F.u.stream.length)
            (0 + 1 + ngx_quic_varint_len F.u.stream.stream_id
            + ngx_quic_varint_len F.u.stream.offset
            + ngx_quic_varint_len F.u.stream.length + F.u.stream.length
            - (0 + 1 + ngx_quic_varint_len F.u.stream.stream_id
            + ngx_quic_varint_len F.u.stream.offset
            + ngx_quic_varint_len F.u.stream.length)) = _
        have e1 : 0 + 1 + ngx_quic_varint_len F.u.stream.stream_id
            + ngx_quic_varint_len F.u.stream.offset
            + ngx_quic_varint_len F.u.stream.length + F.u.stream.length
            - (0 + 1 + ngx_quic_varint_len F.u.stream.stream_id
            + ngx_quic_varint_len F.u.stream.offset
            + ngx_quic_varint_len F.u.stream.length) = F.u.stream.length := by omega
        rw [e1, Nat.zero_add]
        exact mem_bytes_of_drop _ _ _ _ suf hdr hr
    · -- OFF bit clear
      have ht2 : F.u.stream.type = 10 ∨ F.u.stream.type = 11 := by
        rcases ht4 with h | h | h | h
        · exact Or.inl h
        · exact Or.inr h
        · rw [h] at hoffbit; exact absurd (by decide) hoffbit
        · rw [h] at hoffbit; exact absurd (by decide) hoffbit
      have hofft : F.u.stream.off = false := by rw [hoff]; exact decide_eq_false hoffbit
      simp only [hofft, Bool.false_eq_true, if_false, List.append_nil]
      generalize hpre : ngx_quic_build_int F.u.stream.type
        ++ ngx_quic_build_int F.u.stream.stream_id
        ++ ngx_quic_build_int F.u.stream.length = pre
      have hplen : pre.length = 1 + ngx_quic_varint_len F.u.stream.stream_id
          + ngx_quic_varint_len F.u.stream.length := by
        rw [← hpre]; simp only [List.length_append, hl0, hl1, hl3]
      have hlen : (pre ++ ngx_quic_copy_chain mem F.data).length
          = 1 + ngx_quic_varint_len F.u.stream.stream_id
            + ngx_quic_varint_len F.u.stream.length + F.u.stream.length := by
        rw [List.length_append, hplen, hr]
      have hd : (pre ++ ngx_quic_copy_chain mem F.data ++ suf).drop 0
          = ngx_quic_build_int F.u.stream.type
            ++ (ngx_quic_build_int F.u.stream.stream_id
              ++ (ngx_quic_build_int F.u.stream.length
                ++ (ngx_quic_copy_chain mem F.data ++ suf))) := by
        rw [← hpre]; simp
      have hp := parse_stream_no_off adj pkt _ 0
        (pre ++ ngx_quic_copy_chain mem F.data ++ suf).length f0 b0 _ _ _ _ suf hallow ht2
        h1 h3 hd (by rw [List.length_append, hlen]; omega)
      have hdr := drop_append_mid pre (ngx_quic_copy_chain mem F.data) suf
      rw [hplen] at hdr
      rw [to_ssize_t_small _ (by omega)]
      refine ⟨rfl, _, hp, by simp only [hlen]; omega, rfl, ?_⟩
      unfold payload_fields_agree
      refine ⟨fun h => absurd h hne, fun _ => ⟨rfl, rfl, rfl, ?_, rfl, ?_, ?_⟩⟩
      · rw [hofft]; rfl
      · show 0 + 1 + ngx_quic_varint_len F.u.stream.stream_id
            + ngx_quic_varint_len F.u.stream.length + F.u.stream.length
            - (0 + 1 + ngx_quic_varint_len F.u.stream.stream_id
            + ngx_quic_varint_len F.u.stream.length) = F.u.stream.length
        omega
      · show mem_bytes _ (0 + 1 + ngx_quic_varint_len F.u.stream.stream_id
            + ngx_quic_varint_len F.u.stream.length)
            (0 + 1 + ngx_quic_varint_len F.u.stream.stream_id
            + ngx_quic_varint_len F.u.stream.length + F.u.stream.length
            - (0 + 1 + ngx_quic_varint_len F.u.stream.stream_id
            + ngx_quic_varint_len F.u.stream.length)) = _
        have e1 : 0 + 1 + ngx_quic_varint_len F.u.stream.stream_id
            + ngx_quic_varint_len F.u.stream.length + F.u.stream.length
            - (0 + 1 + ngx_quic_varint_len F.u.stream.stream_id
            + ngx_quic_varint_len F.u.stream.length) = F.u.stream.length := by omega
        rw [e1, Nat.zero_add]
        exact mem_bytes_of_drop _ _ _ _ suf hdr hr

theorem ack_ranges_build (buf : List u_char) (e : Nat) :
    ∀ (pairs : List (Nat × Nat)) (p : Nat) (suf : List u_char),
      (∀ gr ∈ pairs, gr.1 < 2 ^ 62 ∧ gr.2 < 2 ^ 62) →
      buf.drop p = ack_ranges_bytes pairs ++ suf →
      p + (ack_ranges_bytes pairs).length ≤ e →
      ngx_quic_parse_frame_ack_ranges buf e pairs.length p
        = Rd.ok (p + (ack_ranges_bytes pairs).length, ()) := by
  intro pairs
  induction pairs with
  | nil => intro p suf _ _ _; rfl
  | cons gr rest ih =>
    intro p suf hlt hd he
    have hg := (hlt gr (List.mem_cons_self _ _)).1
    have hr := (hlt gr (List.mem_cons_self _ _)).2
    have hrest : ∀ x ∈ rest, x.1 < 2 ^ 62 ∧ x.2 < 2 ^ 62 :=
      fun x hx => hlt x (List.mem_cons_of_mem _ hx)
    have hb : ack_ranges_bytes (gr :: rest)
        = ngx_quic_build_int gr.1 ++ ngx_quic_build_int gr.2 ++ ack_ranges_bytes rest := rfl
    have hlen : (ack_ranges_bytes (gr :: rest)).length
        = ngx_quic_varint_len gr.1 + ngx_quic_varint_len gr.2
          + (ack_ranges_bytes rest).length := by
      rw [hb]
      simp only [List.length_append, build_int_length _ hg, build_int_length _ hr]
    have hd0 : buf.drop p = ngx_quic_build_int gr.1
        ++ (ngx_quic_build_int gr.2 ++ (ack_ranges_bytes rest ++ suf)) := by
      rw [hd, hb]; simp
    have hd1 := drop_build buf p _ _ hg hd0
    have hd2 := drop_build buf _ _ _ hr hd1
    rw [hlen] at he ⊢
    simp only [List.length_cons, ngx_quic_parse_frame_ack_ranges]
    rw [parse_int_build buf p e _ _ hg hd0 (by omega)]
    simp only []
    rw [parse_int_build buf _ e _ _ hr hd1 (by omega)]
    simp only []
    rw [ih _ suf hrest hd2 (by omega)]
    congr 2
    omega

theorem step_ack_ranges {buf : List u_char} {e p : Nat} {pairs : List (Nat × Nat)}
    {suf : List u_char} (n : Nat)
    (pkt : ngx_quic_header_t) (f : ngx_quic_frame_t) (b : ngx_buf_t)
    (k : Nat → Unit → Exec ngx_quic_parse_frame_ret)
    (hn : n = pairs.length)
    (hlt : ∀ gr ∈ pairs, gr.1 < 2 ^ 62 ∧ gr.2 < 2 ^ 62)
    (hd : buf.drop p = ack_ranges_bytes pairs ++ suf)
    (he : p + (ack_ranges_bytes pairs).length ≤ e) :
    ngx_quic_parse_frame_step (ngx_quic_parse_frame_ack_ranges buf e n p) pkt f b k
      = k (p + (ack_ranges_bytes pairs).length) () := by
  rw [hn, ack_ranges_build buf e pairs p suf hlt hd he]
  rfl

theorem parse_ack (adj : Nat → Option u_char) (pkt : ngx_quic_header_t)
    (buf : List u_char) (start e : Nat) (f0 : ngx_quic_frame_t) (b0 : ngx_buf_t)
    (largest delay first : Nat) (pairs : List (Nat × Nat)) (suf : List u_char)
    (hallow : packet_type_bit pkt.flags &&& 13 ≠ 0)
    (h1 : largest < 2 ^ 62) (h2 : delay < 2 ^ 62) (h3 : pairs.length < 2 ^ 62)
    (h4 : first < 2 ^ 62)
    (hlt : ∀ gr ∈ pairs, gr.1 < 2 ^ 62 ∧ gr.2 < 2 ^ 62)
    (hd : buf.drop start = ngx_quic_build_int 0x02
      ++ (ngx_quic_build_int largest ++ (ngx_quic_build_int delay
        ++ (ngx_quic_build_int pairs.length ++ (ngx_quic_build_int first
          ++ (ack_ranges_bytes pairs ++ suf))))))
    (he : start + 1 + ngx_quic_varint_len largest + ngx_quic_varint_len delay
      + ngx_quic_varint_len pairs.length + ngx_quic_varint_len first
      + (ack_ranges_bytes pairs).length ≤ e) :
    ngx_quic_parse_frame adj pkt buf start e f0 b0
      = Exec.done
          { rc := ((start + 1 + ngx_quic_varint_len largest + ngx_quic_varint_len delay
                      + ngx_quic_varint_len pairs.length + ngx_quic_varint_len first
                      + (ack_ranges_bytes pairs).length : Nat) : Int) - (start : Int),
            pkt := pkt,
            f := { f0 with type := 0x02, level := pkt.level,
                           u.ack.largest := largest, u.ack.delay := delay,
                           u.ack.range_count := pairs.length, u.ack.first_range := first,
                           u.ack.ranges_length :=
                             start + 1 + ngx_quic_varint_len largest
                               + ngx_quic_varint_len delay
                               + ngx_quic_varint_len pairs.length + ngx_quic_varint_len first
                               + (ack_ranges_bytes pairs).length
                             - (start + 1 + ngx_quic_varint_len largest
                               + ngx_quic_varint_len delay
                               + ngx_quic_varint_len pairs.length
                               + ngx_quic_varint_len first) },
            b := { b0 with
                     pos := start + 1 + ngx_quic_varint_len largest
                       + ngx_quic_varint_len delay
                       + ngx_quic_varint_len pairs.length + ngx_quic_varint_len first,
                     last := start + 1 + ngx_quic_varint_len largest
                       + ngx_quic_varint_len delay
                       + ngx_quic_varint_len pairs.length + ngx_quic_varint_len first
                       + (ack_ranges_bytes pairs).length } } := by
  have hl0 : ngx_quic_varint_len 0x02 = 1 := varint_len_small _ (by norm_num)
  have hd1 := drop_build buf start _ _ (by norm_num) hd
  rw [hl0] at hd1
  have hd2 := drop_build buf _ _ _ h1 hd1
  have hd3 := drop_build buf _ _ _ h2 hd2
  have hd4 := drop_build buf _ _ _ h3 hd3
  have hd5 := drop_build buf _ _ _ h4 hd4
  rw [parse_frame_type adj pkt buf start e f0 b0 0x02 _ (by norm_num) hd (by omega)
    (by simpa [table3_mask] using hallow), hl0]
  unfold ngx_quic_parse_frame_switch
  try dsimp only
  unfold ngx_quic_parse_frame_ack
  rw [step_build pkt _ b0 _ h1 hd1 (by omega)]
  try dsimp only
  rw [step_build pkt _ b0 _ h2 hd2 (by omega)]
  try dsimp only
  rw [step_build pkt _ b0 _ h3 hd3 (by omega)]
  try dsimp only
  rw [step_build pkt _ b0 _ h4 hd4 (by omega)]
  try dsimp only
  rw [step_ack_ranges _ pkt _ _ _ rfl hlt hd5 (by omega)]
  try dsimp only
  rw [if_neg (by decide)]
  rfl

/-- Round trip of ACK frames whose ranges region holds `range_count` pairs written
by `ngx_quic_create_ack_range`, in a packet whose type admits ACK. -/
theorem rt_ack (adj : Nat → Option u_char) (pkt : ngx_quic_header_t) (mem : List u_char)
    (F f0 : ngx_quic_frame_t) (b0 : ngx_buf_t) (suf : List u_char)
    (pairs : List (Nat × Nat))
    (hallow : packet_type_bit pkt.flags &&& 13 ≠ 0)
    (hF : ack_frame mem F pairs) :
    (ngx_quic_create_frame mem .buffer F).rc
        = ((ngx_quic_create_frame mem .buffer F).out.length : Int)
      ∧ ∃ ret, ngx_quic_parse_frame adj pkt ((ngx_quic_create_frame mem .buffer F).out ++ suf) 0
            ((ngx_quic_create_frame mem .buffer F).out ++ suf).length f0 b0 = Exec.done ret
          ∧ ret.rc = (ngx_quic_create_frame mem .buffer F).rc
          ∧ ret.pkt = pkt
          ∧ ack_fields_agree mem F ((ngx_quic_create_frame mem .buffer F).out ++ suf)
              ret.f ret.b := by
  obtain ⟨hty, h1, h2, h3, h4, hn, hlt, hch, hrl, hlen63⟩ := hF
  rw [hrl] at hlen63
  have hcf : ngx_quic_create_frame mem .buffer F
      = ngx_quic_create_frame_return { F with need_ack := 0 }
          (ngx_quic_create_ack mem .buffer F.u.ack F.data) := by
    simp [ngx_quic_create_frame, hty]
  have hl0 := build_int_length_small NGX_QUIC_FT_ACK (by norm_num)
  have hl1 := build_int_length _ h1
  have hl2 := build_int_length _ h2
  have hl3 := build_int_length _ h3
  have hl4 := build_int_length _ h4
  have hb1 := varint_len_le _ h1
  have hb2 := varint_len_le _ h2
  have hb3 := varint_len_le _ h3
  have hb4 := varint_len_le _ h4
  rw [hcf]
  simp only [ngx_quic_create_frame_return, ngx_quic_create_ack, hch]
  rw [← hn] at h3 hl3 hb3 ⊢
  generalize hpre : ngx_quic_build_int NGX_QUIC_FT_ACK
    ++ ngx_quic_build_int F.u.ack.largest
    ++ ngx_quic_build_int F.u.ack.delay
    ++ ngx_quic_build_int pairs.length
    ++ ngx_quic_build_int F.u.ack.first_range = pre
  have hplen : pre.length = 1 + ngx_quic_varint_len F.u.ack.largest
      + ngx_quic_varint_len F.u.ack.delay + ngx_quic_varint_len pairs.length
      + ngx_quic_varint_len F.u.ack.first_range := by
    rw [← hpre]; simp only [List.length_append, hl0, hl1, hl2, hl3, hl4]
  have hlen : (pre ++ ack_ranges_bytes pairs).length
      = 1 + ngx_quic_varint_len F.u.ack.largest
        + ngx_quic_varint_len F.u.ack.delay + ngx_quic_varint_len pairs.length
        + ngx_quic_varint_len F.u.ack.first_range + (ack_ranges_bytes pairs).length := by
    rw [List.length_append, hplen]
  have hd : (pre ++ ack_ranges_bytes pairs ++ suf).drop 0
      = ngx_quic_build_int 0x02
        ++ (ngx_quic_build_int F.u.ack.largest
          ++ (ngx_quic_build_int F.u.ack.delay
            ++ (ngx_quic_build_int pairs.length
              ++ (ngx_quic_build_int F.u.ack.first_range
                ++ (ack_ranges_bytes pairs ++ suf))))) := by
    rw [← hpre]; simp
  have hp := parse_ack adj pkt _ 0 (pre ++ ack_ranges_bytes pairs ++ suf).length f0 b0
    _ _ _ pairs suf hallow h1 h2 h3 h4 hlt hd (by rw [List.length_append, hlen]; omega)
  have hdr := drop_append_mid pre (ack_ranges_bytes pairs) suf
  rw [hplen] at hdr
  rw [to_ssize_t_small _ (by omega)]
  refine ⟨rfl, _, hp, by simp only [hlen]; omega, rfl, ?_⟩
  unfold ack_fields_agree
  intro _
  have e1 : 0 + 1 + ngx_quic_varint_len F.u.ack.largest
      + ngx_quic_varint_len F.u.ack.delay + ngx_quic_varint_len pairs.length
      + ngx_quic_varint_len F.u.ack.first_range + (ack_ranges_bytes pairs).length
      - (0 + 1 + ngx_quic_varint_len F.u.ack.largest
      + ngx_quic_varint_len F.u.ack.delay + ngx_quic_varint_len pairs.length
      + ngx_quic_varint_len F.u.ack.first_range) = (ack_ranges_bytes pairs).length := by
    omega
  refine ⟨rfl, rfl, rfl, hn, rfl, ?_, rfl, ?_⟩
  · rw [hrl]; exact e1
  · show mem_bytes _ (0 + 1 + ngx_quic_varint_len F.u.ack.largest
      + ngx_quic_varint_len F.u.ack.delay + ngx_quic_varint_len pairs.length
      + ngx_quic_varint_len F.u.ack.first_range)
      (0 + 1 + ngx_quic_varint_len F.u.ack.largest
      + ngx_quic_varint_len F.u.ack.delay + ngx_quic_varint_len pairs.length
      + ngx_quic_varint_len F.u.ack.first_range + (ack_ranges_bytes pairs).length
      - (0 + 1 + ngx_quic_varint_len F.u.ack.largest
      + ngx_quic_varint_len F.u.ack.delay + ngx_quic_varint_len pairs.length
      + ngx_quic_varint_len F.u.ack.first_range)) = _
    rw [e1, Nat.zero_add, hch]
    exact mem_bytes_of_drop _ _ _ _ suf hdr rfl

/-! ## Claims on the round trip of frames -/

theorem parse_frame_not_allowed (adj : Nat → Option u_char) (pkt : ngx_quic_header_t)
    (buf : List u_char) (start end_ p t : Nat) (f : ngx_quic_frame_t) (b : ngx_buf_t)
    (ht : t ≤ 0x1E) (hp : ngx_quic_parse_int buf start end_ = Rd.ok (p, t))
    (hz : packet_type_bit pkt.flags &&& table3_mask t = 0) :
    ngx_quic_parse_frame adj pkt buf start end_ f b
      = Exec.done { rc := NGX_ERROR,
                    pkt := { pkt with error := NGX_QUIC_ERR_PROTOCOL_VIOLATION },
                    f := { f with type := t }, b := b } := by
  have hA := frame_allowed_eq adj pkt t ht
  rw [if_neg (not_not.mpr hz)] at hA
  rw [parse_frame_allowed adj pkt buf start end_ f b p t _ hp hA, if_pos NGX_DECLINED_ne_OK]

theorem fixed_frame_type (mem : List u_char) (F : ngx_quic_frame_t)
    (h : fixed_field_frame mem F) :
    F.type ≠ NGX_QUIC_FT_CRYPTO ∧ F.type ≠ NGX_QUIC_FT_ACK
      ∧ ¬ (NGX_QUIC_FT_STREAM0 ≤ F.type ∧ F.type ≤ NGX_QUIC_FT_STREAM7) := by
  rcases h with h | h | h | h | h | h | h | h
  all_goals first
    | (have ht := h.1
       rcases ht with ht | ht <;> rw [ht] <;> decide)
    | (have ht := h.1
       rw [ht]; decide)

theorem payload_frame_type (mem : List u_char) (F : ngx_quic_frame_t)
    (h : payload_frame mem F) :
    F.type = NGX_QUIC_FT_CRYPTO ∨ (NGX_QUIC_FT_STREAM0 ≤ F.type ∧ F.type ≤ NGX_QUIC_FT_STREAM7) := by
  rcases h with h | h
  · exact Or.inl h.1
  · exact Or.inr h.1

/-- C9: round trip of fixed-field frames.  For every STOP_SENDING, MAX_DATA,
MAX_STREAM_DATA, MAX_STREAMS (bidi or uni), RETIRE_CONNECTION_ID, PATH_RESPONSE,
CONNECTION_CLOSE (transport or application, with its reason bytes) and
NEW_CONNECTION_ID (with `1 <= len <= 20` and `retire <= seqnum`) descriptor `F`
whose varint fields are below 2^62, `ngx_quic_create_frame` writes `n` bytes and
`ngx_quic_parse_frame` on these bytes (whatever follows them) in a 1-RTT packet
(short header) returns `n`, with the wire type code the builder chose and every
semantic field equal to the one of `F`. -/
theorem fixed_field_frames_round_trip (adj : Nat → Option u_char) (pkt : ngx_quic_header_t)
    (mem : List u_char) (F f0 : ngx_quic_frame_t) (b0 : ngx_buf_t) (suf : List u_char)
    (hshort : pkt.flags.val &&& 0x80 = 0)
    (hF : fixed_field_frame mem F) :
    (ngx_quic_create_frame mem .buffer F).rc
        = ((ngx_quic_create_frame mem .buffer F).out.length : Int)
      ∧ ∃ ret, ngx_quic_parse_frame adj pkt ((ngx_quic_create_frame mem .buffer F).out ++ suf) 0
            ((ngx_quic_create_frame mem .buffer F).out ++ suf).length f0 b0 = Exec.done ret
          ∧ ret.rc = (ngx_quic_create_frame mem .buffer F).rc
          ∧ ret.pkt = pkt
          ∧ fixed_fields_agree mem F ((ngx_quic_create_frame mem .buffer F).out ++ suf)
              ret.f := by
  obtain ⟨h1, ret, h2, h3, h4, _, h6⟩ :=
    rt_fixed adj pkt mem F f0 b0 suf (packet_bit_and_3 _ hshort) hF
  exact ⟨h1, ret, h2, h3, h4, h6⟩

theorem fixed_field_frames_round_trip_witness :
    ((ngx_quic_header_zero 0x40).flags.val &&& 0x80 = 0
        ∧ fixed_field_frame [] example_new_connection_id)
      ∧ (ngx_quic_create_frame [] .buffer example_new_connection_id).out
          = [0x18, 0x02, 0x01, 0x08, 7, 7, 7, 7, 7, 7, 7, 7,
             9, 9, 9, 9, 9, 9, 9, 9, 9, 9, 9, 9, 9, 9, 9, 9]
      ∧ (ngx_quic_create_frame [] .buffer example_new_connection_id).rc
          = ((ngx_quic_create_frame [] .buffer example_new_connection_id).out.length : Int)
      ∧ ∃ ret, ngx_quic_parse_frame (fun _ => some 0) (ngx_quic_header_zero 0x40)
            ((ngx_quic_create_frame [] .buffer example_new_connection_id).out ++ []) 0
            ((ngx_quic_create_frame [] .buffer example_new_connection_id).out ++ []).length
            ngx_quic_frame_zero { pos := 0, last := 0 } = Exec.done ret
          ∧ ret.rc = (ngx_quic_create_frame [] .buffer example_new_connection_id).rc
          ∧ ret.pkt = ngx_quic_header_zero 0x40
          ∧ fixed_fields_agree [] example_new_connection_id
              ((ngx_quic_create_frame [] .buffer example_new_connection_id).out ++ []) ret.f :=
  ⟨⟨by decide, by decide⟩, by decide,
    fixed_field_frames_round_trip (fun _ => some 0) (ngx_quic_header_zero 0x40) []
      example_new_connection_id ngx_quic_frame_zero { pos := 0, last := 0 } []
      (by decide) (by decide)⟩

/-- C10 (as stated, refuted): the STREAM descriptor `example_stream_fin` meets the
conditions of the claim (type 0x0a has the LEN bit, the `off` flag equals the OFF
bit, the fields are below 2^62, the empty chain totals the length 0), its three
bytes 0a 04 00 are parsed in a 1-RTT packet with result 3, but the parsed `fin`
is false and the parsed offset is 0, while the descriptor has `fin` set and
offset 7. -/
theorem payload_round_trip_fin_counterexample :
    payload_frame [] example_stream_fin
      ∧ payload_packet 0x40 example_stream_fin
      ∧ (ngx_quic_create_frame [] .buffer example_stream_fin).out = [0x0A, 0x04, 0x00]
      ∧ (ngx_quic_create_frame [] .buffer example_stream_fin).rc = 3
      ∧ ngx_quic_parse_frame (fun _ => some 0) (ngx_quic_header_zero 0x40)
            (ngx_quic_create_frame [] .buffer example_stream_fin).out 0 3
            ngx_quic_frame_zero { pos := 0, last := 0 }
          = Exec.done
              { rc := 3, pkt := ngx_quic_header_zero 0x40,
                f := { ngx_quic_frame_zero with
                       type := 0x0A
                       u.stream := { type := 0x0A, stream_id := 4, offset := 0, length := 0,
                                     off := false, len := true, fin := false } },
                b := { pos := 3, last := 3 } }
      ∧ example_stream_fin.u.stream.fin = true
      ∧ example_stream_fin.u.stream.offset = 7 := by
  decide

/-- C10 (amended): round trip of payload frames.  For every CRYPTO descriptor and
every STREAM descriptor whose type code has the LEN bit set and whose `off` flag
equals the OFF bit, with varint fields below 2^62 and a data chain whose buffers
total exactly the declared length, `ngx_quic_create_frame` writes `n` bytes and
`ngx_quic_parse_frame` on these bytes (CRYPTO in a 1-RTT, Initial or Handshake
packet, STREAM in a 0-RTT or 1-RTT packet) returns `n`, the same length and
stream_id, the offset of the descriptor when the OFF bit is set and 0 otherwise,
`fin` equal to the FIN bit of the type code, and a payload slice equal to the
concatenation of the chain buffers in order. -/
theorem payload_frames_round_trip (adj : Nat → Option u_char) (pkt : ngx_quic_header_t)
    (mem : List u_char) (F f0 : ngx_quic_frame_t) (b0 : ngx_buf_t) (suf : List u_char)
    (hpk : payload_packet pkt.flags F)
    (hF : payload_frame mem F) :
    (ngx_quic_create_frame mem .buffer F).rc
        = ((ngx_quic_create_frame mem .buffer F).out.length : Int)
      ∧ ∃ ret, ngx_quic_parse_frame adj pkt ((ngx_quic_create_frame mem .buffer F).out ++ suf) 0
            ((ngx_quic_create_frame mem .buffer F).out ++ suf).length f0 b0 = Exec.done ret
          ∧ ret.rc = (ngx_quic_create_frame mem .buffer F).rc
          ∧ ret.pkt = pkt
          ∧ payload_fields_agree mem F ((ngx_quic_create_frame mem .buffer F).out ++ suf)
              ret.f ret.b :=
  rt_payload adj pkt mem F f0 b0 suf hpk hF

theorem payload_frames_round_trip_witness :
    (payload_packet (ngx_quic_header_zero 0xC0).flags example_crypto
        ∧ payload_frame [1, 2, 3] example_crypto)
      ∧ (ngx_quic_create_frame [1, 2, 3] .buffer example_crypto).out
          = [0x06, 0x05, 0x03, 1, 2, 3]
      ∧ (ngx_quic_create_frame [1, 2, 3] .buffer example_crypto).rc
          = ((ngx_quic_create_frame [1, 2, 3] .buffer example_crypto).out.length : Int)
      ∧ ∃ ret, ngx_quic_parse_frame (fun _ => some 0) (ngx_quic_header_zero 0xC0)
            ((ngx_quic_create_frame [1, 2, 3] .buffer example_crypto).out ++ [0x01]) 0
            ((ngx_quic_create_frame [1, 2, 3] .buffer example_crypto).out ++ [0x01]).length
            ngx_quic_frame_zero { pos := 0, last := 0 } = Exec.done ret
          ∧ ret.rc = (ngx_quic_create_frame [1, 2, 3] .buffer example_crypto).rc
          ∧ ret.pkt = ngx_quic_header_zero 0xC0
          ∧ payload_fields_agree [1, 2, 3] example_crypto
              ((ngx_quic_create_frame [1, 2, 3] .buffer example_crypto).out ++ [0x01])
              ret.f ret.b :=
  ⟨⟨by decide, by decide⟩, by decide,
    payload_frames_round_trip (fun _ => some 0) (ngx_quic_header_zero 0xC0) [1, 2, 3]
      example_crypto ngx_quic_frame_zero { pos := 0, last := 0 } [0x01]
      (by decide) (by decide)⟩

/-- C8 (as stated, refuted): the HANDSHAKE_DONE descriptor is serialised by
`ngx_quic_create_frame` to the byte 1e, and `ngx_quic_parse_frame` on this byte
returns ERROR with PROTOCOL_VIOLATION for every packet descriptor, so for every
flags byte; and the PING descriptor is not serialised at all:
`ngx_quic_create_frame` returns ERROR. -/
theorem frame_round_trip_counterexample :
    (ngx_quic_create_frame [] .buffer example_handshake_done).out = [0x1E]
      ∧ (ngx_quic_create_frame [] .buffer example_handshake_done).rc = 1
      ∧ (∀ (adj : Nat → Option u_char) (pkt : ngx_quic_header_t) (f : ngx_quic_frame_t)
            (b : ngx_buf_t),
          ngx_quic_parse_frame adj pkt
              (ngx_quic_create_frame [] .buffer example_handshake_done).out 0 1 f b
            = Exec.done { rc := NGX_ERROR,
                          pkt := { pkt with error := NGX_QUIC_ERR_PROTOCOL_VIOLATION },
                          f := { f with type := NGX_QUIC_FT_HANDSHAKE_DONE }, b := b })
      ∧ (ngx_quic_create_frame [] .buffer example_ping).rc = NGX_ERROR
      ∧ (ngx_quic_create_frame [] .buffer example_ping).out = [] := by
  have hout : (ngx_quic_create_frame [] .buffer example_handshake_done).out = [0x1E] := by
    decide
  refine ⟨hout, by decide, ?_, by decide, by decide⟩
  intro adj pkt f b
  rw [hout]
  exact parse_frame_not_allowed adj pkt [0x1E] 0 1 1 0x1E f b (by decide) (by decide)
    (by rw [show table3_mask 0x1E = 0 from by decide]; exact Nat.and_zero _)

/-- C8 (amended): round trip of the frames that the builder serialises and the
receive path admits.  For every descriptor `F` that is a fixed-field frame
(STOP_SENDING, MAX_DATA, MAX_STREAM_DATA, MAX_STREAMS, RETIRE_CONNECTION_ID,
PATH_RESPONSE, CONNECTION_CLOSE, NEW_CONNECTION_ID), a payload frame (CRYPTO,
STREAM with the LEN bit) or an ACK frame whose chain holds `range_count` pairs
written by `ngx_quic_create_ack_range`, with varint fields below 2^62,
`ngx_quic_create_frame` writes `n` bytes and `ngx_quic_parse_frame` on these bytes
in a 1-RTT packet succeeds, returns `n` and yields the wire type code and the
serialised fields of `F`. -/
theorem supported_frames_round_trip (adj : Nat → Option u_char) (pkt : ngx_quic_header_t)
    (mem : List u_char) (F f0 : ngx_quic_frame_t) (b0 : ngx_buf_t) (suf : List u_char)
    (pairs : List (Nat × Nat))
    (hshort : pkt.flags.val &&& 0x80 = 0)
    (hF : fixed_field_frame mem F ∨ payload_frame mem F ∨ ack_frame mem F pairs) :
    (ngx_quic_create_frame mem .buffer F).rc
        = ((ngx_quic_create_frame mem .buffer F).out.length : Int)
      ∧ ∃ ret, ngx_quic_parse_frame adj pkt ((ngx_quic_create_frame mem .buffer F).out ++ suf) 0
            ((ngx_quic_create_frame mem .buffer F).out ++ suf).length f0 b0 = Exec.done ret
          ∧ 1 ≤ ret.rc
          ∧ ret.rc = (ngx_quic_create_frame mem .buffer F).rc
          ∧ ret.pkt = pkt
          ∧ fixed_fields_agree mem F ((ngx_quic_create_frame mem .buffer F).out ++ suf) ret.f
          ∧ payload_fields_agree mem F ((ngx_quic_create_frame mem .buffer F).out ++ suf)
              ret.f ret.b
          ∧ ack_fields_agree mem F ((ngx_quic_create_frame mem .buffer F).out ++ suf)
              ret.f ret.b := by
  have hbit := packet_type_bit_short pkt.flags hshort
  have hpos : ∀ ret, ngx_quic_parse_frame adj pkt
      ((ngx_quic_create_frame mem .buffer F).out ++ suf) 0
      ((ngx_quic_create_frame mem .buffer F).out ++ suf).length f0 b0 = Exec.done ret →
      ret.rc ≠ NGX_ERROR → 1 ≤ ret.rc :=
    fun ret hret hne => parse_frame_rc_pos adj pkt _ 0 f0 b0 ret hret hne
  rcases hF with hF | hF | hF
  · obtain ⟨h1, ret, h2, h3, h4, _, h6⟩ :=
      rt_fixed adj pkt mem F f0 b0 suf (packet_bit_and_3 _ hshort) hF
    obtain ⟨t1, t2, t3⟩ := fixed_frame_type mem F hF
    refine ⟨h1, ret, h2, hpos ret h2 ?_, h3, h4, h6, ⟨fun h => absurd h t1, fun h => absurd h t3⟩,
      fun h => absurd h t2⟩
    rw [h3, h1]; unfold NGX_ERROR; omega
  · have hpk : payload_packet pkt.flags F := by
      unfold payload_packet
      rw [hbit]
      exact ⟨fun _ => Or.inl rfl, fun _ => Or.inr rfl⟩
    obtain ⟨h1, ret, h2, h3, h4, h6⟩ := rt_payload adj pkt mem F f0 b0 suf hpk hF
    have ht := payload_frame_type mem F hF
    have hnack : F.type ≠ NGX_QUIC_FT_ACK := by
      rcases ht with ht | ht
      · rw [ht]; decide
      · intro h; rw [h] at ht; exact absurd ht (by decide)
    refine ⟨h1, ret, h2, hpos ret h2 ?_, h3, h4, ?_, h6, fun h => absurd h hnack⟩
    · rw [h3, h1]; unfold NGX_ERROR; omega
    · unfold fixed_fields_agree
      refine ⟨?_, ?_, ?_, ?_, ?_, ?_, ?_, ?_⟩
      all_goals (
        intro h
        rcases ht with ht | ht
        · first
            | exact absurd (ht.symm.trans h) (by decide)
            | (rcases h with h | h <;> exact absurd (ht.symm.trans h) (by decide))
        · first
            | (rw [h] at ht; exact absurd ht (by decide))
            | (rcases h with h | h <;> rw [h] at ht <;> exact absurd ht (by decide)))
  · have hty := hF.1
    obtain ⟨h1, ret, h2, h3, h4, h6⟩ :=
      rt_ack adj pkt mem F f0 b0 suf pairs (packet_bit_and_13 _ hshort) hF
    refine ⟨h1, ret, h2, hpos ret h2 ?_, h3, h4, ?_, ?_, h6⟩
    · rw [h3, h1]; unfold NGX_ERROR; omega
    · unfold fixed_fields_agree
      refine ⟨?_, ?_, ?_, ?_, ?_, ?_, ?_, ?_⟩
      all_goals (
        intro h
        first
          | exact absurd (hty.symm.trans h) (by decide)
          | (rcases h with h | h <;> exact absurd (hty.symm.trans h) (by decide)))
    · unfold payload_fields_agree
      refine ⟨fun h => absurd (hty.symm.trans h) (by decide), fun h => ?_⟩
      rw [hty] at h; exact absurd h (by decide)

theorem supported_frames_round_trip_witness :
    ((ngx_quic_header_zero 0x40).flags.val &&& 0x80 = 0
        ∧ (fixed_field_frame [2, 0] example_ack ∨ payload_frame [2, 0] example_ack
            ∨ ack_frame [2, 0] example_ack [(2, 0)]))
      ∧ (ngx_quic_create_frame [2, 0] .buffer example_ack).out
          = [0x02, 0x0a, 0x19, 0x01, 0x00, 0x02, 0x00]
      ∧ (ngx_quic_create_frame [2, 0] .buffer example_ack).rc
          = ((ngx_quic_create_frame [2, 0] .buffer example_ack).out.length : Int)
      ∧ ∃ ret, ngx_quic_parse_frame (fun _ => some 0) (ngx_quic_header_zero 0x40)
            ((ngx_quic_create_frame [2, 0] .buffer example_ack).out ++ []) 0
            ((ngx_quic_create_frame [2, 0] .buffer example_ack).out ++ []).length
            ngx_quic_frame_zero { pos := 0, last := 0 } = Exec.done ret
          ∧ 1 ≤ ret.rc
          ∧ ret.rc = (ngx_quic_create_frame [2, 0] .buffer example_ack).rc
          ∧ ret.pkt = ngx_quic_header_zero 0x40
          ∧ fixed_fields_agree [2, 0] example_ack
              ((ngx_quic_create_frame [2, 0] .buffer example_ack).out ++ []) ret.f
          ∧ payload_fields_agree [2, 0] example_ack
              ((ngx_quic_create_frame [2, 0] .buffer example_ack).out ++ []) ret.f ret.b
          ∧ ack_fields_agree [2, 0] example_ack
              ((ngx_quic_create_frame [2, 0] .buffer example_ack).out ++ []) ret.f ret.b :=
  ⟨⟨by decide, by decide⟩, by decide,
    supported_frames_round_trip (fun _ => some 0) (ngx_quic_header_zero 0x40) [2, 0]
      example_ack ngx_quic_frame_zero { pos := 0, last := 0 } [] [(2, 0)]
      (by decide) (by decide)⟩

/-! ## STREAM frames without the LEN bit -/

theorem stream_nolen_types (t : Nat) (h1 : 0x08 ≤ t) (h2 : t ≤ 0x0F) (h3 : t &&& 0x02 = 0) :
    t = 8 ∨ t = 9 ∨ t = 12 ∨ t = 13 := by
  interval_cases t <;> first | decide | exact absurd h3 (by decide)

theorem parse_stream_off_nolen (adj : Nat → Option u_char) (pkt : ngx_quic_header_t)
    (buf : List u_char) (start e : Nat) (f0 : ngx_quic_frame_t) (b0 : ngx_buf_t)
    (t sid off : Nat) (suf : List u_char)
    (hallow : packet_type_bit pkt.flags &&& 3 ≠ 0)
    (ht : t = 12 ∨ t = 13)
    (h1 : sid < 2 ^ 62) (h2 : off < 2 ^ 62)
    (hd : buf.drop start = ngx_quic_build_int t
      ++ (ngx_quic_build_int sid ++ (ngx_quic_build_int off ++ suf)))
    (he : start + 1 + ngx_quic_varint_len sid + ngx_quic_varint_len off ≤ e) :
    ngx_quic_parse_frame adj pkt buf start e f0 b0
      = Exec.done
          { rc := ((start + 1 + ngx_quic_varint_len sid + ngx_quic_varint_len off
                      + (e - (start + 1 + ngx_quic_varint_len sid
                          + ngx_quic_varint_len off)) : Nat) : Int) - (start : Int),
            pkt := pkt,
            f := { f0 with type := t, level := pkt.level,
                           u.stream := { type := t, stream_id := sid, offset := off,
                                         length := e - (start + 1 + ngx_quic_varint_len sid
                                           + ngx_quic_varint_len off),
                                         off := true, len := false,
                                         fin := decide (t &&& 0x01 ≠ 0) } },
            b := { b0 with
                     pos := start + 1 + ngx_quic_varint_len sid + ngx_quic_varint_len off,
                     last := start + 1 + ngx_quic_varint_len sid + ngx_quic_varint_len off
                       + (e - (start + 1 + ngx_quic_varint_len sid
                          + ngx_quic_varint_len off)) } } := by
  have hl0 : ngx_quic_varint_len t = 1 := varint_len_small _ (by omega)
  have hd1 := drop_build buf start _ _ (by omega) hd
  rw [hl0] at hd1
  have hd2 := drop_build buf _ _ _ h1 hd1
  have hm : packet_type_bit pkt.flags &&& table3_mask t ≠ 0 := by
    rcases ht with rfl | rfl <;> simpa [table3_mask] using hallow
  rw [parse_frame_type adj pkt buf start e f0 b0 t _ (by omega) hd (by omega) hm, hl0]
  unfold ngx_quic_parse_frame_switch
  rcases ht with rfl | rfl
  all_goals
    try dsimp only
    unfold ngx_quic_parse_frame_stream
    try dsimp only
    rw [step_build pkt _ b0 _ h1 hd1 (by omega)]
    try dsimp only
    rw [if_pos (by decide), step_build pkt _ b0 _ h2 hd2 (by omega)]
    try dsimp only
    rw [if_neg (by decide)]
    try dsimp only
    rw [step_read_bytes pkt _ b0 _ (by omega)]
    rfl

theorem parse_stream_plain (adj : Nat → Option u_char) (pkt : ngx_quic_header_t)
    (buf : List u_char) (start e : Nat) (f0 : ngx_quic_frame_t) (b0 : ngx_buf_t)
    (t sid : Nat) (suf : List u_char)
    (hallow : packet_type_bit pkt.flags &&& 3 ≠ 0)
    (ht : t = 8 ∨ t = 9)
    (h1 : sid < 2 ^ 62)
    (hd : buf.drop start = ngx_quic_build_int t ++ (ngx_quic_build_int sid ++ suf))
    (he : start + 1 + ngx_quic_varint_len sid ≤ e) :
    ngx_quic_parse_frame adj pkt buf start e f0 b0
      = Exec.done
          { rc := ((start + 1 + ngx_quic_varint_len sid
                      + (e - (start + 1 + ngx_quic_varint_len sid)) : Nat) : Int)
                    - (start : Int),
            pkt := pkt,
            f := { f0 with type := t, level := pkt.level,
                           u.stream := { type := t, stream_id := sid, offset := 0,
                                         length := e - (start + 1 + ngx_quic_varint_len sid),
                                         off := false, len := false,
                                         fin := decide (t &&& 0x01 ≠ 0) } },
            b := { b0 with
                     pos := start + 1 + ngx_quic_varint_len sid,
                     last := start + 1 + ngx_quic_varint_len sid
                       + (e - (start + 1 + ngx_quic_varint_len sid)) } } := by
  have hl0 : ngx_quic_varint_len t = 1 := varint_len_small _ (by omega)
  have hd1 := drop_build buf start _ _ (by omega) hd
  rw [hl0] at hd1
  have hm : packet_type_bit pkt.flags &&& table3_mask t ≠ 0 := by
    rcases ht with rfl | rfl <;> simpa [table3_mask] using hallow
  rw [parse_frame_type adj pkt buf start e f0 b0 t _ (by omega) hd (by omega) hm, hl0]
  unfold ngx_quic_parse_frame_switch
  rcases ht with rfl | rfl
  all_goals
    try dsimp only
    unfold ngx_quic_parse_frame_stream
    try dsimp only
    rw [step_build pkt _ b0 _ h1 hd1 (by omega)]
    try dsimp only
    rw [if_neg (by decide), if_neg (by decide)]
    try dsimp only
    rw [step_read_bytes pkt _ b0 _ (by omega)]
    rfl

/-- What parsing yields for the bytes built from a STREAM descriptor whose type
code has the LEN bit clear, when the frame is the last one of its buffer. -/
theorem rt_implicit (adj : Nat → Option u_char) (pkt : ngx_quic_header_t) (mem : List u_char)
    (F f0 : ngx_quic_frame_t) (b0 : ngx_buf_t)
    (hpk : packet_type_bit pkt.flags = 2 ∨ packet_type_bit pkt.flags = 1)
    (hF : implicit_length_stream mem F) :
    (ngx_quic_create_frame mem .buffer F).rc
        = ((ngx_quic_create_frame mem .buffer F).out.length : Int)
      ∧ ∃ ret, ngx_quic_parse_frame adj pkt (ngx_quic_create_frame mem .buffer F).out 0
            (ngx_quic_create_frame mem .buffer F).out.length f0 b0 = Exec.done ret
          ∧ ret.rc = (ngx_quic_create_frame mem .buffer F).rc
          ∧ ret.pkt = pkt
          ∧ implicit_fields_agree mem F (ngx_quic_create_frame mem .buffer F).out
              ret.f ret.b := by
  obtain ⟨hty, hst, hlenbit, hoff, h1, h2, h3, hin, htot⟩ := hF
  have hallow : packet_type_bit pkt.flags &&& 3 ≠ 0 := by
    rcases hpk with h | h <;> rw [h] <;> decide
  have ht4 := stream_nolen_types F.u.stream.type (by rw [hst]; exact hty.1)
    (by rw [hst]; exact hty.2) hlenbit
  have hcf : ngx_quic_create_frame mem .buffer F
      = ngx_quic_create_frame_return { F with need_ack := 1 }
          (ngx_quic_create_stream mem .buffer F.u.stream F.data) := by
    rw [hst] at ht4
    rcases ht4 with h | h | h | h <;> simp [ngx_quic_create_frame, h]
  have hl0 := build_int_length_small F.u.stream.type (by omega)
  have hl1 := build_int_length _ h1
  have hl2 := build_int_length _ h2
  have hl3 := build_int_length _ h3
  have hb1 := varint_len_le _ h1
  have hb2 := varint_len_le _ h2
  have hb3 := varint_len_le _ h3
  have hr : (ngx_quic_copy_chain mem F.data).length = F.u.stream.length := by
    rw [copy_chain_length mem F.data hin, htot]
  rw [hcf]
  simp only [ngx_quic_create_frame_return, ngx_quic_create_stream]
  by_cases hoffbit : F.u.stream.type &&& 0x04 ≠ 0
  · -- OFF bit set
    have ht2 : F.u.stream.type = 12 ∨ F.u.stream.type = 13 := by
      rcases ht4 with h | h | h | h
      · rw [h] at hoffbit; exact absurd rfl hoffbit
      · rw [h] at hoffbit; exact absurd rfl hoffbit
      · exact Or.inl h
      · exact Or.inr h
    have hofft : F.u.stream.off = true := by rw [hoff]; exact decide_eq_true hoffbit
    simp only [hofft, if_true]
    generalize hpre : ngx_quic_build_int F.u.stream.type
      ++ ngx_quic_build_int F.u.stream.stream_id
      ++ ngx_quic_build_int F.u.stream.offset = pre
    generalize htl : ngx_quic_build_int F.u.stream.length
      ++ ngx_quic_copy_chain mem F.data = tl
    have hplen : pre.length = 1 + ngx_quic_varint_len F.u.stream.stream_id
        + ngx_quic_varint_len F.u.stream.offset := by
      rw [← hpre]; simp only [List.length_append, hl0, hl1, hl2]
    have htlen : tl.length = ngx_quic_varint_len F.u.stream.length + F.u.stream.length := by
      rw [← htl, List.length_append, hl3, hr]
    have hout : pre ++ ngx_quic_build_int F.u.stream.length ++ ngx_quic_copy_chain mem F.data
        = pre ++ tl := by
      rw [← htl, List.append_assoc]
    rw [hout]
    have hlen : (pre ++ tl).length = 1 + ngx_quic_varint_len F.u.stream.stream_id
        + ngx_quic_varint_len F.u.stream.offset
        + (ngx_quic_varint_len F.u.stream.length + F.u.stream.length) := by
      rw [List.length_append, hplen, htlen]
    have hd : (pre ++ tl).drop 0
        = ngx_quic_build_int F.u.stream.type
          ++ (ngx_quic_build_int F.u.stream.stream_id
            ++ (ngx_quic_build_int F.u.stream.offset ++ tl)) := by
      rw [← hpre]; simp
    have hp := parse_stream_off_nolen adj pkt _ 0 (pre ++ tl).length f0 b0 _ _ _ tl hallow ht2
      h1 h2 hd (by rw [hlen]; omega)
    have hdr : (pre ++ tl).drop (1 + ngx_quic_varint_len F.u.stream.stream_id
        + ngx_quic_varint_len F.u.stream.offset) = tl ++ [] := by
      rw [← hplen]; simp
    have e1 : (pre ++ tl).length - (0 + 1 + ngx_quic_varint_len F.u.stream.stream_id
        + ngx_quic_varint_len F.u.stream.offset)
        = ngx_quic_varint_len F.u.stream.length + F.u.stream.length := by
      rw [hlen]; omega
    rw [e1] at hp
    rw [to_ssize_t_small _ (by rw [hlen]; omega)]
    refine ⟨rfl, _, hp, by simp only [hlen]; omega, rfl, ?_⟩
    unfold implicit_fields_agree
    refine ⟨hst, rfl, ?_, rfl, rfl, rfl, ?_, ?_⟩
    · rw [hofft]; rfl
    · show 0 + 1 + ngx_quic_varint_len F.u.stream.stream_id
          + ngx_quic_varint_len F.u.stream.offset
          + (ngx_quic_varint_len F.u.stream.length + F.u.stream.length)
          - (0 + 1 + ngx_quic_varint_len F.u.stream.stream_id
          + ngx_quic_varint_len F.u.stream.offset)
          = ngx_quic_varint_len F.u.stream.length + F.u.stream.length
      omega
    · show mem_bytes _ (0 + 1 + ngx_quic_varint_len F.u.stream.stream_id
          + ngx_quic_varint_len F.u.stream.offset)
          (0 + 1 + ngx_quic_varint_len F.u.stream.stream_id
          + ngx_quic_varint_len F.u.stream.offset
          + (ngx_quic_varint_len F.u.stream.length + F.u.stream.length)
          - (0 + 1 + ngx_quic_varint_len F.u.stream.stream_id
          + ngx_quic_varint_len F.u.stream.offset)) = _
      have e2 : 0 + 1 + ngx_quic_varint_len F.u.stream.stream_id
          + ngx_quic_varint_len F.u.stream.offset
          + (ngx_quic_varint_len F.u.stream.length + F.u.stream.length)
          - (0 + 1 + ngx_quic_varint_len F.u.stream.stream_id
          + ngx_quic_varint_len F.u.stream.offset)
          = ngx_quic_varint_len F.u.stream.length + F.u.stream.length := by omega
      rw [e2, Nat.zero_add, htl]
      exact mem_bytes_of_drop _ _ _ _ [] hdr htlen
  · -- OFF bit clear
    have ht2 : F.u.stream.type = 8 ∨ F.u.stream.type = 9 := by
      rcases ht4 with h | h | h | h
      · exact Or.inl h
      · exact Or.inr h
      · rw [h] at hoffbit; exact absurd (by decide) hoffbit
      · rw [h] at hoffbit; exact absurd (by decide) hoffbit
    have hofft : F.u.stream.off = false := by rw [hoff]; exact decide_eq_false hoffbit
    simp only [hofft, Bool.false_eq_true, if_false, List.append_nil]
    generalize hpre : ngx_quic_build_int F.u.stream.type
      ++ ngx_quic_build_int F.u.stream.stream_id = pre
    generalize htl : ngx_quic_build_int F.u.stream.length
      ++ ngx_quic_copy_chain mem F.data = tl
    have hplen : pre.length = 1 + ngx_quic_varint_len F.u.stream.stream_id := by
      rw [← hpre]; simp only [List.length_append, hl0, hl1]
    have htlen : tl.length = ngx_quic_varint_len F.u.stream.length + F.u.stream.length := by
      rw [← htl, List.length_append, hl3, hr]
    have hout : pre ++ ngx_quic_build_int F.u.stream.length ++ ngx_quic_copy_chain mem F.data
        = pre ++ tl := by
      rw [← htl, List.append_assoc]
    rw [hout]
    have hlen : (pre ++ tl).length = 1 + ngx_quic_varint_len F.u.stream.stream_id
        + (ngx_quic_varint_len F.u.stream.length + F.u.stream.length) := by
      rw [List.length_append, hplen, htlen]
    have hd : (pre ++ tl).drop 0
        = ngx_quic_build_int F.u.stream.type
          ++ (ngx_quic_build_int F.u.stream.stream_id ++ tl) := by
      rw [← hpre]; simp
    have hp := parse_stream_plain adj pkt _ 0 (pre ++ tl).length f0 b0 _ _ tl hallow ht2
      h1 hd (by rw [hlen]; omega)
    have hdr : (pre ++ tl).drop (1 + ngx_quic_varint_len F.u.stream.stream_id) = tl ++ [] := by
      rw [← hplen]; simp
    have e1 : (pre ++ tl).length - (0 + 1 + ngx_quic_varint_len F.u.stream.stream_id)
        = ngx_quic_varint_len F.u.stream.length + F.u.stream.length := by
      rw [hlen]; omega
    rw [e1] at hp
    rw [to_ssize_t_small _ (by rw [hlen]; omega)]
    refine ⟨rfl, _, hp, by simp only [hlen]; omega, rfl, ?_⟩
    unfold implicit_fields_agree
    refine ⟨hst, rfl, ?_, rfl, rfl, rfl, ?_, ?_⟩
    · rw [hofft]; rfl
    · show 0 + 1 + ngx_quic_varint_len F.u.stream.stream_id
          + (ngx_quic_varint_len F.u.stream.length + F.u.stream.length)
          - (0 + 1 + ngx_quic_varint_len F.u.stream.stream_id)
          = ngx_quic_varint_len F.u.stream.length + F.u.stream.length
      omega
    · show mem_bytes _ (0 + 1 + ngx_quic_varint_len F.u.stream.stream_id)
          (0 + 1 + ngx_quic_varint_len F.u.stream.stream_id
          + (ngx_quic_varint_len F.u.stream.length + F.u.stream.length)
          - (0 + 1 + ngx_quic_varint_len F.u.stream.stream_id)) = _
      have e2 : 0 + 1 + ngx_quic_varint_len F.u.stream.stream_id
          + (ngx_quic_varint_len F.u.stream.length + F.u.stream.length)
          - (0 + 1 + ngx_quic_varint_len F.u.stream.stream_id)
          = ngx_quic_varint_len F.u.stream.length + F.u.stream.length := by omega
      rw [e2, Nat.zero_add, htl]
      exact mem_bytes_of_drop _ _ _ _ [] hdr htlen

/-! ## Two-pass sizing of frames -/

theorem two_pass_close (n : Nat) (out : List u_char) (hlen : out.length = n)
    (hn : n < 2 ^ 63) :
    to_ssize_t (size_t_sum n) = to_ssize_t out.length
      ∧ to_ssize_t out.length = (out.length : Int) := by
  rw [hlen]
  unfold size_t_sum
  rw [Nat.mod_eq_of_lt (by omega)]
  exact ⟨rfl, to_ssize_t_small n hn⟩

/-- The size returned for a NULL buffer is the number of bytes written to a real
buffer, for the descriptors `sized_frame`. -/
theorem sizing_frames (mem : List u_char) (F : ngx_quic_frame_t) (hF : sized_frame mem F) :
    (ngx_quic_create_frame mem .NULL F).rc = (ngx_quic_create_frame mem .buffer F).rc
      ∧ (ngx_quic_create_frame mem .buffer F).rc
          = ((ngx_quic_create_frame mem .buffer F).out.length : Int)
      ∧ (ngx_quic_create_frame mem .NULL F).out = [] := by
  rcases hF with ⟨hty, h1, h2, h3, h4, h5, hin, htot⟩ | ⟨hty, h1, h2⟩
    | ⟨hty, h1, h2, hin, htot⟩ | hty | ⟨hty, h1, h2⟩
    | ⟨hty, h0, h1, h2, h3, hin, htot⟩ | ⟨hty, h1, h2, h3, h4⟩ | ⟨hty, h1⟩
    | ⟨hty, h1, h2⟩ | ⟨hty, h1⟩ | ⟨hty, h1⟩ | ⟨hty, h1, h2, h3, h4, h5⟩ | ⟨hty, h1⟩
  · -- ACK
    have hcf : ∀ p, ngx_quic_create_frame mem p F
        = ngx_quic_create_frame_return { F with need_ack := 0 }
            (ngx_quic_create_ack mem p F.u.ack F.data) := by
      intro p; simp [ngx_quic_create_frame, hty]
    rw [hcf, hcf]
    simp only [ngx_quic_create_frame_return, ngx_quic_create_ack]
    have hb1 := varint_len_le _ h1
    have hb2 := varint_len_le _ h2
    have hb3 := varint_len_le _ h3
    have hb4 := varint_len_le _ h4
    have hb0 := varint_len_small NGX_QUIC_FT_ACK (by norm_num)
    have hlen : (ngx_quic_build_int NGX_QUIC_FT_ACK ++ ngx_quic_build_int F.u.ack.largest
        ++ ngx_quic_build_int F.u.ack.delay ++ ngx_quic_build_int F.u.ack.range_count
        ++ ngx_quic_build_int F.u.ack.first_range ++ ngx_quic_copy_chain mem F.data).length
        = ngx_quic_varint_len NGX_QUIC_FT_ACK + ngx_quic_varint_len F.u.ack.largest
          + ngx_quic_varint_len F.u.ack.delay + ngx_quic_varint_len F.u.ack.range_count
          + ngx_quic_varint_len F.u.ack.first_range + F.u.ack.ranges_length := by
      simp only [List.length_append, build_int_length _ h1, build_int_length _ h2,
        build_int_length _ h3, build_int_length _ h4,
        build_int_length NGX_QUIC_FT_ACK (by norm_num), copy_chain_length mem F.data hin, htot]
    have h := two_pass_close _ _ hlen (by omega)
    exact ⟨h.1, h.2, trivial⟩
  · -- STOP_SENDING
    have hcf : ∀ p, ngx_quic_create_frame mem p F
        = ngx_quic_create_frame_return { F with need_ack := 1 }
            (ngx_quic_create_stop_sending p F.u.stop_sending) := by
      intro p; simp [ngx_quic_create_frame, hty]
    rw [hcf, hcf]
    simp only [ngx_quic_create_frame_return, ngx_quic_create_stop_sending]
    have hb1 := varint_len_le _ h1
    have hb2 := varint_len_le _ h2
    have hb0 := varint_len_small NGX_QUIC_FT_STOP_SENDING (by norm_num)
    have hlen : (ngx_quic_build_int NGX_QUIC_FT_STOP_SENDING
        ++ ngx_quic_build_int F.u.stop_sending.id
        ++ ngx_quic_build_int F.u.stop_sending.error_code).length
        = ngx_quic_varint_len NGX_QUIC_FT_STOP_SENDING
          + ngx_quic_varint_len F.u.stop_sending.id
          + ngx_quic_varint_len F.u.stop_sending.error_code := by
      simp only [List.length_append, build_int_length _ h1, build_int_length _ h2,
        build_int_length NGX_QUIC_FT_STOP_SENDING (by norm_num)]
    have h := two_pass_close _ _ hlen (by omega)
    exact ⟨h.1, h.2, trivial⟩
  · -- CRYPTO
    have hcf : ∀ p, ngx_quic_create_frame mem p F
        = ngx_quic_create_frame_return { F with need_ack := 1 }
            (ngx_quic_create_crypto mem p F.u.crypto F.data) := by
      intro p; simp [ngx_quic_create_frame, hty]
    rw [hcf, hcf]
    simp only [ngx_quic_create_frame_return, ngx_quic_create_crypto]
    have hb1 := varint_len_le _ h1
    have hb2 := varint_len_le _ h2
    have hb0 := varint_len_small NGX_QUIC_FT_CRYPTO (by norm_num)
    have hlen : (ngx_quic_build_int NGX_QUIC_FT_CRYPTO
        ++ ngx_quic_build_int F.u.crypto.offset
        ++ ngx_quic_build_int F.u.crypto.length ++ ngx_quic_copy_chain mem F.data).length
        = ngx_quic_varint_len NGX_QUIC_FT_CRYPTO
          + ngx_quic_varint_len F.u.crypto.offset
          + ngx_quic_varint_len F.u.crypto.length + F.u.crypto.length := by
      simp only [List.length_append, build_int_length _ h1, build_int_length _ h2,
        build_int_length NGX_QUIC_FT_CRYPTO (by norm_num), copy_chain_length mem F.data hin,
        htot]
    have h := two_pass_close _ _ hlen (by omega)
    exact ⟨h.1, h.2, trivial⟩
  · -- HANDSHAKE_DONE
    have hcf : ∀ p, ngx_quic_create_frame mem p F
        = ngx_quic_create_frame_return { F with need_ack := 1 }
            (ngx_quic_create_hs_done p) := by
      intro p; simp [ngx_quic_create_frame, hty]
    rw [hcf, hcf]
    simp only [ngx_quic_create_frame_return, ngx_quic_create_hs_done]
    have hb0 := varint_len_small NGX_QUIC_FT_HANDSHAKE_DONE (by norm_num)
    have hlen : (ngx_quic_build_int NGX_QUIC_FT_HANDSHAKE_DONE).length
        = ngx_quic_varint_len NGX_QUIC_FT_HANDSHAKE_DONE :=
      build_int_length NGX_QUIC_FT_HANDSHAKE_DONE (by norm_num)
    have h := two_pass_close _ _ hlen (by omega)
    unfold size_t_sum at h
    rw [Nat.mod_eq_of_lt (by omega)] at h
    exact ⟨h.1, h.2, trivial⟩
  · -- NEW_TOKEN
    have hcf : ∀ p, ngx_quic_create_frame mem p F
        = ngx_quic_create_frame_return { F with need_ack := 1 }
            (ngx_quic_create_new_token mem p F.u.token) := by
      intro p; simp [ngx_quic_create_frame, hty]
    rw [hcf, hcf]
    simp only [ngx_quic_create_frame_return, ngx_quic_create_new_token]
    have hb1 := varint_len_le _ h1
    have hb0 := varint_len_small NGX_QUIC_FT_NEW_TOKEN (by norm_num)
    have hlen : (ngx_quic_build_int NGX_QUIC_FT_NEW_TOKEN
        ++ ngx_quic_build_int F.u.token.length
        ++ mem_bytes mem F.u.token.data F.u.token.length).length
        = ngx_quic_varint_len NGX_QUIC_FT_NEW_TOKEN
          + ngx_quic_varint_len F.u.token.length + F.u.token.length := by
      simp only [List.length_append, build_int_length _ h1,
        build_int_length NGX_QUIC_FT_NEW_TOKEN (by norm_num), mem_bytes_length mem _ _ h2]
    have h := two_pass_close _ _ hlen (by omega)
    exact ⟨h.1, h.2, trivial⟩
  · -- STREAM
    have ht8 : F.type = 8 ∨ F.type = 9 ∨ F.type = 10 ∨ F.type = 11 ∨ F.type = 12
        ∨ F.type = 13 ∨ F.type = 14 ∨ F.type = 15 := by
      have ha : 8 ≤ F.type := hty.1
      have hb : F.type ≤ 15 := hty.2
      omega
    have hcf : ∀ p, ngx_quic_create_frame mem p F
        = ngx_quic_create_frame_return { F with need_ack := 1 }
            (ngx_quic_create_stream mem p F.u.stream F.data) := by
      intro p
      rcases ht8 with h | h | h | h | h | h | h | h <;> simp [ngx_quic_create_frame, h]
    rw [hcf, hcf]
    simp only [ngx_quic_create_frame_return, ngx_quic_create_stream]
    have hb0 := varint_len_le _ h0
    have hb1 := varint_len_le _ h1
    have hb2 := varint_len_le _ h2
    have hb3 := varint_len_le _ h3
    have hlen : (ngx_quic_build_int F.u.stream.type
        ++ ngx_quic_build_int F.u.stream.stream_id
        ++ (if F.u.stream.off = true then ngx_quic_build_int F.u.stream.offset else [])
        ++ ngx_quic_build_int F.u.stream.length ++ ngx_quic_copy_chain mem F.data).length
        = ngx_quic_varint_len F.u.stream.type
          + (if F.u.stream.off = true then ngx_quic_varint_len F.u.stream.offset else 0)
          + ngx_quic_varint_len F.u.stream.stream_id
          + ngx_quic_varint_len F.u.stream.length + F.u.stream.length := by
      simp only [List.length_append, build_int_length _ h0, build_int_length _ h1,
        build_int_length _ h3, copy_chain_length mem F.data hin, htot]
      split_ifs
      · rw [build_int_length _ h2]; omega
      · simp only [List.length_nil]; omega
    have h := two_pass_close _ _ hlen (by split_ifs <;> omega)
    exact ⟨h.1, h.2, trivial⟩
  · -- CONNECTION_CLOSE
    have hcf : ∀ p, ngx_quic_create_frame mem p F
        = ngx_quic_create_frame_return { F with need_ack := 0 }
            (ngx_quic_create_close mem p F.u.close) := by
      intro p
      rcases hty with h | h <;> simp [ngx_quic_create_frame, h]
    rw [hcf, hcf]
    simp only [ngx_quic_create_frame_return, ngx_quic_create_close]
    have hb1 := varint_len_le _ h1
    have hb2 := varint_len_le _ h2
    have hb3 := varint_len_le _ h3
    have hty_lt : (if F.u.close.app = true then NGX_QUIC_FT_CONNECTION_CLOSE_APP
        else NGX_QUIC_FT_CONNECTION_CLOSE) < 2 ^ 62 := by
      split_ifs <;> norm_num
    have hb0 := varint_len_le _ hty_lt
    have hlen : (ngx_quic_build_int (if F.u.close.app = true then NGX_QUIC_FT_CONNECTION_CLOSE_APP
          else NGX_QUIC_FT_CONNECTION_CLOSE)
        ++ ngx_quic_build_int F.u.close.error_code
        ++ (if ¬ F.u.close.app = true then ngx_quic_build_int F.u.close.frame_type else [])
        ++ ngx_quic_build_int F.u.close.reason.len
        ++ mem_bytes mem F.u.close.reason.data F.u.close.reason.len).length
        = ngx_quic_varint_len (if F.u.close.app = true then NGX_QUIC_FT_CONNECTION_CLOSE_APP
            else NGX_QUIC_FT_CONNECTION_CLOSE)
          + ngx_quic_varint_len F.u.close.error_code
          + (if ¬ F.u.close.app = true then ngx_quic_varint_len F.u.close.frame_type else 0)
          + ngx_quic_varint_len F.u.close.reason.len + F.u.close.reason.len := by
      simp only [List.length_append, build_int_length _ hty_lt, build_int_length _ h1,
        build_int_length _ h3, mem_bytes_length mem _ _ h4]
      split_ifs <;> first | rfl | rw [build_int_length _ h2]
    have hi : (if ¬ F.u.close.app = true then ngx_quic_varint_len F.u.close.frame_type else 0)
        ≤ 8 := by
      split_ifs <;> omega
    have h := two_pass_close _ _ hlen (by omega)
    exact ⟨h.1, h.2, trivial⟩
  · -- MAX_STREAMS
    have hcf : ∀ p, ngx_quic_create_frame mem p F
        = ngx_quic_create_frame_return { F with need_ack := 1 }
            (ngx_quic_create_max_streams p F.u.max_streams) := by
      intro p; simp [ngx_quic_create_frame, hty]
    rw [hcf, hcf]
    simp only [ngx_quic_create_frame_return, ngx_quic_create_max_streams]
    have hb1 := varint_len_le _ h1
    have hty_lt : (if F.u.max_streams.bidi = true then NGX_QUIC_FT_MAX_STREAMS
        else NGX_QUIC_FT_MAX_STREAMS2) < 2 ^ 62 := by
      split_ifs <;> norm_num
    have hb0 := varint_len_le _ hty_lt
    have hlen : (ngx_quic_build_int (if F.u.max_streams.bidi = true then NGX_QUIC_FT_MAX_STREAMS
          else NGX_QUIC_FT_MAX_STREAMS2)
        ++ ngx_quic_build_int F.u.max_streams.limit).length
        = ngx_quic_varint_len (if F.u.max_streams.bidi = true then NGX_QUIC_FT_MAX_STREAMS
            else NGX_QUIC_FT_MAX_STREAMS2)
          + ngx_quic_varint_len F.u.max_streams.limit := by
      simp only [List.length_append, build_int_length _ hty_lt, build_int_length _ h1]
    have h := two_pass_close _ _ hlen (by omega)
    exact ⟨h.1, h.2, trivial⟩
  · -- MAX_STREAM_DATA
    have hcf : ∀ p, ngx_quic_create_frame mem p F
        = ngx_quic_create_frame_return { F with need_ack := 1 }
            (ngx_quic_create_max_stream_data p F.u.max_stream_data) := by
      intro p; simp [ngx_quic_create_frame, hty]
    rw [hcf, hcf]
    simp only [ngx_quic_create_frame_return, ngx_quic_create_max_stream_data]
    have hb1 := varint_len_le _ h1
    have hb2 := varint_len_le _ h2
    have hb0 := varint_len_small NGX_QUIC_FT_MAX_STREAM_DATA (by norm_num)
    have hlen : (ngx_quic_build_int NGX_QUIC_FT_MAX_STREAM_DATA
        ++ ngx_quic_build_int F.u.max_stream_data.id
        ++ ngx_quic_build_int F.u.max_stream_data.limit).length
        = ngx_quic_varint_len NGX_QUIC_FT_MAX_STREAM_DATA
          + ngx_quic_varint_len F.u.max_stream_data.id
          + ngx_quic_varint_len F.u.max_stream_data.limit := by
      simp only [List.length_append, build_int_length _ h1, build_int_length _ h2,
        build_int_length NGX_QUIC_FT_MAX_STREAM_DATA (by norm_num)]
    have h := two_pass_close _ _ hlen (by omega)
    exact ⟨h.1, h.2, trivial⟩
  · -- MAX_DATA
    have hcf : ∀ p, ngx_quic_create_frame mem p F
        = ngx_quic_create_frame_return { F with need_ack := 1 }
            (ngx_quic_create_max_data p F.u.max_data) := by
      intro p; simp [ngx_quic_create_frame, hty]
    rw [hcf, hcf]
    simp only [ngx_quic_create_frame_return, ngx_quic_create_max_data]
    have hb1 := varint_len_le _ h1
    have hb0 := varint_len_small NGX_QUIC_FT_MAX_DATA (by norm_num)
    have hlen : (ngx_quic_build_int NGX_QUIC_FT_MAX_DATA
        ++ ngx_quic_build_int F.u.max_data.max_data).length
        = ngx_quic_varint_len NGX_QUIC_FT_MAX_DATA
          + ngx_quic_varint_len F.u.max_data.max_data := by
      simp only [List.length_append, build_int_length _ h1,
        build_int_length NGX_QUIC_FT_MAX_DATA (by norm_num)]
    have h := two_pass_close _ _ hlen (by omega)
    exact ⟨h.1, h.2, trivial⟩
  · -- PATH_RESPONSE
    have hcf : ∀ p, ngx_quic_create_frame mem p F
        = ngx_quic_create_frame_return { F with need_ack := 1 }
            (ngx_quic_create_path_response p F.u.path_response) := by
      intro p; simp [ngx_quic_create_frame, hty]
    rw [hcf, hcf]
    simp only [ngx_quic_create_frame_return, ngx_quic_create_path_response]
    have hb0 := varint_len_small NGX_QUIC_FT_PATH_RESPONSE (by norm_num)
    have hlen : (ngx_quic_build_int NGX_QUIC_FT_PATH_RESPONSE
        ++ F.u.path_response.data.take 8).length
        = ngx_quic_varint_len NGX_QUIC_FT_PATH_RESPONSE + 8 := by
      simp only [List.length_append, List.length_take, h1,
        build_int_length NGX_QUIC_FT_PATH_RESPONSE (by norm_num)]
      omega
    have h := two_pass_close _ _ hlen (by omega)
    exact ⟨h.1, h.2, trivial⟩
  · -- NEW_CONNECTION_ID
    have hcf : ∀ p, ngx_quic_create_frame mem p F
        = ngx_quic_create_frame_return { F with need_ack := 1 }
            (ngx_quic_create_new_connection_id p F.u.ncid) := by
      intro p; simp [ngx_quic_create_frame, hty]
    rw [hcf, hcf]
    simp only [ngx_quic_create_frame_return, ngx_quic_create_new_connection_id]
    have hb1 := varint_len_le _ h1
    have hb2 := varint_len_le _ h2
    have hb0 := varint_len_small NGX_QUIC_FT_NEW_CONNECTION_ID (by norm_num)
    unfold NGX_QUIC_CID_LEN_MAX at h3 h4
    unfold NGX_QUIC_SR_TOKEN_LEN at h5
    have hlen : (ngx_quic_build_int NGX_QUIC_FT_NEW_CONNECTION_ID
        ++ ngx_quic_build_int F.u.ncid.seqnum
        ++ ngx_quic_build_int F.u.ncid.retire
        ++ [to_u_char F.u.ncid.len]
        ++ F.u.ncid.cid.take F.u.ncid.len
        ++ F.u.ncid.srt.take NGX_QUIC_SR_TOKEN_LEN).length
        = ngx_quic_varint_len NGX_QUIC_FT_NEW_CONNECTION_ID
          + ngx_quic_varint_len F.u.ncid.seqnum
          + ngx_quic_varint_len F.u.ncid.retire
          + 1
          + F.u.ncid.len
          + NGX_QUIC_SR_TOKEN_LEN := by
      simp only [List.length_append, List.length_take, h4, h5, build_int_length _ h1,
        build_int_length _ h2, build_int_length NGX_QUIC_FT_NEW_CONNECTION_ID (by norm_num),
        List.length_singleton, NGX_QUIC_SR_TOKEN_LEN]
      omega
    have h := two_pass_close _ _ hlen (by unfold NGX_QUIC_SR_TOKEN_LEN; omega)
    exact ⟨h.1, h.2, trivial⟩
  · -- RETIRE_CONNECTION_ID
    have hcf : ∀ p, ngx_quic_create_frame mem p F
        = ngx_quic_create_frame_return { F with need_ack := 1 }
            (ngx_quic_create_retire_connection_id p F.u.retire_cid) := by
      intro p; simp [ngx_quic_create_frame, hty]
    rw [hcf, hcf]
    simp only [ngx_quic_create_frame_return, ngx_quic_create_retire_connection_id]
    have hb1 := varint_len_le _ h1
    have hb0 := varint_len_small NGX_QUIC_FT_RETIRE_CONNECTION_ID (by norm_num)
    have hlen : (ngx_quic_build_int NGX_QUIC_FT_RETIRE_CONNECTION_ID
        ++ ngx_quic_build_int F.u.retire_cid.sequence_number).length
        = ngx_quic_varint_len NGX_QUIC_FT_RETIRE_CONNECTION_ID
          + ngx_quic_varint_len F.u.retire_cid.sequence_number := by
      simp only [List.length_append, build_int_length _ h1,
        build_int_length NGX_QUIC_FT_RETIRE_CONNECTION_ID (by norm_num)]
    have h := two_pass_close _ _ hlen (by omega)
    exact ⟨h.1, h.2, trivial⟩

/-! ## Claims on the builders -/

/-- C11 (as stated, refuted): the STREAM descriptor `example_stream_implicit` has a
type code 0x08 with the LEN bit clear, stream 4, and the three payload bytes
68 69 21.  `ngx_quic_create_frame` writes 08 04 03 68 69 21: the length field 03
is written although the type code announces none.  Parsed as the last frame of
its buffer, these bytes yield the length 4 and the payload 03 68 69 21, not the
length 3 and the payload 68 69 21 of the descriptor. -/
theorem implicit_length_round_trip_counterexample :
    implicit_length_stream [0x68, 0x69, 0x21] example_stream_implicit
      ∧ (ngx_quic_create_frame [0x68, 0x69, 0x21] .buffer example_stream_implicit).out
          = [0x08, 0x04, 0x03, 0x68, 0x69, 0x21]
      ∧ ngx_quic_parse_frame (fun _ => some 0) (ngx_quic_header_zero 0x40)
            (ngx_quic_create_frame [0x68, 0x69, 0x21] .buffer example_stream_implicit).out 0 6
            ngx_quic_frame_zero { pos := 0, last := 0 }
          = Exec.done
              { rc := 6, pkt := ngx_quic_header_zero 0x40,
                f := { ngx_quic_frame_zero with
                       type := 0x08
                       u.stream := { type := 0x08, stream_id := 4, offset := 0, length := 4,
                                     off := false, len := false, fin := false } },
                b := { pos := 2, last := 6 } }
      ∧ example_stream_implicit.u.stream.length = 3
      ∧ mem_bytes [0x08, 0x04, 0x03, 0x68, 0x69, 0x21] 2 (6 - 2) = [0x03, 0x68, 0x69, 0x21]
      ∧ ngx_quic_copy_chain [0x68, 0x69, 0x21] example_stream_implicit.data
          = [0x68, 0x69, 0x21] := by
  decide

/-- C11 (amended): STREAM descriptors whose type code has the LEN bit clear.  For
every such descriptor `F` (the `off` flag equal to the OFF bit, varint fields
below 2^62, a chain that totals the declared length), `ngx_quic_create_frame`
writes `n` bytes that contain the length field all the same, and
`ngx_quic_parse_frame` on these bytes as the last frame of the buffer, in a 0-RTT
or 1-RTT packet, returns `n` with the type code and stream_id of `F`, the offset
of `F` when the OFF bit is set and 0 otherwise, `fin` equal to the FIN bit of the
type code, but with the length `varint_len(length) + length` and a payload slice
made of the bytes of the length field followed by the chain buffers in order. -/
theorem implicit_length_stream_round_trip (adj : Nat → Option u_char) (pkt : ngx_quic_header_t)
    (mem : List u_char) (F f0 : ngx_quic_frame_t) (b0 : ngx_buf_t)
    (hpk : packet_type_bit pkt.flags = 2 ∨ packet_type_bit pkt.flags = 1)
    (hF : implicit_length_stream mem F) :
    (ngx_quic_create_frame mem .buffer F).rc
        = ((ngx_quic_create_frame mem .buffer F).out.length : Int)
      ∧ ∃ ret, ngx_quic_parse_frame adj pkt (ngx_quic_create_frame mem .buffer F).out 0
            (ngx_quic_create_frame mem .buffer F).out.length f0 b0 = Exec.done ret
          ∧ ret.rc = (ngx_quic_create_frame mem .buffer F).rc
          ∧ ret.pkt = pkt
          ∧ implicit_fields_agree mem F (ngx_quic_create_frame mem .buffer F).out
              ret.f ret.b :=
  rt_implicit adj pkt mem F f0 b0 hpk hF

theorem implicit_length_stream_round_trip_witness :
    ((packet_type_bit (ngx_quic_header_zero 0x40).flags = 2
          ∨ packet_type_bit (ngx_quic_header_zero 0x40).flags = 1)
        ∧ implicit_length_stream [0x68, 0x69, 0x21] example_stream_implicit)
      ∧ (ngx_quic_create_frame [0x68, 0x69, 0x21] .buffer example_stream_implicit).rc
          = ((ngx_quic_create_frame [0x68, 0x69, 0x21] .buffer
                example_stream_implicit).out.length : Int)
      ∧ ∃ ret, ngx_quic_parse_frame (fun _ => some 0) (ngx_quic_header_zero 0x40)
            (ngx_quic_create_frame [0x68, 0x69, 0x21] .buffer example_stream_implicit).out 0
            (ngx_quic_create_frame [0x68, 0x69, 0x21] .buffer
              example_stream_implicit).out.length
            ngx_quic_frame_zero { pos := 0, last := 0 } = Exec.done ret
          ∧ ret.rc = (ngx_quic_create_frame [0x68, 0x69, 0x21] .buffer
              example_stream_implicit).rc
          ∧ ret.pkt = ngx_quic_header_zero 0x40
          ∧ implicit_fields_agree [0x68, 0x69, 0x21] example_stream_implicit
              (ngx_quic_create_frame [0x68, 0x69, 0x21] .buffer example_stream_implicit).out
              ret.f ret.b :=
  ⟨⟨by decide, by decide⟩,
    implicit_length_stream_round_trip (fun _ => some 0) (ngx_quic_header_zero 0x40)
      [0x68, 0x69, 0x21] example_stream_implicit ngx_quic_frame_zero { pos := 0, last := 0 }
      (by decide) (by decide)⟩

/-- C12 (as stated, refuted): for the CRYPTO descriptor `example_crypto_no_chain`,
which declares 5 payload bytes and has an empty data chain,
`ngx_quic_create_frame` returns the size 8 for a NULL buffer, and writes and
returns 3 bytes (06 00 05) for a real buffer. -/
theorem two_pass_sizing_counterexample :
    example_crypto_no_chain.type = NGX_QUIC_FT_CRYPTO
      ∧ (ngx_quic_create_frame [] .NULL example_crypto_no_chain).rc = 8
      ∧ (ngx_quic_create_frame [] .buffer example_crypto_no_chain).rc = 3
      ∧ (ngx_quic_create_frame [] .buffer example_crypto_no_chain).out
          = [0x06, 0x00, 0x05] := by
  decide

/-- C12 (amended): two-pass sizing of frames.  For every frame descriptor `F` of a
type that `ngx_quic_create_frame` serialises, with varint fields below 2^62 and a
payload (chain, token, reason, connection id) of exactly the declared length, the
size that `ngx_quic_create_frame` returns for a NULL buffer equals the number of
bytes it writes and returns for a real buffer; nothing is written in the sizing
pass. -/
theorem two_pass_sizing_of_frames (mem : List u_char) (F : ngx_quic_frame_t)
    (hF : sized_frame mem F) :
    (ngx_quic_create_frame mem .NULL F).rc = (ngx_quic_create_frame mem .buffer F).rc
      ∧ (ngx_quic_create_frame mem .buffer F).rc
          = ((ngx_quic_create_frame mem .buffer F).out.length : Int)
      ∧ (ngx_quic_create_frame mem .NULL F).out = [] :=
  sizing_frames mem F hF

theorem two_pass_sizing_of_frames_witness :
    sized_frame [1, 2, 3] example_crypto
      ∧ (ngx_quic_create_frame [1, 2, 3] .buffer example_crypto).out
          = [0x06, 0x05, 0x03, 1, 2, 3]
      ∧ (ngx_quic_create_frame [1, 2, 3] .NULL example_crypto).rc = 6
      ∧ (ngx_quic_create_frame [1, 2, 3] .NULL example_crypto).rc
          = (ngx_quic_create_frame [1, 2, 3] .buffer example_crypto).rc
      ∧ (ngx_quic_create_frame [1, 2, 3] .buffer example_crypto).rc
          = ((ngx_quic_create_frame [1, 2, 3] .buffer example_crypto).out.length : Int)
      ∧ (ngx_quic_create_frame [1, 2, 3] .NULL example_crypto).out = [] :=
  ⟨by decide, by decide, by decide,
    two_pass_sizing_of_frames [1, 2, 3] example_crypto (by decide)⟩

/-- C14 (as stated, refuted): for a descriptor of type PADDING,
`ngx_quic_create_frame` returns ERROR (it serialises no PADDING frame) and leaves
`need_ack` at 1, with a NULL buffer and with a real one. -/
theorem need_ack_padding_counterexample :
    example_padding.type = NGX_QUIC_FT_PADDING
      ∧ (ngx_quic_create_frame [] .buffer example_padding).f.need_ack = 1
      ∧ (ngx_quic_create_frame [] .buffer example_padding).rc = NGX_ERROR
      ∧ (ngx_quic_create_frame [] .NULL example_padding).f.need_ack = 1
      ∧ (ngx_quic_create_frame [] .NULL example_padding).rc = NGX_ERROR := by
  decide

/-- C14 (amended): ack-eliciting marking.  After `ngx_quic_create_frame(p, f)`, for
every frame descriptor `f` and both kinds of buffer, `f.need_ack` is 0 if
`f.type` is ACK or CONNECTION_CLOSE (transport or application) and 1 for every
other value of `f.type`; no other field of the descriptor changes. -/
theorem ack_eliciting_marking (mem : List u_char) (p : out_ptr) (f : ngx_quic_frame_t) :
    (ngx_quic_create_frame mem p f).f
      = { f with need_ack :=
            if f.type = NGX_QUIC_FT_ACK ∨ f.type = NGX_QUIC_FT_CONNECTION_CLOSE
                ∨ f.type = NGX_QUIC_FT_CONNECTION_CLOSE_APP then 0 else 1 } := by
  by_cases h : f.type = NGX_QUIC_FT_ACK ∨ f.type = NGX_QUIC_FT_CONNECTION_CLOSE
      ∨ f.type = NGX_QUIC_FT_CONNECTION_CLOSE_APP
  · rw [if_pos h]
    rcases h with h | h | h <;> simp [ngx_quic_create_frame, h, ngx_quic_create_frame_return]
  · rw [if_neg h]
    unfold ngx_quic_create_frame
    dsimp only
    split <;> simp_all [ngx_quic_create_frame_return]

/-! ## Two-pass sizing of packet headers -/

theorem size_t_sum_small (n : Nat) (h : n < 2 ^ 64) : size_t_sum n = n :=
  Nat.mod_eq_of_lt h

theorem create_header_trunc_eq (pkt : ngx_quic_header_t)
    (h1 : 1 ≤ pkt.num_len) (h4 : pkt.num_len ≤ 4) :
    ngx_quic_create_header_trunc pkt = be_bytes pkt.trunc pkt.num_len
      ∧ (ngx_quic_create_header_trunc pkt).length = pkt.num_len := by
  unfold ngx_quic_create_header_trunc
  have h : pkt.num_len = 1 ∨ pkt.num_len = 2 ∨ pkt.num_len = 3 ∨ pkt.num_len = 4 := by omega
  rcases h with h | h | h | h <;> rw [h] <;>
    simp [be_bytes, ngx_quic_write_uint16, ngx_quic_write_uint24, ngx_quic_write_uint32,
      Nat.shiftRight_eq_div_pow]

theorem sizing_short_header (mem : List u_char) (pkt : ngx_quic_header_t) (pkt_len : Nat)
    (h1 : 1 ≤ pkt.num_len) (h4 : pkt.num_len ≤ 4)
    (hmem : mem.length < 2 ^ 62)
    (hdcid : pkt.dcid.data + pkt.dcid.len ≤ mem.length) :
    (ngx_quic_create_short_header mem pkt .NULL pkt_len).rc
        = (ngx_quic_create_short_header mem pkt .buffer pkt_len).rc
      ∧ (ngx_quic_create_short_header mem pkt .buffer pkt_len).rc
          = (ngx_quic_create_short_header mem pkt .buffer pkt_len).out.length
      ∧ (ngx_quic_create_short_header mem pkt .buffer pkt_len).rc
          = 1 + pkt.dcid.len + pkt.num_len
      ∧ (ngx_quic_create_short_header mem pkt .buffer pkt_len).pnp
          = some ((ngx_quic_create_short_header mem pkt .buffer pkt_len).rc - pkt.num_len)
      ∧ (ngx_quic_create_short_header mem pkt .buffer pkt_len).out.drop
            ((ngx_quic_create_short_header mem pkt .buffer pkt_len).rc - pkt.num_len)
          = be_bytes pkt.trunc pkt.num_len
      ∧ (ngx_quic_create_short_header mem pkt .NULL pkt_len).out = []
      ∧ (ngx_quic_create_short_header mem pkt .NULL pkt_len).pnp = none := by
  obtain ⟨ht, htl⟩ := create_header_trunc_eq pkt h1 h4
  simp only [ngx_quic_create_short_header]
  generalize hh : [pkt.flags] ++ mem_bytes mem pkt.dcid.data pkt.dcid.len = hdr
  have hhl : hdr.length = 1 + pkt.dcid.len := by
    rw [← hh, List.length_append, mem_bytes_length mem _ _ hdcid]
    rfl
  have hl : (hdr ++ ngx_quic_create_header_trunc pkt).length
      = 1 + pkt.dcid.len + pkt.num_len := by
    rw [List.length_append, hhl, htl]
  rw [hl, size_t_sum_small _ (by omega)]
  refine ⟨?_, ?_, ?_, ?_, ?_, ?_, ?_⟩
  any_goals first | rfl | trivial
  · rw [hhl]; congr 1; omega
  · have e : 1 + pkt.dcid.len + pkt.num_len - pkt.num_len = hdr.length := by omega
    rw [e, List.drop_left, ht]

theorem sizing_long_header (mem : List u_char) (pkt : ngx_quic_header_t) (pkt_len : Nat)
    (h1 : 1 ≤ pkt.num_len) (h4 : pkt.num_len ≤ 4)
    (hlen : pkt_len + pkt.num_len < 2 ^ 62)
    (hmem : mem.length < 2 ^ 62)
    (hdcid : pkt.dcid.data + pkt.dcid.len ≤ mem.length)
    (hscid : pkt.scid.data + pkt.scid.len ≤ mem.length) :
    (ngx_quic_create_long_header mem pkt .NULL pkt_len).rc
        = (ngx_quic_create_long_header mem pkt .buffer pkt_len).rc
      ∧ (ngx_quic_create_long_header mem pkt .buffer pkt_len).rc
          = (ngx_quic_create_long_header mem pkt .buffer pkt_len).out.length
      ∧ (ngx_quic_create_long_header mem pkt .buffer pkt_len).rc
          = 7 + pkt.dcid.len + pkt.scid.len
            + (if pkt.level = .ssl_encryption_initial then 1 else 0)
            + ngx_quic_varint_len (pkt_len + pkt.num_len) + pkt.num_len
      ∧ (ngx_quic_create_long_header mem pkt .buffer pkt_len).pnp
          = some ((ngx_quic_create_long_header mem pkt .buffer pkt_len).rc - pkt.num_len)
      ∧ (ngx_quic_create_long_header mem pkt .buffer pkt_len).out.drop
            ((ngx_quic_create_long_header mem pkt .buffer pkt_len).rc - pkt.num_len)
          = be_bytes pkt.trunc pkt.num_len
      ∧ (ngx_quic_create_long_header mem pkt .NULL pkt_len).out = []
      ∧ (ngx_quic_create_long_header mem pkt .NULL pkt_len).pnp = none := by
  obtain ⟨ht, htl⟩ := create_header_trunc_eq pkt h1 h4
  have hs : size_t_sum (pkt_len + pkt.num_len) = pkt_len + pkt.num_len :=
    size_t_sum_small _ (by omega)
  have hv := varint_len_le _ hlen
  simp only [ngx_quic_create_long_header, hs]
  generalize hh : [pkt.flags] ++ ngx_quic_write_uint32 pkt.version
      ++ [to_u_char pkt.dcid.len] ++ mem_bytes mem pkt.dcid.data pkt.dcid.len
      ++ [to_u_char pkt.scid.len] ++ mem_bytes mem pkt.scid.data pkt.scid.len
      ++ (if pkt.level = .ssl_encryption_initial then ngx_quic_build_int 0 else [])
      ++ ngx_quic_build_int (pkt_len + pkt.num_len) = hdr
  have hi : (if pkt.level = .ssl_encryption_initial then ngx_quic_build_int 0 else []).length
      = (if pkt.level = .ssl_encryption_initial then 1 else 0) := by
    split_ifs
    · exact build_int_length_small 0 (by norm_num)
    · rfl
  have hi2 : (if pkt.level = ssl_encryption_level_t.ssl_encryption_initial then 1 else 0) ≤ 1 := by
    split_ifs <;> omega
  have hhl : hdr.length = 7 + pkt.dcid.len + pkt.scid.len
      + (if pkt.level = .ssl_encryption_initial then 1 else 0)
      + ngx_quic_varint_len (pkt_len + pkt.num_len) := by
    rw [← hh]
    simp only [List.length_append, mem_bytes_length mem _ _ hdcid,
      mem_bytes_length mem _ _ hscid, hi, build_int_length _ hlen, ngx_quic_write_uint32,
      List.length_cons, List.length_nil]
    omega
  have hl : (hdr ++ ngx_quic_create_header_trunc pkt).length
      = 7 + pkt.dcid.len + pkt.scid.len
        + (if pkt.level = .ssl_encryption_initial then 1 else 0)
        + ngx_quic_varint_len (pkt_len + pkt.num_len) + pkt.num_len := by
    rw [List.length_append, hhl, htl]
  rw [hl]
  refine ⟨?_, ?_, ?_, ?_, ?_, ?_, ?_⟩
  any_goals first | rfl | trivial
  · rw [size_t_sum_small _ (by omega)]; omega
  · rw [hhl]; congr 1; omega
  · have e : 7 + pkt.dcid.len + pkt.scid.len
        + (if pkt.level = .ssl_encryption_initial then 1 else 0)
        + ngx_quic_varint_len (pkt_len + pkt.num_len) + pkt.num_len - pkt.num_len
        = hdr.length := by omega
    rw [e, List.drop_left, ht]

/-- C13: two-pass sizing of packet headers.  For every packet descriptor with
`num_len` in 1..4 and `pkt_len + num_len < 2^62` whose connection ids lie in the
memory (of less than 2^62 bytes), the size `ngx_quic_create_header` returns for a
NULL buffer equals the number of bytes it writes for a real buffer: `1 + dcid.len
+ num_len` for a short header and `7 + dcid.len + scid.len + (1 if the level is
initial) + varint_len(pkt_len + num_len) + num_len` for a long header; the
pointer returned through `pnp` is at offset `bytes written - num_len`, where the
low `num_len` bytes of the truncated packet number stand in big-endian order. -/
theorem two_pass_sizing_of_headers (mem : List u_char) (pkt : ngx_quic_header_t)
    (pkt_len : Nat)
    (hnum : 1 ≤ pkt.num_len ∧ pkt.num_len ≤ 4)
    (hlen : pkt_len + pkt.num_len < 2 ^ 62)
    (hmem : mem.length < 2 ^ 62)
    (hdcid : pkt.dcid.data + pkt.dcid.len ≤ mem.length)
    (hscid : ngx_quic_short_pkt pkt.flags = false →
      pkt.scid.data + pkt.scid.len ≤ mem.length) :
    (ngx_quic_create_header mem pkt .NULL pkt_len).rc
        = (ngx_quic_create_header mem pkt .buffer pkt_len).rc
      ∧ (ngx_quic_create_header mem pkt .buffer pkt_len).rc
          = (ngx_quic_create_header mem pkt .buffer pkt_len).out.length
      ∧ (ngx_quic_create_header mem pkt .buffer pkt_len).rc
          = (if ngx_quic_short_pkt pkt.flags then 1 + pkt.dcid.len + pkt.num_len
             else 7 + pkt.dcid.len + pkt.scid.len
               + (if pkt.level = .ssl_encryption_initial then 1 else 0)
               + ngx_quic_varint_len (pkt_len + pkt.num_len) + pkt.num_len)
      ∧ (ngx_quic_create_header mem pkt .buffer pkt_len).pnp
          = some ((ngx_quic_create_header mem pkt .buffer pkt_len).rc - pkt.num_len)
      ∧ (ngx_quic_create_header mem pkt .buffer pkt_len).out.drop
            ((ngx_quic_create_header mem pkt .buffer pkt_len).rc - pkt.num_len)
          = be_bytes pkt.trunc pkt.num_len
      ∧ (ngx_quic_create_header mem pkt .NULL pkt_len).out = []
      ∧ (ngx_quic_create_header mem pkt .NULL pkt_len).pnp = none := by
  unfold ngx_quic_create_header
  by_cases hs : ngx_quic_short_pkt pkt.flags = true
  · simp only [hs, if_true]
    exact sizing_short_header mem pkt pkt_len hnum.1 hnum.2 hmem hdcid
  · have hs2 : ngx_quic_short_pkt pkt.flags = false := by
      cases h : ngx_quic_short_pkt pkt.flags
      · rfl
      · exact absurd h hs
    simp only [hs2, Bool.false_eq_true, if_false]
    exact sizing_long_header mem pkt pkt_len hnum.1 hnum.2 hlen hmem hdcid (hscid hs2)

theorem two_pass_sizing_of_headers_witness :
    ((1 ≤ example_initial_header.num_len ∧ example_initial_header.num_len ≤ 4)
        ∧ 2820 + example_initial_header.num_len < 2 ^ 62
        ∧ (List.replicate 8 (0 : u_char)).length < 2 ^ 62
        ∧ example_initial_header.dcid.data + example_initial_header.dcid.len
            ≤ (List.replicate 8 (0 : u_char)).length)
      ∧ (ngx_quic_create_header (List.replicate 8 0) example_initial_header .buffer 2820).out
          = [0xC3, 0x00, 0x00, 0x00, 0x01, 0x08, 0, 0, 0, 0, 0, 0, 0, 0, 0x00, 0x00,
             0x4B, 0x08, 0x00, 0x00, 0x00, 0x01]
      ∧ (ngx_quic_create_header (List.replicate 8 0) example_initial_header .NULL 2820).rc = 22
      ∧ (ngx_quic_create_header (List.replicate 8 0) example_initial_header .buffer 2820).pnp
          = some 18
      ∧ (ngx_quic_create_header (List.replicate 8 0) example_initial_header .NULL 2820).rc
          = (ngx_quic_create_header (List.replicate 8 0) example_initial_header .buffer 2820).rc :=
  ⟨⟨by decide, by decide, by decide, by decide⟩, by decide, by decide, by decide,
    (two_pass_sizing_of_headers (List.replicate 8 0) example_initial_header 2820
      (by decide) (by decide) (by decide) (by decide) (fun _ => by decide)).1⟩

/-! ## Transport parameter parser -/

theorem parse_int_loop_ext (S x : List u_char) :
    ∀ (n p v : Nat), ngx_quic_parse_int_loop S n p v ≠ Rd.fault →
      ngx_quic_parse_int_loop (S ++ x) n p v = ngx_quic_parse_int_loop S n p v := by
  intro n
  induction n with
  | zero => intro p v _; rfl
  | succ n ih =>
    intro p v h
    by_cases hp : p < S.length
    · have e1 : (S ++ x)[p]? = S[p]? := List.getElem?_append_left hp
      unfold ngx_quic_parse_int_loop at h ⊢
      rw [e1]
      rw [List.getElem?_eq_getElem hp] at h ⊢
      exact ih _ _ h
    · exfalso
      apply h
      unfold ngx_quic_parse_int_loop
      rw [List.getElem?_eq_none (by omega)]

/-- A run of `ngx_quic_parse_int` that stays inside the memory `S` is the same in
a memory that goes on behind `S`. -/
theorem parse_int_ext (S x : List u_char) (p e : Nat)
    (h : ngx_quic_parse_int S p e ≠ Rd.fault) :
    ngx_quic_parse_int (S ++ x) p e = ngx_quic_parse_int S p e := by
  unfold ngx_quic_parse_int at h ⊢
  by_cases h1 : p ≥ e
  · rw [if_pos h1, if_pos h1]
  · rw [if_neg h1] at h ⊢
    by_cases hp : p < S.length
    · have e1 : (S ++ x)[p]? = S[p]? := List.getElem?_append_left hp
      rw [e1]
      rw [List.getElem?_eq_getElem hp] at h ⊢
      dsimp only at h ⊢
      split_ifs at h ⊢ with h2
      · rfl
      · exact parse_int_loop_ext S x _ _ _ h
    · exfalso
      apply h
      rw [List.getElem?_eq_none (by omega)]

/-- A successful `ngx_quic_parse_int` stays successful, with the same result, when
the end of the buffer moves on. -/
theorem parse_int_end_mono (buf : List u_char) (p e e2 p1 v : Nat)
    (h : ngx_quic_parse_int buf p e = Rd.ok (p1, v)) (he : e ≤ e2) :
    ngx_quic_parse_int buf p e2 = Rd.ok (p1, v) := by
  unfold ngx_quic_parse_int at h ⊢
  by_cases h1 : p ≥ e
  · rw [if_pos h1] at h; cases h
  · rw [if_neg h1] at h
    rw [if_neg (by omega)]
    cases hb : buf[p]? with
    | none => rw [hb] at h; cases h
    | some b =>
      rw [hb] at h
      dsimp only at h ⊢
      rw [size_t_diff_le _ _ (by omega)] at h ⊢
      split_ifs at h with h2
      rw [if_neg (by omega)]
      exact h

/-- A successful `ngx_quic_parse_int` advances the cursor and stays below the end. -/
theorem parse_int_ok_bounds (buf : List u_char) (p e p1 v : Nat)
    (h : ngx_quic_parse_int buf p e = Rd.ok (p1, v)) : p < p1 ∧ p1 ≤ e ∧ p < e := by
  have hpe : p < e := by
    by_contra hc
    unfold ngx_quic_parse_int at h
    rw [if_pos (by omega)] at h
    cases h
  unfold ngx_quic_parse_int at h
  rw [if_neg (by omega)] at h
  cases hb : buf[p]? with
  | none => rw [hb] at h; cases h
  | some b =>
    rw [hb] at h
    dsimp only at h
    rw [size_t_diff_le _ _ (by omega)] at h
    split_ifs at h with h2
    have h3 := one_shiftLeft_pos (b.val >>> 6)
    have hl : ∀ (n q w : Nat), ngx_quic_parse_int_loop buf n q w = Rd.ok (p1, v) → p1 = q + n := by
      intro n
      induction n with
      | zero => intro q w hq; unfold ngx_quic_parse_int_loop at hq; cases hq; rfl
      | succ n ih =>
        intro q w hq
        unfold ngx_quic_parse_int_loop at hq
        cases hc : buf[q]? with
        | none => rw [hc] at hq; cases hq
        | some c =>
          rw [hc] at hq
          have := ih _ _ hq
          omega
    have := hl _ _ _ h
    omega

/-- The parser of one transport parameter does not read beyond the end of its
value when that end lies in the memory. -/
theorem transport_param_safe (buf : List u_char) (p e id : Nat) (dst : ngx_quic_tp_t)
    (he : e ≤ buf.length) :
    ∃ r, ngx_quic_parse_transport_param buf p e id dst = Exec.done r := by
  unfold ngx_quic_parse_transport_param
  dsimp only
  rcases parse_int_safe buf p e he with h | ⟨p', v, h, _, _⟩
  all_goals
    rw [h]
    split <;> first | exact ⟨_, rfl⟩ | (split_ifs <;> exact ⟨_, rfl⟩)

/-- A run of the parser of one transport parameter that stays inside the memory
`S` is the same in a memory that goes on behind `S`. -/
theorem transport_param_ext (S x : List u_char) (p e id : Nat) (dst : ngx_quic_tp_t)
    (r : Int × ngx_quic_tp_t)
    (h : ngx_quic_parse_transport_param S p e id dst = Exec.done r) :
    ngx_quic_parse_transport_param (S ++ x) p e id dst = Exec.done r := by
  by_cases hf : ngx_quic_parse_int S p e = Rd.fault
  · unfold ngx_quic_parse_transport_param at h ⊢
    dsimp only at h ⊢
    rw [hf] at h
    split at h <;> first
      | (cases h; done)
      | (rename_i heq; rw [heq]; exact h)
      | simp_all
  · have e1 := parse_int_ext S x p e hf
    unfold ngx_quic_parse_transport_param at h ⊢
    dsimp only at h ⊢
    rw [e1]
    exact h

/-- A run of the loop over the transport parameters that stays inside the memory
`S` is the same in a memory that goes on behind `S`. -/
theorem params_loop_ext (S x : List u_char) (e : Nat) :
    ∀ (fuel p : Nat) (tp : ngx_quic_tp_t) (r : Int × ngx_quic_tp_t),
      ngx_quic_parse_transport_params_loop S e fuel p tp = Exec.done r →
      ngx_quic_parse_transport_params_loop (S ++ x) e fuel p tp = Exec.done r := by
  intro fuel
  induction fuel with
  | zero =>
    intro p tp r h
    unfold ngx_quic_parse_transport_params_loop at h ⊢
    exact h
  | succ f ih =>
    intro p tp r h
    unfold ngx_quic_parse_transport_params_loop at h ⊢
    by_cases hp : p < e
    · rw [if_pos hp] at h ⊢
      cases h1 : ngx_quic_parse_int S p e with
      | fault => rw [h1] at h; cases h
      | null =>
        rw [parse_int_ext S x p e (by rw [h1]; intro hh; cases hh), h1]
        rw [h1] at h
        exact h
      | ok a =>
        obtain ⟨p1, id⟩ := a
        rw [parse_int_ext S x p e (by rw [h1]; intro hh; cases hh), h1]
        rw [h1] at h
        dsimp only at h ⊢
        split_ifs at h ⊢ with hforb
        · exact h
        · cases h2 : ngx_quic_parse_int S p1 e with
          | fault => rw [h2] at h; cases h
          | null =>
            rw [parse_int_ext S x p1 e (by rw [h2]; intro hh; cases hh), h2]
            rw [h2] at h
            exact h
          | ok b =>
            obtain ⟨p2, len⟩ := b
            rw [parse_int_ext S x p1 e (by rw [h2]; intro hh; cases hh), h2]
            rw [h2] at h
            dsimp only at h ⊢
            cases h3 : ngx_quic_parse_transport_param S p2 (p2 + len) id tp with
            | fault => rw [h3] at h; cases h
            | done c =>
              obtain ⟨rc, tp1⟩ := c
              rw [transport_param_ext S x _ _ _ _ _ h3]
              rw [h3] at h
              dsimp only at h ⊢
              split_ifs at h ⊢ with hrc
              · exact h
              · exact ih _ _ _ h
    · rw [if_neg hp] at h ⊢
      exact h

/-- The loop at the last byte of the buffer: a lone byte is no parameter. -/
theorem params_loop_last_byte (buf : List u_char) (e : Nat) (he : e < buf.length)
    (fuel : Nat) (tp : ngx_quic_tp_t) :
    ngx_quic_parse_transport_params_loop buf (e + 1) (fuel + 1) e tp
      = Exec.done (NGX_ERROR, tp) := by
  unfold ngx_quic_parse_transport_params_loop
  rw [if_pos (by omega)]
  have hnull : ngx_quic_parse_int buf (e + 1) (e + 1) = Rd.null := by
    unfold ngx_quic_parse_int
    rw [if_pos (by omega)]
  cases h1 : ngx_quic_parse_int buf e (e + 1) with
  | fault =>
    exfalso
    rcases parse_int_safe buf e (e + 1) (by omega) with h | ⟨_, _, h, _, _⟩
    · rw [h] at h1; cases h1
    · rw [h] at h1; cases h1
  | null => rfl
  | ok a =>
    obtain ⟨p1, id⟩ := a
    have hb := parse_int_ok_bounds buf e (e + 1) p1 id h1
    have hp1 : p1 = e + 1 := by omega
    dsimp only
    split_ifs with hforb
    · rfl
    · rw [hp1, hnull]

/-- Moving the end of the buffer one byte on turns a successful run of the loop
into an ERROR that leaves the same record. -/
theorem params_loop_end_succ (buf : List u_char) (e : Nat) (he : e < buf.length)
    (tp' : ngx_quic_tp_t) :
    ∀ (f1 f2 p : Nat) (tp : ngx_quic_tp_t),
      ngx_quic_parse_transport_params_loop buf e f1 p tp = Exec.done (NGX_OK, tp') →
      e + 1 ≤ f2 + p →
      ngx_quic_parse_transport_params_loop buf (e + 1) f2 p tp
        = Exec.done (NGX_ERROR, tp') := by
  have hne : NGX_ERROR ≠ NGX_OK := by decide
  have exit_case : ∀ (f2 p : Nat) (tp : ngx_quic_tp_t),
      (if p ≠ e then Exec.done (NGX_ERROR, tp) else Exec.done (NGX_OK, tp))
          = (Exec.done (NGX_OK, tp') : Exec (Int × ngx_quic_tp_t)) →
      e + 1 ≤ f2 + p →
      ngx_quic_parse_transport_params_loop buf (e + 1) f2 p tp
        = Exec.done (NGX_ERROR, tp') := by
    intro f2 p tp h hf
    by_cases hpe : p = e
    · rw [if_neg (by omega)] at h
      have htp : tp = tp' := by
        have := Exec.done.inj h
        exact (Prod.mk.inj this).2
      subst hpe
      obtain ⟨g, rfl⟩ : ∃ g, f2 = g + 1 := ⟨f2 - 1, by omega⟩
      rw [params_loop_last_byte buf p he g tp, htp]
    · rw [if_pos hpe] at h
      have := Exec.done.inj h
      exact absurd (Prod.mk.inj this).1 hne
  intro f1
  induction f1 with
  | zero =>
    intro f2 p tp h hf
    unfold ngx_quic_parse_transport_params_loop at h
    exact exit_case f2 p tp h hf
  | succ f ih =>
    intro f2 p tp h hf
    unfold ngx_quic_parse_transport_params_loop at h
    by_cases hp : p < e
    · rw [if_pos hp] at h
      obtain ⟨g, rfl⟩ : ∃ g, f2 = g + 1 := ⟨f2 - 1, by omega⟩
      unfold ngx_quic_parse_transport_params_loop
      rw [if_pos (by omega)]
      cases h1 : ngx_quic_parse_int buf p e with
      | fault => rw [h1] at h; cases h
      | null =>
        rw [h1] at h
        have := Exec.done.inj h
        exact absurd (Prod.mk.inj this).1 hne
      | ok a =>
        obtain ⟨p1, id⟩ := a
        have hb1 := parse_int_ok_bounds buf p e p1 id h1
        rw [parse_int_end_mono buf p e (e + 1) p1 id h1 (by omega)]
        rw [h1] at h
        dsimp only at h ⊢
        split_ifs at h ⊢ with hforb
        · have := Exec.done.inj h
          exact absurd (Prod.mk.inj this).1 hne
        · cases h2 : ngx_quic_parse_int buf p1 e with
          | fault => rw [h2] at h; cases h
          | null =>
            rw [h2] at h
            have := Exec.done.inj h
            exact absurd (Prod.mk.inj this).1 hne
          | ok b =>
            obtain ⟨p2, len⟩ := b
            have hb2 := parse_int_ok_bounds buf p1 e p2 len h2
            rw [parse_int_end_mono buf p1 e (e + 1) p2 len h2 (by omega)]
            rw [h2] at h
            dsimp only at h ⊢
            cases h3 : ngx_quic_parse_transport_param buf p2 (p2 + len) id tp with
            | fault => rw [h3] at h; cases h
            | done c =>
              obtain ⟨rc, tp1⟩ := c
              rw [h3] at h
              dsimp only at h ⊢
              split_ifs at h ⊢ with hrc
              · have := Exec.done.inj h
                exact absurd (Prod.mk.inj this).1 hne
              · exact ih g (p2 + len) tp1 h (by omega)
    · rw [if_neg hp] at h
      exact exit_case f2 p tp h hf

theorem tp_forbidden_iff (id : Nat) :
    (id = NGX_QUIC_TP_ORIGINAL_DCID ∨ id = NGX_QUIC_TP_PREFERRED_ADDRESS
        ∨ id = NGX_QUIC_TP_RETRY_SCID ∨ id = NGX_QUIC_TP_SR_TOKEN) ↔ tp_forbidden id := by
  unfold tp_forbidden
  constructor
  · rintro (h | h | h | h)
    · exact Or.inl h
    · exact Or.inr (Or.inr (Or.inl h))
    · exact Or.inr (Or.inr (Or.inr h))
    · exact Or.inr (Or.inl h)
  · rintro (h | h | h | h)
    · exact Or.inl h
    · exact Or.inr (Or.inr (Or.inr h))
    · exact Or.inr (Or.inl h)
    · exact Or.inr (Or.inr (Or.inl h))

/-- The loop over the transport parameters returns ERROR when it meets a forbidden
id behind a run of well-formed parameters. -/
theorem params_loop_forbidden (buf : List u_char) (e : Nat) (he : e ≤ buf.length)
    (q p' fid : Nat) (hid : ngx_quic_parse_int buf q e = Rd.ok (p', fid))
    (hf : tp_forbidden fid) :
    ∀ (n fuel p : Nat) (tp : ngx_quic_tp_t),
      tp_well_formed buf e n p = some q → e ≤ fuel + p →
      ∃ tp', ngx_quic_parse_transport_params_loop buf e fuel p tp
        = Exec.done (NGX_ERROR, tp') := by
  intro n
  induction n with
  | zero =>
    intro fuel p tp hwf hfuel
    unfold tp_well_formed at hwf
    have hpq : p = q := Option.some.inj hwf
    subst hpq
    have hb := parse_int_ok_bounds buf p e p' fid hid
    obtain ⟨g, rfl⟩ : ∃ g, fuel = g + 1 := ⟨fuel - 1, by omega⟩
    unfold ngx_quic_parse_transport_params_loop
    rw [if_pos hb.2.2, hid]
    dsimp only
    rw [if_pos ((tp_forbidden_iff fid).mpr hf)]
    exact ⟨tp, rfl⟩
  | succ n ih =>
    intro fuel p tp hwf hfuel
    unfold tp_well_formed at hwf
    cases h1 : ngx_quic_parse_int buf p e with
    | fault => rw [h1] at hwf; cases hwf
    | null => rw [h1] at hwf; cases hwf
    | ok a =>
      obtain ⟨p1, id⟩ := a
      rw [h1] at hwf
      dsimp only at hwf
      split_ifs at hwf with hforb
      cases h2 : ngx_quic_parse_int buf p1 e with
      | fault => rw [h2] at hwf; cases hwf
      | null => rw [h2] at hwf; cases hwf
      | ok b =>
        obtain ⟨p2, len⟩ := b
        rw [h2] at hwf
        dsimp only at hwf
        split_ifs at hwf with hfit
        have hb1 := parse_int_ok_bounds buf p e p1 id h1
        have hb2 := parse_int_ok_bounds buf p1 e p2 len h2
        obtain ⟨g, rfl⟩ : ∃ g, fuel = g + 1 := ⟨fuel - 1, by omega⟩
        unfold ngx_quic_parse_transport_params_loop
        rw [if_pos hb1.2.2, h1]
        dsimp only
        rw [if_neg (fun hc => hforb ((tp_forbidden_iff id).mp hc)), h2]
        dsimp only
        obtain ⟨⟨rc, tp1⟩, h3⟩ := transport_param_safe buf p2 (p2 + len) id tp (by omega)
        rw [h3]
        dsimp only
        split_ifs with hrc
        · exact ⟨tp1, rfl⟩
        · exact ih g (p2 + len) tp1 hwf (by omega)

/-! ## Claims on the transport parameters -/

/-- C15 (evaluation at the failing input): the parameter with the id 0x10004, which
is no recognised id, the length 1 and the value 05 (bytes 80 01 00 04 01 05) is not
ignored: its id is passed on as a `uint16_t`, so it is taken for initial_max_data
(0x0004) and the record gets `initial_max_data = 5`, whereas parsing the sequence
without this parameter (the empty sequence) leaves the record as it was.  The
parameter with the id 0x10001 and the length 0 (bytes 80 01 00 01 00) makes the
parser return ERROR. -/
theorem unknown_transport_param_truncated (tp : ngx_quic_tp_t) :
    ngx_quic_parse_int [0x80, 0x01, 0x00, 0x04, 0x01, 0x05] 0 6 = Rd.ok (4, 0x10004)
      ∧ ngx_quic_parse_transport_params [0x80, 0x01, 0x00, 0x04, 0x01, 0x05] 0 6 tp
          = Exec.done (NGX_OK, { tp with initial_max_data := 5 })
      ∧ ngx_quic_parse_transport_params [] 0 0 tp = Exec.done (NGX_OK, tp)
      ∧ ngx_quic_parse_int [0x80, 0x01, 0x00, 0x01, 0x00] 0 5 = Rd.ok (4, 0x10001)
      ∧ ngx_quic_parse_transport_params [0x80, 0x01, 0x00, 0x01, 0x00] 0 5 tp
          = Exec.done (NGX_ERROR, tp) := by
  have h1 : ngx_quic_parse_int [0x80, 0x01, 0x00, 0x04, 0x01, 0x05] 0 6
      = Rd.ok (4, 0x10004) := by decide
  have h2 : ngx_quic_parse_int [0x80, 0x01, 0x00, 0x04, 0x01, 0x05] 4 6
      = Rd.ok (5, 1) := by decide
  have h3 : ngx_quic_parse_int [0x80, 0x01, 0x00, 0x04, 0x01, 0x05] 5 (5 + 1)
      = Rd.ok (6, 5) := by decide
  have g1 : ngx_quic_parse_int [0x80, 0x01, 0x00, 0x01, 0x00] 0 5
      = Rd.ok (4, 0x10001) := by decide
  have g2 : ngx_quic_parse_int [0x80, 0x01, 0x00, 0x01, 0x00] 4 5
      = Rd.ok (5, 0) := by decide
  have g3 : ngx_quic_parse_int [0x80, 0x01, 0x00, 0x01, 0x00] 5 (5 + 0)
      = Rd.null := by decide
  refine ⟨h1, ?_, ?_, g1, ?_⟩
  · simp [ngx_quic_parse_transport_params, ngx_quic_parse_transport_params_loop,
      ngx_quic_parse_transport_param, h1, h2, h3, NGX_OK, NGX_ERROR]
  · simp [ngx_quic_parse_transport_params, ngx_quic_parse_transport_params_loop]
  · simp [ngx_quic_parse_transport_params, ngx_quic_parse_transport_params_loop,
      ngx_quic_parse_transport_param, g1, g2, g3, NGX_OK, NGX_ERROR]

/-- C16: peer-forbidden transport parameters.  For every buffer in which a run of
`n` well-formed parameters with ids that are not forbidden is followed by a
varint that decodes to the id original_dcid (0x00), stateless_reset_token (0x02),
preferred_address (0x0d) or retry_scid (0x10), `ngx_quic_parse_transport_params`
returns ERROR, whatever bytes follow that id. -/
theorem forbidden_transport_params_rejected (buf : List u_char) (n q p' fid : Nat)
    (tp : ngx_quic_tp_t)
    (hwf : tp_well_formed buf buf.length n 0 = some q)
    (hid : ngx_quic_parse_int buf q buf.length = Rd.ok (p', fid))
    (hf : tp_forbidden fid) :
    ∃ tp', ngx_quic_parse_transport_params buf 0 buf.length tp
      = Exec.done (NGX_ERROR, tp') := by
  unfold ngx_quic_parse_transport_params
  exact params_loop_forbidden buf buf.length (Nat.le_refl _) q p' fid hid hf n _ 0 tp hwf
    (by omega)

theorem forbidden_transport_params_rejected_witness :
    (tp_well_formed [0x04, 0x01, 0x05, 0x0d, 0xff, 0xff] 6 1 0 = some 3
        ∧ ngx_quic_parse_int [0x04, 0x01, 0x05, 0x0d, 0xff, 0xff] 3 6 = Rd.ok (4, 0x0d)
        ∧ tp_forbidden 0x0d)
      ∧ ∀ tp : ngx_quic_tp_t,
          ∃ tp', ngx_quic_parse_transport_params [0x04, 0x01, 0x05, 0x0d, 0xff, 0xff] 0 6 tp
            = Exec.done (NGX_ERROR, tp') :=
  ⟨⟨by decide, by decide, by decide⟩, fun tp =>
    forbidden_transport_params_rejected [0x04, 0x01, 0x05, 0x0d, 0xff, 0xff] 1 3 4 0x0d tp
      (by decide) (by decide) (by decide)⟩

/-- C17: trailing byte after transport parameters.  For every byte sequence `S` on
which `ngx_quic_parse_transport_params` returns OK (the empty sequence included)
and every byte `b`, parsing `S` with `b` appended returns ERROR; the record is
left as the parameters of `S` set it. -/
theorem trailing_byte_rejected (S : List u_char) (b : u_char) (tp tp' : ngx_quic_tp_t)
    (hok : ngx_quic_parse_transport_params S 0 S.length tp = Exec.done (NGX_OK, tp')) :
    ngx_quic_parse_transport_params (S ++ [b]) 0 (S ++ [b]).length tp
      = Exec.done (NGX_ERROR, tp') := by
  unfold ngx_quic_parse_transport_params at hok ⊢
  have h1 := params_loop_ext S [b] S.length _ 0 tp _ hok
  have hl : (S ++ [b]).length = S.length + 1 := by simp
  rw [hl]
  exact params_loop_end_succ (S ++ [b]) S.length (by rw [hl]; omega) tp' _ _ 0 tp h1 (by omega)

theorem trailing_byte_rejected_witness :
    ngx_quic_parse_transport_params [0x04, 0x01, 0x05] 0 ([0x04, 0x01, 0x05] : List u_char).length
        ngx_quic_tp_zero
        = Exec.done (NGX_OK, { ngx_quic_tp_zero with initial_max_data := 5 })
      ∧ ngx_quic_parse_transport_params ([0x04, 0x01, 0x05] ++ [0x00]) 0
          (([0x04, 0x01, 0x05] : List u_char) ++ [0x00]).length ngx_quic_tp_zero
        = Exec.done (NGX_ERROR, { ngx_quic_tp_zero with initial_max_data := 5 }) :=
  have h : ngx_quic_parse_transport_params [0x04, 0x01, 0x05] 0
      ([0x04, 0x01, 0x05] : List u_char).length ngx_quic_tp_zero
      = Exec.done (NGX_OK, { ngx_quic_tp_zero with initial_max_data := 5 }) := by decide
  ⟨h, trailing_byte_rejected [0x04, 0x01, 0x05] 0x00 ngx_quic_tp_zero _ h⟩

/-! ## Packet header parser -/

theorem read_uint32_drop (buf : List u_char) (pos e : Nat) (b0 b1 b2 b3 : u_char)
    (rest : List u_char) (h : buf.drop pos = b0 :: b1 :: b2 :: b3 :: rest)
    (he : pos + 4 ≤ e) :
    ngx_quic_read_uint32 buf pos e = Rd.ok (pos + 4, ngx_quic_parse_uint32 b0 b1 b2 b3) := by
  obtain ⟨g0, d0⟩ := drop_head h
  obtain ⟨g1, d1⟩ := drop_head d0
  obtain ⟨g2, d2⟩ := drop_head d1
  obtain ⟨g3, _⟩ := drop_head d2
  unfold ngx_quic_read_uint32
  rw [size_t_diff_le _ _ (by omega), if_neg (by omega), g0, g1, g2, g3]

theorem read_uint32_safe (buf : List u_char) (pos e : Nat) (he : e ≤ buf.length)
    (hp : pos ≤ e) :
    ngx_quic_read_uint32 buf pos e = Rd.null
      ∨ ∃ v, ngx_quic_read_uint32 buf pos e = Rd.ok (pos + 4, v) := by
  unfold ngx_quic_read_uint32
  rw [size_t_diff_le _ _ hp]
  by_cases h1 : e - pos < 4
  · left; rw [if_pos h1]
  · right
    rw [if_neg h1]
    rw [List.getElem?_eq_getElem (show pos < buf.length by omega),
      List.getElem?_eq_getElem (show pos + 1 < buf.length by omega),
      List.getElem?_eq_getElem (show pos + 2 < buf.length by omega),
      List.getElem?_eq_getElem (show pos + 3 < buf.length by omega)]
    exact ⟨_, rfl⟩

theorem read_uint8_drop (buf : List u_char) (pos e : Nat) (c : u_char) (rest : List u_char)
    (h : buf.drop pos = c :: rest) (he : pos + 1 ≤ e) :
    ngx_quic_read_uint8 buf pos e = Rd.ok (pos + 1, c.val) := by
  unfold ngx_quic_read_uint8
  rw [size_t_diff_le _ _ (by omega), if_neg (by omega), (drop_head h).1]

theorem read_bytes_ok (pos e len : Nat) (he : pos + len ≤ e) :
    ngx_quic_read_bytes pos e len = Rd.ok (pos + len, pos) := by
  unfold ngx_quic_read_bytes
  rw [size_t_diff_le _ _ (by omega), if_neg (by omega)]

theorem supported_version_iff (v : Nat) :
    ngx_quic_supported_version v = 0
      ↔ ¬ (v = 0xff00001d ∨ v = 0xff00001e ∨ v = 0xff00001f ∨ v = 0xff000020
            ∨ v = 0x00000001) := by
  simp only [ngx_quic_supported_version, ngx_quic_versions, ngx_quic_supported_version_loop,
    NGX_QUIC_VERSION]
  split_ifs <;> simp_all <;> omega

/-- The long header parser on a packet with the fixed bit set and well-formed DCID
and SCID fields that fit in the packet. -/
theorem long_header_ok (buf : List u_char) (pkt : ngx_quic_header_t)
    (b0 b1 b2 b3 dl sl : u_char) (dcid scid rest : List u_char)
    (hfixed : pkt.flags.val &&& 0x40 ≠ 0)
    (hd : buf.drop pkt.raw.pos
      = b0 :: b1 :: b2 :: b3 :: dl :: (dcid ++ sl :: (scid ++ rest)))
    (hdl : dl.val = dcid.length) (hdl20 : dl.val ≤ 20)
    (hsl : sl.val = scid.length) (hsl20 : sl.val ≤ 20)
    (hfit : pkt.raw.pos + 4 + 1 + dcid.length + 1 + scid.length ≤ pkt.data + pkt.len) :
    ngx_quic_parse_long_header buf pkt
      = Exec.done (NGX_OK,
          { pkt with
            version := ngx_quic_parse_uint32 b0 b1 b2 b3
            dcid := { len := dl.val, data := pkt.raw.pos + 4 + 1 }
            scid := { len := sl.val, data := pkt.raw.pos + 4 + 1 + dl.val + 1 }
            raw := { pkt.raw with pos := pkt.raw.pos + 4 + 1 + dl.val + 1 + sl.val } }) := by
  obtain ⟨_, d0⟩ := drop_head hd
  obtain ⟨_, d1⟩ := drop_head d0
  obtain ⟨_, d2⟩ := drop_head d1
  obtain ⟨_, d3⟩ := drop_head d2
  have d3' : buf.drop (pkt.raw.pos + 4) = dl :: (dcid ++ sl :: (scid ++ rest)) := d3
  obtain ⟨_, d4⟩ := drop_head d3'
  have d5 : buf.drop (pkt.raw.pos + 4 + 1 + dl.val) = sl :: (scid ++ rest) := by
    rw [hdl, ← List.drop_drop, d4]
    simp
  unfold ngx_quic_parse_long_header
  dsimp only
  rw [read_uint32_drop buf _ _ b0 b1 b2 b3 _ hd (by omega)]
  simp only [ngx_quic_parse_header_step, NGX_QUIC_PKT_FIXED_BIT]
  rw [if_neg hfixed, read_uint8_drop buf _ _ dl _ d3' (by omega)]
  simp only [NGX_QUIC_CID_LEN_MAX]
  rw [if_neg (by omega), read_bytes_ok _ _ _ (by omega)]
  simp only []
  rw [read_uint8_drop buf _ _ sl _ d5 (by omega)]
  simp only []
  rw [if_neg (by omega), read_bytes_ok _ _ _ (by omega)]

theorem long_pkt_true (flags : u_char) (h : flags.val &&& 0x80 ≠ 0) :
    ngx_quic_long_pkt flags = true := by
  simp [ngx_quic_long_pkt, h]

/-! ## Claims on the packet header parser -/

/-- C18: fixed bit.  For every packet descriptor whose flags byte has the bit 0x40
clear, with a long or a short header, and whatever bytes the packet holds,
`ngx_quic_parse_packet` returns DECLINED, which is neither OK nor the abort
outcome. -/
theorem fixed_bit_clear_declined (buf : List u_char) (pkt : ngx_quic_header_t)
    (hbit : pkt.flags.val &&& 0x40 = 0)
    (hpos : pkt.raw.pos ≤ pkt.data + pkt.len)
    (hend : pkt.data + pkt.len ≤ buf.length) :
    (∃ pkt', ngx_quic_parse_packet buf pkt = Exec.done (NGX_DECLINED, pkt'))
      ∧ NGX_DECLINED ≠ NGX_OK ∧ NGX_DECLINED ≠ NGX_ABORT := by
  refine ⟨?_, by decide, by decide⟩
  have hne : NGX_ERROR ≠ NGX_OK := by decide
  unfold ngx_quic_parse_packet
  by_cases hl : ngx_quic_long_pkt pkt.flags = true
  · rw [if_neg (not_not.mpr hl)]
    unfold ngx_quic_parse_long_header
    dsimp only
    rcases read_uint32_safe buf pkt.raw.pos (pkt.data + pkt.len) hend hpos with h | ⟨v, h⟩
    · rw [h]
      simp only [ngx_quic_parse_header_step]
      rw [if_pos hne]
      exact ⟨_, rfl⟩
    · rw [h]
      simp only [ngx_quic_parse_header_step, NGX_QUIC_PKT_FIXED_BIT]
      rw [if_pos hbit]
      dsimp only
      rw [if_pos hne]
      exact ⟨_, rfl⟩
  · rw [if_pos hl]
    unfold ngx_quic_parse_short_header
    simp only [NGX_QUIC_PKT_FIXED_BIT]
    rw [if_pos hbit]
    dsimp only
    rw [if_pos hne]
    exact ⟨_, rfl⟩

theorem fixed_bit_clear_declined_witness :
    ((example_long_pkt 0x80 5 5).flags.val &&& 0x40 = 0
        ∧ (example_long_pkt 0x80 5 5).raw.pos
            ≤ (example_long_pkt 0x80 5 5).data + (example_long_pkt 0x80 5 5).len
        ∧ (example_long_pkt 0x80 5 5).data + (example_long_pkt 0x80 5 5).len
            ≤ ([0x80, 0x00, 0x00, 0x00, 0x01] : List u_char).length)
      ∧ (∃ pkt', ngx_quic_parse_packet [0x80, 0x00, 0x00, 0x00, 0x01]
            (example_long_pkt 0x80 5 5) = Exec.done (NGX_DECLINED, pkt'))
      ∧ NGX_DECLINED ≠ NGX_OK ∧ NGX_DECLINED ≠ NGX_ABORT :=
  ⟨⟨by decide, by decide, by decide⟩,
    fixed_bit_clear_declined [0x80, 0x00, 0x00, 0x00, 0x01] (example_long_pkt 0x80 5 5)
      (by decide) (by decide) (by decide)⟩

/-- C19: minimum Initial size.  For every long-header Initial packet (type bits 00)
with the fixed bit set, a supported version and well-formed DCID and SCID fields
that fit in the packet, if `pkt->len` is below 1200 then `ngx_quic_parse_packet`
returns DECLINED, whatever bytes (token, length, payload) follow the SCID. -/
theorem small_initial_declined (buf : List u_char) (pkt : ngx_quic_header_t)
    (b0 b1 b2 b3 dl sl : u_char) (dcid scid rest : List u_char)
    (hlong : pkt.flags.val &&& 0x80 ≠ 0)
    (hfixed : pkt.flags.val &&& 0x40 ≠ 0)
    (hinit : pkt.flags.val &&& 0x30 = 0x00)
    (hd : buf.drop pkt.raw.pos
      = b0 :: b1 :: b2 :: b3 :: dl :: (dcid ++ sl :: (scid ++ rest)))
    (hver : ngx_quic_parse_uint32 b0 b1 b2 b3 = 0xff00001d
      ∨ ngx_quic_parse_uint32 b0 b1 b2 b3 = 0xff00001e
      ∨ ngx_quic_parse_uint32 b0 b1 b2 b3 = 0xff00001f
      ∨ ngx_quic_parse_uint32 b0 b1 b2 b3 = 0xff000020
      ∨ ngx_quic_parse_uint32 b0 b1 b2 b3 = 0x00000001)
    (hdl : dl.val = dcid.length ∧ dl.val ≤ 20)
    (hsl : sl.val = scid.length ∧ sl.val ≤ 20)
    (hfit : pkt.raw.pos + 4 + 1 + dcid.length + 1 + scid.length ≤ pkt.data + pkt.len)
    (hsmall : pkt.len < 1200) :
    ∃ pkt', ngx_quic_parse_packet buf pkt = Exec.done (NGX_DECLINED, pkt') := by
  have hne : NGX_DECLINED ≠ NGX_OK := by decide
  have hsup : ¬ ngx_quic_supported_version (ngx_quic_parse_uint32 b0 b1 b2 b3) = 0 :=
    fun h => (supported_version_iff _).mp h hver
  unfold ngx_quic_parse_packet
  rw [if_neg (not_not.mpr (long_pkt_true _ hlong)),
    long_header_ok buf pkt b0 b1 b2 b3 dl sl dcid scid rest hfixed hd hdl.1 hdl.2 hsl.1 hsl.2
      hfit]
  dsimp only
  rw [if_neg (not_not.mpr rfl), if_neg hsup]
  unfold ngx_quic_parse_long_header_v1
  dsimp only
  have hin : ngx_quic_pkt_in pkt.flags = true := by
    simp [ngx_quic_pkt_in, hinit]
  rw [if_pos hin, if_pos (by unfold NGX_QUIC_MIN_INITIAL_SIZE; exact hsmall)]
  dsimp only
  rw [if_pos hne]
  exact ⟨_, rfl⟩

theorem small_initial_declined_witness :
    ((example_long_pkt 0xC3 1199 16).flags.val &&& 0x80 ≠ 0
        ∧ (example_long_pkt 0xC3 1199 16).flags.val &&& 0x40 ≠ 0
        ∧ (example_long_pkt 0xC3 1199 16).flags.val &&& 0x30 = 0x00
        ∧ example_initial_bytes.drop (example_long_pkt 0xC3 1199 16).raw.pos
            = 0x00 :: 0x00 :: 0x00 :: 0x01 :: 0x08
                :: ([0, 0, 0, 0, 0, 0, 0, 0] ++ 0x00 :: ([] ++ [0x00]))
        ∧ ngx_quic_parse_uint32 0x00 0x00 0x00 0x01 = 0x00000001
        ∧ (example_long_pkt 0xC3 1199 16).len < 1200)
      ∧ ∃ pkt', ngx_quic_parse_packet example_initial_bytes (example_long_pkt 0xC3 1199 16)
          = Exec.done (NGX_DECLINED, pkt') :=
  ⟨⟨by decide, by decide, by decide, by decide, by decide, by decide⟩,
    small_initial_declined example_initial_bytes (example_long_pkt 0xC3 1199 16)
      0x00 0x00 0x00 0x01 0x08 0x00 [0, 0, 0, 0, 0, 0, 0, 0] [] [0x00]
      (by decide) (by decide) (by decide) (by decide)
      (Or.inr (Or.inr (Or.inr (Or.inr (by decide)))))
      ⟨by decide, by decide⟩ ⟨by decide, by decide⟩ (by decide) (by decide)⟩

theorem read_uint8_get (buf : List u_char) (pos e : Nat) (he : e ≤ buf.length)
    (hp : pos < e) :
    ∃ c : u_char, buf[pos]? = some c ∧ ngx_quic_read_uint8 buf pos e = Rd.ok (pos + 1, c.val) := by
  unfold ngx_quic_read_uint8
  rw [size_t_diff_le _ _ (by omega), if_neg (by omega)]
  have hb : pos < buf.length := by omega
  rw [List.getElem?_eq_getElem hb]
  exact ⟨_, rfl, rfl⟩

/-- The long header parser either returns ERROR, or the connection id fields are
well formed and it returns OK with both slices set. -/
theorem long_header_cases (buf : List u_char) (pkt : ngx_quic_header_t)
    (hpos : pkt.raw.pos ≤ pkt.data + pkt.len) (hend : pkt.data + pkt.len ≤ buf.length) :
    (∃ pkt1, ngx_quic_parse_long_header buf pkt = Exec.done (NGX_ERROR, pkt1))
      ∨ (long_header_ids_fit buf pkt
          ∧ ∃ version dl sl, dl ≤ 20 ∧ sl ≤ 20
            ∧ pkt.raw.pos + 4 + 1 + dl + 1 + sl ≤ pkt.data + pkt.len
            ∧ ngx_quic_parse_long_header buf pkt
              = Exec.done (NGX_OK, { pkt with
                  version := version
                  dcid := { len := dl, data := pkt.raw.pos + 4 + 1 }
                  scid := { len := sl, data := pkt.raw.pos + 4 + 1 + dl + 1 }
                  raw := { pkt.raw with pos := pkt.raw.pos + 4 + 1 + dl + 1 + sl } })) := by
  unfold ngx_quic_parse_long_header
  dsimp only
  rcases read_uint32_safe buf pkt.raw.pos (pkt.data + pkt.len) hend hpos with h | ⟨v, h⟩
  · rw [h]; exact Or.inl ⟨_, rfl⟩
  rw [h]
  simp only [ngx_quic_parse_header_step, NGX_QUIC_PKT_FIXED_BIT, NGX_QUIC_CID_LEN_MAX]
  have h4 : pkt.raw.pos + 4 ≤ pkt.data + pkt.len := by
    by_contra hc
    unfold ngx_quic_read_uint32 at h
    rw [size_t_diff_le _ _ hpos, if_pos (by omega)] at h
    cases h
  by_cases hf : pkt.flags.val &&& 0x40 = 0
  · rw [if_pos hf]; exact Or.inl ⟨_, rfl⟩
  rw [if_neg hf]
  by_cases h5 : pkt.raw.pos + 4 < pkt.data + pkt.len
  swap
  · have hn : ngx_quic_read_uint8 buf (pkt.raw.pos + 4) (pkt.data + pkt.len) = Rd.null := by
      unfold ngx_quic_read_uint8
      rw [size_t_diff_le _ _ h4, if_pos (by omega)]
    rw [hn]; exact Or.inl ⟨_, rfl⟩
  obtain ⟨dl, hdl, hr⟩ := read_uint8_get buf _ _ hend h5
  rw [hr]
  dsimp only
  by_cases hd20 : dl.val > 20
  · rw [if_pos hd20]; exact Or.inl ⟨_, rfl⟩
  rw [if_neg hd20]
  rcases read_bytes_safe (pkt.raw.pos + 4 + 1) (pkt.data + pkt.len) dl.val (by omega)
    with hb | ⟨hb, hb1⟩
  · rw [hb]; exact Or.inl ⟨_, rfl⟩
  rw [hb]
  dsimp only
  by_cases h6 : pkt.raw.pos + 4 + 1 + dl.val < pkt.data + pkt.len
  swap
  · have hn : ngx_quic_read_uint8 buf (pkt.raw.pos + 4 + 1 + dl.val) (pkt.data + pkt.len)
        = Rd.null := by
      unfold ngx_quic_read_uint8
      rw [size_t_diff_le _ _ hb1, if_pos (by omega)]
    rw [hn]; exact Or.inl ⟨_, rfl⟩
  obtain ⟨sl, hsl, hr2⟩ := read_uint8_get buf _ _ hend h6
  rw [hr2]
  dsimp only
  by_cases hs20 : sl.val > 20
  · rw [if_pos hs20]; exact Or.inl ⟨_, rfl⟩
  rw [if_neg hs20]
  rcases read_bytes_safe (pkt.raw.pos + 4 + 1 + dl.val + 1) (pkt.data + pkt.len) sl.val
    (by omega) with hb2 | ⟨hb2, hb3⟩
  · rw [hb2]; exact Or.inl ⟨_, rfl⟩
  rw [hb2]
  dsimp only
  exact Or.inr ⟨⟨dl, sl, hdl, by omega, hsl, by omega, hb3⟩,
    v, dl.val, sl.val, by omega, by omega, hb3, rfl⟩

/-- The end of the long header parser keeps the connection ids and the start of
the packet, and the packet length it stores reaches the cursor it started from. -/
theorem v1_length_inv (buf : List u_char) (pkt pkt2 : ngx_quic_header_t) (p e : Nat)
    (hdata : pkt.data ≤ p)
    (h : ngx_quic_parse_long_header_v1_length buf pkt p e = Exec.done (NGX_OK, pkt2)) :
    pkt2.dcid = pkt.dcid ∧ pkt2.scid = pkt.scid ∧ pkt2.data = pkt.data
      ∧ p ≤ pkt2.data + pkt2.len := by
  unfold ngx_quic_parse_long_header_v1_length at h
  cases hr : ngx_quic_parse_int buf p e with
  | fault => rw [hr] at h; cases h
  | null => rw [hr] at h; cases h
  | ok r =>
    obtain ⟨p1, v⟩ := r
    have hb := parse_int_ok_bounds buf p e p1 v hr
    rw [hr] at h
    simp only [ngx_quic_parse_header_step] at h
    split_ifs at h with hc
    · cases h
    · have h2 := congrArg Prod.snd (Exec.done.inj h)
      dsimp only at h2
      subst h2
      refine ⟨rfl, rfl, rfl, ?_⟩
      dsimp only
      rw [size_t_diff_le _ _ (by omega)]
      omega

theorem long_header_v1_inv (buf : List u_char) (pkt pkt2 : ngx_quic_header_t)
    (hdata : pkt.data ≤ pkt.raw.pos)
    (h : ngx_quic_parse_long_header_v1 buf pkt = Exec.done (NGX_OK, pkt2)) :
    pkt2.dcid = pkt.dcid ∧ pkt2.scid = pkt.scid ∧ pkt2.data = pkt.data
      ∧ pkt.raw.pos ≤ pkt2.data + pkt2.len := by
  unfold ngx_quic_parse_long_header_v1 at h
  dsimp only at h
  split_ifs at h
  · cases h
  · cases hr : ngx_quic_parse_int buf pkt.raw.pos pkt.raw.last with
    | fault => rw [hr] at h; cases h
    | null => rw [hr] at h; cases h
    | ok r =>
      obtain ⟨p1, v⟩ := r
      have hb := parse_int_ok_bounds buf _ _ p1 v hr
      rw [hr] at h
      simp only [ngx_quic_parse_header_step, ngx_quic_read_bytes] at h
      split_ifs at h
      · cases h
      · obtain ⟨a1, a2, a3, a4⟩ := v1_length_inv buf _ pkt2 _ _ (by dsimp only; omega) h
        exact ⟨a1, a2, a3, by omega⟩
  · obtain ⟨a1, a2, a3, a4⟩ := v1_length_inv buf _ pkt2 _ _ (by dsimp only; exact hdata) h
    exact ⟨a1, a2, a3, a4⟩
  · obtain ⟨a1, a2, a3, a4⟩ := v1_length_inv buf _ pkt2 _ _ (by dsimp only; exact hdata) h
    exact ⟨a1, a2, a3, a4⟩
  · cases h

/-! ## The Initial packet of scenario S2 -/

theorem s2_long_header (rest : List u_char) (n : Nat) (hn : 1200 ≤ n) :
    ngx_quic_parse_long_header (example_s2_bytes ++ rest) (example_long_pkt 0xC3 n n)
      = Exec.done (NGX_OK, { example_long_pkt 0xC3 n n with
          version := 1
          dcid := { len := 8, data := 6 }
          scid := { len := 0, data := 15 }
          raw := { pos := 15, last := n } }) := by
  have hd : (example_s2_bytes ++ rest).drop (example_long_pkt 0xC3 n n).raw.pos
      = 0 :: 0 :: 0 :: 1 :: 8 :: ([0, 0, 0, 0, 0, 0, 0, 0] ++ 0 :: ([]
          ++ ([0x00, 0x4B, 0x08, 0x00, 0x00, 0x00, 0x01] ++ rest))) := by
    simp [example_s2_bytes, example_long_pkt]
  have hf : (example_long_pkt 0xC3 n n).flags.val &&& 0x40 ≠ 0 := by
    show (0xC3 : u_char).val &&& 0x40 ≠ 0
    decide
  have h := long_header_ok (example_s2_bytes ++ rest) (example_long_pkt 0xC3 n n)
    0 0 0 1 8 0 [0, 0, 0, 0, 0, 0, 0, 0] [] ([0x00, 0x4B, 0x08, 0x00, 0x00, 0x00, 0x01] ++ rest)
    hf hd (by decide) (by decide) (by decide) (by decide)
    (by show 1 + 4 + 1 + 8 + 1 + 0 ≤ 0 + n; omega)
  rw [h]
  rfl

theorem s2_token (rest : List u_char) (n : Nat) (hn : 1200 ≤ n) :
    ngx_quic_parse_int (example_s2_bytes ++ rest) 15 n = Rd.ok (16, 0) := by
  have h0 : ngx_quic_parse_int example_s2_bytes 15 22 = Rd.ok (16, 0) := by decide
  have h1 := parse_int_ext example_s2_bytes rest 15 22 (by rw [h0]; exact fun h => by cases h)
  rw [h0] at h1
  exact parse_int_end_mono _ _ _ _ _ _ h1 (by omega)

theorem s2_length (rest : List u_char) (n : Nat) (hn : 1200 ≤ n) :
    ngx_quic_parse_int (example_s2_bytes ++ rest) 16 n = Rd.ok (18, 2824) := by
  have h0 : ngx_quic_parse_int example_s2_bytes 16 22 = Rd.ok (18, 2824) := by decide
  have h1 := parse_int_ext example_s2_bytes rest 16 22 (by rw [h0]; exact fun h => by cases h)
  rw [h0] at h1
  exact parse_int_end_mono _ _ _ _ _ _ h1 (by omega)

theorem s2_v1 (rest : List u_char) (pkt : ngx_quic_header_t)
    (hfl : pkt.flags = 0xC3) (hdata : pkt.data = 0) (hpos : pkt.raw.pos = 15)
    (hn : 1200 ≤ pkt.len) (hlast : 1200 ≤ pkt.raw.last) :
    ngx_quic_parse_long_header_v1 (example_s2_bytes ++ rest) pkt
      = if 2842 ≤ pkt.len then
          Exec.done (NGX_OK, { pkt with
            level := .ssl_encryption_initial
            token := { len := 0, data := 16 }
            raw := { pos := 18, last := pkt.raw.last }
            len := 2842 })
        else
          Exec.done (NGX_ERROR, { pkt with
            level := .ssl_encryption_initial
            token := { len := 0, data := 16 } }) := by
  unfold ngx_quic_parse_long_header_v1
  have hin : ngx_quic_pkt_in pkt.flags = true := by rw [hfl]; decide
  simp only [hin, if_true, NGX_QUIC_MIN_INITIAL_SIZE]
  rw [if_neg (by omega), hpos, s2_token rest _ hlast]
  simp only [ngx_quic_parse_header_step]
  rw [read_bytes_ok 16 _ 0 (by omega)]
  simp only []
  unfold ngx_quic_parse_long_header_v1_length
  rw [s2_length rest _ hlast]
  simp only [ngx_quic_parse_header_step, hdata, Nat.zero_add]
  rw [size_t_diff_le _ _ (by omega)]
  by_cases h : 2842 ≤ pkt.len
  · rw [if_neg (by omega), if_pos h]
    simp [size_t_diff]
  · rw [if_pos (by omega), if_neg h]

/-- The packet parser on a long header that `ngx_quic_parse_long_header` accepts
with a supported version: the result is that of `ngx_quic_parse_long_header_v1`. -/
theorem parse_packet_long (buf : List u_char) (pkt pkt1 pkt2 : ngx_quic_header_t) (rc2 : Int)
    (hl : ngx_quic_long_pkt pkt.flags = true)
    (h1 : ngx_quic_parse_long_header buf pkt = Exec.done (NGX_OK, pkt1))
    (hv : ¬ ngx_quic_supported_version pkt1.version = 0)
    (h2 : ngx_quic_parse_long_header_v1 buf pkt1 = Exec.done (rc2, pkt2)) :
    ngx_quic_parse_packet buf pkt
      = if rc2 ≠ NGX_OK then Exec.done (NGX_DECLINED, pkt2) else Exec.done (NGX_OK, pkt2) := by
  unfold ngx_quic_parse_packet
  rw [if_neg (not_not.mpr hl), h1]
  dsimp only
  rw [if_neg (not_not.mpr rfl), if_neg hv, h2]

theorem s2_parse (rest : List u_char) (n : Nat) (hn : 2842 ≤ n) :
    ngx_quic_parse_packet (example_s2_bytes ++ rest) (example_long_pkt 0xC3 n n)
      = Exec.done (NGX_OK, { example_long_pkt 0xC3 n n with
          version := 1
          level := .ssl_encryption_initial
          dcid := { len := 8, data := 6 }
          scid := { len := 0, data := 15 }
          token := { len := 0, data := 16 }
          raw := { pos := 18, last := n }
          len := 2842 }) := by
  have h2 := Eq.trans (s2_v1 rest { example_long_pkt 0xC3 n n with
      version := 1
      dcid := { len := 8, data := 6 }
      scid := { len := 0, data := 15 }
      raw := { pos := 15, last := n } } (Eq.refl (0xC3 : u_char)) (Eq.refl 0) (Eq.refl 15)
    (show 1200 ≤ n by omega) (show 1200 ≤ n by omega)) (if_pos hn)
  exact (parse_packet_long _ _ _ _ _
    (show ngx_quic_long_pkt (0xC3 : u_char) = true by decide)
    (s2_long_header rest n (by omega))
    (show ¬ ngx_quic_supported_version 1 = 0 by decide) h2).trans (if_neg (not_not.mpr rfl))

theorem s2_declined (rest : List u_char) (n : Nat) (hn : 1200 ≤ n) (hn2 : n < 2842) :
    ngx_quic_parse_packet (example_s2_bytes ++ rest) (example_long_pkt 0xC3 n n)
      = Exec.done (NGX_DECLINED, { example_long_pkt 0xC3 n n with
          version := 1
          level := .ssl_encryption_initial
          dcid := { len := 8, data := 6 }
          scid := { len := 0, data := 15 }
          token := { len := 0, data := 16 }
          raw := { pos := 15, last := n } }) := by
  have h2 := Eq.trans (s2_v1 rest { example_long_pkt 0xC3 n n with
      version := 1
      dcid := { len := 8, data := 6 }
      scid := { len := 0, data := 15 }
      raw := { pos := 15, last := n } } (Eq.refl (0xC3 : u_char)) (Eq.refl 0) (Eq.refl 15)
    (show 1200 ≤ n by omega) (show 1200 ≤ n by omega))
    (if_neg (show ¬ 2842 ≤ n by omega))
  exact (parse_packet_long _ _ _ _ _
    (show ngx_quic_long_pkt (0xC3 : u_char) = true by decide)
    (s2_long_header rest n (by omega))
    (show ¬ ngx_quic_supported_version 1 = 0 by decide) h2).trans (if_pos (by decide))

/-! ## The DCID fast path -/

/-- Whenever `ngx_quic_get_packet_dcid` returns OK on a datagram of `n` bytes at
`data`, the slice it stores lies inside these bytes. -/
theorem get_packet_dcid_in_bounds (buf : List u_char) (data n : Nat) (dcid dcid2 : ngx_str_t)
    (h : ngx_quic_get_packet_dcid buf data n dcid = Exec.done (NGX_OK, dcid2)) :
    data ≤ dcid2.data ∧ dcid2.data + dcid2.len ≤ data + n := by
  have tail : ∀ len offset,
      ngx_quic_get_packet_dcid_tail data n len offset dcid = Exec.done (NGX_OK, dcid2) →
      data ≤ dcid2.data ∧ dcid2.data + dcid2.len ≤ data + n := by
    intro len offset ht
    unfold ngx_quic_get_packet_dcid_tail at ht
    split_ifs at ht with h1
    · have e := congrArg Prod.fst (Exec.done.inj ht)
      exact absurd e (show NGX_ERROR ≠ NGX_OK by decide)
    · have e := congrArg Prod.snd (Exec.done.inj ht)
      dsimp only at e
      subst e
      dsimp only
      omega
  unfold ngx_quic_get_packet_dcid at h
  by_cases h0 : n = 0
  · rw [if_pos h0] at h
    have e := congrArg Prod.fst (Exec.done.inj h)
    exact absurd e (show NGX_ERROR ≠ NGX_OK by decide)
  rw [if_neg h0] at h
  cases hb : buf[data]? with
  | none => rw [hb] at h; cases h
  | some flags =>
    rw [hb] at h
    dsimp only at h
    by_cases hl : ngx_quic_long_pkt flags = true
    · rw [if_pos hl] at h
      by_cases h6 : n < NGX_QUIC_LONG_DCID_LEN_OFFSET + 1
      · rw [if_pos h6] at h
        have e := congrArg Prod.fst (Exec.done.inj h)
        exact absurd e (show NGX_ERROR ≠ NGX_OK by decide)
      · rw [if_neg h6] at h
        cases hl2 : buf[data + NGX_QUIC_LONG_DCID_LEN_OFFSET]? with
        | none => rw [hl2] at h; cases h
        | some l =>
          rw [hl2] at h
          exact tail _ _ h
    · rw [if_neg hl] at h
      exact tail _ _ h

/-- The cases in which `ngx_quic_get_packet_dcid` returns ERROR: an empty datagram,
a long-header datagram of fewer than 6 bytes, and a DCID that does not fit. -/
theorem get_packet_dcid_errors (buf : List u_char) (data n : Nat) (dcid : ngx_str_t)
    (flags : u_char) (hf : buf[data]? = some flags) :
    (n = 0 → ngx_quic_get_packet_dcid buf data n dcid = Exec.done (NGX_ERROR, dcid))
      ∧ (ngx_quic_long_pkt flags = true → n < 6 →
          ngx_quic_get_packet_dcid buf data n dcid = Exec.done (NGX_ERROR, dcid))
      ∧ (ngx_quic_long_pkt flags = true → ∀ l : u_char, buf[data + 5]? = some l →
          n < l.val + 6 →
          ngx_quic_get_packet_dcid buf data n dcid = Exec.done (NGX_ERROR, dcid))
      ∧ (ngx_quic_long_pkt flags = false → n < NGX_QUIC_SERVER_CID_LEN + 1 →
          ngx_quic_get_packet_dcid buf data n dcid = Exec.done (NGX_ERROR, dcid)) := by
  refine ⟨?_, ?_, ?_, ?_⟩
  · intro h0
    unfold ngx_quic_get_packet_dcid
    rw [if_pos h0]
  · intro hl hn
    unfold ngx_quic_get_packet_dcid
    by_cases h0 : n = 0
    · rw [if_pos h0]
    · rw [if_neg h0, hf]
      dsimp only
      rw [if_pos hl, if_pos (by unfold NGX_QUIC_LONG_DCID_LEN_OFFSET; omega)]
  · intro hl l hb hn
    unfold ngx_quic_get_packet_dcid
    by_cases h0 : n = 0
    · rw [if_pos h0]
    · rw [if_neg h0, hf]
      dsimp only
      rw [if_pos hl]
      by_cases h6 : n < NGX_QUIC_LONG_DCID_LEN_OFFSET + 1
      · rw [if_pos h6]
      · rw [if_neg h6]
        have hb2 : buf[data + NGX_QUIC_LONG_DCID_LEN_OFFSET]? = some l := hb
        rw [hb2]
        dsimp only
        unfold ngx_quic_get_packet_dcid_tail
        rw [if_pos (by unfold NGX_QUIC_LONG_DCID_OFFSET; omega)]
  · intro hl hn
    unfold ngx_quic_get_packet_dcid
    by_cases h0 : n = 0
    · rw [if_pos h0]
    · rw [if_neg h0, hf]
      dsimp only
      rw [if_neg (by rw [hl]; decide)]
      unfold ngx_quic_get_packet_dcid_tail
      rw [if_pos (by unfold NGX_QUIC_SHORT_DCID_OFFSET; omega)]

/-! ## The frame parser from decoded fields -/

/-- The frame parser on a buffer whose first varint decodes to a known frame type
`t` that the packet type admits: it continues with the switch. -/
theorem parse_frame_type_ok (adj : Nat → Option u_char) (pkt : ngx_quic_header_t)
    (buf : List u_char) (start e : Nat) (f : ngx_quic_frame_t) (b : ngx_buf_t) (t p : Nat)
    (ht : t ≤ 0x1E) (h : ngx_quic_parse_int buf start e = Rd.ok (p, t))
    (hallow : packet_type_bit pkt.flags &&& table3_mask t ≠ 0) :
    ngx_quic_parse_frame adj pkt buf start e f b
      = ngx_quic_parse_frame_switch pkt buf start e p { f with type := t } b := by
  have hA := frame_allowed_eq adj pkt t ht
  rw [if_pos hallow] at hA
  rw [parse_frame_allowed adj pkt buf start e f b p t _ h hA, if_neg (not_not.mpr rfl)]

theorem packet_bit_01 (flags : u_char)
    (hpk : packet_type_bit flags = 2 ∨ packet_type_bit flags = 1) :
    packet_type_bit flags &&& 3 ≠ 0 := by
  rcases hpk with h | h <;> rw [h] <;> decide

/-- The NEW_CONNECTION_ID case of the frame parser, on a buffer that lies in the
memory: either the fields are not acceptable and the result is ERROR with
FRAME_ENCODING_ERROR, or they are and the frame is accepted with these fields. -/
theorem ncid_cases (pkt : ngx_quic_header_t) (buf : List u_char) (start e p : Nat)
    (f : ngx_quic_frame_t) (b : ngx_buf_t) (he : e ≤ buf.length) :
    ∃ ret, ngx_quic_parse_frame_new_connection_id pkt buf start e p f b = Exec.done ret
      ∧ ((¬ ncid_wire_acceptable buf p e ∧ ret.rc = NGX_ERROR
            ∧ ret.pkt.error = NGX_QUIC_ERR_FRAME_ENCODING_ERROR)
        ∨ (ncid_wire_acceptable buf p e
            ∧ ∃ p1 p2 : Nat, ∃ c : u_char,
                ngx_quic_parse_int buf p e = Rd.ok (p1, ret.f.u.ncid.seqnum)
              ∧ ngx_quic_parse_int buf p1 e = Rd.ok (p2, ret.f.u.ncid.retire)
              ∧ buf[p2]? = some c ∧ ret.f.u.ncid.len = c.val
              ∧ ret.f.u.ncid.retire ≤ ret.f.u.ncid.seqnum
              ∧ 1 ≤ ret.f.u.ncid.len ∧ ret.f.u.ncid.len ≤ 20
              ∧ p2 + 1 + ret.f.u.ncid.len + 16 ≤ e
              ∧ ret.rc = ((p2 + 1 + ret.f.u.ncid.len + 16 : Nat) : Int) - (start : Int)
              ∧ ret.pkt = pkt ∧ ret.f.type = f.type ∧ ret.b = b
              ∧ ret.f.u.ncid.cid
                  = ngx_memcpy f.u.ncid.cid (mem_bytes buf (p2 + 1) ret.f.u.ncid.len)
              ∧ ret.f.u.ncid.srt
                  = ngx_memcpy f.u.ncid.srt
                      (mem_bytes buf (p2 + 1 + ret.f.u.ncid.len) 16))) := by
  unfold ngx_quic_parse_frame_new_connection_id
  rcases parse_int_safe buf p e he with h | ⟨p1, seq, h, hp1, hp1e⟩
  · rw [h]
    refine ⟨_, rfl, Or.inl ⟨?_, rfl, rfl⟩⟩
    rintro ⟨q1, q2, s, r, c, g1, _⟩
    rw [h] at g1; cases g1
  rw [h]
  simp only [ngx_quic_parse_frame_step]
  rcases parse_int_safe buf p1 e he with h2 | ⟨p2, retire, h2, hp2, hp2e⟩
  · rw [h2]
    refine ⟨_, rfl, Or.inl ⟨?_, rfl, rfl⟩⟩
    rintro ⟨q1, q2, s, r, c, g1, g2, _⟩
    rw [h] at g1; cases g1
    rw [h2] at g2; cases g2
  rw [h2]
  dsimp only
  by_cases hr : retire > seq
  · rw [if_pos hr]
    refine ⟨_, rfl, Or.inl ⟨?_, rfl, rfl⟩⟩
    rintro ⟨q1, q2, s, r, c, g1, g2, _, _, g5, _⟩
    rw [h] at g1; cases g1
    rw [h2] at g2; cases g2
    omega
  rw [if_neg hr]
  by_cases hlt : p2 < e
  swap
  · have hn : ngx_quic_read_uint8 buf p2 e = Rd.null := by
      unfold ngx_quic_read_uint8
      rw [size_t_diff_le _ _ hp2e, if_pos (by omega)]
    rw [hn]
    refine ⟨_, rfl, Or.inl ⟨?_, rfl, rfl⟩⟩
    rintro ⟨q1, q2, s, r, c, g1, g2, g3, _⟩
    rw [h] at g1; cases g1
    rw [h2] at g2; cases g2
    omega
  obtain ⟨c, hc, hr8⟩ := read_uint8_get buf p2 e he hlt
  rw [hr8]
  dsimp only
  by_cases hcl : c.val < 1 ∨ c.val > NGX_QUIC_CID_LEN_MAX
  · rw [if_pos hcl]
    refine ⟨_, rfl, Or.inl ⟨?_, rfl, rfl⟩⟩
    rintro ⟨q1, q2, s, r, c', g1, g2, _, g4, _, g6, g7, _⟩
    rw [h] at g1; cases g1
    rw [h2] at g2; cases g2
    have : c' = c := Option.some.inj (g4.symm.trans hc)
    subst this
    unfold NGX_QUIC_CID_LEN_MAX at hcl
    omega
  rw [if_neg hcl]
  unfold NGX_QUIC_CID_LEN_MAX at hcl
  rcases copy_bytes_safe buf (p2 + 1) e c.val he (by omega) with h3 | ⟨h3, hfit1⟩
  · rw [h3]
    have hnf : ¬ (p2 + 1 + c.val ≤ e) := by
      intro hle
      unfold ngx_quic_copy_bytes at h3
      rw [size_t_diff_le _ _ (by omega), if_neg (by omega), if_neg (by omega)] at h3
      cases h3
    refine ⟨_, rfl, Or.inl ⟨?_, rfl, rfl⟩⟩
    rintro ⟨q1, q2, s, r, c', g1, g2, _, g4, _, _, _, g8⟩
    rw [h] at g1; cases g1
    rw [h2] at g2; cases g2
    have : c' = c := Option.some.inj (g4.symm.trans hc)
    subst this
    omega
  rw [h3]
  dsimp only
  rcases copy_bytes_safe buf (p2 + 1 + c.val) e NGX_QUIC_SR_TOKEN_LEN he hfit1
    with h4 | ⟨h4, hfit2⟩
  · rw [h4]
    have hnf : ¬ (p2 + 1 + c.val + 16 ≤ e) := by
      intro hle
      unfold ngx_quic_copy_bytes NGX_QUIC_SR_TOKEN_LEN at h4
      rw [size_t_diff_le _ _ (by omega), if_neg (by omega), if_neg (by omega)] at h4
      cases h4
    refine ⟨_, rfl, Or.inl ⟨?_, rfl, rfl⟩⟩
    rintro ⟨q1, q2, s, r, c', g1, g2, _, g4, _, _, _, g8⟩
    rw [h] at g1; cases g1
    rw [h2] at g2; cases g2
    have : c' = c := Option.some.inj (g4.symm.trans hc)
    subst this
    omega
  rw [h4]
  dsimp only
  unfold NGX_QUIC_SR_TOKEN_LEN at hfit2
  refine ⟨_, rfl, Or.inr ⟨⟨p1, p2, seq, retire, c, h, h2, hlt, hc, by omega, by omega, by omega,
    hfit2⟩, p1, p2, c, rfl, h2, hc, rfl, ?_, ?_, ?_, hfit2, rfl, rfl, rfl, rfl, rfl, rfl⟩⟩
  · show retire ≤ seq
    omega
  · show 1 ≤ c.val
    omega
  · show c.val ≤ 20
    omega

/-! ## Frames cut short -/

theorem parse_int_loop_pos (buf : List u_char) :
    ∀ (n p v p1 v1 : Nat), ngx_quic_parse_int_loop buf n p v = Rd.ok (p1, v1) → p1 = p + n := by
  intro n
  induction n with
  | zero =>
    intro p v p1 v1 h
    unfold ngx_quic_parse_int_loop at h
    cases h
    rfl
  | succ n ih =>
    intro p v p1 v1 h
    unfold ngx_quic_parse_int_loop at h
    cases hb : buf[p]? with
    | none => rw [hb] at h; cases h
    | some c =>
      rw [hb] at h
      have := ih _ _ _ _ h
      omega

/-- A successful `ngx_quic_parse_int`, run again on a buffer with another end
`e2`, either gives the same result inside the new buffer or fails. -/
theorem parse_int_cut (buf : List u_char) (pos e e2 p1 v : Nat)
    (h : ngx_quic_parse_int buf pos e = Rd.ok (p1, v)) :
    (p1 ≤ e2 ∧ ngx_quic_parse_int buf pos e2 = Rd.ok (p1, v))
      ∨ ngx_quic_parse_int buf pos e2 = Rd.null := by
  unfold ngx_quic_parse_int at h ⊢
  by_cases h1 : pos ≥ e
  · rw [if_pos h1] at h; cases h
  rw [if_neg h1] at h
  cases hb : buf[pos]? with
  | none => rw [hb] at h; cases h
  | some c =>
    rw [hb] at h
    dsimp only at h ⊢
    rw [size_t_diff_le _ _ (by omega)] at h
    split_ifs at h with h2
    have hp := parse_int_loop_pos buf _ _ _ _ _ h
    by_cases h3 : pos ≥ e2
    · right; rw [if_pos h3]
    rw [if_neg h3, size_t_diff_le _ _ (by omega)]
    by_cases h4 : e2 - (pos + 1) < 1 <<< (c.val >>> 6) - 1
    · right; rw [if_pos h4]
    · left
      rw [if_neg h4]
      exact ⟨by omega, h⟩

theorem read_uint8_cut (buf : List u_char) (pos e e2 p1 v : Nat)
    (h : ngx_quic_read_uint8 buf pos e = Rd.ok (p1, v)) (hp : pos ≤ e2) :
    (p1 ≤ e2 ∧ ngx_quic_read_uint8 buf pos e2 = Rd.ok (p1, v))
      ∨ ngx_quic_read_uint8 buf pos e2 = Rd.null := by
  unfold ngx_quic_read_uint8 at h ⊢
  split_ifs at h with h1
  rw [size_t_diff_le _ _ hp]
  by_cases h2 : e2 - pos < 1
  · right; rw [if_pos h2]
  · left
    rw [if_neg h2]
    cases hb : buf[pos]? with
    | none => rw [hb] at h; cases h
    | some c =>
      rw [hb] at h
      have e1 : p1 = pos + 1 := (congrArg Prod.fst (Rd.ok.inj h)).symm
      exact ⟨by omega, h⟩

theorem read_bytes_cut (pos e e2 len p1 v : Nat)
    (h : ngx_quic_read_bytes pos e len = Rd.ok (p1, v)) (hp : pos ≤ e2) :
    (p1 ≤ e2 ∧ ngx_quic_read_bytes pos e2 len = Rd.ok (p1, v))
      ∨ ngx_quic_read_bytes pos e2 len = Rd.null := by
  unfold ngx_quic_read_bytes at h ⊢
  split_ifs at h with h1
  rw [size_t_diff_le _ _ hp]
  by_cases h2 : e2 - pos < len
  · right; rw [if_pos h2]
  · left
    rw [if_neg h2]
    have e1 : p1 = pos + len := (congrArg Prod.fst (Rd.ok.inj h)).symm
    exact ⟨by omega, h⟩

theorem copy_bytes_cut (buf : List u_char) (pos e e2 len p1 : Nat) (v : List u_char)
    (h : ngx_quic_copy_bytes buf pos e len = Rd.ok (p1, v)) (hp : pos ≤ e2) :
    (p1 ≤ e2 ∧ ngx_quic_copy_bytes buf pos e2 len = Rd.ok (p1, v))
      ∨ ngx_quic_copy_bytes buf pos e2 len = Rd.null := by
  unfold ngx_quic_copy_bytes at h ⊢
  split_ifs at h with h1 h2
  rw [size_t_diff_le _ _ hp]
  by_cases h3 : e2 - pos < len
  · right; rw [if_pos h3]
  · left
    rw [if_neg h3, if_neg h2]
    have e1 : p1 = pos + len := (congrArg Prod.fst (Rd.ok.inj h)).symm
    exact ⟨by omega, h⟩

theorem ack_ranges_cut (buf : List u_char) (e e2 : Nat) :
    ∀ (n pos q : Nat) (u : Unit),
      ngx_quic_parse_frame_ack_ranges buf e n pos = Rd.ok (q, u) → pos ≤ e2 →
      (q ≤ e2 ∧ ngx_quic_parse_frame_ack_ranges buf e2 n pos = Rd.ok (q, u))
        ∨ ngx_quic_parse_frame_ack_ranges buf e2 n pos = Rd.null := by
  intro n
  induction n with
  | zero =>
    intro pos q u h hp
    unfold ngx_quic_parse_frame_ack_ranges at h ⊢
    have e1 : q = pos := (congrArg Prod.fst (Rd.ok.inj h)).symm
    exact Or.inl ⟨by omega, h⟩
  | succ n ih =>
    intro pos q u h hp
    unfold ngx_quic_parse_frame_ack_ranges at h ⊢
    cases h1 : ngx_quic_parse_int buf pos e with
    | fault => rw [h1] at h; cases h
    | null => rw [h1] at h; cases h
    | ok r1 =>
      obtain ⟨p1, v1⟩ := r1
      rw [h1] at h
      dsimp only at h
      rcases parse_int_cut buf pos e e2 p1 v1 h1 with ⟨hp1, c1⟩ | c1
      swap
      · right; rw [c1]
      rw [c1]
      dsimp only
      cases h2 : ngx_quic_parse_int buf p1 e with
      | fault => rw [h2] at h; cases h
      | null => rw [h2] at h; cases h
      | ok r2 =>
        obtain ⟨p2, v2⟩ := r2
        rw [h2] at h
        dsimp only at h
        rcases parse_int_cut buf p1 e e2 p2 v2 h2 with ⟨hp2, c2⟩ | c2
        swap
        · right; rw [c2]
        rw [c2]
        dsimp only
        exact ih p2 q u h hp2

theorem cut_error (start e2 : Nat) (pkt : ngx_quic_header_t) (f : ngx_quic_frame_t)
    (b : ngx_buf_t) (r2 : Exec ngx_quic_parse_frame_ret) :
    rejected_when_cut start e2 (ngx_quic_parse_frame_error pkt f b) r2 := by
  intro ret hr hne _ _
  have e1 : ret.rc = NGX_ERROR :=
    congrArg ngx_quic_parse_frame_ret.rc (Exec.done.inj hr).symm
  exact absurd e1 hne

theorem cut_rc_error (start e2 : Nat) (pkt : ngx_quic_header_t) (f : ngx_quic_frame_t)
    (b : ngx_buf_t) (r2 : Exec ngx_quic_parse_frame_ret) :
    rejected_when_cut start e2 (Exec.done { rc := NGX_ERROR, pkt := pkt, f := f, b := b }) r2 := by
  intro ret hr hne _ _
  have e1 : ret.rc = NGX_ERROR :=
    congrArg ngx_quic_parse_frame_ret.rc (Exec.done.inj hr).symm
  exact absurd e1 hne

/-- One guarded read of the frame parser, on the two buffers. -/
theorem cut_step {α : Type} {start e2 : Nat} (rd rd2 : Rd (Nat × α))
    (pkt : ngx_quic_header_t) (f : ngx_quic_frame_t) (b : ngx_buf_t)
    (k k2 : Nat → α → Exec ngx_quic_parse_frame_ret)
    (hcut : ∀ p a, rd = Rd.ok (p, a) → (p ≤ e2 ∧ rd2 = Rd.ok (p, a)) ∨ rd2 = Rd.null)
    (hk : ∀ p a, rd = Rd.ok (p, a) → p ≤ e2 → rejected_when_cut start e2 (k p a) (k2 p a)) :
    rejected_when_cut start e2 (ngx_quic_parse_frame_step rd pkt f b k)
      (ngx_quic_parse_frame_step rd2 pkt f b k2) := by
  cases h : rd with
  | fault =>
    intro ret hr _ _ _
    cases hr
  | null => exact cut_error start e2 pkt f b _
  | ok r =>
    obtain ⟨p, a⟩ := r
    rcases hcut p a h with ⟨hp, c⟩ | c
    · rw [c]
      exact hk p a h hp
    · rw [c]
      intro ret _ _ _ _
      exact ⟨_, rfl, rfl, rfl⟩

theorem cut_parse_int {start e2 : Nat} {buf : List u_char} (pos e : Nat)
    (pkt : ngx_quic_header_t) (f : ngx_quic_frame_t) (b : ngx_buf_t)
    (k k2 : Nat → Nat → Exec ngx_quic_parse_frame_ret)
    (hk : ∀ p v, p ≤ e2 → rejected_when_cut start e2 (k p v) (k2 p v)) :
    rejected_when_cut start e2
      (ngx_quic_parse_frame_step (ngx_quic_parse_int buf pos e) pkt f b k)
      (ngx_quic_parse_frame_step (ngx_quic_parse_int buf pos e2) pkt f b k2) :=
  cut_step _ _ pkt f b k k2 (fun p a h => parse_int_cut buf pos e e2 p a h)
    (fun p a _ hp => hk p a hp)

theorem cut_read_uint8 {start e2 : Nat} {buf : List u_char} (pos e : Nat)
    (pkt : ngx_quic_header_t) (f : ngx_quic_frame_t) (b : ngx_buf_t)
    (k k2 : Nat → Nat → Exec ngx_quic_parse_frame_ret) (hp : pos ≤ e2)
    (hk : ∀ p v, p ≤ e2 → rejected_when_cut start e2 (k p v) (k2 p v)) :
    rejected_when_cut start e2
      (ngx_quic_parse_frame_step (ngx_quic_read_uint8 buf pos e) pkt f b k)
      (ngx_quic_parse_frame_step (ngx_quic_read_uint8 buf pos e2) pkt f b k2) :=
  cut_step _ _ pkt f b k k2 (fun p a h => read_uint8_cut buf pos e e2 p a h hp)
    (fun p a _ hp => hk p a hp)

theorem cut_read_bytes {start e2 : Nat} (pos e len : Nat)
    (pkt : ngx_quic_header_t) (f : ngx_quic_frame_t) (b : ngx_buf_t)
    (k k2 : Nat → Nat → Exec ngx_quic_parse_frame_ret) (hp : pos ≤ e2)
    (hk : ∀ p v, p ≤ e2 → rejected_when_cut start e2 (k p v) (k2 p v)) :
    rejected_when_cut start e2
      (ngx_quic_parse_frame_step (ngx_quic_read_bytes pos e len) pkt f b k)
      (ngx_quic_parse_frame_step (ngx_quic_read_bytes pos e2 len) pkt f b k2) :=
  cut_step _ _ pkt f b k k2 (fun p a h => read_bytes_cut pos e e2 len p a h hp)
    (fun p a _ hp => hk p a hp)

theorem cut_copy_bytes {start e2 : Nat} {buf : List u_char} (pos e len : Nat)
    (pkt : ngx_quic_header_t) (f : ngx_quic_frame_t) (b : ngx_buf_t)
    (k k2 : Nat → List u_char → Exec ngx_quic_parse_frame_ret) (hp : pos ≤ e2)
    (hk : ∀ p v, p ≤ e2 → rejected_when_cut start e2 (k p v) (k2 p v)) :
    rejected_when_cut start e2
      (ngx_quic_parse_frame_step (ngx_quic_copy_bytes buf pos e len) pkt f b k)
      (ngx_quic_parse_frame_step (ngx_quic_copy_bytes buf pos e2 len) pkt f b k2) :=
  cut_step _ _ pkt f b k k2 (fun p a h => copy_bytes_cut buf pos e e2 len p a h hp)
    (fun p a _ hp => hk p a hp)

theorem cut_ack_ranges {start e2 : Nat} {buf : List u_char} (n pos e : Nat)
    (pkt : ngx_quic_header_t) (f : ngx_quic_frame_t) (b : ngx_buf_t)
    (k k2 : Nat → Unit → Exec ngx_quic_parse_frame_ret) (hp : pos ≤ e2)
    (hk : ∀ p v, p ≤ e2 → rejected_when_cut start e2 (k p v) (k2 p v)) :
    rejected_when_cut start e2
      (ngx_quic_parse_frame_step (ngx_quic_parse_frame_ack_ranges buf e n pos) pkt f b k)
      (ngx_quic_parse_frame_step (ngx_quic_parse_frame_ack_ranges buf e2 n pos) pkt f b k2) :=
  cut_step _ _ pkt f b k k2 (fun p a h => ack_ranges_cut buf e e2 n pos p a h hp)
    (fun p a _ hp => hk p a hp)

/-- A frame that ends inside the shorter buffer is no frame cut short. -/
theorem cut_return {start e2 : Nat} (pkt : ngx_quic_header_t) (p : Nat)
    (f : ngx_quic_frame_t) (b : ngx_buf_t) (r2 : Exec ngx_quic_parse_frame_ret)
    (hp : p ≤ e2) :
    rejected_when_cut start e2 (ngx_quic_parse_frame_return pkt start p f b) r2 := by
  intro ret hr _ _ hlt
  exfalso
  have e1 : ret.rc = (p : Int) - (start : Int) :=
    congrArg ngx_quic_parse_frame_ret.rc (Exec.done.inj hr).symm
  rw [e1] at hlt
  omega

/-- A frame of a type outside `truncation_checked_type` is outside the relation. -/
theorem cut_return_unchecked {start e2 : Nat} (pkt : ngx_quic_header_t) (p : Nat)
    (f : ngx_quic_frame_t) (b : ngx_buf_t) (r2 : Exec ngx_quic_parse_frame_ret)
    (hty : ¬ truncation_checked_type f.type) :
    rejected_when_cut start e2 (ngx_quic_parse_frame_return pkt start p f b) r2 := by
  intro ret hr _ ht _
  exfalso
  have e1 : ret.f.type = f.type :=
    congrArg (fun r => r.f.type) (Exec.done.inj hr).symm
  rw [e1] at ht
  exact hty ht

theorem cut_step_any {α : Type} {start e2 : Nat} (rd : Rd (Nat × α))
    (pkt : ngx_quic_header_t) (f : ngx_quic_frame_t) (b : ngx_buf_t)
    (k : Nat → α → Exec ngx_quic_parse_frame_ret) (r2 : Exec ngx_quic_parse_frame_ret)
    (hk : ∀ p a, rejected_when_cut start e2 (k p a) r2) :
    rejected_when_cut start e2 (ngx_quic_parse_frame_step rd pkt f b k) r2 := by
  cases h : rd with
  | fault =>
    intro ret hr _ _ _
    cases hr
  | null => exact cut_error start e2 pkt f b _
  | ok r =>
    obtain ⟨p, a⟩ := r
    exact hk p a

/-! ## The cases of the frame parser on a buffer cut short -/

theorem cut_crypto (pkt : ngx_quic_header_t) (buf : List u_char) (start e e2 p : Nat)
    (f : ngx_quic_frame_t) (b : ngx_buf_t) (hp : p ≤ e2) :
    rejected_when_cut start e2 (ngx_quic_parse_frame_crypto pkt buf start e p f b)
      (ngx_quic_parse_frame_crypto pkt buf start e2 p f b) := by
  unfold ngx_quic_parse_frame_crypto
  try dsimp only
  repeat' (first
    | exact cut_error _ _ _ _ _ _
    | refine cut_parse_int _ _ _ _ _ _ _ fun _ _ _ => ?_
    | refine cut_read_uint8 _ _ _ _ _ _ _ (by omega) fun _ _ _ => ?_
    | refine cut_read_bytes _ _ _ _ _ _ _ _ (by omega) fun _ _ _ => ?_
    | refine cut_copy_bytes _ _ _ _ _ _ _ _ (by omega) fun _ _ _ => ?_
    | refine cut_ack_ranges _ _ _ _ _ _ _ _ (by omega) fun _ _ _ => ?_
    | exact cut_return _ _ _ _ _ (by omega)
    | split_ifs)

theorem cut_ack (pkt : ngx_quic_header_t) (buf : List u_char) (start e e2 p : Nat)
    (f : ngx_quic_frame_t) (b : ngx_buf_t) (hp : p ≤ e2) :
    rejected_when_cut start e2 (ngx_quic_parse_frame_ack pkt buf start e p f b)
      (ngx_quic_parse_frame_ack pkt buf start e2 p f b) := by
  unfold ngx_quic_parse_frame_ack
  try dsimp only
  repeat' (first
    | exact cut_error _ _ _ _ _ _
    | refine cut_parse_int _ _ _ _ _ _ _ fun _ _ _ => ?_
    | refine cut_read_uint8 _ _ _ _ _ _ _ (by omega) fun _ _ _ => ?_
    | refine cut_read_bytes _ _ _ _ _ _ _ _ (by omega) fun _ _ _ => ?_
    | refine cut_copy_bytes _ _ _ _ _ _ _ _ (by omega) fun _ _ _ => ?_
    | refine cut_ack_ranges _ _ _ _ _ _ _ _ (by omega) fun _ _ _ => ?_
    | exact cut_return _ _ _ _ _ (by omega)
    | split_ifs)

theorem cut_new_connection_id (pkt : ngx_quic_header_t) (buf : List u_char) (start e e2 p : Nat)
    (f : ngx_quic_frame_t) (b : ngx_buf_t) (hp : p ≤ e2) :
    rejected_when_cut start e2 (ngx_quic_parse_frame_new_connection_id pkt buf start e p f b)
      (ngx_quic_parse_frame_new_connection_id pkt buf start e2 p f b) := by
  unfold ngx_quic_parse_frame_new_connection_id
  try dsimp only
  repeat' (first
    | exact cut_error _ _ _ _ _ _
    | refine cut_parse_int _ _ _ _ _ _ _ fun _ _ _ => ?_
    | refine cut_read_uint8 _ _ _ _ _ _ _ (by omega) fun _ _ _ => ?_
    | refine cut_read_bytes _ _ _ _ _ _ _ _ (by omega) fun _ _ _ => ?_
    | refine cut_copy_bytes _ _ _ _ _ _ _ _ (by omega) fun _ _ _ => ?_
    | refine cut_ack_ranges _ _ _ _ _ _ _ _ (by omega) fun _ _ _ => ?_
    | exact cut_return _ _ _ _ _ (by omega)
    | split_ifs)

theorem cut_retire_connection_id (pkt : ngx_quic_header_t) (buf : List u_char) (start e e2 p : Nat)
    (f : ngx_quic_frame_t) (b : ngx_buf_t) (hp : p ≤ e2) :
    rejected_when_cut start e2 (ngx_quic_parse_frame_retire_connection_id pkt buf start e p f b)
      (ngx_quic_parse_frame_retire_connection_id pkt buf start e2 p f b) := by
  unfold ngx_quic_parse_frame_retire_connection_id
  try dsimp only
  repeat' (first
    | exact cut_error _ _ _ _ _ _
    | refine cut_parse_int _ _ _ _ _ _ _ fun _ _ _ => ?_
    | refine cut_read_uint8 _ _ _ _ _ _ _ (by omega) fun _ _ _ => ?_
    | refine cut_read_bytes _ _ _ _ _ _ _ _ (by omega) fun _ _ _ => ?_
    | refine cut_copy_bytes _ _ _ _ _ _ _ _ (by omega) fun _ _ _ => ?_
    | refine cut_ack_ranges _ _ _ _ _ _ _ _ (by omega) fun _ _ _ => ?_
    | exact cut_return _ _ _ _ _ (by omega)
    | split_ifs)

theorem cut_connection_close (pkt : ngx_quic_header_t) (buf : List u_char) (start e e2 p : Nat)
    (f : ngx_quic_frame_t) (b : ngx_buf_t) (hp : p ≤ e2) :
    rejected_when_cut start e2 (ngx_quic_parse_frame_connection_close pkt buf start e p f b)
      (ngx_quic_parse_frame_connection_close pkt buf start e2 p f b) := by
  unfold ngx_quic_parse_frame_connection_close
  try dsimp only
  repeat' (first
    | exact cut_error _ _ _ _ _ _
    | refine cut_parse_int _ _ _ _ _ _ _ fun _ _ _ => ?_
    | refine cut_read_uint8 _ _ _ _ _ _ _ (by omega) fun _ _ _ => ?_
    | refine cut_read_bytes _ _ _ _ _ _ _ _ (by omega) fun _ _ _ => ?_
    | refine cut_copy_bytes _ _ _ _ _ _ _ _ (by omega) fun _ _ _ => ?_
    | refine cut_ack_ranges _ _ _ _ _ _ _ _ (by omega) fun _ _ _ => ?_
    | exact cut_return _ _ _ _ _ (by omega)
    | split_ifs)

theorem cut_max_data (pkt : ngx_quic_header_t) (buf : List u_char) (start e e2 p : Nat)
    (f : ngx_quic_frame_t) (b : ngx_buf_t) (hp : p ≤ e2) :
    rejected_when_cut start e2 (ngx_quic_parse_frame_max_data pkt buf start e p f b)
      (ngx_quic_parse_frame_max_data pkt buf start e2 p f b) := by
  unfold ngx_quic_parse_frame_max_data
  try dsimp only
  repeat' (first
    | exact cut_error _ _ _ _ _ _
    | refine cut_parse_int _ _ _ _ _ _ _ fun _ _ _ => ?_
    | refine cut_read_uint8 _ _ _ _ _ _ _ (by omega) fun _ _ _ => ?_
    | refine cut_read_bytes _ _ _ _ _ _ _ _ (by omega) fun _ _ _ => ?_
    | refine cut_copy_bytes _ _ _ _ _ _ _ _ (by omega) fun _ _ _ => ?_
    | refine cut_ack_ranges _ _ _ _ _ _ _ _ (by omega) fun _ _ _ => ?_
    | exact cut_return _ _ _ _ _ (by omega)
    | split_ifs)

theorem cut_reset_stream (pkt : ngx_quic_header_t) (buf : List u_char) (start e e2 p : Nat)
    (f : ngx_quic_frame_t) (b : ngx_buf_t) (hp : p ≤ e2) :
    rejected_when_cut start e2 (ngx_quic_parse_frame_reset_stream pkt buf start e p f b)
      (ngx_quic_parse_frame_reset_stream pkt buf start e2 p f b) := by
  unfold ngx_quic_parse_frame_reset_stream
  try dsimp only
  repeat' (first
    | exact cut_error _ _ _ _ _ _
    | refine cut_parse_int _ _ _ _ _ _ _ fun _ _ _ => ?_
    | refine cut_read_uint8 _ _ _ _ _ _ _ (by omega) fun _ _ _ => ?_
    | refine cut_read_bytes _ _ _ _ _ _ _ _ (by omega) fun _ _ _ => ?_
    | refine cut_copy_bytes _ _ _ _ _ _ _ _ (by omega) fun _ _ _ => ?_
    | refine cut_ack_ranges _ _ _ _ _ _ _ _ (by omega) fun _ _ _ => ?_
    | exact cut_return _ _ _ _ _ (by omega)
    | split_ifs)

theorem cut_stop_sending (pkt : ngx_quic_header_t) (buf : List u_char) (start e e2 p : Nat)
    (f : ngx_quic_frame_t) (b : ngx_buf_t) (hp : p ≤ e2) :
    rejected_when_cut start e2 (ngx_quic_parse_frame_stop_sending pkt buf start e p f b)
      (ngx_quic_parse_frame_stop_sending pkt buf start e2 p f b) := by
  unfold ngx_quic_parse_frame_stop_sending
  try dsimp only
  repeat' (first
    | exact cut_error _ _ _ _ _ _
    | refine cut_parse_int _ _ _ _ _ _ _ fun _ _ _ => ?_
    | refine cut_read_uint8 _ _ _ _ _ _ _ (by omega) fun _ _ _ => ?_
    | refine cut_read_bytes _ _ _ _ _ _ _ _ (by omega) fun _ _ _ => ?_
    | refine cut_copy_bytes _ _ _ _ _ _ _ _ (by omega) fun _ _ _ => ?_
    | refine cut_ack_ranges _ _ _ _ _ _ _ _ (by omega) fun _ _ _ => ?_
    | exact cut_return _ _ _ _ _ (by omega)
    | split_ifs)

theorem cut_streams_blocked (pkt : ngx_quic_header_t) (buf : List u_char) (start e e2 p : Nat)
    (f : ngx_quic_frame_t) (b : ngx_buf_t) (hp : p ≤ e2) :
    rejected_when_cut start e2 (ngx_quic_parse_frame_streams_blocked pkt buf start e p f b)
      (ngx_quic_parse_frame_streams_blocked pkt buf start e2 p f b) := by
  unfold ngx_quic_parse_frame_streams_blocked
  try dsimp only
  repeat' (first
    | exact cut_error _ _ _ _ _ _
    | refine cut_parse_int _ _ _ _ _ _ _ fun _ _ _ => ?_
    | refine cut_read_uint8 _ _ _ _ _ _ _ (by omega) fun _ _ _ => ?_
    | refine cut_read_bytes _ _ _ _ _ _ _ _ (by omega) fun _ _ _ => ?_
    | refine cut_copy_bytes _ _ _ _ _ _ _ _ (by omega) fun _ _ _ => ?_
    | refine cut_ack_ranges _ _ _ _ _ _ _ _ (by omega) fun _ _ _ => ?_
    | exact cut_return _ _ _ _ _ (by omega)
    | split_ifs)

theorem cut_max_streams (pkt : ngx_quic_header_t) (buf : List u_char) (start e e2 p : Nat)
    (f : ngx_quic_frame_t) (b : ngx_buf_t) (hp : p ≤ e2) :
    rejected_when_cut start e2 (ngx_quic_parse_frame_max_streams pkt buf start e p f b)
      (ngx_quic_parse_frame_max_streams pkt buf start e2 p f b) := by
  unfold ngx_quic_parse_frame_max_streams
  try dsimp only
  repeat' (first
    | exact cut_error _ _ _ _ _ _
    | refine cut_parse_int _ _ _ _ _ _ _ fun _ _ _ => ?_
    | refine cut_read_uint8 _ _ _ _ _ _ _ (by omega) fun _ _ _ => ?_
    | refine cut_read_bytes _ _ _ _ _ _ _ _ (by omega) fun _ _ _ => ?_
    | refine cut_copy_bytes _ _ _ _ _ _ _ _ (by omega) fun _ _ _ => ?_
    | refine cut_ack_ranges _ _ _ _ _ _ _ _ (by omega) fun _ _ _ => ?_
    | exact cut_return _ _ _ _ _ (by omega)
    | split_ifs)

theorem cut_max_stream_data (pkt : ngx_quic_header_t) (buf : List u_char) (start e e2 p : Nat)
    (f : ngx_quic_frame_t) (b : ngx_buf_t) (hp : p ≤ e2) :
    rejected_when_cut start e2 (ngx_quic_parse_frame_max_stream_data pkt buf start e p f b)
      (ngx_quic_parse_frame_max_stream_data pkt buf start e2 p f b) := by
  unfold ngx_quic_parse_frame_max_stream_data
  try dsimp only
  repeat' (first
    | exact cut_error _ _ _ _ _ _
    | refine cut_parse_int _ _ _ _ _ _ _ fun _ _ _ => ?_
    | refine cut_read_uint8 _ _ _ _ _ _ _ (by omega) fun _ _ _ => ?_
    | refine cut_read_bytes _ _ _ _ _ _ _ _ (by omega) fun _ _ _ => ?_
    | refine cut_copy_bytes _ _ _ _ _ _ _ _ (by omega) fun _ _ _ => ?_
    | refine cut_ack_ranges _ _ _ _ _ _ _ _ (by omega) fun _ _ _ => ?_
    | exact cut_return _ _ _ _ _ (by omega)
    | split_ifs)

theorem cut_data_blocked (pkt : ngx_quic_header_t) (buf : List u_char) (start e e2 p : Nat)
    (f : ngx_quic_frame_t) (b : ngx_buf_t) (hp : p ≤ e2) :
    rejected_when_cut start e2 (ngx_quic_parse_frame_data_blocked pkt buf start e p f b)
      (ngx_quic_parse_frame_data_blocked pkt buf start e2 p f b) := by
  unfold ngx_quic_parse_frame_data_blocked
  try dsimp only
  repeat' (first
    | exact cut_error _ _ _ _ _ _
    | refine cut_parse_int _ _ _ _ _ _ _ fun _ _ _ => ?_
    | refine cut_read_uint8 _ _ _ _ _ _ _ (by omega) fun _ _ _ => ?_
    | refine cut_read_bytes _ _ _ _ _ _ _ _ (by omega) fun _ _ _ => ?_
    | refine cut_copy_bytes _ _ _ _ _ _ _ _ (by omega) fun _ _ _ => ?_
    | refine cut_ack_ranges _ _ _ _ _ _ _ _ (by omega) fun _ _ _ => ?_
    | exact cut_return _ _ _ _ _ (by omega)
    | split_ifs)

theorem cut_stream_data_blocked (pkt : ngx_quic_header_t) (buf : List u_char) (start e e2 p : Nat)
    (f : ngx_quic_frame_t) (b : ngx_buf_t) (hp : p ≤ e2) :
    rejected_when_cut start e2 (ngx_quic_parse_frame_stream_data_blocked pkt buf start e p f b)
      (ngx_quic_parse_frame_stream_data_blocked pkt buf start e2 p f b) := by
  unfold ngx_quic_parse_frame_stream_data_blocked
  try dsimp only
  repeat' (first
    | exact cut_error _ _ _ _ _ _
    | refine cut_parse_int _ _ _ _ _ _ _ fun _ _ _ => ?_
    | refine cut_read_uint8 _ _ _ _ _ _ _ (by omega) fun _ _ _ => ?_
    | refine cut_read_bytes _ _ _ _ _ _ _ _ (by omega) fun _ _ _ => ?_
    | refine cut_copy_bytes _ _ _ _ _ _ _ _ (by omega) fun _ _ _ => ?_
    | refine cut_ack_ranges _ _ _ _ _ _ _ _ (by omega) fun _ _ _ => ?_
    | exact cut_return _ _ _ _ _ (by omega)
    | split_ifs)

theorem cut_path_challenge (pkt : ngx_quic_header_t) (buf : List u_char) (start e e2 p : Nat)
    (f : ngx_quic_frame_t) (b : ngx_buf_t) (hp : p ≤ e2) :
    rejected_when_cut start e2 (ngx_quic_parse_frame_path_challenge pkt buf start e p f b)
      (ngx_quic_parse_frame_path_challenge pkt buf start e2 p f b) := by
  unfold ngx_quic_parse_frame_path_challenge
  try dsimp only
  repeat' (first
    | exact cut_error _ _ _ _ _ _
    | refine cut_parse_int _ _ _ _ _ _ _ fun _ _ _ => ?_
    | refine cut_read_uint8 _ _ _ _ _ _ _ (by omega) fun _ _ _ => ?_
    | refine cut_read_bytes _ _ _ _ _ _ _ _ (by omega) fun _ _ _ => ?_
    | refine cut_copy_bytes _ _ _ _ _ _ _ _ (by omega) fun _ _ _ => ?_
    | refine cut_ack_ranges _ _ _ _ _ _ _ _ (by omega) fun _ _ _ => ?_
    | exact cut_return _ _ _ _ _ (by omega)
    | split_ifs)

theorem cut_path_response (pkt : ngx_quic_header_t) (buf : List u_char) (start e e2 p : Nat)
    (f : ngx_quic_frame_t) (b : ngx_buf_t) (hp : p ≤ e2) :
    rejected_when_cut start e2 (ngx_quic_parse_frame_path_response pkt buf start e p f b)
      (ngx_quic_parse_frame_path_response pkt buf start e2 p f b) := by
  unfold ngx_quic_parse_frame_path_response
  try dsimp only
  repeat' (first
    | exact cut_error _ _ _ _ _ _
    | refine cut_parse_int _ _ _ _ _ _ _ fun _ _ _ => ?_
    | refine cut_read_uint8 _ _ _ _ _ _ _ (by omega) fun _ _ _ => ?_
    | refine cut_read_bytes _ _ _ _ _ _ _ _ (by omega) fun _ _ _ => ?_
    | refine cut_copy_bytes _ _ _ _ _ _ _ _ (by omega) fun _ _ _ => ?_
    | refine cut_ack_ranges _ _ _ _ _ _ _ _ (by omega) fun _ _ _ => ?_
    | exact cut_return _ _ _ _ _ (by omega)
    | split_ifs)

theorem cut_stream (pkt : ngx_quic_header_t) (buf : List u_char) (start e e2 p : Nat)
    (f : ngx_quic_frame_t) (b : ngx_buf_t) (hp : p ≤ e2)
    (hty : 0x08 ≤ f.type ∧ f.type ≤ 0x0F) :
    rejected_when_cut start e2 (ngx_quic_parse_frame_stream pkt buf start e p f b)
      (ngx_quic_parse_frame_stream pkt buf start e2 p f b) := by
  unfold ngx_quic_parse_frame_stream
  dsimp only
  refine cut_parse_int _ _ _ _ _ _ _ fun _ _ _ => ?_
  split_ifs with hoff hlen hlen
  all_goals
    repeat' (first
      | refine cut_parse_int _ _ _ _ _ _ _ fun _ _ _ => ?_
      | refine cut_read_bytes _ _ _ _ _ _ _ _ (by omega) fun _ _ _ => ?_
      | exact cut_return _ _ _ _ _ (by omega)
      | exact cut_step_any _ _ _ _ _ _ fun _ _ =>
          cut_return_unchecked _ _ _ _ _ (fun ht => ht.2 ⟨hty.1, hty.2, not_not.mp hlen⟩))

theorem cut_padding (pkt : ngx_quic_header_t) (buf : List u_char) (start e e2 p : Nat)
    (f : ngx_quic_frame_t) (b : ngx_buf_t) (hty : f.type = NGX_QUIC_FT_PADDING) :
    rejected_when_cut start e2 (ngx_quic_parse_frame_padding pkt buf start e p f b)
      (ngx_quic_parse_frame_padding pkt buf start e2 p f b) := by
  unfold ngx_quic_parse_frame_padding
  exact cut_step_any _ _ _ _ _ _ fun _ _ =>
    cut_return_unchecked _ _ _ _ _ (fun ht => ht.1 hty)

theorem cut_switch (pkt : ngx_quic_header_t) (buf : List u_char) (start e e2 p : Nat)
    (f : ngx_quic_frame_t) (b : ngx_buf_t) (hp : p ≤ e2) :
    rejected_when_cut start e2 (ngx_quic_parse_frame_switch pkt buf start e p f b)
      (ngx_quic_parse_frame_switch pkt buf start e2 p f b) := by
  unfold ngx_quic_parse_frame_switch
  split
  · exact cut_crypto pkt buf start e e2 p f b hp
  · exact cut_padding pkt buf start e e2 p f b (by assumption)
  · exact cut_ack pkt buf start e e2 p f b hp
  · exact cut_ack pkt buf start e e2 p f b hp
  · exact cut_return _ _ _ _ _ hp
  · exact cut_new_connection_id pkt buf start e e2 p f b hp
  · exact cut_retire_connection_id pkt buf start e e2 p f b hp
  · exact cut_connection_close pkt buf start e e2 p f b hp
  · exact cut_connection_close pkt buf start e e2 p f b hp
  · exact cut_stream pkt buf start e e2 p f b hp (by omega)
  · exact cut_stream pkt buf start e e2 p f b hp (by omega)
  · exact cut_stream pkt buf start e e2 p f b hp (by omega)
  · exact cut_stream pkt buf start e e2 p f b hp (by omega)
  · exact cut_stream pkt buf start e e2 p f b hp (by omega)
  · exact cut_stream pkt buf start e e2 p f b hp (by omega)
  · exact cut_stream pkt buf start e e2 p f b hp (by omega)
  · exact cut_stream pkt buf start e e2 p f b hp (by omega)
  · exact cut_max_data pkt buf start e e2 p f b hp
  · exact cut_reset_stream pkt buf start e e2 p f b hp
  · exact cut_stop_sending pkt buf start e e2 p f b hp
  · exact cut_streams_blocked pkt buf start e e2 p f b hp
  · exact cut_streams_blocked pkt buf start e e2 p f b hp
  · exact cut_max_streams pkt buf start e e2 p f b hp
  · exact cut_max_streams pkt buf start e e2 p f b hp
  · exact cut_max_stream_data pkt buf start e e2 p f b hp
  · exact cut_data_blocked pkt buf start e e2 p f b hp
  · exact cut_stream_data_blocked pkt buf start e e2 p f b hp
  · exact cut_path_challenge pkt buf start e e2 p f b hp
  · exact cut_path_response pkt buf start e e2 p f b hp
  · exact cut_rc_error _ _ _ _ _ _

/-- The frame parser on a buffer cut short: if the run on a buffer accepts a frame
of a checked type that reaches beyond `e2`, the run on the buffer that ends at `e2`
returns ERROR with FRAME_ENCODING_ERROR. -/
theorem cut_frame (adj : Nat → Option u_char) (pkt : ngx_quic_header_t) (buf : List u_char)
    (start e e2 : Nat) (f : ngx_quic_frame_t) (b : ngx_buf_t) :
    rejected_when_cut start e2 (ngx_quic_parse_frame adj pkt buf start e f b)
      (ngx_quic_parse_frame adj pkt buf start e2 f b) := by
  unfold ngx_quic_parse_frame
  dsimp only
  refine cut_parse_int _ _ _ _ _ _ _ fun p t hp => ?_
  cases hA : ngx_quic_frame_allowed adj pkt t with
  | fault =>
    intro ret hr
    cases hr
  | done rc =>
    dsimp only
    split_ifs
    · intro ret hr hne _ _
      exact absurd (congrArg ngx_quic_parse_frame_ret.rc (Exec.done.inj hr).symm) hne
    · exact cut_switch pkt buf start e e2 p _ b hp

/-! ## Claims on the DCID fast path, the scenarios and the empty input -/

/-- C22 (the code departs from the claim): on a long-header datagram of 27 bytes
whose DCID length byte is 21, `ngx_quic_get_packet_dcid` returns OK with a DCID of
21 bytes at offset 6, above the maximum of 20 that `ngx_quic_parse_long_header`
enforces. -/
theorem get_packet_dcid_oversized :
    example_long_dcid_datagram.length = 27
      ∧ ngx_quic_get_packet_dcid example_long_dcid_datagram 0 27 { len := 0, data := 0 }
          = Exec.done (NGX_OK, { len := 21, data := 6 })
      ∧ ¬ (21 ≤ NGX_QUIC_CID_LEN_MAX) := by
  decide

/-- C25 (as stated, refuted): in a 1-RTT packet the 7 bytes `02 0a 19 02 00 02 00`
are rejected with ERROR and FRAME_ENCODING_ERROR: the range count 2 announces two
gap/range pairs and the buffer ends behind the first. -/
theorem s3_ack_counterexample :
    ngx_quic_parse_frame (fun _ => some 0) (ngx_quic_header_zero 0x40) example_s3_bytes 0 7
        ngx_quic_frame_zero { pos := 0, last := 0 }
      = Exec.done
          { rc := NGX_ERROR,
            pkt := { ngx_quic_header_zero 0x40 with
                     error := NGX_QUIC_ERR_FRAME_ENCODING_ERROR },
            f := { ngx_quic_frame_zero with
                   type := NGX_QUIC_FT_ACK
                   u.ack := { largest := 10, delay := 25, range_count := 2,
                              first_range := 0, ect0 := 0, ect1 := 0, ce := 0,
                              ranges_length := 0 } },
            b := { pos := 5, last := 0 } } := by
  decide

/-- C25 (amended): scenario S3.  In a packet type that admits ACK (Initial,
Handshake or 1-RTT), `ngx_quic_parse_frame` rejects the 7 bytes
`02 0a 19 02 00 02 00` with ERROR and FRAME_ENCODING_ERROR, and on the 7 bytes
`02 0a 19 01 00 02 00`, whose range count is 1, it succeeds consuming 7 bytes and
yields an ACK frame with largest = 10, delay = 25, range_count = 1,
first_range = 0 and ranges_length = 2. -/
theorem s3_ack_one_range (adj : Nat → Option u_char) (pkt : ngx_quic_header_t)
    (f : ngx_quic_frame_t) (b : ngx_buf_t)
    (hallow : packet_type_bit pkt.flags &&& (8 + 4 + 1) ≠ 0) :
    (∃ ret, ngx_quic_parse_frame adj pkt example_s3_bytes 0 7 f b = Exec.done ret
        ∧ ret.rc = NGX_ERROR ∧ ret.pkt.error = NGX_QUIC_ERR_FRAME_ENCODING_ERROR)
      ∧ (∃ ret, ngx_quic_parse_frame adj pkt example_s3_one_range 0 7 f b = Exec.done ret
        ∧ ret.rc = 7 ∧ ret.f.type = NGX_QUIC_FT_ACK ∧ ret.f.u.ack.largest = 10
        ∧ ret.f.u.ack.delay = 25 ∧ ret.f.u.ack.range_count = 1
        ∧ ret.f.u.ack.first_range = 0 ∧ ret.f.u.ack.ranges_length = 2) := by
  have hm : packet_type_bit pkt.flags &&& table3_mask 2 ≠ 0 := hallow
  have a1 : ngx_quic_parse_int example_s3_bytes 1 7 = Rd.ok (2, 10) := by decide
  have a2 : ngx_quic_parse_int example_s3_bytes 2 7 = Rd.ok (3, 25) := by decide
  have a3 : ngx_quic_parse_int example_s3_bytes 3 7 = Rd.ok (4, 2) := by decide
  have a4 : ngx_quic_parse_int example_s3_bytes 4 7 = Rd.ok (5, 0) := by decide
  have a5 : ngx_quic_parse_frame_ack_ranges example_s3_bytes 7 2 5 = Rd.null := by decide
  have c1 : ngx_quic_parse_int example_s3_one_range 1 7 = Rd.ok (2, 10) := by decide
  have c2 : ngx_quic_parse_int example_s3_one_range 2 7 = Rd.ok (3, 25) := by decide
  have c3 : ngx_quic_parse_int example_s3_one_range 3 7 = Rd.ok (4, 1) := by decide
  have c4 : ngx_quic_parse_int example_s3_one_range 4 7 = Rd.ok (5, 0) := by decide
  have c5 : ngx_quic_parse_frame_ack_ranges example_s3_one_range 7 1 5 = Rd.ok (7, ()) := by
    decide
  constructor
  · rw [parse_frame_type adj pkt example_s3_bytes 0 7 f b 2 [0x0a, 0x19, 0x02, 0x00, 0x02, 0x00]
      (by norm_num) (by decide) (by decide) hm]
    unfold ngx_quic_parse_frame_switch
    dsimp only
    unfold ngx_quic_parse_frame_ack
    have e1 : 0 + ngx_quic_varint_len 2 = 1 := by decide
    rw [e1, a1]
    simp only [ngx_quic_parse_frame_step]
    rw [a2]
    dsimp only
    rw [a3]
    dsimp only
    rw [a4]
    dsimp only
    rw [a5]
    exact ⟨_, rfl, rfl, rfl⟩
  · rw [parse_frame_type adj pkt example_s3_one_range 0 7 f b 2
      [0x0a, 0x19, 0x01, 0x00, 0x02, 0x00] (by norm_num) (by decide) (by decide) hm]
    unfold ngx_quic_parse_frame_switch
    dsimp only
    unfold ngx_quic_parse_frame_ack
    have e1 : 0 + ngx_quic_varint_len 2 = 1 := by decide
    rw [e1, c1]
    simp only [ngx_quic_parse_frame_step]
    rw [c2]
    dsimp only
    rw [c3]
    dsimp only
    rw [c4]
    dsimp only
    rw [c5]
    dsimp only
    rw [if_neg (by decide)]
    exact ⟨_, rfl, rfl, rfl, rfl, rfl, rfl, rfl, rfl⟩

theorem s3_ack_one_range_witness :
    packet_type_bit (ngx_quic_header_zero 0x40).flags &&& (8 + 4 + 1) ≠ 0
      ∧ (∃ ret, ngx_quic_parse_frame (fun _ => some 0) (ngx_quic_header_zero 0x40)
            example_s3_bytes 0 7 ngx_quic_frame_zero { pos := 0, last := 0 } = Exec.done ret
          ∧ ret.rc = NGX_ERROR ∧ ret.pkt.error = NGX_QUIC_ERR_FRAME_ENCODING_ERROR)
      ∧ (∃ ret, ngx_quic_parse_frame (fun _ => some 0) (ngx_quic_header_zero 0x40)
            example_s3_one_range 0 7 ngx_quic_frame_zero { pos := 0, last := 0 }
            = Exec.done ret
          ∧ ret.rc = 7 ∧ ret.f.type = NGX_QUIC_FT_ACK ∧ ret.f.u.ack.largest = 10
          ∧ ret.f.u.ack.delay = 25 ∧ ret.f.u.ack.range_count = 1
          ∧ ret.f.u.ack.first_range = 0 ∧ ret.f.u.ack.ranges_length = 2) :=
  ⟨by decide,
    s3_ack_one_range (fun _ => some 0) (ngx_quic_header_zero 0x40) ngx_quic_frame_zero
      { pos := 0, last := 0 } (by decide)⟩

/-- C27 (as stated, refuted): for the record of scenario S6 the builder
`ngx_quic_create_transport_params` writes 49 bytes, not the 9 bytes
`04 04 80 10 00 00 08 01 03`, and `ngx_quic_parse_transport_params` rejects what
the builder wrote, because the output carries the parameter original_dcid. -/
theorem s6_transport_params_counterexample :
    (ngx_quic_create_transport_params [] .buffer example_s6_record).out.length = 49
      ∧ (ngx_quic_create_transport_params [] .buffer example_s6_record).out ≠ example_s6_bytes
      ∧ ngx_quic_parse_transport_params
            (ngx_quic_create_transport_params [] .buffer example_s6_record).out 0 49
            ngx_quic_tp_zero
          = Exec.done (NGX_ERROR, example_s6_record) := by
  decide

/-- C27 (amended): scenario S6.  For the record {initial_max_data = 0x100000,
initial_max_streams_bidi = 3}, every other field zero or empty,
`ngx_quic_create_transport_params` writes every parameter of the builder, 49 bytes
in all, in which `04 04 80 10 00 00` encodes initial_max_data and `08 01 03`
encodes initial_max_streams_bidi, and returns 49 with and without a buffer; and
`ngx_quic_parse_transport_params` on the 9 bytes `04 04 80 10 00 00 08 01 03`
returns OK and turns the all-zero record into that record. -/
theorem s6_transport_params :
    ngx_quic_create_transport_params [] .buffer example_s6_record
        = { rc := 49, out := example_s6_encoded, clen := 24 }
      ∧ ngx_quic_create_transport_params [] .NULL example_s6_record
        = { rc := 49, out := [], clen := 24 }
      ∧ example_s6_encoded.take 6 = [0x04, 0x04, 0x80, 0x10, 0x00, 0x00]
      ∧ (example_s6_encoded.drop 9).take 3 = [0x08, 0x01, 0x03]
      ∧ ngx_quic_parse_transport_params example_s6_bytes 0 9 ngx_quic_tp_zero
        = Exec.done (NGX_OK, example_s6_record) := by
  decide

/-- C28 (as stated, refuted): for a Retry packet descriptor whose flags byte is
0xf0, the byte that `ngx_quic_create_retry_itag` writes at `*start` is 0xff, not
the flags byte of the descriptor. -/
theorem retry_itag_flags_counterexample :
    example_retry_pkt.flags = 0xF0
      ∧ (ngx_quic_create_retry_itag [1, 2, 3, 4, 5, 6] example_retry_pkt).out
          = [2, 1, 2, 0xff, 0, 0, 0, 1, 1, 3, 0, 4, 5, 6]
      ∧ (ngx_quic_create_retry_itag [1, 2, 3, 4, 5, 6] example_retry_pkt).start = 3
      ∧ (ngx_quic_create_retry_itag [1, 2, 3, 4, 5, 6] example_retry_pkt).out[3]?
          ≠ some example_retry_pkt.flags := by
  decide

/-- C28 (amended): Retry pseudo-packet layout.  For every packet descriptor whose
CID lengths are at most 20 and whose slices lie in the memory,
`ngx_quic_create_retry_itag` writes exactly
odcid_len | odcid | 0xff | version (4 bytes big-endian) | dcid_len | dcid |
scid_len | scid | token, where the byte in the place of the flags is the constant
0xff; it returns 1 + odcid.len + 7 + dcid.len + scid.len + token.len and sets
`*start` to the position of that byte, at offset 1 + odcid.len. -/
theorem retry_itag_layout (mem : List u_char) (pkt : ngx_quic_header_t)
    (ho : pkt.odcid.len ≤ 20) (hd : pkt.dcid.len ≤ 20) (hs : pkt.scid.len ≤ 20)
    (hmo : pkt.odcid.data + pkt.odcid.len ≤ mem.length)
    (hmd : pkt.dcid.data + pkt.dcid.len ≤ mem.length)
    (hms : pkt.scid.data + pkt.scid.len ≤ mem.length)
    (hmt : pkt.token.data + pkt.token.len ≤ mem.length) :
    (ngx_quic_create_retry_itag mem pkt).out
        = to_u_char pkt.odcid.len :: (mem_bytes mem pkt.odcid.data pkt.odcid.len
          ++ (0xff :: (be_bytes pkt.version 4
          ++ (to_u_char pkt.dcid.len :: (mem_bytes mem pkt.dcid.data pkt.dcid.len
          ++ (to_u_char pkt.scid.len :: (mem_bytes mem pkt.scid.data pkt.scid.len
          ++ mem_bytes mem pkt.token.data pkt.token.len)))))))
      ∧ (to_u_char pkt.odcid.len).val = pkt.odcid.len
      ∧ (to_u_char pkt.dcid.len).val = pkt.dcid.len
      ∧ (to_u_char pkt.scid.len).val = pkt.scid.len
      ∧ (ngx_quic_create_retry_itag mem pkt).rc
          = 1 + pkt.odcid.len + 7 + pkt.dcid.len + pkt.scid.len + pkt.token.len
      ∧ (ngx_quic_create_retry_itag mem pkt).out.length
          = (ngx_quic_create_retry_itag mem pkt).rc
      ∧ (ngx_quic_create_retry_itag mem pkt).start = 1 + pkt.odcid.len
      ∧ (ngx_quic_create_retry_itag mem pkt).out[(ngx_quic_create_retry_itag mem pkt).start]?
          = some 0xff := by
  have l1 := mem_bytes_length mem _ _ hmo
  have l2 := mem_bytes_length mem _ _ hmd
  have l3 := mem_bytes_length mem _ _ hms
  have l4 := mem_bytes_length mem _ _ hmt
  have hst : (ngx_quic_create_retry_itag mem pkt).start = 1 + pkt.odcid.len := by
    simp only [ngx_quic_create_retry_itag, List.length_append, List.length_cons,
      List.length_nil, l1]

  have hrc : (ngx_quic_create_retry_itag mem pkt).rc
      = 1 + pkt.odcid.len + 7 + pkt.dcid.len + pkt.scid.len + pkt.token.len := by
    simp only [ngx_quic_create_retry_itag, ngx_quic_write_uint32, List.length_append,
      List.length_cons, List.length_nil, l1, l2, l3, l4]
    omega
  refine ⟨?_, ?_, ?_, ?_, hrc, ?_, hst, ?_⟩
  · simp only [ngx_quic_create_retry_itag, ngx_quic_write_uint32, be_bytes_4,
      Nat.shiftRight_eq_div_pow, List.append_assoc, List.cons_append, List.nil_append]
  · rw [to_u_char_val]; omega
  · rw [to_u_char_val]; omega
  · rw [to_u_char_val]; omega
  · rw [hrc]
    simp only [ngx_quic_create_retry_itag, ngx_quic_write_uint32, List.length_append,
      List.length_cons, List.length_nil, l1, l2, l3, l4]
    omega
  · rw [hst]
    simp only [ngx_quic_create_retry_itag, List.append_assoc, List.cons_append,
      List.nil_append]
    rw [Nat.add_comm 1, List.getElem?_cons_succ, List.getElem?_append_right (by omega)]
    simp [l1]

theorem retry_itag_layout_witness :
    (example_retry_pkt.odcid.len ≤ 20 ∧ example_retry_pkt.dcid.len ≤ 20
        ∧ example_retry_pkt.scid.len ≤ 20)
      ∧ (ngx_quic_create_retry_itag [1, 2, 3, 4, 5, 6] example_retry_pkt).rc = 14
      ∧ (ngx_quic_create_retry_itag [1, 2, 3, 4, 5, 6] example_retry_pkt).out
          = [2, 1, 2, 0xff, 0, 0, 0, 1, 1, 3, 0, 4, 5, 6]
      ∧ (ngx_quic_create_retry_itag [1, 2, 3, 4, 5, 6] example_retry_pkt).out[
          (ngx_quic_create_retry_itag [1, 2, 3, 4, 5, 6] example_retry_pkt).start]?
          = some 0xff :=
  ⟨by decide, by decide, by decide,
    (retry_itag_layout [1, 2, 3, 4, 5, 6] example_retry_pkt (by decide) (by decide)
      (by decide) (by decide) (by decide) (by decide) (by decide)).2.2.2.2.2.2.2⟩

/-- C29 (as stated, refuted): on an empty input `ngx_quic_get_packet_dcid`,
`ngx_quic_parse_frame` and `ngx_quic_parse_ack_range` return ERROR and
`ngx_quic_parse_transport_params` returns OK; none returns DECLINED. -/
theorem empty_input_counterexample :
    ngx_quic_get_packet_dcid [] 0 0 { len := 0, data := 0 }
        = Exec.done (NGX_ERROR, { len := 0, data := 0 })
      ∧ ngx_quic_parse_frame (fun _ => some 0) (ngx_quic_header_zero 0x40) [] 0 0
          ngx_quic_frame_zero { pos := 0, last := 0 }
        = Exec.done { rc := NGX_ERROR,
                      pkt := { ngx_quic_header_zero 0x40 with
                               error := NGX_QUIC_ERR_FRAME_ENCODING_ERROR },
                      f := ngx_quic_frame_zero, b := { pos := 0, last := 0 } }
      ∧ ngx_quic_parse_ack_range [] 0 0 = Exec.done (NGX_ERROR, 0, 0)
      ∧ ngx_quic_parse_transport_params [] 0 0 ngx_quic_tp_zero
        = Exec.done (NGX_OK, ngx_quic_tp_zero)
      ∧ NGX_ERROR ≠ NGX_DECLINED ∧ NGX_OK ≠ NGX_DECLINED := by
  decide

/-- C29 (amended): empty input.  On an empty input buffer, wherever it lies in the
memory, `ngx_quic_get_packet_dcid` (n = 0) returns ERROR and leaves the slice
alone, `ngx_quic_parse_frame` (start = end) returns ERROR with `pkt->error` =
FRAME_ENCODING_ERROR and leaves the frame alone, `ngx_quic_parse_ack_range`
(start = end) returns ERROR, and `ngx_quic_parse_transport_params` (p = end)
returns OK and leaves the record alone. -/
theorem empty_input_results (adj : Nat → Option u_char) (pkt : ngx_quic_header_t)
    (buf : List u_char) (p : Nat) (f : ngx_quic_frame_t) (b : ngx_buf_t)
    (dcid : ngx_str_t) (tp : ngx_quic_tp_t) :
    ngx_quic_get_packet_dcid buf p 0 dcid = Exec.done (NGX_ERROR, dcid)
      ∧ ngx_quic_parse_frame adj pkt buf p p f b
        = Exec.done { rc := NGX_ERROR,
                      pkt := { pkt with error := NGX_QUIC_ERR_FRAME_ENCODING_ERROR },
                      f := f, b := b }
      ∧ (∃ gap range, ngx_quic_parse_ack_range buf p p = Exec.done (NGX_ERROR, gap, range))
      ∧ ngx_quic_parse_transport_params buf p p tp = Exec.done (NGX_OK, tp) := by
  have hnull : ngx_quic_parse_int buf p p = Rd.null := by
    unfold ngx_quic_parse_int
    rw [if_pos (le_refl p)]
  refine ⟨?_, ?_, ?_, ?_⟩
  · unfold ngx_quic_get_packet_dcid
    rw [if_pos rfl]
  · unfold ngx_quic_parse_frame
    dsimp only
    rw [hnull]
    rfl
  · unfold ngx_quic_parse_ack_range
    rw [hnull]
    exact ⟨_, _, rfl⟩
  · unfold ngx_quic_parse_transport_params
    rw [Nat.sub_self]
    unfold ngx_quic_parse_transport_params_loop
    rw [if_neg (by simp)]

/-! ## Claims on the long header: connection ids and scenario S2 -/

/-- C21: connection-id bound in the full parser.  For a long-header packet whose
descriptor is valid (the cursor `raw->pos` lies in the packet
`[data, data + len)`, which lies in the memory): whenever `ngx_quic_parse_packet`
returns OK, `dcid.len <= 20`, `scid.len <= 20` and both id slices lie inside the
packet bytes, those handed in and those of the length stored on return; and if the
connection id fields are not well formed, in particular if the DCID or SCID length
byte is greater than 20 or an id does not fit in the packet, it returns
DECLINED. -/
theorem connection_id_bound (buf : List u_char) (pkt : ngx_quic_header_t)
    (hlong : pkt.flags.val &&& 0x80 ≠ 0)
    (hdata : pkt.data ≤ pkt.raw.pos)
    (hpos : pkt.raw.pos ≤ pkt.data + pkt.len)
    (hend : pkt.data + pkt.len ≤ buf.length) :
    (∀ pkt', ngx_quic_parse_packet buf pkt = Exec.done (NGX_OK, pkt') →
        pkt'.dcid.len ≤ 20 ∧ pkt'.scid.len ≤ 20
          ∧ pkt.data ≤ pkt'.dcid.data ∧ pkt'.dcid.data + pkt'.dcid.len ≤ pkt.data + pkt.len
          ∧ pkt.data ≤ pkt'.scid.data ∧ pkt'.scid.data + pkt'.scid.len ≤ pkt.data + pkt.len
          ∧ pkt'.data = pkt.data
          ∧ pkt'.dcid.data + pkt'.dcid.len ≤ pkt'.data + pkt'.len
          ∧ pkt'.scid.data + pkt'.scid.len ≤ pkt'.data + pkt'.len)
      ∧ (¬ long_header_ids_fit buf pkt →
          ∃ pkt', ngx_quic_parse_packet buf pkt = Exec.done (NGX_DECLINED, pkt'))
      ∧ (∀ dl : u_char, buf[pkt.raw.pos + 4]? = some dl → 20 < dl.val →
          ∃ pkt', ngx_quic_parse_packet buf pkt = Exec.done (NGX_DECLINED, pkt'))
      ∧ (∀ dl : u_char, buf[pkt.raw.pos + 4]? = some dl →
          pkt.data + pkt.len < pkt.raw.pos + 4 + 1 + dl.val →
          ∃ pkt', ngx_quic_parse_packet buf pkt = Exec.done (NGX_DECLINED, pkt'))
      ∧ (∀ dl sl : u_char, buf[pkt.raw.pos + 4]? = some dl →
          buf[pkt.raw.pos + 4 + 1 + dl.val]? = some sl → 20 < sl.val →
          ∃ pkt', ngx_quic_parse_packet buf pkt = Exec.done (NGX_DECLINED, pkt'))
      ∧ (∀ dl sl : u_char, buf[pkt.raw.pos + 4]? = some dl →
          buf[pkt.raw.pos + 4 + 1 + dl.val]? = some sl →
          pkt.data + pkt.len < pkt.raw.pos + 4 + 1 + dl.val + 1 + sl.val →
          ∃ pkt', ngx_quic_parse_packet buf pkt = Exec.done (NGX_DECLINED, pkt')) := by
  have hne : NGX_ERROR ≠ NGX_OK := by decide
  have hl := long_pkt_true _ hlong
  have key : ¬ long_header_ids_fit buf pkt →
      ∃ pkt', ngx_quic_parse_packet buf pkt = Exec.done (NGX_DECLINED, pkt') := by
    intro hnf
    rcases long_header_cases buf pkt hpos hend with ⟨pkt1, h⟩ | ⟨hfit, _⟩
    · unfold ngx_quic_parse_packet
      rw [if_neg (not_not.mpr hl), h]
      dsimp only
      rw [if_pos hne]
      exact ⟨_, rfl⟩
    · exact absurd hfit hnf
  refine ⟨?_, key, ?_, ?_, ?_, ?_⟩
  · intro pkt' hok
    rcases long_header_cases buf pkt hpos hend with ⟨pkt1, h⟩ | ⟨_, v, dl, sl, h1, h2, h3, h⟩
    · exfalso
      unfold ngx_quic_parse_packet at hok
      rw [if_neg (not_not.mpr hl), h] at hok
      dsimp only at hok
      rw [if_pos hne] at hok
      have e := congrArg Prod.fst (Exec.done.inj hok)
      exact absurd e (show NGX_DECLINED ≠ NGX_OK by decide)
    · unfold ngx_quic_parse_packet at hok
      rw [if_neg (not_not.mpr hl), h] at hok
      dsimp only at hok
      rw [if_neg (not_not.mpr rfl)] at hok
      split_ifs at hok with hv
      · have e := congrArg Prod.fst (Exec.done.inj hok)
        exact absurd e (show NGX_ABORT ≠ NGX_OK by decide)
      · cases hr : ngx_quic_parse_long_header_v1 buf
            { pkt with
              version := v
              dcid := { len := dl, data := pkt.raw.pos + 4 + 1 }
              scid := { len := sl, data := pkt.raw.pos + 4 + 1 + dl + 1 }
              raw := { pkt.raw with pos := pkt.raw.pos + 4 + 1 + dl + 1 + sl } } with
        | fault => rw [hr] at hok; cases hok
        | done r =>
          obtain ⟨rc2, pkt2⟩ := r
          rw [hr] at hok
          dsimp only at hok
          split_ifs at hok with hrc
          · have e := congrArg Prod.fst (Exec.done.inj hok)
            exact absurd e (show NGX_DECLINED ≠ NGX_OK by decide)
          · have e2 : pkt2 = pkt' := congrArg Prod.snd (Exec.done.inj hok)
            have e3 : rc2 = NGX_OK := not_not.mp hrc
            rw [e3, e2] at hr
            obtain ⟨a1, a2, a3, a4⟩ := long_header_v1_inv buf _ pkt' (by dsimp only; omega) hr
            rw [a1, a2, a3]
            dsimp only at a4 ⊢
            rw [a3] at a4
            dsimp only at a4
            omega
  · intro dl hdl h20
    refine key ?_
    rintro ⟨dl', sl', g1, g2, _⟩
    have : dl' = dl := Option.some.inj (g1.symm.trans hdl)
    subst this
    omega
  · intro dl hdl hfit
    refine key ?_
    rintro ⟨dl', sl', g1, _, _, _, g5⟩
    have : dl' = dl := Option.some.inj (g1.symm.trans hdl)
    subst this
    omega
  · intro dl sl hdl hsl h20
    refine key ?_
    rintro ⟨dl', sl', g1, _, g3, g4, _⟩
    have : dl' = dl := Option.some.inj (g1.symm.trans hdl)
    subst this
    have : sl' = sl := Option.some.inj (g3.symm.trans hsl)
    subst this
    omega
  · intro dl sl hdl hsl hfit
    refine key ?_
    rintro ⟨dl', sl', g1, _, g3, _, g5⟩
    have : dl' = dl := Option.some.inj (g1.symm.trans hdl)
    subst this
    have : sl' = sl := Option.some.inj (g3.symm.trans hsl)
    subst this
    omega

theorem connection_id_bound_witness :
    ((example_long_pkt 0xE0 13 13).flags.val &&& 0x80 ≠ 0
        ∧ (example_long_pkt 0xE0 13 13).data ≤ (example_long_pkt 0xE0 13 13).raw.pos
        ∧ (example_long_pkt 0xE0 13 13).raw.pos
            ≤ (example_long_pkt 0xE0 13 13).data + (example_long_pkt 0xE0 13 13).len
        ∧ (example_long_pkt 0xE0 13 13).data + (example_long_pkt 0xE0 13 13).len
            ≤ example_handshake_bytes.length)
      ∧ ngx_quic_parse_packet example_handshake_bytes (example_long_pkt 0xE0 13 13)
          = Exec.done (NGX_OK, example_handshake_parsed)
      ∧ (example_handshake_parsed.dcid.len ≤ 20 ∧ example_handshake_parsed.scid.len ≤ 20
          ∧ (example_long_pkt 0xE0 13 13).data ≤ example_handshake_parsed.dcid.data
          ∧ example_handshake_parsed.dcid.data + example_handshake_parsed.dcid.len
              ≤ (example_long_pkt 0xE0 13 13).data + (example_long_pkt 0xE0 13 13).len
          ∧ (example_long_pkt 0xE0 13 13).data ≤ example_handshake_parsed.scid.data
          ∧ example_handshake_parsed.scid.data + example_handshake_parsed.scid.len
              ≤ (example_long_pkt 0xE0 13 13).data + (example_long_pkt 0xE0 13 13).len
          ∧ example_handshake_parsed.data = (example_long_pkt 0xE0 13 13).data
          ∧ example_handshake_parsed.dcid.data + example_handshake_parsed.dcid.len
              ≤ example_handshake_parsed.data + example_handshake_parsed.len
          ∧ example_handshake_parsed.scid.data + example_handshake_parsed.scid.len
              ≤ example_handshake_parsed.data + example_handshake_parsed.len)
      ∧ (∃ pkt', ngx_quic_parse_packet example_long_dcid_datagram (example_long_pkt 0xC0 27 27)
          = Exec.done (NGX_DECLINED, pkt')) :=
  ⟨⟨by decide, by decide, by decide, by decide⟩, by decide,
    (connection_id_bound example_handshake_bytes (example_long_pkt 0xE0 13 13)
      (by decide) (by decide) (by decide) (by decide)).1 _ (by decide),
    (connection_id_bound example_long_dcid_datagram (example_long_pkt 0xC0 27 27)
      (by decide) (by decide) (by decide) (by decide)).2.2.1 0x15 (by decide) (by decide)⟩

/-- C26 (as stated, refuted): the Initial packet of scenario S2 in a datagram of
1200 bytes is declined, because its length field announces 2824 bytes behind the
18 bytes of the header fields and the datagram ends before; and in a datagram of
2842 bytes, where the packet parses, the cursor stands at offset 18 from the packet
start, not at 23. -/
theorem s2_initial_counterexample :
    (example_s2_bytes ++ List.replicate 1178 0).length = 1200
      ∧ ngx_quic_parse_packet (example_s2_bytes ++ List.replicate 1178 0)
          (example_long_pkt 0xC3 1200 1200)
        = Exec.done (NGX_DECLINED, { example_long_pkt 0xC3 1200 1200 with
            version := 1
            level := .ssl_encryption_initial
            dcid := { len := 8, data := 6 }
            scid := { len := 0, data := 15 }
            token := { len := 0, data := 16 }
            raw := { pos := 15, last := 1200 } })
      ∧ (example_s2_bytes ++ List.replicate 2820 0).length = 2842
      ∧ ngx_quic_parse_packet (example_s2_bytes ++ List.replicate 2820 0)
          (example_long_pkt 0xC3 2842 2842)
        = Exec.done (NGX_OK, { example_long_pkt 0xC3 2842 2842 with
            version := 1
            level := .ssl_encryption_initial
            dcid := { len := 8, data := 6 }
            scid := { len := 0, data := 15 }
            token := { len := 0, data := 16 }
            raw := { pos := 18, last := 2842 }
            len := 2842 })
      ∧ (18 : Nat) ≠ 23 :=
  ⟨by simp only [example_s2_bytes, List.length_append, List.length_replicate,
      List.length_cons, List.length_nil], s2_declined _ 1200 (by decide) (by decide),
    by simp only [example_s2_bytes, List.length_append, List.length_replicate,
      List.length_cons, List.length_nil], s2_parse _ 2842 (by decide), by decide⟩

/-- C26 (amended): scenario S2.  For a datagram of `n` bytes that starts with a
long-header Initial packet with flags 0xc3, version 0x00000001, dcid_len 8 with an
all-zero DCID, scid_len 0, token length varint 00, length varint 4b 08 (= 2824)
and a 4-byte packet number 00 00 00 01: if `n` is at least 2842 (the 18 bytes of
these header fields and the 2824 bytes that the length field announces),
`ngx_quic_parse_packet` returns OK with level = initial, an empty token, the cursor
(packet-number offset) at offset 18 from the packet start, and a packet of 2842
bytes, which leaves a payload of 2820 bytes after the 4-byte packet number; if `n` is
at least 1200 and below 2842 it returns DECLINED. -/
theorem s2_initial_packet (rest : List u_char) (n : Nat)
    (hlen : (example_s2_bytes ++ rest).length = n) :
    (2842 ≤ n →
        ∃ pkt', ngx_quic_parse_packet (example_s2_bytes ++ rest) (example_long_pkt 0xC3 n n)
            = Exec.done (NGX_OK, pkt')
          ∧ pkt'.level = .ssl_encryption_initial ∧ pkt'.version = 1
          ∧ pkt'.dcid = { len := 8, data := 6 } ∧ pkt'.scid.len = 0
          ∧ pkt'.token.len = 0 ∧ pkt'.data = 0 ∧ pkt'.raw.pos = 18 ∧ pkt'.len = 2842
          ∧ pkt'.data + pkt'.len = pkt'.raw.pos + 4 + 2820)
      ∧ (1200 ≤ n → n < 2842 →
        ∃ pkt', ngx_quic_parse_packet (example_s2_bytes ++ rest) (example_long_pkt 0xC3 n n)
            = Exec.done (NGX_DECLINED, pkt')) := by
  have _hl := hlen
  constructor
  · intro hn
    exact ⟨_, s2_parse rest n hn, rfl, rfl, rfl, rfl, rfl, rfl, rfl, rfl, rfl⟩
  · intro h1 h2
    exact ⟨_, s2_declined rest n h1 h2⟩

theorem s2_initial_packet_witness :
    (example_s2_bytes ++ List.replicate 2820 0).length = 2842
      ∧ (∃ pkt', ngx_quic_parse_packet (example_s2_bytes ++ List.replicate 2820 0)
            (example_long_pkt 0xC3 2842 2842) = Exec.done (NGX_OK, pkt')
          ∧ pkt'.level = .ssl_encryption_initial ∧ pkt'.version = 1
          ∧ pkt'.dcid = { len := 8, data := 6 } ∧ pkt'.scid.len = 0
          ∧ pkt'.token.len = 0 ∧ pkt'.data = 0 ∧ pkt'.raw.pos = 18 ∧ pkt'.len = 2842
          ∧ pkt'.data + pkt'.len = pkt'.raw.pos + 4 + 2820) :=
  ⟨by simp only [example_s2_bytes, List.length_append, List.length_replicate,
      List.length_cons, List.length_nil],
    (s2_initial_packet (List.replicate 2820 0) 2842 (by simp only [example_s2_bytes, List.length_append, List.length_replicate,
      List.length_cons, List.length_nil])).1
      (by decide)⟩

/-! ## Claims on STREAM frames without a length and on NEW_CONNECTION_ID -/

/-- C24: implicit-length STREAM parse.  For every STREAM frame type 0x08..0x0F
with the LEN bit (0x02) clear, in a 0-RTT or 1-RTT packet, once the type, the
stream_id and (if the OFF bit 0x04 is set) the offset have been decoded, with the
cursor then at `c`, `ngx_quic_parse_frame` succeeds with length = end - cursor, the
payload slice `[c, end)` of all remaining bytes, result = end - start, fin = bit
0x01 of the type, and offset = 0 when the OFF bit is clear. -/
theorem implicit_length_stream_parse (adj : Nat → Option u_char) (pkt : ngx_quic_header_t)
    (buf : List u_char) (start e : Nat) (f : ngx_quic_frame_t) (b : ngx_buf_t)
    (t p1 sid p2 : Nat)
    (hpk : packet_type_bit pkt.flags = 2 ∨ packet_type_bit pkt.flags = 1)
    (hty : 0x08 ≤ t ∧ t ≤ 0x0F) (hlen : t &&& 0x02 = 0)
    (h0 : ngx_quic_parse_int buf start e = Rd.ok (p1, t))
    (h1 : ngx_quic_parse_int buf p1 e = Rd.ok (p2, sid)) :
    (t &&& 0x04 = 0 →
        ngx_quic_parse_frame adj pkt buf start e f b
          = Exec.done
              { rc := (e : Int) - (start : Int), pkt := pkt,
                f := { f with type := t, level := pkt.level,
                              u.stream := { type := t, stream_id := sid, offset := 0,
                                            length := e - p2, off := false, len := false,
                                            fin := decide (t &&& 0x01 ≠ 0) } },
                b := { b with pos := p2, last := e } })
      ∧ (t &&& 0x04 ≠ 0 → ∀ p3 offset, ngx_quic_parse_int buf p2 e = Rd.ok (p3, offset) →
        ngx_quic_parse_frame adj pkt buf start e f b
          = Exec.done
              { rc := (e : Int) - (start : Int), pkt := pkt,
                f := { f with type := t, level := pkt.level,
                              u.stream := { type := t, stream_id := sid, offset := offset,
                                            length := e - p3, off := true, len := false,
                                            fin := decide (t &&& 0x01 ≠ 0) } },
                b := { b with pos := p3, last := e } }) := by
  have hallow := packet_bit_01 _ hpk
  have hb1 := parse_int_ok_bounds buf _ _ _ _ h1
  have hm : packet_type_bit pkt.flags &&& table3_mask t ≠ 0 := by
    rcases stream_nolen_types t hty.1 hty.2 hlen with rfl | rfl | rfl | rfl <;>
      simpa [table3_mask] using hallow
  rw [parse_frame_type_ok adj pkt buf start e f b t p1 (by omega) h0 hm]
  unfold ngx_quic_parse_frame_switch
  constructor
  · intro hoff
    have e1 : p2 + (e - p2) = e := by omega
    rcases stream_nolen_types t hty.1 hty.2 hlen with rfl | rfl | rfl | rfl
    any_goals (exfalso; revert hoff; decide)
    all_goals
      try dsimp only
      unfold ngx_quic_parse_frame_stream
      try dsimp only
      rw [h1]
      simp only [ngx_quic_parse_frame_step]
      rw [if_neg (by decide)]
      try dsimp only
      rw [if_neg (by decide)]
      try dsimp only
      rw [ngx_quic_read_bytes, size_t_diff_le _ _ (by omega), if_neg (by omega)]
      simp only [ngx_quic_parse_frame_return, e1]
      rfl
  · intro hoff p3 offset h2
    have hb2 := parse_int_ok_bounds buf _ _ _ _ h2
    have e1 : p3 + (e - p3) = e := by omega
    rcases stream_nolen_types t hty.1 hty.2 hlen with rfl | rfl | rfl | rfl
    any_goals (exfalso; revert hoff; decide)
    all_goals
      try dsimp only
      unfold ngx_quic_parse_frame_stream
      try dsimp only
      rw [h1]
      simp only [ngx_quic_parse_frame_step]
      rw [if_pos (by decide), h2]
      try dsimp only
      rw [if_neg (by decide)]
      try dsimp only
      rw [ngx_quic_read_bytes, size_t_diff_le _ _ (by omega), if_neg (by omega)]
      simp only [ngx_quic_parse_frame_return, e1]
      rfl

theorem implicit_length_stream_parse_witness :
    ((packet_type_bit (ngx_quic_header_zero 0x40).flags = 2
          ∨ packet_type_bit (ngx_quic_header_zero 0x40).flags = 1)
        ∧ (0x08 ≤ 0x0c ∧ 0x0c ≤ 0x0F) ∧ 0x0c &&& 0x02 = 0 ∧ 0x0c &&& 0x04 ≠ 0
        ∧ ngx_quic_parse_int example_s4_bytes 0 10 = Rd.ok (1, 0x0c)
        ∧ ngx_quic_parse_int example_s4_bytes 1 10 = Rd.ok (2, 4)
        ∧ ngx_quic_parse_int example_s4_bytes 2 10 = Rd.ok (3, 0))
      ∧ ngx_quic_parse_frame (fun _ => some 0) (ngx_quic_header_zero 0x40) example_s4_bytes 0 10
            ngx_quic_frame_zero { pos := 0, last := 0 }
          = Exec.done
              { rc := ((10 : Nat) : Int) - ((0 : Nat) : Int), pkt := ngx_quic_header_zero 0x40,
                f := { ngx_quic_frame_zero with
                       type := 0x0c, level := (ngx_quic_header_zero 0x40).level,
                       u.stream := { type := 0x0c, stream_id := 4, offset := 0,
                                     length := 10 - 3, off := true, len := false,
                                     fin := decide (0x0c &&& 0x01 ≠ 0) } },
                b := { pos := 3, last := 10 } }
      ∧ ((10 : Nat) : Int) - ((0 : Nat) : Int) = 10 ∧ 10 - 3 = 7
      ∧ decide (0x0c &&& 0x01 ≠ 0) = false
      ∧ mem_bytes example_s4_bytes 3 (10 - 3) = [0x68, 0x65, 0x6c, 0x6c, 0x6f, 0x21, 0x21] :=
  ⟨⟨by decide, by decide, by decide, by decide, by decide, by decide, by decide⟩,
    (implicit_length_stream_parse (fun _ => some 0) (ngx_quic_header_zero 0x40) example_s4_bytes
      0 10 ngx_quic_frame_zero { pos := 0, last := 0 } 0x0c 1 4 2 (by decide) (by decide)
      (by decide) (by decide) (by decide)).2 (by decide) 3 0 (by decide),
    by decide, by decide, by decide, by decide⟩

/-- C23: NEW_CONNECTION_ID validation.  In a 0-RTT or 1-RTT packet, on a buffer
that lies in the memory and whose first varint decodes to the type 0x18,
`ngx_quic_parse_frame` accepts the frame only if the fields are acceptable
(retire_prior_to <= sequence_number, 1 <= cid_len <= 20, and the cid followed by
a fixed 16-byte stateless reset token fit in the buffer), and then it returns the
number of bytes up to the end of the token with these fields stored; in every
other case it returns ERROR with `pkt->error` = FRAME_ENCODING_ERROR. -/
theorem new_connection_id_validation (adj : Nat → Option u_char) (pkt : ngx_quic_header_t)
    (buf : List u_char) (start e : Nat) (f : ngx_quic_frame_t) (b : ngx_buf_t) (p : Nat)
    (hpk : packet_type_bit pkt.flags = 2 ∨ packet_type_bit pkt.flags = 1)
    (he : e ≤ buf.length)
    (hty : ngx_quic_parse_int buf start e = Rd.ok (p, NGX_QUIC_FT_NEW_CONNECTION_ID)) :
    ∃ ret, ngx_quic_parse_frame adj pkt buf start e f b = Exec.done ret
      ∧ ((¬ ncid_wire_acceptable buf p e ∧ ret.rc = NGX_ERROR
            ∧ ret.pkt.error = NGX_QUIC_ERR_FRAME_ENCODING_ERROR)
        ∨ (ncid_wire_acceptable buf p e
            ∧ ∃ p1 p2 : Nat, ∃ c : u_char,
                ngx_quic_parse_int buf p e = Rd.ok (p1, ret.f.u.ncid.seqnum)
              ∧ ngx_quic_parse_int buf p1 e = Rd.ok (p2, ret.f.u.ncid.retire)
              ∧ buf[p2]? = some c ∧ ret.f.u.ncid.len = c.val
              ∧ ret.f.u.ncid.retire ≤ ret.f.u.ncid.seqnum
              ∧ 1 ≤ ret.f.u.ncid.len ∧ ret.f.u.ncid.len ≤ 20
              ∧ p2 + 1 + ret.f.u.ncid.len + 16 ≤ e
              ∧ ret.rc = ((p2 + 1 + ret.f.u.ncid.len + 16 : Nat) : Int) - (start : Int)
              ∧ ret.pkt = pkt ∧ ret.f.type = NGX_QUIC_FT_NEW_CONNECTION_ID ∧ ret.b = b
              ∧ ret.f.u.ncid.cid
                  = ngx_memcpy f.u.ncid.cid (mem_bytes buf (p2 + 1) ret.f.u.ncid.len)
              ∧ ret.f.u.ncid.srt
                  = ngx_memcpy f.u.ncid.srt
                      (mem_bytes buf (p2 + 1 + ret.f.u.ncid.len) 16))) := by
  have hm : packet_type_bit pkt.flags &&& table3_mask 0x18 ≠ 0 := by
    simpa [table3_mask] using packet_bit_01 _ hpk
  rw [parse_frame_type_ok adj pkt buf start e f b 0x18 p (by norm_num) hty hm]
  unfold ngx_quic_parse_frame_switch
  dsimp only
  exact ncid_cases pkt buf start e p { f with type := 0x18 } b he

theorem new_connection_id_validation_witness :
    ((packet_type_bit (ngx_quic_header_zero 0x40).flags = 2
          ∨ packet_type_bit (ngx_quic_header_zero 0x40).flags = 1)
        ∧ 28 ≤ example_s5_bytes.length
        ∧ ngx_quic_parse_int example_s5_bytes 0 28 = Rd.ok (1, NGX_QUIC_FT_NEW_CONNECTION_ID))
      ∧ (∃ ret, ngx_quic_parse_frame (fun _ => some 0) (ngx_quic_header_zero 0x40)
            example_s5_bytes 0 28 ngx_quic_frame_zero { pos := 0, last := 0 } = Exec.done ret
          ∧ ((¬ ncid_wire_acceptable example_s5_bytes 1 28 ∧ ret.rc = NGX_ERROR
                ∧ ret.pkt.error = NGX_QUIC_ERR_FRAME_ENCODING_ERROR)
            ∨ (ncid_wire_acceptable example_s5_bytes 1 28
                ∧ ∃ p1 p2 : Nat, ∃ c : u_char,
                    ngx_quic_parse_int example_s5_bytes 1 28 = Rd.ok (p1, ret.f.u.ncid.seqnum)
                  ∧ ngx_quic_parse_int example_s5_bytes p1 28
                      = Rd.ok (p2, ret.f.u.ncid.retire)
                  ∧ example_s5_bytes[p2]? = some c ∧ ret.f.u.ncid.len = c.val
                  ∧ ret.f.u.ncid.retire ≤ ret.f.u.ncid.seqnum
                  ∧ 1 ≤ ret.f.u.ncid.len ∧ ret.f.u.ncid.len ≤ 20
                  ∧ p2 + 1 + ret.f.u.ncid.len + 16 ≤ 28
                  ∧ ret.rc = ((p2 + 1 + ret.f.u.ncid.len + 16 : Nat) : Int) - ((0 : Nat) : Int)
                  ∧ ret.pkt = ngx_quic_header_zero 0x40
                  ∧ ret.f.type = NGX_QUIC_FT_NEW_CONNECTION_ID
                  ∧ ret.b = { pos := 0, last := 0 }
                  ∧ ret.f.u.ncid.cid
                      = ngx_memcpy ngx_quic_frame_zero.u.ncid.cid
                          (mem_bytes example_s5_bytes (p2 + 1) ret.f.u.ncid.len)
                  ∧ ret.f.u.ncid.srt
                      = ngx_memcpy ngx_quic_frame_zero.u.ncid.srt
                          (mem_bytes example_s5_bytes (p2 + 1 + ret.f.u.ncid.len) 16))))
      ∧ ngx_quic_parse_frame (fun _ => some 0) (ngx_quic_header_zero 0x40) example_s5_bytes 0 28
            ngx_quic_frame_zero { pos := 0, last := 0 }
          = Exec.done
              { rc := 28, pkt := ngx_quic_header_zero 0x40,
                f := { ngx_quic_frame_zero with
                       type := NGX_QUIC_FT_NEW_CONNECTION_ID
                       u.ncid := { seqnum := 2, retire := 1, len := 8,
                                   cid := ngx_memcpy ngx_quic_frame_zero.u.ncid.cid
                                     [0xA1, 0xA2, 0xA3, 0xA4, 0xA5, 0xA6, 0xA7, 0xA8],
                                   srt := [0xB0, 0xB1, 0xB2, 0xB3, 0xB4, 0xB5, 0xB6, 0xB7,
                                           0xB8, 0xB9, 0xBA, 0xBB, 0xBC, 0xBD, 0xBE, 0xBF] } },
                b := { pos := 0, last := 0 } }
      ∧ ngx_quic_parse_frame (fun _ => some 0) (ngx_quic_header_zero 0x40) example_s5_retire3 0 28
            ngx_quic_frame_zero { pos := 0, last := 0 }
          = Exec.done
              { rc := NGX_ERROR,
                pkt := { ngx_quic_header_zero 0x40 with
                         error := NGX_QUIC_ERR_FRAME_ENCODING_ERROR },
                f := { ngx_quic_frame_zero with
                       type := NGX_QUIC_FT_NEW_CONNECTION_ID
                       u.ncid.seqnum := 2, u.ncid.retire := 3 },
                b := { pos := 0, last := 0 } } :=
  ⟨⟨by decide, by decide, by decide⟩,
    new_connection_id_validation (fun _ => some 0) (ngx_quic_header_zero 0x40) example_s5_bytes 0 28
      ngx_quic_frame_zero { pos := 0, last := 0 } 1 (by decide) (by decide) (by decide),
    by decide, by decide⟩

/-! ## Claim on frames cut one byte short -/

/-- C30: one byte short.  For every packet descriptor (every flags byte) and every
buffer `[start, e)` on which `ngx_quic_parse_frame` succeeds consuming exactly `n`
bytes for a frame other than PADDING and other than a STREAM frame without the
LEN bit, `ngx_quic_parse_frame` on the first `n - 1` bytes of that buffer, the
buffer `[start, start + n - 1)`, returns ERROR with `pkt->error` =
FRAME_ENCODING_ERROR. -/
theorem one_byte_short_rejected (adj : Nat → Option u_char) (pkt : ngx_quic_header_t)
    (buf : List u_char) (start e : Nat) (f : ngx_quic_frame_t) (b : ngx_buf_t)
    (ret : ngx_quic_parse_frame_ret) (n : Nat)
    (h : ngx_quic_parse_frame adj pkt buf start e f b = Exec.done ret)
    (hn : ret.rc = (n : Int))
    (hpad : ret.f.type ≠ NGX_QUIC_FT_PADDING)
    (hstr : ¬ (NGX_QUIC_FT_STREAM0 ≤ ret.f.type ∧ ret.f.type ≤ NGX_QUIC_FT_STREAM7
      ∧ ret.f.type &&& 0x02 = 0)) :
    ∃ ret', ngx_quic_parse_frame adj pkt buf start (start + n - 1) f b = Exec.done ret'
      ∧ ret'.rc = NGX_ERROR ∧ ret'.pkt.error = NGX_QUIC_ERR_FRAME_ENCODING_ERROR := by
  by_cases h0 : n = 0
  · subst h0
    have hnull : ngx_quic_parse_int buf start (start + 0 - 1) = Rd.null := by
      unfold ngx_quic_parse_int
      rw [if_pos (by omega)]
    unfold ngx_quic_parse_frame
    dsimp only
    rw [hnull]
    exact ⟨_, rfl, rfl, rfl⟩
  · refine cut_frame adj pkt buf start e (start + n - 1) f b ret h ?_ ⟨hpad, hstr⟩ ?_
    · rw [hn]
      unfold NGX_ERROR
      omega
    · rw [hn]
      omega

theorem one_byte_short_rejected_witness :
    (ngx_quic_parse_frame (fun _ => some 0) (ngx_quic_header_zero 0x40) example_s5_bytes 0 28
          ngx_quic_frame_zero { pos := 0, last := 0 } = Exec.done example_s5_parsed
        ∧ example_s5_parsed.rc = ((28 : Nat) : Int)
        ∧ example_s5_parsed.f.type ≠ NGX_QUIC_FT_PADDING
        ∧ ¬ (NGX_QUIC_FT_STREAM0 ≤ example_s5_parsed.f.type
              ∧ example_s5_parsed.f.type ≤ NGX_QUIC_FT_STREAM7
              ∧ example_s5_parsed.f.type &&& 0x02 = 0))
      ∧ ∃ ret', ngx_quic_parse_frame (fun _ => some 0) (ngx_quic_header_zero 0x40) example_s5_bytes
            0 (0 + 28 - 1) ngx_quic_frame_zero { pos := 0, last := 0 } = Exec.done ret'
          ∧ ret'.rc = NGX_ERROR ∧ ret'.pkt.error = NGX_QUIC_ERR_FRAME_ENCODING_ERROR :=
  ⟨⟨by decide, by decide, by decide, by decide⟩,
    one_byte_short_rejected (fun _ => some 0) (ngx_quic_header_zero 0x40) example_s5_bytes 0 28
      ngx_quic_frame_zero { pos := 0, last := 0 } example_s5_parsed 28 (by decide) (by decide)
      (by decide) (by decide)⟩

/-! ## Sizing of the transport parameter builder and of payload frames -/

theorem tp_vint_length (id v : Nat) (hid : id < 2 ^ 62) (hv : v < 2 ^ 62) :
    (ngx_quic_tp_vint id v).length = ngx_quic_tp_len id v := by
  have h8 := varint_len_le v hv
  unfold ngx_quic_tp_vint ngx_quic_tp_len
  simp only [List.length_append, build_int_length id hid, build_int_length v hv,
    build_int_length (ngx_quic_varint_len v) (by omega)]
  omega

theorem tp_str_length (mem : List u_char) (id : Nat) (s : ngx_str_t) (hid : id < 2 ^ 62)
    (hs : s.len < 2 ^ 62) (hm : s.data + s.len ≤ mem.length) :
    (ngx_quic_tp_str mem id s).length = ngx_quic_tp_strlen id s := by
  unfold ngx_quic_tp_str ngx_quic_tp_strlen
  simp only [List.length_append, build_int_length id hid, build_int_length s.len hs,
    mem_bytes_length mem _ _ hm]

theorem tp_len_bound (id v : Nat) (hid : id < 64) (hv : v < 2 ^ 62) :
    ngx_quic_tp_len id v ≤ 10 := by
  have h8 := varint_len_le v hv
  have h1 := varint_len_small id hid
  have h2 := varint_len_small (ngx_quic_varint_len v) (by omega)
  unfold ngx_quic_tp_len
  omega

theorem tp_strlen_bound (id : Nat) (s : ngx_str_t) (hid : id < 64) (hs : s.len < 2 ^ 62) :
    ngx_quic_tp_strlen id s ≤ 9 + s.len := by
  have h8 := varint_len_le s.len hs
  have h1 := varint_len_small id hid
  unfold ngx_quic_tp_strlen
  omega

/-- The number of bytes that `ngx_quic_create_transport_params` writes, for the
records `sized_transport_params`. -/
theorem tp_out_length (mem : List u_char) (tp : ngx_quic_tp_t)
    (h : sized_transport_params mem tp) :
    (ngx_quic_create_transport_params mem .buffer tp).out.length
      = transport_params_size tp := by
  obtain ⟨h1, h2, h3, h4, h5, h6, h7, h8, hmem, ho, hi, hr, htok⟩ := h
  have so : tp.original_dcid.len < 2 ^ 62 := by omega
  have si : tp.initial_scid.len < 2 ^ 62 := by omega
  have sr : tp.retry_scid.len < 2 ^ 62 := by omega
  have v1 : ngx_quic_varint_len NGX_QUIC_TP_DISABLE_ACTIVE_MIGRATION = 1 :=
    varint_len_small _ (by norm_num)
  have v0 : ngx_quic_varint_len 0 = 1 := varint_len_small _ (by norm_num)
  have v2 : ngx_quic_varint_len NGX_QUIC_TP_SR_TOKEN = 1 := varint_len_small _ (by norm_num)
  have v3 : ngx_quic_varint_len NGX_QUIC_SR_TOKEN_LEN = 1 := varint_len_small _ (by decide)
  have htk : (tp.sr_token.take NGX_QUIC_SR_TOKEN_LEN).length = 16 := by
    rw [List.length_take, htok]; rfl
  simp only [ngx_quic_create_transport_params, transport_params_size, List.length_append,
    tp_vint_length _ _ (show NGX_QUIC_TP_INITIAL_MAX_DATA < 2 ^ 62 by norm_num) h1,
    tp_vint_length _ _ (show NGX_QUIC_TP_INITIAL_MAX_STREAMS_UNI < 2 ^ 62 by norm_num) h2,
    tp_vint_length _ _ (show NGX_QUIC_TP_INITIAL_MAX_STREAMS_BIDI < 2 ^ 62 by norm_num) h3,
    tp_vint_length _ _
      (show NGX_QUIC_TP_INITIAL_MAX_STREAM_DATA_BIDI_LOCAL < 2 ^ 62 by norm_num) h4,
    tp_vint_length _ _
      (show NGX_QUIC_TP_INITIAL_MAX_STREAM_DATA_BIDI_REMOTE < 2 ^ 62 by norm_num) h5,
    tp_vint_length _ _ (show NGX_QUIC_TP_INITIAL_MAX_STREAM_DATA_UNI < 2 ^ 62 by norm_num) h6,
    tp_vint_length _ _ (show NGX_QUIC_TP_MAX_IDLE_TIMEOUT < 2 ^ 62 by norm_num) h7,
    tp_vint_length _ _ (show NGX_QUIC_TP_ACTIVE_CONNECTION_ID_LIMIT < 2 ^ 62 by norm_num) h8,
    tp_str_length mem _ _ (show NGX_QUIC_TP_ORIGINAL_DCID < 2 ^ 62 by norm_num) so ho,
    tp_str_length mem _ _ (show NGX_QUIC_TP_INITIAL_SCID < 2 ^ 62 by norm_num) si hi,
    htk, build_int_length NGX_QUIC_TP_SR_TOKEN (by norm_num),
    build_int_length NGX_QUIC_SR_TOKEN_LEN (by decide), v2, v3]
  by_cases hd : tp.disable_active_migration = 0 <;>
    by_cases hrl : tp.retry_scid.len = 0 <;>
    simp only [ne_eq, hd, hrl, if_true, if_false, not_true_eq_false, not_false_eq_true,
      List.length_append, List.length_nil,
      build_int_length NGX_QUIC_TP_DISABLE_ACTIVE_MIGRATION (by norm_num),
      build_int_length 0 (by norm_num), v1, v0,
      tp_str_length mem _ _ (show NGX_QUIC_TP_RETRY_SCID < 2 ^ 62 by norm_num) sr hr]

theorem tp_size_bound (mem : List u_char) (tp : ngx_quic_tp_t)
    (h : sized_transport_params mem tp) : transport_params_size tp < 2 ^ 63 := by
  obtain ⟨h1, h2, h3, h4, h5, h6, h7, h8, hmem, ho, hi, hr, htok⟩ := h
  have b1 := tp_len_bound NGX_QUIC_TP_INITIAL_MAX_DATA _ (by norm_num) h1
  have b2 := tp_len_bound NGX_QUIC_TP_INITIAL_MAX_STREAMS_UNI _ (by norm_num) h2
  have b3 := tp_len_bound NGX_QUIC_TP_INITIAL_MAX_STREAMS_BIDI _ (by norm_num) h3
  have b4 := tp_len_bound NGX_QUIC_TP_INITIAL_MAX_STREAM_DATA_BIDI_LOCAL _ (by norm_num) h4
  have b5 := tp_len_bound NGX_QUIC_TP_INITIAL_MAX_STREAM_DATA_BIDI_REMOTE _ (by norm_num) h5
  have b6 := tp_len_bound NGX_QUIC_TP_INITIAL_MAX_STREAM_DATA_UNI _ (by norm_num) h6
  have b7 := tp_len_bound NGX_QUIC_TP_MAX_IDLE_TIMEOUT _ (by norm_num) h7
  have b8 := tp_len_bound NGX_QUIC_TP_ACTIVE_CONNECTION_ID_LIMIT _ (by norm_num) h8
  have c1 := tp_strlen_bound NGX_QUIC_TP_ORIGINAL_DCID tp.original_dcid (by norm_num) (by omega)
  have c2 := tp_strlen_bound NGX_QUIC_TP_INITIAL_SCID tp.initial_scid (by norm_num) (by omega)
  have c3 := tp_strlen_bound NGX_QUIC_TP_RETRY_SCID tp.retry_scid (by norm_num) (by omega)
  unfold transport_params_size
  split_ifs <;> omega

/-- The value that `ngx_quic_create_transport_params` returns for a NULL buffer:
the sums in `size_t` do not wrap. -/
theorem tp_null_rc (mem : List u_char) (tp : ngx_quic_tp_t)
    (h : sized_transport_params mem tp) :
    (ngx_quic_create_transport_params mem .NULL tp).rc = (transport_params_size tp : Int) := by
  have hb := tp_size_bound mem tp h
  have v1 : ngx_quic_varint_len NGX_QUIC_TP_DISABLE_ACTIVE_MIGRATION = 1 :=
    varint_len_small _ (by norm_num)
  have v0 : ngx_quic_varint_len 0 = 1 := varint_len_small _ (by norm_num)
  have v2 : ngx_quic_varint_len NGX_QUIC_TP_SR_TOKEN = 1 := varint_len_small _ (by norm_num)
  have v4 : ngx_quic_varint_len 16 = 1 := varint_len_small _ (by norm_num)
  unfold transport_params_size at hb ⊢
  simp only [ngx_quic_create_transport_params, v0, v1, v2, NGX_QUIC_SR_TOKEN_LEN, v4]
  by_cases hd : tp.disable_active_migration = 0 <;>
    by_cases hrl : tp.retry_scid.len = 0 <;>
    simp only [ne_eq, hd, hrl, if_true, if_false, not_true_eq_false, not_false_eq_true]
      at hb ⊢ <;>
    simp (disch := omega) only [size_t_sum_small] <;>
    rw [to_ssize_t_small _ (by omega)] <;>
    congr 1 <;>
    omega

/-- The values that `ngx_quic_create_transport_params` returns with and without
a buffer, for the records `sized_transport_params`. -/
theorem sizing_transport_params (mem : List u_char) (tp : ngx_quic_tp_t)
    (h : sized_transport_params mem tp) :
    (ngx_quic_create_transport_params mem .NULL tp).rc
        = ((ngx_quic_create_transport_params mem .buffer tp).out.length : Int)
      ∧ (ngx_quic_create_transport_params mem .buffer tp).rc
          = ((ngx_quic_create_transport_params mem .buffer tp).out.length : Int)
      ∧ (ngx_quic_create_transport_params mem .NULL tp).out = [] := by
  have hlen := tp_out_length mem tp h
  refine ⟨by rw [hlen]; exact tp_null_rc mem tp h, ?_,
    by simp only [ngx_quic_create_transport_params]⟩
  have e : (ngx_quic_create_transport_params mem .buffer tp).rc
      = to_ssize_t (ngx_quic_create_transport_params mem .buffer tp).out.length := by
    simp only [ngx_quic_create_transport_params]
  rw [e, hlen]
  exact to_ssize_t_small _ (tp_size_bound mem tp h)

/-! ## The transport parameter parser on the output of the builder -/

theorem transport_param_varint_ok (buf : List u_char) (q e2 q2 v id : Nat)
    (tp : ngx_quic_tp_t) (hi : ngx_quic_parse_int buf q e2 = Rd.ok (q2, v))
    (hid : id = 0x04 ∨ id = 0x09 ∨ id = 0x08 ∨ id = 0x05 ∨ id = 0x06 ∨ id = 0x07
      ∨ id = 0x01 ∨ id = 0x0e) :
    ∃ tp', ngx_quic_parse_transport_param buf q e2 id tp = Exec.done (NGX_OK, tp') := by
  rcases hid with rfl | rfl | rfl | rfl | rfl | rfl | rfl | rfl <;>
    (unfold ngx_quic_parse_transport_param
     simp only [hi]
     exact ⟨_, rfl⟩)

/-- One integer parameter written by the builder, in front of the parser: the loop
goes on behind it. -/
theorem params_loop_vint (buf : List u_char) (fuel p id v : Nat) (tp : ngx_quic_tp_t)
    (suf : List u_char)
    (hd : buf.drop p = ngx_quic_tp_vint id v ++ suf)
    (hid : id = 0x04 ∨ id = 0x09 ∨ id = 0x08 ∨ id = 0x05 ∨ id = 0x06 ∨ id = 0x07
      ∨ id = 0x01 ∨ id = 0x0e)
    (hv : v < 2 ^ 62) (hf : buf.length ≤ fuel + p)
    (hnext : ∀ g tp', buf.length ≤ g + (p + (ngx_quic_tp_vint id v).length) →
      buf.drop (p + (ngx_quic_tp_vint id v).length) = suf →
      ∃ tp2, ngx_quic_parse_transport_params_loop buf buf.length g
          (p + (ngx_quic_tp_vint id v).length) tp' = Exec.done (NGX_ERROR, tp2)) :
    ∃ tp2, ngx_quic_parse_transport_params_loop buf buf.length fuel p tp
      = Exec.done (NGX_ERROR, tp2) := by
  have hid64 : id < 64 := by omega
  have h8 := varint_len_le v hv
  have hl1 : 1 ≤ ngx_quic_varint_len v := varint_len_pos v hv
  have hvl : ngx_quic_varint_len (ngx_quic_varint_len v) = 1 :=
    varint_len_small _ (by omega)
  have hil : ngx_quic_varint_len id = 1 := varint_len_small _ hid64
  have hlen : (ngx_quic_tp_vint id v).length = 2 + ngx_quic_varint_len v := by
    rw [tp_vint_length id v (by omega) hv]
    unfold ngx_quic_tp_len
    omega
  have hne : ngx_quic_tp_vint id v ≠ [] := by
    intro h0
    rw [h0] at hlen
    simp at hlen
    omega
  have hle := drop_length_le hd hne
  have hd1 : buf.drop p = ngx_quic_build_int id
      ++ (ngx_quic_build_int (ngx_quic_varint_len v) ++ (ngx_quic_build_int v ++ suf)) := by
    rw [hd]
    unfold ngx_quic_tp_vint
    simp only [List.append_assoc]
  have hd2 := drop_build buf p id _ (by omega) hd1
  rw [hil] at hd2
  have hd3 := drop_build buf (p + 1) _ _ (by omega) hd2
  rw [hvl] at hd3
  have p1 := parse_int_build buf p buf.length id _ (by omega) hd1 (by omega)
  rw [hil] at p1
  have p2 := parse_int_build buf (p + 1) buf.length _ _ (by omega) hd2 (by omega)
  rw [hvl] at p2
  have p3 := parse_int_build buf (p + 1 + 1) (p + 1 + 1 + ngx_quic_varint_len v) v _ hv hd3
    (le_refl _)
  obtain ⟨tp', hp⟩ := transport_param_varint_ok buf _ _ _ v id tp p3 hid
  obtain ⟨g, rfl⟩ : ∃ g, fuel = g + 1 := ⟨fuel - 1, by omega⟩
  unfold ngx_quic_parse_transport_params_loop
  rw [if_pos (by omega), p1]
  dsimp only
  rw [if_neg (by
    unfold NGX_QUIC_TP_ORIGINAL_DCID NGX_QUIC_TP_PREFERRED_ADDRESS NGX_QUIC_TP_RETRY_SCID
      NGX_QUIC_TP_SR_TOKEN
    omega), p2]
  dsimp only
  rw [hp]
  dsimp only
  rw [if_neg (by decide)]
  have e1 : p + 1 + 1 + ngx_quic_varint_len v = p + (ngx_quic_tp_vint id v).length := by
    omega
  rw [e1]
  refine hnext g tp' (by omega) ?_
  rw [← e1]
  exact drop_build buf _ v suf hv hd3

/-- The parameter disable_active_migration written by the builder, in front of the
parser. -/
theorem params_loop_dam (buf : List u_char) (fuel p : Nat) (tp : ngx_quic_tp_t)
    (suf : List u_char)
    (hd : buf.drop p = ngx_quic_build_int NGX_QUIC_TP_DISABLE_ACTIVE_MIGRATION
      ++ ngx_quic_build_int 0 ++ suf)
    (hf : buf.length ≤ fuel + p)
    (hnext : ∀ g tp', buf.length ≤ g + (p + 2) → buf.drop (p + 2) = suf →
      ∃ tp2, ngx_quic_parse_transport_params_loop buf buf.length g (p + 2) tp'
        = Exec.done (NGX_ERROR, tp2)) :
    ∃ tp2, ngx_quic_parse_transport_params_loop buf buf.length fuel p tp
      = Exec.done (NGX_ERROR, tp2) := by
  have hd1 : buf.drop p = ngx_quic_build_int 0x0c ++ (ngx_quic_build_int 0 ++ suf) := by
    rw [hd]
    simp only [List.append_assoc]
  have hil : ngx_quic_varint_len 0x0c = 1 := varint_len_small _ (by norm_num)
  have h0l : ngx_quic_varint_len 0 = 1 := varint_len_small _ (by norm_num)
  have hd2 := drop_build buf p 0x0c _ (by norm_num) hd1
  rw [hil] at hd2
  have hd3 := drop_build buf (p + 1) 0 _ (by norm_num) hd2
  rw [h0l] at hd3
  have hle : p + 1 + 1 ≤ buf.length := by
    have := @drop_length_le _ _ (ngx_quic_build_int 0) _ hd2 (by decide)
    rw [build_int_length 0 (by norm_num), h0l] at this
    exact this
  have p1 := parse_int_build buf p buf.length 0x0c _ (by norm_num) hd1 (by omega)
  rw [hil] at p1
  have p2 := parse_int_build buf (p + 1) buf.length 0 _ (by norm_num) hd2 (by omega)
  rw [h0l] at p2
  obtain ⟨g, rfl⟩ : ∃ g, fuel = g + 1 := ⟨fuel - 1, by omega⟩
  unfold ngx_quic_parse_transport_params_loop
  rw [if_pos (by omega), p1]
  dsimp only
  rw [if_neg (by decide), p2]
  dsimp only
  have hp : ngx_quic_parse_transport_param buf (p + 1 + 1) (p + 1 + 1 + 0) 0x0c tp
      = Exec.done (NGX_OK, { tp with disable_active_migration := 1 }) := by
    unfold ngx_quic_parse_transport_param
    simp
  rw [hp]
  dsimp only
  rw [if_neg (by decide)]
  exact hnext g _ (by omega) hd3

/-- The parameter original_dcid written by the builder, in front of the parser: the
loop returns ERROR at its id. -/
theorem params_loop_original_dcid (buf : List u_char) (fuel p : Nat) (tp : ngx_quic_tp_t)
    (suf : List u_char)
    (hd : buf.drop p = ngx_quic_build_int NGX_QUIC_TP_ORIGINAL_DCID ++ suf)
    (hf : buf.length ≤ fuel + p) :
    ∃ tp2, ngx_quic_parse_transport_params_loop buf buf.length fuel p tp
      = Exec.done (NGX_ERROR, tp2) := by
  have hil : ngx_quic_varint_len 0x00 = 1 := varint_len_small _ (by norm_num)
  have hle : p + 1 ≤ buf.length := by
    have := @drop_length_le _ _ (ngx_quic_build_int 0) _ hd (by decide)
    rw [build_int_length 0 (by norm_num), hil] at this
    exact this
  have p1 := parse_int_build buf p buf.length 0x00 _ (by norm_num) hd (by omega)
  rw [hil] at p1
  obtain ⟨g, rfl⟩ : ∃ g, fuel = g + 1 := ⟨fuel - 1, by omega⟩
  unfold ngx_quic_parse_transport_params_loop
  rw [if_pos (by omega), p1]
  dsimp only
  rw [if_pos (Or.inl rfl)]
  exact ⟨tp, rfl⟩

/-- The loop of the transport parameter parser on a buffer that holds the
parameters in the order in which the builder writes them, up to the id of
original_dcid: the eight integer parameters pass, with disable_active_migration
between them when it is there, and the id of original_dcid is rejected. -/
theorem params_loop_builder (buf : List u_char) (tp tp0 : ngx_quic_tp_t)
    (D rest : List u_char)
    (hD : D = [] ∨ D = ngx_quic_build_int NGX_QUIC_TP_DISABLE_ACTIVE_MIGRATION
      ++ ngx_quic_build_int 0)
    (hbuf : buf = ngx_quic_tp_vint NGX_QUIC_TP_INITIAL_MAX_DATA tp.initial_max_data
      ++ (ngx_quic_tp_vint NGX_QUIC_TP_INITIAL_MAX_STREAMS_UNI tp.initial_max_streams_uni
      ++ (ngx_quic_tp_vint NGX_QUIC_TP_INITIAL_MAX_STREAMS_BIDI tp.initial_max_streams_bidi
      ++ (ngx_quic_tp_vint NGX_QUIC_TP_INITIAL_MAX_STREAM_DATA_BIDI_LOCAL
            tp.initial_max_stream_data_bidi_local
      ++ (ngx_quic_tp_vint NGX_QUIC_TP_INITIAL_MAX_STREAM_DATA_BIDI_REMOTE
            tp.initial_max_stream_data_bidi_remote
      ++ (ngx_quic_tp_vint NGX_QUIC_TP_INITIAL_MAX_STREAM_DATA_UNI
            tp.initial_max_stream_data_uni
      ++ (ngx_quic_tp_vint NGX_QUIC_TP_MAX_IDLE_TIMEOUT tp.max_idle_timeout
      ++ (D
      ++ (ngx_quic_tp_vint NGX_QUIC_TP_ACTIVE_CONNECTION_ID_LIMIT
            tp.active_connection_id_limit
      ++ (ngx_quic_build_int NGX_QUIC_TP_ORIGINAL_DCID ++ rest))))))))))
    (h1 : tp.initial_max_data < 2 ^ 62) (h2 : tp.initial_max_streams_uni < 2 ^ 62)
    (h3 : tp.initial_max_streams_bidi < 2 ^ 62)
    (h4 : tp.initial_max_stream_data_bidi_local < 2 ^ 62)
    (h5 : tp.initial_max_stream_data_bidi_remote < 2 ^ 62)
    (h6 : tp.initial_max_stream_data_uni < 2 ^ 62)
    (h7 : tp.max_idle_timeout < 2 ^ 62) (h8 : tp.active_connection_id_limit < 2 ^ 62) :
    ∃ tp2, ngx_quic_parse_transport_params buf 0 buf.length tp0
      = Exec.done (NGX_ERROR, tp2) := by
  have hd0 : buf.drop 0 = _ := hbuf
  unfold ngx_quic_parse_transport_params
  refine params_loop_vint buf _ 0 _ _ tp0 _ hd0 (by decide) h1 (by omega)
    fun g1 t1 hg1 hd1 => ?_
  refine params_loop_vint buf _ _ _ _ t1 _ hd1 (by decide) h2 hg1
    fun g2 t2 hg2 hd2 => ?_
  refine params_loop_vint buf _ _ _ _ t2 _ hd2 (by decide) h3 hg2
    fun g3 t3 hg3 hd3 => ?_
  refine params_loop_vint buf _ _ _ _ t3 _ hd3 (by decide) h4 hg3
    fun g4 t4 hg4 hd4 => ?_
  refine params_loop_vint buf _ _ _ _ t4 _ hd4 (by decide) h5 hg4
    fun g5 t5 hg5 hd5 => ?_
  refine params_loop_vint buf _ _ _ _ t5 _ hd5 (by decide) h6 hg5
    fun g6 t6 hg6 hd6 => ?_
  refine params_loop_vint buf _ _ _ _ t6 _ hd6 (by decide) h7 hg6
    fun g7 t7 hg7 hd7 => ?_
  rcases hD with rfl | rfl
  · rw [List.nil_append] at hd7
    refine params_loop_vint buf _ _ _ _ t7 _ hd7 (by decide) h8 hg7
      fun g8 t8 hg8 hd8 => ?_
    exact params_loop_original_dcid buf _ _ t8 _ hd8 hg8
  · rw [← List.append_assoc] at hd7
    refine params_loop_dam buf _ _ t7
      (ngx_quic_tp_vint NGX_QUIC_TP_ACTIVE_CONNECTION_ID_LIMIT tp.active_connection_id_limit
        ++ (ngx_quic_build_int NGX_QUIC_TP_ORIGINAL_DCID ++ rest)) hd7 hg7
      fun g t hg hd => ?_
    refine params_loop_vint buf _ _ NGX_QUIC_TP_ACTIVE_CONNECTION_ID_LIMIT
      tp.active_connection_id_limit t (ngx_quic_build_int NGX_QUIC_TP_ORIGINAL_DCID ++ rest)
      hd (by decide) h8 hg fun g8 t8 hg8 hd8 => ?_
    exact params_loop_original_dcid buf _ _ t8 _ hd8 hg8

/-- The bytes that the builder writes have the shape of `params_loop_builder`. -/
theorem create_transport_params_shape (mem : List u_char) (tp : ngx_quic_tp_t) :
    (ngx_quic_create_transport_params mem .buffer tp).out
      = ngx_quic_tp_vint NGX_QUIC_TP_INITIAL_MAX_DATA tp.initial_max_data
      ++ (ngx_quic_tp_vint NGX_QUIC_TP_INITIAL_MAX_STREAMS_UNI tp.initial_max_streams_uni
      ++ (ngx_quic_tp_vint NGX_QUIC_TP_INITIAL_MAX_STREAMS_BIDI tp.initial_max_streams_bidi
      ++ (ngx_quic_tp_vint NGX_QUIC_TP_INITIAL_MAX_STREAM_DATA_BIDI_LOCAL
            tp.initial_max_stream_data_bidi_local
      ++ (ngx_quic_tp_vint NGX_QUIC_TP_INITIAL_MAX_STREAM_DATA_BIDI_REMOTE
            tp.initial_max_stream_data_bidi_remote
      ++ (ngx_quic_tp_vint NGX_QUIC_TP_INITIAL_MAX_STREAM_DATA_UNI
            tp.initial_max_stream_data_uni
      ++ (ngx_quic_tp_vint NGX_QUIC_TP_MAX_IDLE_TIMEOUT tp.max_idle_timeout
      ++ ((if tp.disable_active_migration ≠ 0 then
            ngx_quic_build_int NGX_QUIC_TP_DISABLE_ACTIVE_MIGRATION ++ ngx_quic_build_int 0
          else [])
      ++ (ngx_quic_tp_vint NGX_QUIC_TP_ACTIVE_CONNECTION_ID_LIMIT
            tp.active_connection_id_limit
      ++ (ngx_quic_build_int NGX_QUIC_TP_ORIGINAL_DCID
      ++ (ngx_quic_build_int tp.original_dcid.len
            ++ mem_bytes mem tp.original_dcid.data tp.original_dcid.len
      ++ ngx_quic_tp_str mem NGX_QUIC_TP_INITIAL_SCID tp.initial_scid
      ++ (if tp.retry_scid.len ≠ 0 then
            ngx_quic_tp_str mem NGX_QUIC_TP_RETRY_SCID tp.retry_scid
          else [])
      ++ ngx_quic_build_int NGX_QUIC_TP_SR_TOKEN
      ++ ngx_quic_build_int NGX_QUIC_SR_TOKEN_LEN
      ++ tp.sr_token.take NGX_QUIC_SR_TOKEN_LEN)))))))))) := by
  simp only [ngx_quic_create_transport_params, List.append_assoc]
  simp only [ngx_quic_tp_str, List.append_assoc]

/-! ## Claims on sizing and on the lookup in the table of masks -/

/-- C31: two-pass sizing of transport parameters.  For every record whose integer
parameters are below 2^62 (with connection id slices that lie in the memory and a
reset token of 16 bytes), the length that `ngx_quic_create_transport_params`
returns for a NULL buffer equals the number of bytes it writes and returns for a
real buffer; nothing is written in the sizing pass; disable_active_migration
contributes exactly 2 bytes (id, zero length) if and only if it is set, and
retry_scid contributes only when its length is non-zero. -/
theorem two_pass_sizing_of_transport_params (mem : List u_char) (tp : ngx_quic_tp_t)
    (h : sized_transport_params mem tp) :
    (ngx_quic_create_transport_params mem .NULL tp).rc
        = ((ngx_quic_create_transport_params mem .buffer tp).out.length : Int)
      ∧ (ngx_quic_create_transport_params mem .buffer tp).rc
          = ((ngx_quic_create_transport_params mem .buffer tp).out.length : Int)
      ∧ (ngx_quic_create_transport_params mem .NULL tp).out = []
      ∧ (ngx_quic_create_transport_params mem .buffer tp).out.length
          = transport_params_size tp
      ∧ (ngx_quic_create_transport_params mem .buffer tp).out.length
          = (ngx_quic_create_transport_params mem .buffer
              { tp with disable_active_migration := 0 }).out.length
            + (if tp.disable_active_migration ≠ 0 then 2 else 0)
      ∧ (ngx_quic_create_transport_params mem .buffer tp).out.length
          = (ngx_quic_create_transport_params mem .buffer
              { tp with retry_scid := { len := 0, data := tp.retry_scid.data } }).out.length
            + (if tp.retry_scid.len ≠ 0 then
                 ngx_quic_tp_strlen NGX_QUIC_TP_RETRY_SCID tp.retry_scid
               else 0) := by
  obtain ⟨a1, a2, a3⟩ := sizing_transport_params mem tp h
  have hlen := tp_out_length mem tp h
  refine ⟨a1, a2, a3, hlen, ?_, ?_⟩
  · have h0 : sized_transport_params mem { tp with disable_active_migration := 0 } := h
    rw [hlen, tp_out_length mem _ h0]
    simp only [transport_params_size, ne_eq, not_true_eq_false, if_false]
    omega
  · have h0 : sized_transport_params mem
        { tp with retry_scid := { len := 0, data := tp.retry_scid.data } } := by
      obtain ⟨h1, h2, h3, h4, h5, h6, h7, h8, hmem, ho, hi, hr, htok⟩ := h
      exact ⟨h1, h2, h3, h4, h5, h6, h7, h8, hmem, ho, hi, by dsimp only; omega, htok⟩
    rw [hlen, tp_out_length mem _ h0]
    simp only [transport_params_size, ne_eq, not_true_eq_false, if_false]
    omega

theorem two_pass_sizing_of_transport_params_witness :
    sized_transport_params [1, 2, 3, 4, 5, 6] example_tp_full
      ∧ (ngx_quic_create_transport_params [1, 2, 3, 4, 5, 6] .buffer example_tp_full).out
          = example_tp_full_bytes
      ∧ (ngx_quic_create_transport_params [1, 2, 3, 4, 5, 6] .NULL example_tp_full).rc = 62
      ∧ (ngx_quic_create_transport_params [1, 2, 3, 4, 5, 6] .NULL example_tp_full).rc
          = ((ngx_quic_create_transport_params [1, 2, 3, 4, 5, 6] .buffer
                example_tp_full).out.length : Int)
      ∧ (ngx_quic_create_transport_params [1, 2, 3, 4, 5, 6] .buffer example_tp_full).rc
          = ((ngx_quic_create_transport_params [1, 2, 3, 4, 5, 6] .buffer
                example_tp_full).out.length : Int) :=
  ⟨by decide, by decide, by decide,
    (two_pass_sizing_of_transport_params [1, 2, 3, 4, 5, 6] example_tp_full (by decide)).1,
    (two_pass_sizing_of_transport_params [1, 2, 3, 4, 5, 6] example_tp_full (by decide)).2.1⟩

/-- C33: sizing of payload-bearing frames.  For every CRYPTO, STREAM or ACK
descriptor with varint fields below 2^62 and a chain of buffers in the memory, the
size that `ngx_quic_create_frame` returns for a NULL buffer, computed from the
declared `crypto.length`, `stream.length` or `ack.ranges_length`, equals the number
of bytes it writes for a real buffer, where it copies the buffers of the chain, if
and only if the total byte count of the chain equals that declared length. -/
theorem payload_sizing_iff (mem : List u_char) (F : ngx_quic_frame_t)
    (h : payload_descriptor mem F) :
    (ngx_quic_create_frame mem .NULL F).rc
        = ((ngx_quic_create_frame mem .buffer F).out.length : Int)
      ↔ chain_total F.data = declared_payload_length F := by
  obtain ⟨hk, hin⟩ := h
  have hc := copy_chain_length mem F.data hin
  rcases hk with ⟨hty, h1, h2, h3, h4, h5⟩ | ⟨hty, h1, h2⟩ | ⟨hty, h0, h1, h2, h3⟩
  · -- ACK
    have hcf : ∀ p, ngx_quic_create_frame mem p F
        = ngx_quic_create_frame_return { F with need_ack := 0 }
            (ngx_quic_create_ack mem p F.u.ack F.data) := by
      intro p; simp [ngx_quic_create_frame, hty]
    have hd : declared_payload_length F = F.u.ack.ranges_length := by
      simp [declared_payload_length, hty]
    rw [hcf, hcf, hd]
    simp only [ngx_quic_create_frame_return, ngx_quic_create_ack, List.length_append,
      build_int_length _ h1, build_int_length _ h2, build_int_length _ h3,
      build_int_length _ h4, build_int_length NGX_QUIC_FT_ACK (by norm_num), hc]
    have hb1 := varint_len_le _ h1
    have hb2 := varint_len_le _ h2
    have hb3 := varint_len_le _ h3
    have hb4 := varint_len_le _ h4
    have hb0 := varint_len_small NGX_QUIC_FT_ACK (by norm_num)
    rw [size_t_sum_small _ (by omega), to_ssize_t_small _ (by omega)]
    constructor
    · intro he
      have := Nat.cast_injective (R := Int) he
      omega
    · intro he
      rw [he]
  · -- CRYPTO
    have hcf : ∀ p, ngx_quic_create_frame mem p F
        = ngx_quic_create_frame_return { F with need_ack := 1 }
            (ngx_quic_create_crypto mem p F.u.crypto F.data) := by
      intro p; simp [ngx_quic_create_frame, hty]
    have hd : declared_payload_length F = F.u.crypto.length := by
      simp [declared_payload_length, hty]
    rw [hcf, hcf, hd]
    simp only [ngx_quic_create_frame_return, ngx_quic_create_crypto, List.length_append,
      build_int_length _ h1, build_int_length _ h2,
      build_int_length NGX_QUIC_FT_CRYPTO (by norm_num), hc]
    have hb1 := varint_len_le _ h1
    have hb2 := varint_len_le _ h2
    have hb0 := varint_len_small NGX_QUIC_FT_CRYPTO (by norm_num)
    rw [size_t_sum_small _ (by omega), to_ssize_t_small _ (by omega)]
    constructor
    · intro he
      have := Nat.cast_injective (R := Int) he
      omega
    · intro he
      rw [he]
  · -- STREAM
    have ha : 8 ≤ F.type := hty.1
    have hb : F.type ≤ 15 := hty.2
    have hcf : ∀ p, ngx_quic_create_frame mem p F
        = ngx_quic_create_frame_return { F with need_ack := 1 }
            (ngx_quic_create_stream mem p F.u.stream F.data) := by
      intro p
      unfold ngx_quic_create_frame
      interval_cases hF : F.type <;> rfl
    have hd : declared_payload_length F = F.u.stream.length := by
      unfold declared_payload_length
      rw [if_neg (show ¬ F.type = 0x06 by omega), if_neg (show ¬ F.type = 0x02 by omega)]
    rw [hcf, hcf, hd]
    simp only [ngx_quic_create_frame_return, ngx_quic_create_stream, List.length_append,
      build_int_length _ h0, build_int_length _ h1, build_int_length _ h3, hc]
    have hb0 := varint_len_le _ h0
    have hb1 := varint_len_le _ h1
    have hb2 := varint_len_le _ h2
    have hb3 := varint_len_le _ h3
    have hi : (if F.u.stream.off = true then ngx_quic_build_int F.u.stream.offset else []).length
        = if F.u.stream.off = true then ngx_quic_varint_len F.u.stream.offset else 0 := by
      split_ifs
      · exact build_int_length _ h2
      · rfl
    rw [hi]
    have hi8 : (if F.u.stream.off = true then ngx_quic_varint_len F.u.stream.offset else 0) ≤ 8 := by
      split_ifs <;> omega
    rw [size_t_sum_small _ (by omega), to_ssize_t_small _ (by omega)]
    constructor
    · intro he
      have := Nat.cast_injective (R := Int) he
      omega
    · intro he
      rw [he]
      congr 1
      omega

theorem payload_sizing_iff_witness :
    payload_descriptor [1, 2, 3] example_crypto
      ∧ chain_total example_crypto.data = declared_payload_length example_crypto
      ∧ (ngx_quic_create_frame [1, 2, 3] .NULL example_crypto).rc
          = ((ngx_quic_create_frame [1, 2, 3] .buffer example_crypto).out.length : Int)
      ∧ payload_descriptor [] example_crypto_no_chain
      ∧ ¬ (ngx_quic_create_frame [] .NULL example_crypto_no_chain).rc
          = ((ngx_quic_create_frame [] .buffer example_crypto_no_chain).out.length : Int) :=
  ⟨by decide, by decide,
    (payload_sizing_iff [1, 2, 3] example_crypto (by decide)).mpr (by decide),
    by decide,
    fun he => absurd ((payload_sizing_iff [] example_crypto_no_chain (by decide)).mp he)
      (by decide)⟩

/-- C36 (the code departs from the claim): the table of masks has 31 entries and
`ngx_quic_parse_frame` passes to `ngx_quic_frame_allowed` whatever frame type the
varint at the start of the buffer decodes to.  On the one-byte buffer 1f the index
is 31, on the two-byte buffer 7f ff it is 16383: the read is behind the table, and
the outcome of the call on 1f in a 1-RTT packet depends on what is found there
(PROTOCOL_VIOLATION for a byte 0, the default case of the switch for a byte 1, and
no return at all where the memory cannot be read). -/
theorem frame_masks_index_out_of_bounds :
    ngx_quic_frame_masks.length = 31
      ∧ ngx_quic_parse_int [0x1F] 0 1 = Rd.ok (1, 0x1F)
      ∧ ngx_quic_frame_masks[0x1F]? = none
      ∧ ngx_quic_parse_int [0x7F, 0xFF] 0 2 = Rd.ok (2, 0x3FFF)
      ∧ ngx_quic_frame_masks[0x3FFF]? = none
      ∧ ngx_quic_parse_frame (fun _ => some 0) (ngx_quic_header_zero 0x40) [0x1F] 0 1
          ngx_quic_frame_zero { pos := 0, last := 0 }
        = Exec.done { rc := NGX_ERROR,
                      pkt := { ngx_quic_header_zero 0x40 with
                               error := NGX_QUIC_ERR_PROTOCOL_VIOLATION },
                      f := { ngx_quic_frame_zero with type := 0x1F },
                      b := { pos := 0, last := 0 } }
      ∧ ngx_quic_parse_frame (fun _ => some 1) (ngx_quic_header_zero 0x40) [0x1F] 0 1
          ngx_quic_frame_zero { pos := 0, last := 0 }
        = Exec.done { rc := NGX_ERROR, pkt := ngx_quic_header_zero 0x40,
                      f := { ngx_quic_frame_zero with type := 0x1F },
                      b := { pos := 0, last := 0 } }
      ∧ ngx_quic_parse_frame (fun _ => none) (ngx_quic_header_zero 0x40) [0x1F] 0 1
          ngx_quic_frame_zero { pos := 0, last := 0 }
        = Exec.fault
      ∧ ngx_quic_parse_frame (fun _ => none) (ngx_quic_header_zero 0x40) [0x7F, 0xFF] 0 2
          ngx_quic_frame_zero { pos := 0, last := 0 }
        = Exec.fault := by
  decide

/-! ## Claims on the builder of transport parameters in front of the parser, and
on the DCID fast path -/

/-- C37: builder output is never accepted by the parser.  For every record whose
integer parameters are below 2^62, whatever the memory, the connection ids and the
record that the parser starts from, the bytes written by
`ngx_quic_create_transport_params` make `ngx_quic_parse_transport_params` return
ERROR: behind the integer parameters the builder always writes original_dcid
(id 0x00), and further on stateless_reset_token (id 0x02), which a peer must not
send. -/
theorem builder_output_rejected (mem : List u_char) (tp tp0 : ngx_quic_tp_t)
    (h1 : tp.initial_max_data < 2 ^ 62) (h2 : tp.initial_max_streams_uni < 2 ^ 62)
    (h3 : tp.initial_max_streams_bidi < 2 ^ 62)
    (h4 : tp.initial_max_stream_data_bidi_local < 2 ^ 62)
    (h5 : tp.initial_max_stream_data_bidi_remote < 2 ^ 62)
    (h6 : tp.initial_max_stream_data_uni < 2 ^ 62)
    (h7 : tp.max_idle_timeout < 2 ^ 62) (h8 : tp.active_connection_id_limit < 2 ^ 62) :
    (∃ tp2, ngx_quic_parse_transport_params
        (ngx_quic_create_transport_params mem .buffer tp).out 0
        (ngx_quic_create_transport_params mem .buffer tp).out.length tp0
        = Exec.done (NGX_ERROR, tp2))
      ∧ (∃ pre rest, (ngx_quic_create_transport_params mem .buffer tp).out
          = pre ++ (ngx_quic_build_int NGX_QUIC_TP_ORIGINAL_DCID ++ rest))
      ∧ (∃ pre, (ngx_quic_create_transport_params mem .buffer tp).out
          = pre ++ (ngx_quic_build_int NGX_QUIC_TP_SR_TOKEN
              ++ (ngx_quic_build_int NGX_QUIC_SR_TOKEN_LEN
              ++ tp.sr_token.take NGX_QUIC_SR_TOKEN_LEN)))
      ∧ tp_forbidden NGX_QUIC_TP_ORIGINAL_DCID ∧ tp_forbidden NGX_QUIC_TP_SR_TOKEN := by
  have hs := create_transport_params_shape mem tp
  refine ⟨?_, ?_, ?_, by decide, by decide⟩
  · refine params_loop_builder _ tp tp0 _ _ ?_ hs h1 h2 h3 h4 h5 h6 h7 h8
    by_cases hd : tp.disable_active_migration = 0
    · left; rw [if_neg (not_not.mpr hd)]
    · right; rw [if_pos hd]
  · rw [hs]
    refine ⟨ngx_quic_tp_vint NGX_QUIC_TP_INITIAL_MAX_DATA tp.initial_max_data
      ++ ngx_quic_tp_vint NGX_QUIC_TP_INITIAL_MAX_STREAMS_UNI tp.initial_max_streams_uni
      ++ ngx_quic_tp_vint NGX_QUIC_TP_INITIAL_MAX_STREAMS_BIDI tp.initial_max_streams_bidi
      ++ ngx_quic_tp_vint NGX_QUIC_TP_INITIAL_MAX_STREAM_DATA_BIDI_LOCAL
          tp.initial_max_stream_data_bidi_local
      ++ ngx_quic_tp_vint NGX_QUIC_TP_INITIAL_MAX_STREAM_DATA_BIDI_REMOTE
          tp.initial_max_stream_data_bidi_remote
      ++ ngx_quic_tp_vint NGX_QUIC_TP_INITIAL_MAX_STREAM_DATA_UNI tp.initial_max_stream_data_uni
      ++ ngx_quic_tp_vint NGX_QUIC_TP_MAX_IDLE_TIMEOUT tp.max_idle_timeout
      ++ (if tp.disable_active_migration ≠ 0 then
          ngx_quic_build_int NGX_QUIC_TP_DISABLE_ACTIVE_MIGRATION ++ ngx_quic_build_int 0
        else [])
      ++ ngx_quic_tp_vint NGX_QUIC_TP_ACTIVE_CONNECTION_ID_LIMIT tp.active_connection_id_limit,
      ngx_quic_build_int tp.original_dcid.len
        ++ mem_bytes mem tp.original_dcid.data tp.original_dcid.len
        ++ ngx_quic_tp_str mem NGX_QUIC_TP_INITIAL_SCID tp.initial_scid
        ++ (if tp.retry_scid.len ≠ 0 then ngx_quic_tp_str mem NGX_QUIC_TP_RETRY_SCID tp.retry_scid
          else [])
        ++ ngx_quic_build_int NGX_QUIC_TP_SR_TOKEN ++ ngx_quic_build_int NGX_QUIC_SR_TOKEN_LEN
        ++ List.take NGX_QUIC_SR_TOKEN_LEN tp.sr_token, ?_⟩
    simp only [List.append_assoc]
  · rw [hs]
    refine ⟨ngx_quic_tp_vint NGX_QUIC_TP_INITIAL_MAX_DATA tp.initial_max_data
      ++ ngx_quic_tp_vint NGX_QUIC_TP_INITIAL_MAX_STREAMS_UNI tp.initial_max_streams_uni
      ++ ngx_quic_tp_vint NGX_QUIC_TP_INITIAL_MAX_STREAMS_BIDI tp.initial_max_streams_bidi
      ++ ngx_quic_tp_vint NGX_QUIC_TP_INITIAL_MAX_STREAM_DATA_BIDI_LOCAL
          tp.initial_max_stream_data_bidi_local
      ++ ngx_quic_tp_vint NGX_QUIC_TP_INITIAL_MAX_STREAM_DATA_BIDI_REMOTE
          tp.initial_max_stream_data_bidi_remote
      ++ ngx_quic_tp_vint NGX_QUIC_TP_INITIAL_MAX_STREAM_DATA_UNI tp.initial_max_stream_data_uni
      ++ ngx_quic_tp_vint NGX_QUIC_TP_MAX_IDLE_TIMEOUT tp.max_idle_timeout
      ++ (if tp.disable_active_migration ≠ 0 then
          ngx_quic_build_int NGX_QUIC_TP_DISABLE_ACTIVE_MIGRATION ++ ngx_quic_build_int 0
        else [])
      ++ ngx_quic_tp_vint NGX_QUIC_TP_ACTIVE_CONNECTION_ID_LIMIT tp.active_connection_id_limit
      ++ ngx_quic_build_int NGX_QUIC_TP_ORIGINAL_DCID
      ++ (ngx_quic_build_int tp.original_dcid.len
        ++ mem_bytes mem tp.original_dcid.data tp.original_dcid.len
        ++ ngx_quic_tp_str mem NGX_QUIC_TP_INITIAL_SCID tp.initial_scid
        ++ if tp.retry_scid.len ≠ 0 then ngx_quic_tp_str mem NGX_QUIC_TP_RETRY_SCID tp.retry_scid
          else []), ?_⟩
    simp only [List.append_assoc]

theorem builder_output_rejected_witness :
    (example_tp_full.initial_max_data < 2 ^ 62 ∧ example_tp_full.initial_max_streams_uni < 2 ^ 62
        ∧ example_tp_full.initial_max_streams_bidi < 2 ^ 62
        ∧ example_tp_full.initial_max_stream_data_bidi_local < 2 ^ 62
        ∧ example_tp_full.initial_max_stream_data_bidi_remote < 2 ^ 62
        ∧ example_tp_full.initial_max_stream_data_uni < 2 ^ 62
        ∧ example_tp_full.max_idle_timeout < 2 ^ 62
        ∧ example_tp_full.active_connection_id_limit < 2 ^ 62)
      ∧ (ngx_quic_create_transport_params [1, 2, 3, 4, 5, 6] .buffer example_tp_full).out
          = example_tp_full_bytes
      ∧ ∃ tp2, ngx_quic_parse_transport_params
          (ngx_quic_create_transport_params [1, 2, 3, 4, 5, 6] .buffer example_tp_full).out 0
          (ngx_quic_create_transport_params [1, 2, 3, 4, 5, 6] .buffer
            example_tp_full).out.length ngx_quic_tp_zero
          = Exec.done (NGX_ERROR, tp2) :=
  ⟨by decide, by decide,
    (builder_output_rejected [1, 2, 3, 4, 5, 6] example_tp_full ngx_quic_tp_zero (by decide)
      (by decide) (by decide) (by decide) (by decide) (by decide) (by decide) (by decide)).1⟩

/-! ## Inversion of the header parsers -/

theorem header_step_ok {α : Type} (r : Rd (Nat × α)) (pkt : ngx_quic_header_t)
    (k : Nat → α → Exec (Int × ngx_quic_header_t)) (rc : Int) (pkt1 : ngx_quic_header_t)
    (h : ngx_quic_parse_header_step r pkt k = Exec.done (rc, pkt1)) (hok : rc ≠ NGX_ERROR) :
    ∃ p a, r = Rd.ok (p, a) ∧ k p a = Exec.done (rc, pkt1) := by
  cases r with
  | fault => cases h
  | null =>
    simp only [ngx_quic_parse_header_step, Exec.done.injEq, Prod.mk.injEq] at h
    exact absurd h.1.symm hok
  | ok r =>
    obtain ⟨p, a⟩ := r
    exact ⟨p, a, rfl, h⟩

theorem read_uint32_inv (buf : List u_char) (pos e p v : Nat) (hpos : pos ≤ e)
    (h : ngx_quic_read_uint32 buf pos e = Rd.ok (p, v)) : p = pos + 4 ∧ pos + 4 ≤ e := by
  unfold ngx_quic_read_uint32 at h
  split_ifs at h with hlt
  rw [size_t_diff_le _ _ hpos] at hlt
  split at h
  · simp only [Rd.ok.injEq, Prod.mk.injEq] at h
    exact ⟨h.1.symm, by omega⟩
  · cases h

theorem read_uint8_inv (buf : List u_char) (pos e p v : Nat) (hpos : pos ≤ e)
    (h : ngx_quic_read_uint8 buf pos e = Rd.ok (p, v)) :
    ∃ c : u_char, buf[pos]? = some c ∧ v = c.val ∧ p = pos + 1 ∧ pos + 1 ≤ e := by
  unfold ngx_quic_read_uint8 at h
  split_ifs at h with hlt
  rw [size_t_diff_le _ _ hpos] at hlt
  split at h
  · cases h
  · rename_i b hb
    simp only [Rd.ok.injEq, Prod.mk.injEq] at h
    exact ⟨b, hb, h.2.symm, h.1.symm, by omega⟩

theorem read_bytes_inv (pos e len p o : Nat) (hpos : pos ≤ e)
    (h : ngx_quic_read_bytes pos e len = Rd.ok (p, o)) :
    p = pos + len ∧ o = pos ∧ pos + len ≤ e := by
  unfold ngx_quic_read_bytes at h
  split_ifs at h with hlt
  rw [size_t_diff_le _ _ hpos] at hlt
  simp only [Rd.ok.injEq, Prod.mk.injEq] at h
  exact ⟨h.1.symm, h.2.symm, by omega⟩

/-- A long header that parses has its DCID length in the byte behind the version,
and the DCID right behind that byte, inside the datagram. -/
theorem long_header_dcid_inv (buf : List u_char) (pkt pkt1 : ngx_quic_header_t)
    (hpos : pkt.raw.pos ≤ pkt.data + pkt.len)
    (h : ngx_quic_parse_long_header buf pkt = Exec.done (NGX_OK, pkt1)) :
    ∃ c : u_char, buf[pkt.raw.pos + 4]? = some c
      ∧ pkt1.dcid = { len := c.val, data := pkt.raw.pos + 4 + 1 }
      ∧ pkt.raw.pos + 4 + 1 + c.val ≤ pkt.data + pkt.len
      ∧ pkt1.data = pkt.data ∧ pkt.raw.pos ≤ pkt1.raw.pos ∧ pkt1.flags = pkt.flags := by
  unfold ngx_quic_parse_long_header at h
  dsimp only at h
  obtain ⟨p1, v, h32, h⟩ := header_step_ok _ _ _ _ _ h (by decide)
  obtain ⟨e1, e2⟩ := read_uint32_inv _ _ _ _ _ hpos h32
  subst e1
  split_ifs at h with hf
  · cases h
  obtain ⟨p2, dl, h8, h⟩ := header_step_ok _ _ _ _ _ h (by decide)
  obtain ⟨c, hc, hv, e3, e4⟩ := read_uint8_inv _ _ _ _ _ (by omega) h8
  subst e3 hv
  split_ifs at h with hdl
  · cases h
  obtain ⟨p3, o3, hb, h⟩ := header_step_ok _ _ _ _ _ h (by decide)
  obtain ⟨e5, e6, e7⟩ := read_bytes_inv _ _ _ _ _ (by omega) hb
  subst e5 e6
  obtain ⟨p4, sl, h8b, h⟩ := header_step_ok _ _ _ _ _ h (by decide)
  obtain ⟨c2, hc2, hv2, e8, e9⟩ := read_uint8_inv _ _ _ _ _ (by omega) h8b
  subst e8 hv2
  split_ifs at h with hsl
  · cases h
  obtain ⟨p5, o5, hb2, h⟩ := header_step_ok _ _ _ _ _ h (by decide)
  obtain ⟨e10, e11, e12⟩ := read_bytes_inv _ _ _ _ _ (by omega) hb2
  subst e10 e11
  simp only [Exec.done.injEq, Prod.mk.injEq, true_and] at h
  subst h
  exact ⟨c, hc, rfl, e7, rfl, by dsimp only; omega, rfl⟩

theorem parse_packet_long_inv (buf : List u_char) (pkt pkt2 : ngx_quic_header_t)
    (hl : ngx_quic_long_pkt pkt.flags = true)
    (h : ngx_quic_parse_packet buf pkt = Exec.done (NGX_OK, pkt2)) :
    ∃ pkt1, ngx_quic_parse_long_header buf pkt = Exec.done (NGX_OK, pkt1)
      ∧ ¬ ngx_quic_supported_version pkt1.version = 0
      ∧ ngx_quic_parse_long_header_v1 buf pkt1 = Exec.done (NGX_OK, pkt2) := by
  unfold ngx_quic_parse_packet at h
  rw [if_neg (by rw [hl]; decide)] at h
  cases h1 : ngx_quic_parse_long_header buf pkt with
  | fault => rw [h1] at h; cases h
  | done r =>
    obtain ⟨rc1, pkt1⟩ := r
    rw [h1] at h
    dsimp only at h
    split_ifs at h with hrc hv
    · cases h
    · cases h
    · rw [not_not] at hrc
      subst hrc
      refine ⟨pkt1, rfl, hv, ?_⟩
      cases h2 : ngx_quic_parse_long_header_v1 buf pkt1 with
      | fault => rw [h2] at h; cases h
      | done r2 =>
        obtain ⟨rc2, pkt3⟩ := r2
        rw [h2] at h
        dsimp only at h
        split_ifs at h with hrc2
        · cases h
        · rw [not_not] at hrc2
          subst hrc2
          simp only [Exec.done.injEq, Prod.mk.injEq, true_and] at h
          rw [h]

theorem parse_packet_short_inv (buf : List u_char) (pkt pkt2 : ngx_quic_header_t)
    (hl : ngx_quic_long_pkt pkt.flags = false) (hpos : pkt.raw.pos ≤ pkt.data + pkt.len)
    (h : ngx_quic_parse_packet buf pkt = Exec.done (NGX_OK, pkt2)) :
    pkt2.dcid = { len := NGX_QUIC_SERVER_CID_LEN, data := pkt.raw.pos }
      ∧ pkt.raw.pos + NGX_QUIC_SERVER_CID_LEN ≤ pkt.data + pkt.len := by
  unfold ngx_quic_parse_packet at h
  rw [if_pos (by rw [hl]; decide)] at h
  dsimp only at h
  cases h1 : ngx_quic_parse_short_header
      { pkt with level := ssl_encryption_level_t.ssl_encryption_application }
      NGX_QUIC_SERVER_CID_LEN with
  | fault => rw [h1] at h; cases h
  | done r =>
    obtain ⟨rc1, pkt1⟩ := r
    rw [h1] at h
    dsimp only at h
    split_ifs at h with hrc
    · cases h
    rw [not_not] at hrc
    subst hrc
    simp only [Exec.done.injEq, Prod.mk.injEq, true_and] at h
    subst h
    unfold ngx_quic_parse_short_header at h1
    dsimp only at h1
    split_ifs at h1 with hf
    · cases h1
    obtain ⟨p, o, hb, h1⟩ := header_step_ok _ _ _ _ _ h1 (by decide)
    obtain ⟨e1, e2, e3⟩ := read_bytes_inv _ _ _ _ _ hpos hb
    subst e1 e2
    simp only [Exec.done.injEq, Prod.mk.injEq, true_and] at h1
    subst h1
    exact ⟨rfl, e3⟩

/-- C35: the DCID fast path agrees with the full parser.  When
`ngx_quic_parse_packet` returns OK on a datagram of `n` bytes at `pkt.data` (the
flags are its first byte, so `n` is at least 1, the cursor is just behind that byte
and `pkt.len = n`), `ngx_quic_get_packet_dcid` on the same `n` bytes returns OK
with the very DCID of the parsed descriptor: the same length at the same place,
which is offset 6 of the datagram for a long header, and offset 1 with the length
`NGX_QUIC_SERVER_CID_LEN` for a short header. -/
theorem fast_path_agrees (buf : List u_char) (pkt pkt2 : ngx_quic_header_t)
    (n : Nat) (dcid0 : ngx_str_t)
    (hflags : buf[pkt.data]? = some pkt.flags) (hraw : pkt.raw.pos = pkt.data + 1)
    (hlen : pkt.len = n) (hn : 0 < n)
    (h : ngx_quic_parse_packet buf pkt = Exec.done (NGX_OK, pkt2)) :
    ngx_quic_get_packet_dcid buf pkt.data n dcid0 = Exec.done (NGX_OK, pkt2.dcid)
      ∧ pkt2.dcid.data + pkt2.dcid.len ≤ pkt.data + n
      ∧ (ngx_quic_long_pkt pkt.flags = true → pkt2.dcid.data = pkt.data + 6)
      ∧ (ngx_quic_long_pkt pkt.flags = false →
          pkt2.dcid.data = pkt.data + 1 ∧ pkt2.dcid.len = NGX_QUIC_SERVER_CID_LEN) := by
  subst hlen
  by_cases hl : ngx_quic_long_pkt pkt.flags = true
  · obtain ⟨pkt1, h1, _, h2⟩ := parse_packet_long_inv buf pkt pkt2 hl h
    obtain ⟨c, hc, hd, hfit, hdata, hrp, _⟩ := long_header_dcid_inv buf pkt pkt1 (by omega) h1
    obtain ⟨a1, _, _, _⟩ := long_header_v1_inv buf pkt1 pkt2 (by omega) h2
    have hdc : pkt2.dcid = { len := c.val, data := pkt.data + 6 } := by
      rw [a1, hd, hraw]
    rw [hraw] at hc hfit
    have hc2 : buf[pkt.data + 5]? = some c := hc
    refine ⟨?_, ?_, ?_, ?_⟩
    · unfold ngx_quic_get_packet_dcid
      rw [if_neg (by omega), hflags]
      dsimp only
      rw [if_pos hl]
      simp only [NGX_QUIC_LONG_DCID_LEN_OFFSET, NGX_QUIC_LONG_DCID_OFFSET,
        ngx_quic_get_packet_dcid_tail]
      rw [if_neg (by omega), hc2]
      dsimp only
      rw [if_neg (by omega), hdc]
    · rw [hdc]
      dsimp only
      omega
    · intro _
      rw [hdc]
    · intro hs
      rw [hs] at hl
      cases hl
  · have hs : ngx_quic_long_pkt pkt.flags = false := by
      cases hb : ngx_quic_long_pkt pkt.flags with
      | true => exact absurd hb hl
      | false => rfl
    obtain ⟨hdc, hfit⟩ := parse_packet_short_inv buf pkt pkt2 hs (by omega) h
    rw [hraw] at hdc hfit
    refine ⟨?_, ?_, ?_, ?_⟩
    · unfold ngx_quic_get_packet_dcid
      rw [if_neg (by omega), hflags]
      dsimp only
      rw [hs]
      simp only [NGX_QUIC_SHORT_DCID_OFFSET, ngx_quic_get_packet_dcid_tail, Bool.false_eq_true,
        if_false]
      rw [if_neg (by omega), hdc]
    · rw [hdc]
      dsimp only
      omega
    · intro hl2
      exact absurd hl2 hl
    · intro _
      rw [hdc]
      exact ⟨rfl, rfl⟩

theorem fast_path_agrees_witness :
    (example_handshake_bytes[(example_long_pkt 0xE0 13 13).data]?
          = some (example_long_pkt 0xE0 13 13).flags
        ∧ (example_long_pkt 0xE0 13 13).raw.pos = (example_long_pkt 0xE0 13 13).data + 1
        ∧ (example_long_pkt 0xE0 13 13).len = 13 ∧ 0 < 13
        ∧ ngx_quic_parse_packet example_handshake_bytes (example_long_pkt 0xE0 13 13)
            = Exec.done (NGX_OK, example_handshake_parsed))
      ∧ ngx_quic_get_packet_dcid example_handshake_bytes 0 13 { len := 0, data := 0 }
          = Exec.done (NGX_OK, { len := 2, data := 6 })
      ∧ (ngx_quic_parse_packet example_short_datagram (example_long_pkt 0x40 24 24)
            = Exec.done (NGX_OK,
                { example_long_pkt 0x40 24 24 with
                  level := .ssl_encryption_application
                  dcid := { len := 20, data := 1 }
                  raw := { pos := 21, last := 24 } })
        ∧ ngx_quic_get_packet_dcid example_short_datagram 0 24 { len := 0, data := 0 }
            = Exec.done (NGX_OK, { len := 20, data := 1 })) :=
  ⟨⟨by decide, by decide, by decide, by decide, by decide⟩,
    (fast_path_agrees example_handshake_bytes (example_long_pkt 0xE0 13 13)
      example_handshake_parsed 13 { len := 0, data := 0 } (by decide) (by decide) (by decide)
      (by decide) (by decide)).1,
    by decide,
    (fast_path_agrees example_short_datagram (example_long_pkt 0x40 24 24)
      { example_long_pkt 0x40 24 24 with
        level := .ssl_encryption_application
        dcid := { len := 20, data := 1 }
        raw := { pos := 21, last := 24 } } 24 { len := 0, data := 0 } (by decide) (by decide)
      (by decide) (by decide) (by decide)).1⟩

/-! ## The frame parser keeps the frame type it has read -/

theorem type_error (pkt : ngx_quic_header_t) (f : ngx_quic_frame_t) (b : ngx_buf_t) (t : Nat)
    (hf : f.type = t) : keeps_frame_type t (ngx_quic_parse_frame_error pkt f b) := by
  intro ret hr
  cases hr
  exact hf

theorem type_return (pkt : ngx_quic_header_t) (start p : Nat) (f : ngx_quic_frame_t)
    (b : ngx_buf_t) (t : Nat) (hf : f.type = t) :
    keeps_frame_type t (ngx_quic_parse_frame_return pkt start p f b) := by
  intro ret hr
  cases hr
  exact hf

theorem type_step {α : Type} (rd : Rd (Nat × α)) (pkt : ngx_quic_header_t)
    (f : ngx_quic_frame_t) (b : ngx_buf_t) (k : Nat → α → Exec ngx_quic_parse_frame_ret)
    (t : Nat) (hk : ∀ p a, keeps_frame_type t (k p a)) (hf : f.type = t) :
    keeps_frame_type t (ngx_quic_parse_frame_step rd pkt f b k) := by
  cases rd with
  | fault => intro ret hr; cases hr
  | null => exact type_error pkt f b t hf
  | ok r =>
    obtain ⟨p, a⟩ := r
    exact hk p a

theorem type_crypto (pkt : ngx_quic_header_t) (buf : List u_char) (start e p : Nat)
    (f : ngx_quic_frame_t) (b : ngx_buf_t) :
    keeps_frame_type f.type (ngx_quic_parse_frame_crypto pkt buf start e p f b) := by
  unfold ngx_quic_parse_frame_crypto
  try dsimp only
  repeat' (first
    | exact type_error _ _ _ _ rfl
    | exact type_return _ _ _ _ _ _ rfl
    | refine type_step _ _ _ _ _ _ (fun _ _ => ?_) rfl
    | split_ifs)

theorem type_padding (pkt : ngx_quic_header_t) (buf : List u_char) (start e p : Nat)
    (f : ngx_quic_frame_t) (b : ngx_buf_t) :
    keeps_frame_type f.type (ngx_quic_parse_frame_padding pkt buf start e p f b) := by
  unfold ngx_quic_parse_frame_padding
  try dsimp only
  repeat' (first
    | exact type_error _ _ _ _ rfl
    | exact type_return _ _ _ _ _ _ rfl
    | refine type_step _ _ _ _ _ _ (fun _ _ => ?_) rfl
    | split_ifs)

theorem type_ack (pkt : ngx_quic_header_t) (buf : List u_char) (start e p : Nat)
    (f : ngx_quic_frame_t) (b : ngx_buf_t) :
    keeps_frame_type f.type (ngx_quic_parse_frame_ack pkt buf start e p f b) := by
  unfold ngx_quic_parse_frame_ack
  try dsimp only
  repeat' (first
    | exact type_error _ _ _ _ rfl
    | exact type_return _ _ _ _ _ _ rfl
    | refine type_step _ _ _ _ _ _ (fun _ _ => ?_) rfl
    | split_ifs)

theorem type_new_connection_id (pkt : ngx_quic_header_t) (buf : List u_char) (start e p : Nat)
    (f : ngx_quic_frame_t) (b : ngx_buf_t) :
    keeps_frame_type f.type (ngx_quic_parse_frame_new_connection_id pkt buf start e p f b) := by
  unfold ngx_quic_parse_frame_new_connection_id
  try dsimp only
  repeat' (first
    | exact type_error _ _ _ _ rfl
    | exact type_return _ _ _ _ _ _ rfl
    | refine type_step _ _ _ _ _ _ (fun _ _ => ?_) rfl
    | split_ifs)

theorem type_retire_connection_id (pkt : ngx_quic_header_t) (buf : List u_char) (start e p : Nat)
    (f : ngx_quic_frame_t) (b : ngx_buf_t) :
    keeps_frame_type f.type (ngx_quic_parse_frame_retire_connection_id pkt buf start e p f b) := by
  unfold ngx_quic_parse_frame_retire_connection_id
  try dsimp only
  repeat' (first
    | exact type_error _ _ _ _ rfl
    | exact type_return _ _ _ _ _ _ rfl
    | refine type_step _ _ _ _ _ _ (fun _ _ => ?_) rfl
    | split_ifs)

theorem type_connection_close (pkt : ngx_quic_header_t) (buf : List u_char) (start e p : Nat)
    (f : ngx_quic_frame_t) (b : ngx_buf_t) :
    keeps_frame_type f.type (ngx_quic_parse_frame_connection_close pkt buf start e p f b) := by
  unfold ngx_quic_parse_frame_connection_close
  try dsimp only
  repeat' (first
    | exact type_error _ _ _ _ rfl
    | exact type_return _ _ _ _ _ _ rfl
    | refine type_step _ _ _ _ _ _ (fun _ _ => ?_) rfl
    | split_ifs)

theorem type_stream (pkt : ngx_quic_header_t) (buf : List u_char) (start e p : Nat)
    (f : ngx_quic_frame_t) (b : ngx_buf_t) :
    keeps_frame_type f.type (ngx_quic_parse_frame_stream pkt buf start e p f b) := by
  unfold ngx_quic_parse_frame_stream
  try dsimp only
  repeat' (first
    | exact type_error _ _ _ _ rfl
    | exact type_return _ _ _ _ _ _ rfl
    | refine type_step _ _ _ _ _ _ (fun _ _ => ?_) rfl
    | split_ifs)

theorem type_max_data (pkt : ngx_quic_header_t) (buf : List u_char) (start e p : Nat)
    (f : ngx_quic_frame_t) (b : ngx_buf_t) :
    keeps_frame_type f.type (ngx_quic_parse_frame_max_data pkt buf start e p f b) := by
  unfold ngx_quic_parse_frame_max_data
  try dsimp only
  repeat' (first
    | exact type_error _ _ _ _ rfl
    | exact type_return _ _ _ _ _ _ rfl
    | refine type_step _ _ _ _ _ _ (fun _ _ => ?_) rfl
    | split_ifs)

theorem type_reset_stream (pkt : ngx_quic_header_t) (buf : List u_char) (start e p : Nat)
    (f : ngx_quic_frame_t) (b : ngx_buf_t) :
    keeps_frame_type f.type (ngx_quic_parse_frame_reset_stream pkt buf start e p f b) := by
  unfold ngx_quic_parse_frame_reset_stream
  try dsimp only
  repeat' (first
    | exact type_error _ _ _ _ rfl
    | exact type_return _ _ _ _ _ _ rfl
    | refine type_step _ _ _ _ _ _ (fun _ _ => ?_) rfl
    | split_ifs)

theorem type_stop_sending (pkt : ngx_quic_header_t) (buf : List u_char) (start e p : Nat)
    (f : ngx_quic_frame_t) (b : ngx_buf_t) :
    keeps_frame_type f.type (ngx_quic_parse_frame_stop_sending pkt buf start e p f b) := by
  unfold ngx_quic_parse_frame_stop_sending
  try dsimp only
  repeat' (first
    | exact type_error _ _ _ _ rfl
    | exact type_return _ _ _ _ _ _ rfl
    | refine type_step _ _ _ _ _ _ (fun _ _ => ?_) rfl
    | split_ifs)

theorem type_streams_blocked (pkt : ngx_quic_header_t) (buf : List u_char) (start e p : Nat)
    (f : ngx_quic_frame_t) (b : ngx_buf_t) :
    keeps_frame_type f.type (ngx_quic_parse_frame_streams_blocked pkt buf start e p f b) := by
  unfold ngx_quic_parse_frame_streams_blocked
  try dsimp only
  repeat' (first
    | exact type_error _ _ _ _ rfl
    | exact type_return _ _ _ _ _ _ rfl
    | refine type_step _ _ _ _ _ _ (fun _ _ => ?_) rfl
    | split_ifs)

theorem type_max_streams (pkt : ngx_quic_header_t) (buf : List u_char) (start e p : Nat)
    (f : ngx_quic_frame_t) (b : ngx_buf_t) :
    keeps_frame_type f.type (ngx_quic_parse_frame_max_streams pkt buf start e p f b) := by
  unfold ngx_quic_parse_frame_max_streams
  try dsimp only
  repeat' (first
    | exact type_error _ _ _ _ rfl
    | exact type_return _ _ _ _ _ _ rfl
    | refine type_step _ _ _ _ _ _ (fun _ _ => ?_) rfl
    | split_ifs)

theorem type_max_stream_data (pkt : ngx_quic_header_t) (buf : List u_char) (start e p : Nat)
    (f : ngx_quic_frame_t) (b : ngx_buf_t) :
    keeps_frame_type f.type (ngx_quic_parse_frame_max_stream_data pkt buf start e p f b) := by
  unfold ngx_quic_parse_frame_max_stream_data
  try dsimp only
  repeat' (first
    | exact type_error _ _ _ _ rfl
    | exact type_return _ _ _ _ _ _ rfl
    | refine type_step _ _ _ _ _ _ (fun _ _ => ?_) rfl
    | split_ifs)

theorem type_data_blocked (pkt : ngx_quic_header_t) (buf : List u_char) (start e p : Nat)
    (f : ngx_quic_frame_t) (b : ngx_buf_t) :
    keeps_frame_type f.type (ngx_quic_parse_frame_data_blocked pkt buf start e p f b) := by
  unfold ngx_quic_parse_frame_data_blocked
  try dsimp only
  repeat' (first
    | exact type_error _ _ _ _ rfl
    | exact type_return _ _ _ _ _ _ rfl
    | refine type_step _ _ _ _ _ _ (fun _ _ => ?_) rfl
    | split_ifs)

theorem type_stream_data_blocked (pkt : ngx_quic_header_t) (buf : List u_char) (start e p : Nat)
    (f : ngx_quic_frame_t) (b : ngx_buf_t) :
    keeps_frame_type f.type (ngx_quic_parse_frame_stream_data_blocked pkt buf start e p f b) := by
  unfold ngx_quic_parse_frame_stream_data_blocked
  try dsimp only
  repeat' (first
    | exact type_error _ _ _ _ rfl
    | exact type_return _ _ _ _ _ _ rfl
    | refine type_step _ _ _ _ _ _ (fun _ _ => ?_) rfl
    | split_ifs)

theorem type_path_challenge (pkt : ngx_quic_header_t) (buf : List u_char) (start e p : Nat)
    (f : ngx_quic_frame_t) (b : ngx_buf_t) :
    keeps_frame_type f.type (ngx_quic_parse_frame_path_challenge pkt buf start e p f b) := by
  unfold ngx_quic_parse_frame_path_challenge
  try dsimp only
  repeat' (first
    | exact type_error _ _ _ _ rfl
    | exact type_return _ _ _ _ _ _ rfl
    | refine type_step _ _ _ _ _ _ (fun _ _ => ?_) rfl
    | split_ifs)

theorem type_path_response (pkt : ngx_quic_header_t) (buf : List u_char) (start e p : Nat)
    (f : ngx_quic_frame_t) (b : ngx_buf_t) :
    keeps_frame_type f.type (ngx_quic_parse_frame_path_response pkt buf start e p f b) := by
  unfold ngx_quic_parse_frame_path_response
  try dsimp only
  repeat' (first
    | exact type_error _ _ _ _ rfl
    | exact type_return _ _ _ _ _ _ rfl
    | refine type_step _ _ _ _ _ _ (fun _ _ => ?_) rfl
    | split_ifs)

theorem type_switch (pkt : ngx_quic_header_t) (buf : List u_char) (start e p : Nat)
    (f : ngx_quic_frame_t) (b : ngx_buf_t) :
    keeps_frame_type f.type (ngx_quic_parse_frame_switch pkt buf start e p f b) := by
  unfold ngx_quic_parse_frame_switch
  split
  · exact type_crypto pkt buf start e p f b
  · exact type_padding pkt buf start e p f b
  · exact type_ack pkt buf start e p f b
  · exact type_ack pkt buf start e p f b
  · exact type_return _ _ _ _ _ _ rfl
  · exact type_new_connection_id pkt buf start e p f b
  · exact type_retire_connection_id pkt buf start e p f b
  · exact type_connection_close pkt buf start e p f b
  · exact type_connection_close pkt buf start e p f b
  · exact type_stream pkt buf start e p f b
  · exact type_stream pkt buf start e p f b
  · exact type_stream pkt buf start e p f b
  · exact type_stream pkt buf start e p f b
  · exact type_stream pkt buf start e p f b
  · exact type_stream pkt buf start e p f b
  · exact type_stream pkt buf start e p f b
  · exact type_stream pkt buf start e p f b
  · exact type_max_data pkt buf start e p f b
  · exact type_reset_stream pkt buf start e p f b
  · exact type_stop_sending pkt buf start e p f b
  · exact type_streams_blocked pkt buf start e p f b
  · exact type_streams_blocked pkt buf start e p f b
  · exact type_max_streams pkt buf start e p f b
  · exact type_max_streams pkt buf start e p f b
  · exact type_max_stream_data pkt buf start e p f b
  · exact type_data_blocked pkt buf start e p f b
  · exact type_stream_data_blocked pkt buf start e p f b
  · exact type_path_challenge pkt buf start e p f b
  · exact type_path_response pkt buf start e p f b
  · intro ret hr
    cases hr
    rfl

theorem frame_step_ok {α : Type} (rd : Rd (Nat × α)) (pkt : ngx_quic_header_t)
    (f : ngx_quic_frame_t) (b : ngx_buf_t) (k : Nat → α → Exec ngx_quic_parse_frame_ret)
    (ret : ngx_quic_parse_frame_ret)
    (h : ngx_quic_parse_frame_step rd pkt f b k = Exec.done ret) (hok : ret.rc ≠ NGX_ERROR) :
    ∃ p a, rd = Rd.ok (p, a) ∧ k p a = Exec.done ret := by
  cases rd with
  | fault => cases h
  | null =>
    cases h
    exact absurd rfl hok
  | ok r =>
    obtain ⟨p, a⟩ := r
    exact ⟨p, a, rfl, h⟩

/-- A run of `ngx_quic_parse_frame` that does not return ERROR has read a frame
type that the packet admits and has run the switch on it; the frame descriptor it
returns has that type. -/
theorem parse_frame_ok_inv (adj : Nat → Option u_char) (pkt : ngx_quic_header_t)
    (buf : List u_char) (start e : Nat) (f : ngx_quic_frame_t) (b : ngx_buf_t) (ret : ngx_quic_parse_frame_ret)
    (h : ngx_quic_parse_frame adj pkt buf start e f b = Exec.done ret)
    (hok : ret.rc ≠ NGX_ERROR) :
    ∃ p, ngx_quic_parse_int buf start e = Rd.ok (p, ret.f.type)
      ∧ ngx_quic_parse_frame_switch pkt buf start e p { f with type := ret.f.type } b
          = Exec.done ret := by
  unfold ngx_quic_parse_frame at h
  dsimp only at h
  obtain ⟨p, t, hp, h⟩ := frame_step_ok _ _ _ _ _ _ h hok
  cases hA : ngx_quic_frame_allowed adj pkt t with
  | fault =>
    rw [hA] at h
    cases h
  | done rc =>
    rw [hA] at h
    dsimp only at h
    split_ifs at h with hallow
    · cases h
      exact absurd rfl hok
    · have ht := type_switch pkt buf start e p { f with type := t } b ret h
      have ht2 : ret.f.type = t := ht
      rw [ht2]
      exact ⟨p, hp, h⟩

/-! ## The ranges region of an ACK frame -/

/-- A successful `ngx_quic_parse_int` gives the same result on every buffer that
ends at or behind the byte where it stopped. -/
theorem parse_int_shrink (buf : List u_char) (pos e e2 p1 v : Nat)
    (h : ngx_quic_parse_int buf pos e = Rd.ok (p1, v)) (h2 : p1 ≤ e2) :
    ngx_quic_parse_int buf pos e2 = Rd.ok (p1, v) := by
  unfold ngx_quic_parse_int at h ⊢
  by_cases h1 : pos ≥ e
  · rw [if_pos h1] at h; cases h
  rw [if_neg h1] at h
  cases hb : buf[pos]? with
  | none => rw [hb] at h; cases h
  | some c =>
    rw [hb] at h
    dsimp only at h ⊢
    rw [size_t_diff_le _ _ (by omega)] at h
    split_ifs at h with h3
    have hp := parse_int_loop_pos buf _ _ _ _ _ h
    rw [if_neg (by omega), size_t_diff_le _ _ (by omega), if_neg (by omega)]
    exact h

/-- The loop over the ranges of an ACK frame, when it succeeds at `q`, has read a
region that `ngx_quic_parse_ack_range` walks pair by pair up to `q`. -/
theorem ack_ranges_walk (buf : List u_char) (e : Nat) :
    ∀ (n p q : Nat) (u : Unit),
      ngx_quic_parse_frame_ack_ranges buf e n p = Rd.ok (q, u) → p ≤ e →
      ack_range_walk buf q n p = some q ∧ p + 2 * n ≤ q ∧ q ≤ e := by
  intro n
  induction n with
  | zero =>
    intro p q u h hp
    unfold ngx_quic_parse_frame_ack_ranges at h
    cases h
    exact ⟨rfl, by omega, hp⟩
  | succ n ih =>
    intro p q u h hp
    unfold ngx_quic_parse_frame_ack_ranges at h
    cases h1 : ngx_quic_parse_int buf p e with
    | fault => rw [h1] at h; cases h
    | null => rw [h1] at h; cases h
    | ok r1 =>
      obtain ⟨p1, g⟩ := r1
      rw [h1] at h
      dsimp only at h
      cases h2 : ngx_quic_parse_int buf p1 e with
      | fault => rw [h2] at h; cases h
      | null => rw [h2] at h; cases h
      | ok r2 =>
        obtain ⟨p2, r⟩ := r2
        rw [h2] at h
        dsimp only at h
        obtain ⟨b1, b2, _⟩ := parse_int_ok_bounds buf p e p1 g h1
        obtain ⟨b3, b4, _⟩ := parse_int_ok_bounds buf p1 e p2 r h2
        obtain ⟨w1, w2, w3⟩ := ih p2 q u h b4
        refine ⟨?_, by omega, w3⟩
        unfold ack_range_walk ngx_quic_parse_ack_range
        rw [parse_int_shrink buf p e q p1 g h1 (by omega)]
        dsimp only
        rw [parse_int_shrink buf p1 e q p2 r h2 (by omega)]
        dsimp only
        rw [if_neg (by show ¬ ((p2 : Int) - (p : Int) = -1); omega)]
        rw [show p + ((p2 : Int) - (p : Int)).toNat = p2 by omega]
        exact w1

/-- The ACK case of the frame parser, when it does not return ERROR: the buffer
`b` of the frame delimits the ranges that the loop has read, and the frame ends
behind them, inside the input. -/
theorem parse_frame_ack_inv (pkt : ngx_quic_header_t) (buf : List u_char) (start e p : Nat)
    (f : ngx_quic_frame_t) (b : ngx_buf_t) (ret : ngx_quic_parse_frame_ret)
    (h : ngx_quic_parse_frame_ack pkt buf start e p f b = Exec.done ret)
    (hok : ret.rc ≠ NGX_ERROR) :
    ngx_quic_parse_frame_ack_ranges buf e ret.f.u.ack.range_count ret.b.pos
        = Rd.ok (ret.b.last, ())
      ∧ p < ret.b.pos ∧ ret.b.pos ≤ e
      ∧ ret.f.u.ack.ranges_length = ret.b.last - ret.b.pos
      ∧ (ret.b.last : Int) ≤ (start : Int) + ret.rc
      ∧ (start : Int) + ret.rc ≤ (e : Int) := by
  unfold ngx_quic_parse_frame_ack at h
  dsimp only at h
  obtain ⟨p1, v1, h1, h⟩ := frame_step_ok _ _ _ _ _ _ h hok
  obtain ⟨p2, v2, h2, h⟩ := frame_step_ok _ _ _ _ _ _ h hok
  obtain ⟨p3, v3, h3, h⟩ := frame_step_ok _ _ _ _ _ _ h hok
  obtain ⟨p4, v4, h4, h⟩ := frame_step_ok _ _ _ _ _ _ h hok
  obtain ⟨q, u, h5, h⟩ := frame_step_ok _ _ _ _ _ _ h hok
  obtain ⟨b1, _, _⟩ := parse_int_ok_bounds buf _ _ _ _ h1
  obtain ⟨b2, _, _⟩ := parse_int_ok_bounds buf _ _ _ _ h2
  obtain ⟨b3, _, _⟩ := parse_int_ok_bounds buf _ _ _ _ h3
  obtain ⟨b4, b5, _⟩ := parse_int_ok_bounds buf _ _ _ _ h4
  obtain ⟨_, w2, w3⟩ := ack_ranges_walk buf e v3 p4 q u h5 b5
  split_ifs at h with hecn
  · obtain ⟨p6, v6, h6, h⟩ := frame_step_ok _ _ _ _ _ _ h hok
    obtain ⟨p7, v7, h7, h⟩ := frame_step_ok _ _ _ _ _ _ h hok
    obtain ⟨p8, v8, h8, h⟩ := frame_step_ok _ _ _ _ _ _ h hok
    obtain ⟨c1, _, _⟩ := parse_int_ok_bounds buf _ _ _ _ h6
    obtain ⟨c2, _, _⟩ := parse_int_ok_bounds buf _ _ _ _ h7
    obtain ⟨c3, c4, _⟩ := parse_int_ok_bounds buf _ _ _ _ h8
    cases h
    dsimp only
    exact ⟨h5, by omega, by omega, rfl, by omega, by omega⟩
  · cases h
    dsimp only
    exact ⟨h5, by omega, by omega, rfl, by omega, by omega⟩

/-- C32: the ranges region of an ACK frame.  Whenever `ngx_quic_parse_frame` does
not return ERROR and the frame it returns has the type ACK or ACK_ECN, the region
that it reports, from `b.pos` to `b.last`, lies inside the input behind the frame
type and inside the bytes of the frame, it is `ranges_length` bytes long, and
`ngx_quic_parse_ack_range` applied `range_count` times to it, each time where the
call before stopped, succeeds each time and stops exactly at the end of the
region; so `ranges_length` is at least `2 * range_count`. -/
theorem ack_ranges_region (adj : Nat → Option u_char) (pkt : ngx_quic_header_t) (buf : List u_char)
    (start e : Nat) (f : ngx_quic_frame_t) (b : ngx_buf_t) (ret : ngx_quic_parse_frame_ret)
    (h : ngx_quic_parse_frame adj pkt buf start e f b = Exec.done ret)
    (hok : ret.rc ≠ NGX_ERROR)
    (hty : ret.f.type = NGX_QUIC_FT_ACK ∨ ret.f.type = NGX_QUIC_FT_ACK_ECN) :
    start < ret.b.pos ∧ ret.b.pos ≤ ret.b.last
      ∧ (ret.b.last : Int) ≤ (start : Int) + ret.rc ∧ (start : Int) + ret.rc ≤ (e : Int)
      ∧ ret.b.last - ret.b.pos = ret.f.u.ack.ranges_length
      ∧ ack_range_walk buf ret.b.last ret.f.u.ack.range_count ret.b.pos = some ret.b.last
      ∧ 2 * ret.f.u.ack.range_count ≤ ret.f.u.ack.ranges_length := by
  obtain ⟨p, hp, hsw⟩ := parse_frame_ok_inv adj pkt buf start e f b ret h hok
  obtain ⟨b1, _, _⟩ := parse_int_ok_bounds buf _ _ _ _ hp
  have hack : ngx_quic_parse_frame_ack pkt buf start e p { f with type := ret.f.type } b
      = Exec.done ret := by
    unfold ngx_quic_parse_frame_switch at hsw
    rcases hty with ht | ht
    · rw [ht] at hsw ⊢
      exact hsw
    · rw [ht] at hsw ⊢
      exact hsw
  obtain ⟨a1, a2, a3, a4, a5, a6⟩ := parse_frame_ack_inv pkt buf start e p _ b ret hack hok
  obtain ⟨w1, w2, w3⟩ := ack_ranges_walk buf e _ _ _ _ a1 a3
  exact ⟨by omega, by omega, a5, a6, a4.symm, w1, by omega⟩

theorem ack_ranges_region_witness :
    (ngx_quic_parse_frame (fun _ => some 0) (ngx_quic_header_zero 0x40) example_s3_one_range 0 7
          ngx_quic_frame_zero { pos := 0, last := 0 }
        = Exec.done
            { rc := 7, pkt := ngx_quic_header_zero 0x40,
              f := { ngx_quic_frame_zero with
                     type := NGX_QUIC_FT_ACK
                     u.ack := { largest := 10, delay := 25, range_count := 1,
                                first_range := 0, ect0 := 0, ect1 := 0, ce := 0,
                                ranges_length := 2 } },
              b := { pos := 5, last := 7 } })
      ∧ mem_bytes example_s3_one_range 5 2 = [0x02, 0x00]
      ∧ ngx_quic_parse_ack_range example_s3_one_range 5 7 = Exec.done (2, 2, 0)
      ∧ ack_range_walk example_s3_one_range 7 1 5 = some 7 :=
  ⟨by decide, by decide, by decide,
    (ack_ranges_region (fun _ => some 0) (ngx_quic_header_zero 0x40) example_s3_one_range 0 7
      ngx_quic_frame_zero { pos := 0, last := 0 }
      { rc := 7, pkt := ngx_quic_header_zero 0x40,
        f := { ngx_quic_frame_zero with
               type := NGX_QUIC_FT_ACK
               u.ack := { largest := 10, delay := 25, range_count := 1,
                          first_range := 0, ect0 := 0, ect1 := 0, ce := 0,
                          ranges_length := 2 } },
        b := { pos := 5, last := 7 } }
      (by decide) (by decide) (Or.inl rfl)).2.2.2.2.2.1⟩

/-! ## Long headers: from the builder to the parser -/

theorem parse_uint32_write (v : Nat)
    (hv : v = 0xff00001d ∨ v = 0xff00001e ∨ v = 0xff00001f ∨ v = 0xff000020 ∨ v = 0x00000001) :
    ngx_quic_parse_uint32 (to_u_char (v >>> 24)) (to_u_char (v >>> 16)) (to_u_char (v >>> 8))
      (to_u_char v) = v := by
  rcases hv with h | h | h | h | h <;> subst h <;> decide

/-- The bytes that `ngx_quic_create_header` writes for a long-header descriptor,
field by field, with the position stored in `*pnp` and the return value. -/
theorem create_long_header_shape (mem : List u_char) (P : ngx_quic_header_t) (pkt_len : Nat)
    (h80 : P.flags.val &&& 0x80 ≠ 0) :
    (ngx_quic_create_header mem P .buffer pkt_len).out
        = P.flags :: to_u_char (P.version >>> 24) :: to_u_char (P.version >>> 16)
          :: to_u_char (P.version >>> 8) :: to_u_char P.version :: to_u_char P.dcid.len
          :: (mem_bytes mem P.dcid.data P.dcid.len ++ to_u_char P.scid.len
          :: (mem_bytes mem P.scid.data P.scid.len
          ++ ((if P.level = .ssl_encryption_initial then ngx_quic_build_int 0 else [])
          ++ (ngx_quic_build_int (size_t_sum (pkt_len + P.num_len))
          ++ ngx_quic_create_header_trunc P))))
      ∧ (ngx_quic_create_header mem P .buffer pkt_len).pnp
        = some (1 + 4 + 1 + (mem_bytes mem P.dcid.data P.dcid.len).length + 1
            + (mem_bytes mem P.scid.data P.scid.len).length
            + (if P.level = .ssl_encryption_initial then ngx_quic_build_int 0 else []).length
            + (ngx_quic_build_int (size_t_sum (pkt_len + P.num_len))).length)
      ∧ (ngx_quic_create_header mem P .buffer pkt_len).rc
        = 1 + 4 + 1 + (mem_bytes mem P.dcid.data P.dcid.len).length + 1
            + (mem_bytes mem P.scid.data P.scid.len).length
            + (if P.level = .ssl_encryption_initial then ngx_quic_build_int 0 else []).length
            + (ngx_quic_build_int (size_t_sum (pkt_len + P.num_len))).length
            + (ngx_quic_create_header_trunc P).length := by
  have hs : ngx_quic_short_pkt P.flags = false := by
    simp only [ngx_quic_short_pkt, decide_eq_false_iff_not]
    exact h80
  unfold ngx_quic_create_header
  rw [hs]
  simp only [Bool.false_eq_true, if_false, ngx_quic_create_long_header, ngx_quic_write_uint32,
    List.append_assoc, List.cons_append, List.nil_append, List.singleton_append,
    List.length_append, List.length_cons, List.length_nil, true_and, Option.some.injEq]
  constructor <;> omega

/-- The end of `ngx_quic_parse_long_header_v1` on a length field written by
`ngx_quic_build_int`, when the announced bytes fit in the datagram. -/
theorem v1_length_ok (buf : List u_char) (pkt : ngx_quic_header_t) (p e v : Nat)
    (suf : List u_char) (hv : v < 2 ^ 62)
    (hd : buf.drop p = ngx_quic_build_int v ++ suf)
    (hpe : p + ngx_quic_varint_len v ≤ e)
    (hfit : p + ngx_quic_varint_len v + v ≤ pkt.data + pkt.len) (hdata : pkt.data ≤ p) :
    ∃ pkt2, ngx_quic_parse_long_header_v1_length buf pkt p e = Exec.done (NGX_OK, pkt2)
      ∧ pkt2.raw.pos = p + ngx_quic_varint_len v
      ∧ pkt2.data + pkt2.len = p + ngx_quic_varint_len v + v
      ∧ pkt2.data = pkt.data
      ∧ pkt2.version = pkt.version ∧ pkt2.level = pkt.level ∧ pkt2.dcid = pkt.dcid
      ∧ pkt2.scid = pkt.scid ∧ pkt2.token = pkt.token := by
  unfold ngx_quic_parse_long_header_v1_length
  rw [parse_int_build buf p e v suf hv hd hpe]
  simp only [ngx_quic_parse_header_step]
  rw [size_t_diff_le _ _ (by omega), if_neg (by omega)]
  refine ⟨_, rfl, rfl, ?_, rfl, rfl, rfl, rfl, rfl, rfl⟩
  dsimp only
  rw [size_t_diff_le _ _ (by omega)]
  omega

/-- The function `ngx_quic_parse_long_header_v1` behind the connection ids of a
header written by the builder: the token length 0 of an Initial packet, or nothing
for a 0-RTT or Handshake packet, and then the length field. -/
theorem long_header_v1_ok (buf : List u_char) (pkt : ngx_quic_header_t) (v : Nat)
    (lvl : ssl_encryption_level_t) (suf : List u_char) (hv : v < 2 ^ 62)
    (hlevel : (lvl = .ssl_encryption_initial ∧ pkt.flags.val &&& 0x30 = 0x00
          ∧ 1200 ≤ pkt.len)
        ∨ (lvl = .ssl_encryption_early_data ∧ pkt.flags.val &&& 0x30 = 0x10)
        ∨ (lvl = .ssl_encryption_handshake ∧ pkt.flags.val &&& 0x30 = 0x20))
    (hd : buf.drop pkt.raw.pos
      = (if lvl = .ssl_encryption_initial then ngx_quic_build_int 0 else [])
          ++ (ngx_quic_build_int v ++ suf))
    (hpe : pkt.raw.pos + (if lvl = .ssl_encryption_initial then 1 else 0)
      + ngx_quic_varint_len v ≤ pkt.raw.last)
    (hfit : pkt.raw.pos + (if lvl = .ssl_encryption_initial then 1 else 0)
      + ngx_quic_varint_len v + v ≤ pkt.data + pkt.len)
    (hdata : pkt.data ≤ pkt.raw.pos) :
    ∃ pkt2, ngx_quic_parse_long_header_v1 buf pkt = Exec.done (NGX_OK, pkt2)
      ∧ pkt2.raw.pos = pkt.raw.pos + (if lvl = .ssl_encryption_initial then 1 else 0)
          + ngx_quic_varint_len v
      ∧ pkt2.data + pkt2.len = pkt.raw.pos + (if lvl = .ssl_encryption_initial then 1 else 0)
          + ngx_quic_varint_len v + v
      ∧ pkt2.data = pkt.data
      ∧ pkt2.version = pkt.version ∧ pkt2.level = lvl ∧ pkt2.dcid = pkt.dcid
      ∧ pkt2.scid = pkt.scid
      ∧ (lvl = .ssl_encryption_initial → pkt2.token.len = 0) := by
  have l0 : ngx_quic_varint_len 0 = 1 := by decide
  unfold ngx_quic_parse_long_header_v1
  dsimp only
  rcases hlevel with ⟨hl, hf, hn⟩ | ⟨hl, hf⟩ | ⟨hl, hf⟩
  · subst hl
    rw [if_pos rfl] at hd hpe hfit
    have hin : ngx_quic_pkt_in pkt.flags = true := by
      simp only [ngx_quic_pkt_in, decide_eq_true_eq]
      exact hf
    rw [if_pos hin, if_neg (by show ¬ pkt.len < 1200; omega),
      parse_int_build buf _ _ 0 _ (by norm_num) hd (by omega)]
    simp only [ngx_quic_parse_header_step]
    rw [read_bytes_ok _ _ 0 (by omega)]
    dsimp only
    rw [l0]
    have hd2 := drop_build buf _ 0 _ (by norm_num) hd
    rw [l0] at hd2
    obtain ⟨pkt2, h1, h2, h3, h4, h5, h6, h7, h8, h9⟩ := v1_length_ok buf
      { pkt with token := { len := 0, data := pkt.raw.pos + 1 },
                 level := .ssl_encryption_initial }
      (pkt.raw.pos + 1) pkt.raw.last v suf hv hd2 (by omega) (by dsimp only; omega)
      (by dsimp only; omega)
    refine ⟨pkt2, h1, ?_, ?_, h4, h5, h6, h7, h8, fun _ => ?_⟩
    · simpa using h2
    · simpa using h3
    · rw [h9]
  · subst hl
    rw [if_neg (by decide)] at hd hpe hfit
    have hin : ngx_quic_pkt_in pkt.flags = false := by
      simp only [ngx_quic_pkt_in, decide_eq_false_iff_not]
      omega
    have hz : ngx_quic_pkt_zrtt pkt.flags = true := by
      simp only [ngx_quic_pkt_zrtt, decide_eq_true_eq]
      exact hf
    rw [hin, hz]
    simp only [Bool.false_eq_true, if_false, if_true]
    obtain ⟨pkt2, h1, h2, h3, h4, h5, h6, h7, h8, h9⟩ := v1_length_ok buf
      { pkt with level := .ssl_encryption_early_data }
      pkt.raw.pos pkt.raw.last v suf hv hd (by omega) (by dsimp only; omega)
      (by dsimp only; omega)
    refine ⟨pkt2, h1, ?_, ?_, h4, h5, h6, h7, h8, fun hc => by cases hc⟩
    · simpa using h2
    · simpa using h3
  · subst hl
    rw [if_neg (by decide)] at hd hpe hfit
    have hin : ngx_quic_pkt_in pkt.flags = false := by
      simp only [ngx_quic_pkt_in, decide_eq_false_iff_not]
      omega
    have hz : ngx_quic_pkt_zrtt pkt.flags = false := by
      simp only [ngx_quic_pkt_zrtt, decide_eq_false_iff_not]
      omega
    have hh : ngx_quic_pkt_hs pkt.flags = true := by
      simp only [ngx_quic_pkt_hs, decide_eq_true_eq]
      exact hf
    rw [hin, hz, hh]
    simp only [Bool.false_eq_true, if_false, if_true]
    obtain ⟨pkt2, h1, h2, h3, h4, h5, h6, h7, h8, h9⟩ := v1_length_ok buf
      { pkt with level := .ssl_encryption_handshake }
      pkt.raw.pos pkt.raw.last v suf hv hd (by omega) (by dsimp only; omega)
      (by dsimp only; omega)
    refine ⟨pkt2, h1, ?_, ?_, h4, h5, h6, h7, h8, fun hc => by cases hc⟩
    · simpa using h2
    · simpa using h3

/-- C34: long-header round trip.  Take a long-header descriptor `P` whose flags
have the bits 0x80 and 0x40 set and type bits that match its level (Initial with a
datagram of at least 1200 bytes, 0-RTT or Handshake), with a supported version,
connection ids of at most 20 bytes that lie in the memory, `num_len` in 1..4 and
`pkt_len + num_len` below 2^62.  If the bytes that `ngx_quic_create_header` writes
for `P` stand at `pkt0.data` in a datagram of `n` bytes with `h + pkt_len ≤ n`,
where `h` is the return value of the builder, then `ngx_quic_parse_packet` on a
descriptor with the flags of the first byte, the cursor just behind it and
`len = n` returns OK with the same version and level, a DCID and an SCID of the
same lengths and bytes, an empty token for Initial, the cursor at the position
stored in `*pnp`, and `len = h + pkt_len`. -/
theorem long_header_round_trip (mem buf : List u_char) (P pkt0 : ngx_quic_header_t)
    (pkt_len n : Nat) (rest : List u_char)
    (h80 : P.flags.val &&& 0x80 ≠ 0) (h40 : P.flags.val &&& 0x40 ≠ 0)
    (hlevel : (P.level = .ssl_encryption_initial ∧ P.flags.val &&& 0x30 = 0x00 ∧ 1200 ≤ n)
        ∨ (P.level = .ssl_encryption_early_data ∧ P.flags.val &&& 0x30 = 0x10)
        ∨ (P.level = .ssl_encryption_handshake ∧ P.flags.val &&& 0x30 = 0x20))
    (hver : ngx_quic_supported_version P.version ≠ 0)
    (hdl : P.dcid.len ≤ 20) (hsl : P.scid.len ≤ 20)
    (hdm : P.dcid.data + P.dcid.len ≤ mem.length)
    (hsm : P.scid.data + P.scid.len ≤ mem.length)
    (hnum1 : 1 ≤ P.num_len) (hnum4 : P.num_len ≤ 4) (hpl : pkt_len + P.num_len < 2 ^ 62)
    (hflags : pkt0.flags = P.flags) (hraw : pkt0.raw.pos = pkt0.data + 1)
    (hlast : pkt0.raw.last = pkt0.data + n) (hlen : pkt0.len = n)
    (hbuf : buf.drop pkt0.data = (ngx_quic_create_header mem P .buffer pkt_len).out ++ rest)
    (hroom : (ngx_quic_create_header mem P .buffer pkt_len).rc + pkt_len ≤ n) :
    ∃ pkt2 pn, ngx_quic_parse_packet buf pkt0 = Exec.done (NGX_OK, pkt2)
      ∧ (ngx_quic_create_header mem P .buffer pkt_len).pnp = some pn
      ∧ pkt2.raw.pos = pkt0.data + pn
      ∧ pkt2.len = (ngx_quic_create_header mem P .buffer pkt_len).rc + pkt_len
      ∧ pkt2.version = P.version ∧ pkt2.level = P.level
      ∧ pkt2.dcid.len = P.dcid.len
      ∧ mem_bytes buf pkt2.dcid.data pkt2.dcid.len = mem_bytes mem P.dcid.data P.dcid.len
      ∧ pkt2.scid.len = P.scid.len
      ∧ mem_bytes buf pkt2.scid.data pkt2.scid.len = mem_bytes mem P.scid.data P.scid.len
      ∧ (P.level = .ssl_encryption_initial → pkt2.token.len = 0) := by
  obtain ⟨hout, hpnp, hrc⟩ := create_long_header_shape mem P pkt_len h80
  have hD := mem_bytes_length mem _ _ hdm
  have hS := mem_bytes_length mem _ _ hsm
  have hs : size_t_sum (pkt_len + P.num_len) = pkt_len + P.num_len :=
    size_t_sum_small _ (by omega)
  have hL := build_int_length _ hpl
  have hT : (if P.level = .ssl_encryption_initial then ngx_quic_build_int 0 else []).length
      = (if P.level = .ssl_encryption_initial then 1 else 0) := by
    split_ifs
    · exact build_int_length_small 0 (by norm_num)
    · rfl
  have hT1 : (if P.level = ssl_encryption_level_t.ssl_encryption_initial then 1 else 0) ≤ 1 := by
    split_ifs <;> omega
  have htr := (create_header_trunc_eq P hnum1 hnum4).2
  have hvl := varint_len_pos _ hpl
  rw [hs] at hout hpnp hrc
  rw [hD, hS, hL, hT] at hpnp hrc
  rw [htr] at hrc
  rw [hrc] at hroom ⊢
  rw [hpnp]
  rw [hout] at hbuf
  simp only [List.cons_append, List.append_assoc] at hbuf
  obtain ⟨_, hd1⟩ := drop_head hbuf
  rw [← hraw] at hd1
  have hdv : (to_u_char P.dcid.len).val = P.dcid.len := by
    rw [to_u_char_val]; omega
  have hsv : (to_u_char P.scid.len).val = P.scid.len := by
    rw [to_u_char_val]; omega
  have h1 := long_header_ok buf pkt0 _ _ _ _ _ _ _ _ _ (by rw [hflags]; exact h40) hd1
    (by rw [hdv, hD]) (by rw [hdv]; exact hdl) (by rw [hsv, hS]) (by rw [hsv]; exact hsl)
    (by rw [hD, hS, hlen]; omega)
  rw [hdv, hsv] at h1
  obtain ⟨_, e0⟩ := drop_head hd1
  obtain ⟨_, e1⟩ := drop_head e0
  obtain ⟨_, e2⟩ := drop_head e1
  obtain ⟨_, e3⟩ := drop_head e2
  obtain ⟨_, e4⟩ := drop_head e3
  have e5 := drop_append_length _ _ _ _ e4
  rw [hD] at e5
  obtain ⟨_, e6⟩ := drop_head e5
  have e7 := drop_append_length _ _ _ _ e6
  rw [hS] at e7
  have hvsup := (not_congr (supported_version_iff P.version)).mp hver
  rw [not_not] at hvsup
  have hvers := parse_uint32_write P.version hvsup
  rw [hvers] at h1
  have hpos : pkt0.raw.pos + 1 + 1 + 1 + 1 + 1 + P.dcid.len + 1 + P.scid.len
      = pkt0.raw.pos + 4 + 1 + P.dcid.len + 1 + P.scid.len := by omega
  rw [hpos] at e7
  obtain ⟨pkt2, g1, g2, g3, g4, g5, g6, g7, g8, g9⟩ := long_header_v1_ok buf
    { pkt0 with
      version := P.version
      dcid := { len := P.dcid.len, data := pkt0.raw.pos + 4 + 1 }
      scid := { len := P.scid.len, data := pkt0.raw.pos + 4 + 1 + P.dcid.len + 1 }
      raw := { pkt0.raw with pos := pkt0.raw.pos + 4 + 1 + P.dcid.len + 1 + P.scid.len } }
    (pkt_len + P.num_len) P.level _ hpl
    (by
      rcases hlevel with ⟨a, b, c⟩ | ⟨a, b⟩ | ⟨a, b⟩
      · exact Or.inl ⟨a, by rw [← b, ← hflags], by show 1200 ≤ pkt0.len; omega⟩
      · exact Or.inr (Or.inl ⟨a, by rw [← b, ← hflags]⟩)
      · exact Or.inr (Or.inr ⟨a, by rw [← b, ← hflags]⟩))
    e7 (by dsimp only; omega) (by dsimp only; omega) (by dsimp only; omega)
  have hl : ngx_quic_long_pkt pkt0.flags = true := by
    rw [hflags]
    simp only [ngx_quic_long_pkt, decide_eq_true_eq]
    exact h80
  have hp := parse_packet_long buf pkt0 _ pkt2 NGX_OK hl h1 hver g1
  rw [if_neg (not_not.mpr rfl)] at hp
  dsimp only at g2 g3 g4 g5 g7 g8
  refine ⟨pkt2, _, hp, rfl, by omega, by omega, g5, g6, ?_, ?_, ?_, ?_, g9⟩
  · rw [g7]
  · rw [g7]
    show (buf.drop (pkt0.raw.pos + 4 + 1)).take P.dcid.len = _
    rw [show pkt0.raw.pos + 4 + 1 = pkt0.raw.pos + 1 + 1 + 1 + 1 + 1 by omega, e4]
    exact List.take_left' hD
  · rw [g8]
  · rw [g8]
    show (buf.drop (pkt0.raw.pos + 4 + 1 + P.dcid.len + 1)).take P.scid.len = _
    rw [show pkt0.raw.pos + 4 + 1 + P.dcid.len + 1
      = pkt0.raw.pos + 1 + 1 + 1 + 1 + 1 + P.dcid.len + 1 by omega, e6]
    exact List.take_left' hS

theorem long_header_round_trip_witness :
    (ngx_quic_create_header [0xAA, 0xBB, 0xCC] example_handshake_header .buffer 0).out
        = example_handshake_bytes
      ∧ (ngx_quic_create_header [0xAA, 0xBB, 0xCC] example_handshake_header .buffer 0).rc = 13
      ∧ ngx_quic_parse_packet example_handshake_bytes (example_long_pkt 0xE0 13 13)
          = Exec.done (NGX_OK, example_handshake_parsed)
      ∧ ∃ pkt2 pn, ngx_quic_parse_packet example_handshake_bytes (example_long_pkt 0xE0 13 13)
            = Exec.done (NGX_OK, pkt2)
          ∧ (ngx_quic_create_header [0xAA, 0xBB, 0xCC] example_handshake_header .buffer 0).pnp
              = some pn
          ∧ pkt2.raw.pos = (example_long_pkt 0xE0 13 13).data + pn
          ∧ pkt2.len
              = (ngx_quic_create_header [0xAA, 0xBB, 0xCC] example_handshake_header .buffer 0).rc
                + 0
          ∧ pkt2.version = example_handshake_header.version
          ∧ pkt2.level = example_handshake_header.level
          ∧ pkt2.dcid.len = example_handshake_header.dcid.len
          ∧ mem_bytes example_handshake_bytes pkt2.dcid.data pkt2.dcid.len
              = mem_bytes [0xAA, 0xBB, 0xCC] example_handshake_header.dcid.data
                  example_handshake_header.dcid.len
          ∧ pkt2.scid.len = example_handshake_header.scid.len
          ∧ mem_bytes example_handshake_bytes pkt2.scid.data pkt2.scid.len
              = mem_bytes [0xAA, 0xBB, 0xCC] example_handshake_header.scid.data
                  example_handshake_header.scid.len
          ∧ (example_handshake_header.level = .ssl_encryption_initial → pkt2.token.len = 0) :=
  ⟨by decide, by decide, by decide,
    long_header_round_trip [0xAA, 0xBB, 0xCC] example_handshake_bytes example_handshake_header
      (example_long_pkt 0xE0 13 13) 0 13 [] (by decide) (by decide)
      (Or.inr (Or.inr ⟨rfl, by decide⟩)) (by decide) (by decide) (by decide) (by decide)
      (by decide) (by decide) (by decide) (by decide) (by decide) (by decide) (by decide)
      (by decide) (by decide) (by decide)⟩
